import Mathlib

/-!
ESBMC core: IR equality / ordering / CRC, and SSA renaming

A shallow embedding of `util/irep2.cpp` (types and expressions with their
structural equality `operator==`, their order `operator<` / `ltchecked`, the
CRC feed `do_crc` and `clone`), of `goto-symex/renaming.cpp` (level-1 and
level-2 renaming), of `util/context.cpp`, `util/cmdline.cpp`,
`util/pointer_offset_size.cpp` and of the interleaving loop of
`esbmc/bmc.cpp`, followed by theorems about them.

Conventions of the embedding.

* A C++ object is its base part plus the part added by its class: a `type2t` is
  `type2t.mk body`, an `expr2t` is `expr2t.mk type body`.  The tag (`type_id`,
  `expr_id`) is the one the class's constructor passes to the base constructor,
  so it is a function of the body (`type_body.type_id`, `expr_body.expr_id`).
* An expression handle `expr2tc` is `Option expr2t`; `none` is the nil handle.
  Type handles are never nil in the code embedded here.
* Dereferencing a nil handle, or `static_cast`ing an object to a class with
  other fields than its own, is undefined in C++; every operation that can do
  so returns an `Option`, and `none` stands for that undefined outcome.
* A three-way comparison returns an `Int` as in the source (negative, zero,
  positive).
-/

set_option linter.unusedVariables false

/-! ## Machine-level helpers -/

/-- `std::lexicographical_compare` over two sequences with a total, pure
element comparison `less` (used for `std::string` and for vectors of strings). -/
def lexicographical_compare {α : Type} (less : α → α → Bool) : List α → List α → Bool
  | [], [] => false
  | [], _ :: _ => true
  | _ :: _, [] => false
  | a :: as, b :: bs =>
    if less a b then true
    else if less b a then false
    else lexicographical_compare less as bs

/-- The `operator<` of `std::string`: lexicographic on the characters. -/
def string_lt (a b : String) : Bool :=
  lexicographical_compare (fun x y => decide (x.toNat < y.toNat)) a.data b.data

/-- The `operator<` of `std::vector<std::string>`. -/
def string_vec_lt (a b : List String) : Bool :=
  lexicographical_compare string_lt a b

/-- The source's idiom `if (a < b) return -1; if (b < a) return 1; return 0;`
for a pure comparison `less`. -/
def three_way {α : Type} (less : α → α → Bool) (a b : α) : Int :=
  if less a b then -1 else if less b a then 1 else 0

/-- Strict order of `unsigned int` values. -/
def nat_lt (a b : Nat) : Bool := decide (a < b)

/-- Strict order of `bool` values (`false < true`). -/
def bool_lt (a b : Bool) : Bool := !a && b

/-- The bytes of a `std::string` as fed to `process_bytes(s.c_str(), s.size())`. -/
def string_bytes (s : String) : List Nat := s.data.map (fun c => c.toNat % 256)

/-- The bytes fed by `crc.process_bytes(&n, sizeof(n))` for an `unsigned int`
(four bytes, least significant first). -/
def uint_bytes (n : Nat) : List Nat :=
  [n % 256, n / 256 % 256, n / 65536 % 256, n / 16777216 % 256]

/-- Big-endian magnitude bytes of a `BigInt`, as written by `BigInt::dump`. -/
def bigint_magnitude (z : Int) : List Nat := (Nat.digits 256 z.natAbs).reverse

/-- The function `crc_a_bigint` / `do_type_crc<BigInt>`: a zero feeds a single 0
byte, any other value its magnitude, and a value that does not fit the
256-byte buffer feeds nothing. -/
def do_type_crc_BigInt (z : Int) : List Nat :=
  if (bigint_magnitude z).length ≤ 256 then
    (if z = 0 then [0] else bigint_magnitude z)
  else []

/-- The function `do_type_crc<bool>`, also the inline code of
`constant_bool2t::do_crc`: `true` feeds 0 and `false` feeds 1. -/
def do_type_crc_bool (b : Bool) : List Nat := if b then [0] else [1]

/-- `BigInt::compare`. -/
def BigInt_compare (a b : Int) : Int := if a < b then -1 else if b < a then 1 else 0

/-- One bit step of the reflected CRC-32 (polynomial 0xEDB88320). -/
def crc32_bit (c : Nat) : Nat :=
  if c % 2 = 1 then (c / 2) ^^^ 0xEDB88320 else c / 2

/-- The function `boost::crc_32_type::process_byte` on the running remainder. -/
def crc32_byte (c b : Nat) : Nat :=
  crc32_bit (crc32_bit (crc32_bit (crc32_bit (crc32_bit (crc32_bit (crc32_bit
    (crc32_bit (c ^^^ (b % 256)))))))))

/-- The function `boost::crc_32_type::checksum` after feeding `bytes` to a fresh
computer (initial remainder and final xor 0xFFFFFFFF). -/
def crc32_checksum (bytes : List Nat) : Nat :=
  (bytes.foldl crc32_byte 0xFFFFFFFF) ^^^ 0xFFFFFFFF

/-! ## Tags -/

/-- The enumeration `type2t::type_ids`, in the order of `type2t::type_names`. -/
inductive type_ids where
  | bool_id | empty_id | symbol_id | struct_id | union_id | code_id | array_id
  | pointer_id | unsignedbv_id | signedbv_id | fixedbv_id | string_id
  deriving DecidableEq, Repr

/-- Enum ordinal of a type tag. -/
def type_ids.toNat : type_ids → Nat
  | .bool_id => 0 | .empty_id => 1 | .symbol_id => 2 | .struct_id => 3
  | .union_id => 4 | .code_id => 5 | .array_id => 6 | .pointer_id => 7
  | .unsignedbv_id => 8 | .signedbv_id => 9 | .fixedbv_id => 10 | .string_id => 11

/-- The enumeration `expr2t::expr_ids`, in the order of `expr2t::expr_names`. -/
inductive expr_ids where
  | constant_int_id | constant_fixedbv_id | constant_bool_id | constant_string_id
  | constant_struct_id | constant_union_id | constant_array_id
  | constant_array_of_id | symbol_id | typecast_id | if_id | equality_id
  | notequal_id | lessthan_id | greaterthan_id | lessthanequal_id
  | greaterthanequal_id | not_id | and_id | or_id | xor_id | bitand_id | bitor_id
  | bitxor_id | bitnand_id | bitnor_id | bitnxor_id | lshr_id | neg_id | abs_id
  | add_id | sub_id | mul_id | div_id | modulus_id | shl_id | ashr_id
  | dynamic_object_id | same_object_id | pointer_offset_id | pointer_object_id
  | address_of_id | byte_extract_id | byte_update_id | with_id | member_id
  | index_id | zero_string_id | zero_length_string_id | isnan_id | overflow_id
  | overflow_cast_id | overflow_neg_id
  deriving DecidableEq, Repr

/-- Enum ordinal of an expression tag. -/
def expr_ids.toNat : expr_ids → Nat
  | .constant_int_id => 0 | .constant_fixedbv_id => 1 | .constant_bool_id => 2
  | .constant_string_id => 3 | .constant_struct_id => 4 | .constant_union_id => 5
  | .constant_array_id => 6 | .constant_array_of_id => 7 | .symbol_id => 8
  | .typecast_id => 9 | .if_id => 10 | .equality_id => 11 | .notequal_id => 12
  | .lessthan_id => 13 | .greaterthan_id => 14 | .lessthanequal_id => 15
  | .greaterthanequal_id => 16 | .not_id => 17 | .and_id => 18 | .or_id => 19
  | .xor_id => 20 | .bitand_id => 21 | .bitor_id => 22 | .bitxor_id => 23
  | .bitnand_id => 24 | .bitnor_id => 25 | .bitnxor_id => 26 | .lshr_id => 27
  | .neg_id => 28 | .abs_id => 29 | .add_id => 30 | .sub_id => 31 | .mul_id => 32
  | .div_id => 33 | .modulus_id => 34 | .shl_id => 35 | .ashr_id => 36
  | .dynamic_object_id => 37 | .same_object_id => 38 | .pointer_offset_id => 39
  | .pointer_object_id => 40 | .address_of_id => 41 | .byte_extract_id => 42
  | .byte_update_id => 43 | .with_id => 44 | .member_id => 45 | .index_id => 46
  | .zero_string_id => 47 | .zero_length_string_id => 48 | .isnan_id => 49
  | .overflow_id => 50 | .overflow_cast_id => 51 | .overflow_neg_id => 52

/-- The two classes instantiating `constant_datatype2t`. -/
inductive datatype_class where
  | constant_struct2t | constant_union2t
  deriving DecidableEq, Repr

/-- The six classes instantiating `rel2t`. -/
inductive rel_class where
  | equality2t | notequal2t | lessthan2t | greaterthan2t | lessthanequal2t
  | greaterthanequal2t
  deriving DecidableEq, Repr

/-- The four classes instantiating `logical_2ops2t`. -/
inductive logical_class where
  | and2t | or2t | xor2t | implies2t
  deriving DecidableEq, Repr

/-- The seven classes instantiating `binops2t`. -/
inductive binops_class where
  | bitand2t | bitor2t | bitxor2t | bitnand2t | bitnor2t | bitnxor2t | lshr2t
  deriving DecidableEq, Repr

/-- The eight classes instantiating `arith_2op2t`. -/
inductive arith_class where
  | add2t | sub2t | mul2t | div2t | modulus2t | shl2t | ashr2t | same_object2t
  deriving DecidableEq, Repr

/-- Tag passed by each `constant_datatype2t` constructor. -/
def datatype_class.expr_id : datatype_class → expr_ids
  | .constant_struct2t => .constant_struct_id
  | .constant_union2t => .constant_union_id

/-- Tag passed by each `rel2t` constructor. -/
def rel_class.expr_id : rel_class → expr_ids
  | .equality2t => .equality_id
  | .notequal2t => .notequal_id
  | .lessthan2t => .lessthan_id
  | .greaterthan2t => .greaterthan_id
  | .lessthanequal2t => .lessthanequal_id
  | .greaterthanequal2t => .greaterthanequal_id

/-- Tag passed by each `logical_2ops2t` constructor; `implies2t::implies2t`
passes `or_id`. -/
def logical_class.expr_id : logical_class → expr_ids
  | .and2t => .and_id
  | .or2t => .or_id
  | .xor2t => .xor_id
  | .implies2t => .or_id

/-- Tag passed by each `binops2t` constructor. -/
def binops_class.expr_id : binops_class → expr_ids
  | .bitand2t => .bitand_id
  | .bitor2t => .bitor_id
  | .bitxor2t => .bitxor_id
  | .bitnand2t => .bitnand_id
  | .bitnor2t => .bitnor_id
  | .bitnxor2t => .bitnxor_id
  | .lshr2t => .lshr_id

/-- Tag passed by each `arith_2op2t` constructor. -/
def arith_class.expr_id : arith_class → expr_ids
  | .add2t => .add_id
  | .sub2t => .sub_id
  | .mul2t => .mul_id
  | .div2t => .div_id
  | .modulus2t => .modulus_id
  | .shl2t => .shl_id
  | .ashr2t => .ashr_id
  | .same_object2t => .same_object_id

/-! ## Types and expressions -/

mutual
/-- A type object (`type2t`): the base class holds only the tag, which is
determined by the class of the object. -/
inductive type2t where
  | mk (body : type_body)
/-- The classes deriving from `type2t` with the fields they add.  A
`std::vector<type2tc>` is a list; `array_size` is an expression handle (nil
for an infinite array). -/
inductive type_body where
  | bool_type2t
  | empty_type2t
  | symbol_type2t (symbol_name : String)
  | struct_type2t (members : List type2t) (member_names : List String) (name : String)
  | union_type2t (members : List type2t) (member_names : List String) (name : String)
  | code_type2t
  | array_type2t (subtype : type2t) (array_size : Option expr2t) (size_is_infinite : Bool)
  | pointer_type2t (subtype : type2t)
  | unsignedbv_type2t (width : Nat)
  | signedbv_type2t (width : Nat)
  | fixedbv_type2t (width : Nat) (integer_bits : Nat)
  | string_type2t (elements : Nat)
/-- An expression object (`expr2t`): the base class holds the tag (determined
by the class) and the type. -/
inductive expr2t where
  | mk (type : type2t) (body : expr_body)
/-- The classes deriving from `expr2t` that `irep2.cpp` implements, with the
fields they add.  The templates `constant_datatype2t`, `rel2t`,
`logical_2ops2t`, `binops2t` and `arith_2op2t` are one constructor each, with
the instantiating class as a field.  The `member` field of `member2t` is a
`constant_string2t` held by value, given here by its type and its value. -/
inductive expr_body where
  | constant_int2t (constant_value : Int)
  | constant_bool2t (constant_value : Bool)
  | constant_string2t (value : String)
  | constant_datatype2t (derived : datatype_class) (datatype_members : List (Option expr2t))
  | constant_array2t (datatype_members : List (Option expr2t))
  | constant_array_of2t (initializer : Option expr2t)
  | symbol2t (name : String)
  | typecast2t (from_ : Option expr2t)
  | if2t (cond : Option expr2t) (true_value : Option expr2t) (false_value : Option expr2t)
  | rel2t (derived : rel_class) (side_1 : Option expr2t) (side_2 : Option expr2t)
  | not2t (notvalue : Option expr2t)
  | logical_2ops2t (derived : logical_class) (side_1 : Option expr2t) (side_2 : Option expr2t)
  | binops2t (derived : binops_class) (side_1 : Option expr2t) (side_2 : Option expr2t)
  | neg2t (value : Option expr2t)
  | abs2t (value : Option expr2t)
  | arith_2op2t (derived : arith_class) (part_1 : Option expr2t) (part_2 : Option expr2t)
  | pointer_offset2t (pointer_obj : Option expr2t)
  | pointer_object2t (pointer_obj : Option expr2t)
  | address_of2t (pointer_obj : Option expr2t)
  | byte_extract2t (big_endian : Bool) (source_value : Option expr2t)
      (source_offset : Option expr2t)
  | byte_update2t (big_endian : Bool) (source_value : Option expr2t)
      (source_offset : Option expr2t) (update_value : Option expr2t)
  | with2t (source_data : Option expr2t) (update_field : Option expr2t)
      (update_data : Option expr2t)
  | member2t (source_data : Option expr2t) (member_type : type2t) (member_value : String)
  | index2t (source_data : Option expr2t) (index : Option expr2t)
  | zero_string2t (string : Option expr2t)
  | zero_length_string2t (string : Option expr2t)
  | isnan2t (value : Option expr2t)
  | overflow2t (operand : Option expr2t)
  | overflow_cast2t (operand : Option expr2t) (bits : Nat)
  | overflow_neg2t (operand : Option expr2t)
end

/-- An expression handle (`expr2tc`); `none` is the nil handle. -/
abbrev expr2tc := Option expr2t

/-- The tag each type class passes to `type2t::type2t`. -/
def type_body.type_id : type_body → type_ids
  | .bool_type2t => .bool_id
  | .empty_type2t => .empty_id
  | .symbol_type2t _ => .symbol_id
  | .struct_type2t _ _ _ => .struct_id
  | .union_type2t _ _ _ => .union_id
  | .code_type2t => .code_id
  | .array_type2t _ _ _ => .array_id
  | .pointer_type2t _ => .pointer_id
  | .unsignedbv_type2t _ => .unsignedbv_id
  | .signedbv_type2t _ => .signedbv_id
  | .fixedbv_type2t _ _ => .fixedbv_id
  | .string_type2t _ => .string_id

/-- The field `type2t::type_id`. -/
def type2t.type_id : type2t → type_ids
  | .mk b => b.type_id

/-- The tag each expression class passes to `expr2t::expr2t`.  Two constructors
pass the tag of another class: `constant_array_of2t` passes `constant_array_id`
and `implies2t` passes `or_id`. -/
def expr_body.expr_id : expr_body → expr_ids
  | .constant_int2t _ => .constant_int_id
  | .constant_bool2t _ => .constant_bool_id
  | .constant_string2t _ => .constant_string_id
  | .constant_datatype2t d _ => d.expr_id
  | .constant_array2t _ => .constant_array_id
  | .constant_array_of2t _ => .constant_array_id
  | .symbol2t _ => .symbol_id
  | .typecast2t _ => .typecast_id
  | .if2t _ _ _ => .if_id
  | .rel2t d _ _ => d.expr_id
  | .not2t _ => .not_id
  | .logical_2ops2t d _ _ => d.expr_id
  | .binops2t d _ _ => d.expr_id
  | .neg2t _ => .neg_id
  | .abs2t _ => .abs_id
  | .arith_2op2t d _ _ => d.expr_id
  | .pointer_offset2t _ => .pointer_offset_id
  | .pointer_object2t _ => .pointer_object_id
  | .address_of2t _ => .address_of_id
  | .byte_extract2t _ _ _ => .byte_extract_id
  | .byte_update2t _ _ _ _ => .byte_update_id
  | .with2t _ _ _ => .with_id
  | .member2t _ _ _ => .member_id
  | .index2t _ _ => .index_id
  | .zero_string2t _ => .zero_string_id
  | .zero_length_string2t _ => .zero_length_string_id
  | .isnan2t _ => .isnan_id
  | .overflow2t _ => .overflow_id
  | .overflow_cast2t _ _ => .overflow_cast_id
  | .overflow_neg2t _ => .overflow_neg_id

/-- The field `expr2t::expr_id`. -/
def expr2t.expr_id : expr2t → expr_ids
  | .mk _ b => b.expr_id

/-- The field `expr2t::type`. -/
def expr2t.type : expr2t → type2t
  | .mk t _ => t

/-! ## Structural equality -/

/-- The source's idiom `if (!c) return false;` followed by `k`. -/
def cmp_then (c k : Option Bool) : Option Bool :=
  match c with
  | none => none
  | some false => some false
  | some true => k

/-- The `operator==` of `std::vector`: equal sizes, then `std::equal`. -/
def vector_eq (size1 size2 : Nat) (equal : Option Bool) : Option Bool :=
  if size1 ≠ size2 then some false else equal

mutual
/-- `type2t::operator==`, that is `cmp(ref)`: the tag test of `type2t::cmp`,
then the `cmp` of the class. -/
def type2t.operator_eq : type2t → type2t → Option Bool
  | .mk b1, .mk b2 =>
    if b1.type_id ≠ b2.type_id then some false else type_body.cmp b1 b2
termination_by structural x => x
/-- The `cmp` member of each type class (`bool_type2t::cmp`, `bv_type2t::cmp`,
`struct_union_type2t::cmp`, `array_type2t::cmp`, ...); its argument has been
cast to the class of `this`. -/
def type_body.cmp : type_body → type_body → Option Bool
  | .bool_type2t, ref =>
    match ref with
    | .bool_type2t => some true
    | _ => none
  | .empty_type2t, ref =>
    match ref with
    | .empty_type2t => some true
    | _ => none
  | .code_type2t, ref =>
    match ref with
    | .code_type2t => some true
    | _ => none
  | .symbol_type2t n1, ref =>
    match ref with
    | .symbol_type2t n2 => some (decide (n1 = n2))
    | _ => none
  | .struct_type2t ms1 ns1 n1, ref =>
    match ref with
    | .struct_type2t ms2 ns2 n2 =>
      cmp_then (some (decide (n1 = n2)))
        (cmp_then (some (decide (ms1.length = ms2.length)))
          (cmp_then (vector_eq ms1.length ms2.length (type_vec_equal ms1 ms2))
            (cmp_then (some (decide (ns1 = ns2))) (some true))))
    | _ => none
  | .union_type2t ms1 ns1 n1, ref =>
    match ref with
    | .union_type2t ms2 ns2 n2 =>
      cmp_then (some (decide (n1 = n2)))
        (cmp_then (some (decide (ms1.length = ms2.length)))
          (cmp_then (vector_eq ms1.length ms2.length (type_vec_equal ms1 ms2))
            (cmp_then (some (decide (ns1 = ns2))) (some true))))
    | _ => none
  | .array_type2t s1 z1 i1, ref =>
    match ref with
    | .array_type2t s2 z2 i2 =>
      cmp_then (type2t.operator_eq s1 s2)
        (if i1 && i2 then some true
         else if i1 || i2 then some false
         else expr2tc_eq z1 z2)
    | _ => none
  | .pointer_type2t s1, ref =>
    match ref with
    | .pointer_type2t s2 => type2t.operator_eq s1 s2
    | _ => none
  | .unsignedbv_type2t w1, ref =>
    match ref with
    | .unsignedbv_type2t w2 => some (decide (w1 = w2))
    | _ => none
  | .signedbv_type2t w1, ref =>
    match ref with
    | .signedbv_type2t w2 => some (decide (w1 = w2))
    | _ => none
  | .fixedbv_type2t w1 ib1, ref =>
    match ref with
    | .fixedbv_type2t w2 ib2 =>
      cmp_then (some (decide (w1 = w2))) (cmp_then (some (decide (ib1 = ib2))) (some true))
    | _ => none
  | .string_type2t e1, ref =>
    match ref with
    | .string_type2t e2 => some (decide (e1 = e2))
    | _ => none
termination_by structural x => x
/-- `std::equal` over two `std::vector<type2tc>` with `operator==` on the
handles; stops at the first mismatch. -/
def type_vec_equal : List type2t → List type2t → Option Bool
  | [], _ => some true
  | _ :: _, [] => none
  | a :: as, b :: bs => cmp_then (type2t.operator_eq a b) (type_vec_equal as bs)
termination_by structural x => x
/-- `expr2t::operator==`: the base test `expr2t::cmp` (tag, then type), then
the virtual `cmp` of the class of `this`. -/
def expr2t.operator_eq : expr2t → expr2t → Option Bool
  | .mk t1 b1, .mk t2 b2 =>
    cmp_then
      (if b1.expr_id ≠ b2.expr_id then some false
       else cmp_then (type2t.operator_eq t1 t2) (some true))
      (expr_body.cmp b1 b2)
termination_by structural x => x
/-- The virtual `cmp` of each expression class; `ref` is `static_cast` to the
class of `this`, which is undefined when it is an object of a class with other
fields.  The classes that one template makes (`logical_2ops2t<or2t>` and
`logical_2ops2t<implies2t>`, the `rel2t`, `binops2t` and `arith_2op2t` classes)
have the same fields and one `cmp`, which reads them from an object of either. -/
def expr_body.cmp : expr_body → expr_body → Option Bool
  | .constant_int2t v1, ref =>
    match ref with
    | .constant_int2t v2 => some (decide (v1 = v2))
    | _ => none
  | .constant_bool2t v1, ref =>
    match ref with
    | .constant_bool2t v2 => some (decide (v1 = v2))
    | _ => none
  | .constant_string2t v1, ref =>
    match ref with
    | .constant_string2t v2 => some (decide (v1 = v2))
    | _ => none
  | .constant_datatype2t _ m1, ref =>
    match ref with
    | .constant_datatype2t _ m2 => vector_eq m1.length m2.length (expr_vec_equal m1 m2)
    | _ => none
  | .constant_array2t m1, ref =>
    match ref with
    | .constant_array2t m2 => vector_eq m1.length m2.length (expr_vec_equal m1 m2)
    | _ => none
  | .constant_array_of2t i1, ref =>
    match ref with
    | .constant_array_of2t i2 => expr2tc_eq i1 i2
    | _ => none
  | .symbol2t n1, ref =>
    match ref with
    | .symbol2t n2 => some (decide (n1 = n2))
    | _ => none
  | .typecast2t f1, ref =>
    match ref with
    | .typecast2t f2 => expr2tc_eq f1 f2
    | _ => none
  | .if2t c1 t1 f1, ref =>
    match ref with
    | .if2t c2 t2 f2 =>
      cmp_then (expr2tc_eq c1 c2)
        (cmp_then (expr2tc_eq t1 t2) (cmp_then (expr2tc_eq f1 f2) (some true)))
    | _ => none
  | .rel2t _ a1 b1, ref =>
    match ref with
    | .rel2t _ a2 b2 =>
      cmp_then (expr2tc_eq a1 a2) (cmp_then (expr2tc_eq b1 b2) (some true))
    | _ => none
  | .not2t x1, ref =>
    match ref with
    | .not2t x2 => expr2tc_eq x1 x2
    | _ => none
  | .logical_2ops2t _ a1 b1, ref =>
    match ref with
    | .logical_2ops2t _ a2 b2 =>
      cmp_then (expr2tc_eq a1 a2) (cmp_then (expr2tc_eq b1 b2) (some true))
    | _ => none
  | .binops2t _ a1 b1, ref =>
    match ref with
    | .binops2t _ a2 b2 =>
      cmp_then (expr2tc_eq a1 a2) (cmp_then (expr2tc_eq b1 b2) (some true))
    | _ => none
  | .neg2t x1, ref =>
    match ref with
    | .neg2t x2 => expr2tc_eq x1 x2
    | _ => none
  | .abs2t x1, ref =>
    match ref with
    | .abs2t x2 => expr2tc_eq x1 x2
    | _ => none
  | .arith_2op2t _ a1 b1, ref =>
    match ref with
    | .arith_2op2t _ a2 b2 =>
      cmp_then (expr2tc_eq a1 a2) (cmp_then (expr2tc_eq b1 b2) (some true))
    | _ => none
  | .pointer_offset2t x1, ref =>
    match ref with
    | .pointer_offset2t x2 => expr2tc_eq x1 x2
    | _ => none
  | .pointer_object2t x1, ref =>
    match ref with
    | .pointer_object2t x2 => expr2tc_eq x1 x2
    | _ => none
  | .address_of2t x1, ref =>
    match ref with
    | .address_of2t x2 => expr2tc_eq x1 x2
    | _ => none
  | .byte_extract2t e1 v1 o1, ref =>
    match ref with
    | .byte_extract2t e2 v2 o2 =>
      cmp_then (some (decide (e1 = e2)))
        (cmp_then (expr2tc_eq v1 v2) (cmp_then (expr2tc_eq o1 o2) (some true)))
    | _ => none
  | .byte_update2t e1 v1 o1 u1, ref =>
    match ref with
    | .byte_update2t e2 v2 o2 u2 =>
      cmp_then (some (decide (e1 = e2)))
        (cmp_then (expr2tc_eq v1 v2)
          (cmp_then (expr2tc_eq o1 o2) (cmp_then (expr2tc_eq u1 u2) (some true))))
    | _ => none
  | .with2t s1 f1 d1, ref =>
    match ref with
    | .with2t s2 f2 d2 =>
      cmp_then (expr2tc_eq s1 s2)
        (cmp_then (expr2tc_eq f1 f2) (cmp_then (expr2tc_eq d1 d2) (some true)))
    | _ => none
  | .member2t s1 mt1 mv1, ref =>
    match ref with
    | .member2t s2 mt2 mv2 =>
      cmp_then (expr2tc_eq s1 s2)
        (cmp_then
          (cmp_then (cmp_then (type2t.operator_eq mt1 mt2) (some true)) (some (decide (mv1 = mv2))))
          (some true))
    | _ => none
  | .index2t s1 i1, ref =>
    match ref with
    | .index2t s2 i2 =>
      cmp_then (expr2tc_eq s1 s2) (cmp_then (expr2tc_eq i1 i2) (some true))
    | _ => none
  | .zero_string2t x1, ref =>
    match ref with
    | .zero_string2t x2 => expr2tc_eq x1 x2
    | _ => none
  | .zero_length_string2t x1, ref =>
    match ref with
    | .zero_length_string2t x2 => expr2tc_eq x1 x2
    | _ => none
  | .isnan2t x1, ref =>
    match ref with
    | .isnan2t x2 => expr2tc_eq x1 x2
    | _ => none
  | .overflow2t x1, ref =>
    match ref with
    | .overflow2t x2 => expr2tc_eq x1 x2
    | _ => none
  | .overflow_cast2t x1 n1, ref =>
    match ref with
    | .overflow_cast2t x2 n2 => cmp_then (some (decide (n1 = n2))) (expr2tc_eq x1 x2)
    | _ => none
  | .overflow_neg2t x1, ref =>
    match ref with
    | .overflow_neg2t x2 => expr2tc_eq x1 x2
    | _ => none
termination_by structural x => x
/-- The `operator==` of two expression handles: `*a == *b`. -/
def expr2tc_eq : Option expr2t → Option expr2t → Option Bool
  | some a, some b => expr2t.operator_eq a b
  | _, _ => none
termination_by structural x => x
/-- `std::equal` over two `std::vector<expr2tc>` with `operator==` on the
handles; stops at the first mismatch. -/
def expr_vec_equal : List (Option expr2t) → List (Option expr2t) → Option Bool
  | [], _ => some true
  | _ :: _, [] => none
  | a :: as, b :: bs => cmp_then (expr2tc_eq a b) (expr_vec_equal as bs)
termination_by structural x => x
end

/-! ## Order -/

/-- The source's idiom `tmp = ...; if (tmp != 0) return tmp;` followed by `k`. -/
def lt_then (tmp k : Option Int) : Option Int :=
  match tmp with
  | none => none
  | some t => if t ≠ 0 then some t else k

/-- The source's idiom `if (a < b) return -1; else if (b < a) return 1; else
return 0;` where the two tests dereference handles. -/
def lt_of_less (ab ba : Option Bool) : Option Int :=
  match ab with
  | none => none
  | some true => some (-1)
  | some false =>
    match ba with
    | none => none
    | some true => some 1
    | some false => some 0

/-- The tail of `operator<`: `if (tmp < 0) return true; else if (tmp > 0)
return false; else return (lt(ref) < 0);`. -/
def less_of_lt (tmp k : Option Int) : Option Bool :=
  match tmp with
  | none => none
  | some t =>
    if t < 0 then some true
    else if t > 0 then some false
    else k.map (fun r => decide (r < 0))

set_option maxHeartbeats 4000000 in
mutual
/-- `type2t::ltchecked`: the tag comparison `type2t::lt`, then the virtual `lt`. -/
def type2t.ltchecked : type2t → type2t → Option Int
  | .mk b1, .mk b2 =>
    lt_then (some (three_way nat_lt b1.type_id.toNat b2.type_id.toNat))
      (type_body.lt b1 b2)
termination_by a b => sizeOf a + sizeOf b
/-- `type2t::operator<`. -/
def type2t.operator_lt : type2t → type2t → Option Bool
  | .mk b1, .mk b2 =>
    less_of_lt (some (three_way nat_lt b1.type_id.toNat b2.type_id.toNat))
      (type_body.lt b1 b2)
termination_by a b => sizeOf a + sizeOf b
/-- The virtual `lt` of each type class; `ref` is `static_cast` to the class of
`this`. -/
def type_body.lt : type_body → type_body → Option Int
  | .bool_type2t, ref =>
    match ref with
    | .bool_type2t => some 0
    | _ => none
  | .empty_type2t, ref =>
    match ref with
    | .empty_type2t => some 0
    | _ => none
  | .code_type2t, ref =>
    match ref with
    | .code_type2t => some 0
    | _ => none
  | .symbol_type2t n1, ref =>
    match ref with
    | .symbol_type2t n2 => some (three_way string_lt n1 n2)
    | _ => none
  | .struct_type2t ms1 ns1 n1, ref =>
    match ref with
    | .struct_type2t ms2 ns2 n2 =>
      lt_then (some (three_way string_lt n1 n2))
        (lt_then (some (three_way nat_lt ms1.length ms2.length))
          (lt_then (lt_of_less (type_vec_less ms1 ms2) (type_vec_less ms2 ms1))
            (some (three_way string_vec_lt ns1 ns2))))
    | _ => none
  | .union_type2t ms1 ns1 n1, ref =>
    match ref with
    | .union_type2t ms2 ns2 n2 =>
      lt_then (some (three_way string_lt n1 n2))
        (lt_then (some (three_way nat_lt ms1.length ms2.length))
          (lt_then (lt_of_less (type_vec_less ms1 ms2) (type_vec_less ms2 ms1))
            (some (three_way string_vec_lt ns1 ns2))))
    | _ => none
  | .array_type2t s1 z1 i1, ref =>
    match ref with
    | .array_type2t s2 z2 i2 =>
      lt_then (type2t.ltchecked s1 s2)
        (lt_then (some (three_way bool_lt i1 i2))
          (if i1 then some 0 else expr2tc_ltchecked z1 z2))
    | _ => none
  | .pointer_type2t s1, ref =>
    match ref with
    | .pointer_type2t s2 => type2t.ltchecked s1 s2
    | _ => none
  | .unsignedbv_type2t w1, ref =>
    match ref with
    | .unsignedbv_type2t w2 => some (three_way nat_lt w1 w2)
    | _ => none
  | .signedbv_type2t w1, ref =>
    match ref with
    | .signedbv_type2t w2 => some (three_way nat_lt w1 w2)
    | _ => none
  | .fixedbv_type2t w1 ib1, ref =>
    match ref with
    | .fixedbv_type2t w2 ib2 =>
      lt_then (some (three_way nat_lt w1 w2)) (some (three_way nat_lt ib1 ib2))
    | _ => none
  | .string_type2t e1, ref =>
    match ref with
    | .string_type2t e2 => some (three_way nat_lt e1 e2)
    | _ => none
termination_by a b => sizeOf a + sizeOf b
/-- The `operator<` of `std::vector<type2tc>`: `std::lexicographical_compare`
with `operator<` on the handles. -/
def type_vec_less : List type2t → List type2t → Option Bool
  | [], [] => some false
  | [], _ :: _ => some true
  | _ :: _, [] => some false
  | a :: as, b :: bs =>
    match type2t.operator_lt a b with
    | none => none
    | some true => some true
    | some false =>
      match type2t.operator_lt b a with
      | none => none
      | some true => some false
      | some false => type_vec_less as bs
termination_by a b => sizeOf a + sizeOf b
/-- `expr2t::ltchecked`: the base comparison `expr2t::lt` (tag, then
`type->ltchecked`), then the virtual `lt`. -/
def expr2t.ltchecked : expr2t → expr2t → Option Int
  | .mk t1 b1, .mk t2 b2 =>
    lt_then
      (lt_then (some (three_way nat_lt b1.expr_id.toNat b2.expr_id.toNat))
        (type2t.ltchecked t1 t2))
      (expr_body.lt b1 b2)
termination_by a b => sizeOf a + sizeOf b
/-- `expr2t::operator<`. -/
def expr2t.operator_lt : expr2t → expr2t → Option Bool
  | .mk t1 b1, .mk t2 b2 =>
    less_of_lt
      (lt_then (some (three_way nat_lt b1.expr_id.toNat b2.expr_id.toNat))
        (type2t.ltchecked t1 t2))
      (expr_body.lt b1 b2)
termination_by a b => sizeOf a + sizeOf b
/-- The virtual `lt` of each expression class; `ref` is `static_cast` to the
class of `this`, which is undefined when it is an object of a class with other
fields (the classes that one template makes have the same fields and one `lt`). -/
def expr_body.lt : expr_body → expr_body → Option Int
  | .constant_int2t v1, ref =>
    match ref with
    | .constant_int2t v2 => some (BigInt_compare v1 v2)
    | _ => none
  | .constant_bool2t v1, ref =>
    match ref with
    | .constant_bool2t v2 => some (three_way bool_lt v1 v2)
    | _ => none
  | .constant_string2t v1, ref =>
    match ref with
    | .constant_string2t v2 => some (three_way string_lt v1 v2)
    | _ => none
  | .constant_datatype2t _ m1, ref =>
    match ref with
    | .constant_datatype2t _ m2 => lt_of_less (expr_vec_less m1 m2) (expr_vec_less m2 m1)
    | _ => none
  | .constant_array2t m1, ref =>
    match ref with
    | .constant_array2t m2 => lt_of_less (expr_vec_less m1 m2) (expr_vec_less m2 m1)
    | _ => none
  | .constant_array_of2t i1, ref =>
    match ref with
    | .constant_array_of2t i2 => expr2tc_ltchecked i1 i2
    | _ => none
  | .symbol2t n1, ref =>
    match ref with
    | .symbol2t n2 => some (three_way string_lt n1 n2)
    | _ => none
  | .typecast2t f1, ref =>
    match ref with
    | .typecast2t f2 => lt_of_less (expr2tc_less f1 f2) (expr2tc_less f2 f1)
    | _ => none
  | .if2t c1 t1 f1, ref =>
    match ref with
    | .if2t c2 t2 f2 =>
      lt_then (expr2tc_ltchecked c1 c2)
        (lt_then (expr2tc_ltchecked t1 t2) (expr2tc_ltchecked f1 f2))
    | _ => none
  | .rel2t _ a1 b1, ref =>
    match ref with
    | .rel2t _ a2 b2 => lt_then (expr2tc_ltchecked a1 a2) (expr2tc_ltchecked b1 b2)
    | _ => none
  | .not2t x1, ref =>
    match ref with
    | .not2t x2 => expr2tc_ltchecked x1 x2
    | _ => none
  | .logical_2ops2t _ a1 b1, ref =>
    match ref with
    | .logical_2ops2t _ a2 b2 => lt_then (expr2tc_ltchecked a1 a2) (expr2tc_ltchecked b1 b2)
    | _ => none
  | .binops2t _ a1 b1, ref =>
    match ref with
    | .binops2t _ a2 b2 => lt_then (expr2tc_ltchecked a1 a2) (expr2tc_ltchecked b1 b2)
    | _ => none
  | .neg2t x1, ref =>
    match ref with
    | .neg2t x2 => expr2tc_ltchecked x1 x2
    | _ => none
  | .abs2t x1, ref =>
    match ref with
    | .abs2t x2 => expr2tc_ltchecked x1 x2
    | _ => none
  | .arith_2op2t _ a1 b1, ref =>
    match ref with
    | .arith_2op2t _ a2 b2 => lt_then (expr2tc_ltchecked a1 a2) (expr2tc_ltchecked b1 b2)
    | _ => none
  | .pointer_offset2t x1, ref =>
    match ref with
    | .pointer_offset2t x2 => expr2tc_ltchecked x1 x2
    | _ => none
  | .pointer_object2t x1, ref =>
    match ref with
    | .pointer_object2t x2 => expr2tc_ltchecked x1 x2
    | _ => none
  | .address_of2t x1, ref =>
    match ref with
    | .address_of2t x2 => expr2tc_ltchecked x1 x2
    | _ => none
  | .byte_extract2t e1 v1 o1, ref =>
    match ref with
    | .byte_extract2t e2 v2 o2 =>
      lt_then (some (three_way bool_lt e1 e2))
        (lt_then (expr2tc_ltchecked v1 v2) (expr2tc_ltchecked o1 o2))
    | _ => none
  | .byte_update2t e1 v1 o1 u1, ref =>
    match ref with
    | .byte_update2t e2 v2 o2 u2 =>
      lt_then (some (three_way bool_lt e1 e2))
        (lt_then (expr2tc_ltchecked v1 v2)
          (lt_then (expr2tc_ltchecked o1 o2) (expr2tc_ltchecked u1 u2)))
    | _ => none
  | .with2t s1 f1 d1, ref =>
    match ref with
    | .with2t s2 f2 d2 =>
      lt_then (expr2tc_ltchecked s1 s2)
        (lt_then (expr2tc_ltchecked f1 f2) (expr2tc_ltchecked d1 d2))
    | _ => none
  | .member2t s1 mt1 mv1, ref =>
    match ref with
    | .member2t s2 mt2 mv2 =>
      lt_then (expr2tc_ltchecked s1 s2)
        (lt_then (type2t.ltchecked mt1 mt2) (some (three_way string_lt mv1 mv2)))
    | _ => none
  | .index2t s1 i1, ref =>
    match ref with
    | .index2t s2 i2 => lt_then (expr2tc_ltchecked s1 s2) (expr2tc_ltchecked i1 i2)
    | _ => none
  | .zero_string2t x1, ref =>
    match ref with
    | .zero_string2t x2 => expr2tc_ltchecked x1 x2
    | _ => none
  | .zero_length_string2t x1, ref =>
    match ref with
    | .zero_length_string2t x2 => expr2tc_ltchecked x1 x2
    | _ => none
  | .isnan2t x1, ref =>
    match ref with
    | .isnan2t x2 => expr2tc_ltchecked x1 x2
    | _ => none
  | .overflow2t x1, ref =>
    match ref with
    | .overflow2t x2 => expr2tc_ltchecked x1 x2
    | _ => none
  | .overflow_cast2t x1 n1, ref =>
    match ref with
    | .overflow_cast2t x2 n2 =>
      lt_then (some (three_way nat_lt n1 n2)) (expr2tc_ltchecked x1 x2)
    | _ => none
  | .overflow_neg2t x1, ref =>
    match ref with
    | .overflow_neg2t x2 => expr2tc_ltchecked x1 x2
    | _ => none
termination_by a b => sizeOf a + sizeOf b
/-- The call `a->ltchecked(*b.get())` on two expression handles. -/
def expr2tc_ltchecked : Option expr2t → Option expr2t → Option Int
  | some a, some b => expr2t.ltchecked a b
  | _, _ => none
termination_by a b => sizeOf a + sizeOf b
/-- The `operator<` of two expression handles: `*a < *b`. -/
def expr2tc_less : Option expr2t → Option expr2t → Option Bool
  | some a, some b => expr2t.operator_lt a b
  | _, _ => none
termination_by a b => sizeOf a + sizeOf b
/-- The `operator<` of `std::vector<expr2tc>`: `std::lexicographical_compare`
with `operator<` on the handles. -/
def expr_vec_less : List (Option expr2t) → List (Option expr2t) → Option Bool
  | [], [] => some false
  | [], _ :: _ => some true
  | _ :: _, [] => some false
  | a :: as, b :: bs =>
    match expr2tc_less a b with
    | none => none
    | some true => some true
    | some false =>
      match expr2tc_less b a with
      | none => none
      | some true => some false
      | some false => expr_vec_less as bs
termination_by a b => sizeOf a + sizeOf b
end


/-! ## CRC -/

/-- Bytes fed by one step of a `do_crc` followed by those of the next; a nil
dereference in either makes the whole feed undefined. -/
def feed (a b : Option (List Nat)) : Option (List Nat) :=
  match a, b with
  | some x, some y => some (x ++ y)
  | _, _ => none

mutual
/-- The virtual `do_crc` of a type: the bytes it feeds to the CRC computer. -/
def type2t.do_crc : type2t → Option (List Nat)
  | .mk b => type_body.do_crc b
termination_by structural x => x
/-- The `do_crc` of each type class: `type2t::do_crc` (the tag byte), then the
fields.  `bool_type2t`, `empty_type2t` and `code_type2t` do not override
`type2t::do_crc`. -/
def type_body.do_crc : type_body → Option (List Nat)
  | .bool_type2t => some [type_ids.bool_id.toNat]
  | .empty_type2t => some [type_ids.empty_id.toNat]
  | .code_type2t => some [type_ids.code_id.toNat]
  | .symbol_type2t n => feed (some [type_ids.symbol_id.toNat]) (some (string_bytes n))
  | .struct_type2t ms ns n =>
    feed (some [type_ids.struct_id.toNat])
      (feed (some (string_bytes n))
        (feed (type_vec_do_crc ms) (some (ns.flatMap string_bytes))))
  | .union_type2t ms ns n =>
    feed (some [type_ids.union_id.toNat])
      (feed (some (string_bytes n))
        (feed (type_vec_do_crc ms) (some (ns.flatMap string_bytes))))
  | .array_type2t s z i =>
    feed (some [type_ids.array_id.toNat])
      (feed (type2t.do_crc s)
        (if i then some [1] else feed (some [0]) (expr2tc_do_crc z)))
  | .pointer_type2t s => feed (some [type_ids.pointer_id.toNat]) (type2t.do_crc s)
  | .unsignedbv_type2t w => feed (some [type_ids.unsignedbv_id.toNat]) (some (uint_bytes w))
  | .signedbv_type2t w => feed (some [type_ids.signedbv_id.toNat]) (some (uint_bytes w))
  | .fixedbv_type2t w ib =>
    feed (some [type_ids.fixedbv_id.toNat])
      (feed (some (uint_bytes w)) (some (uint_bytes ib)))
  | .string_type2t e => feed (some [type_ids.string_id.toNat]) (some (uint_bytes e))
termination_by structural x => x
/-- The loop `forall_types(it, members) (*it)->do_crc(crc);`. -/
def type_vec_do_crc : List type2t → Option (List Nat)
  | [] => some []
  | a :: as => feed (type2t.do_crc a) (type_vec_do_crc as)
termination_by structural x => x
/-- The virtual `do_crc` of an expression.  Every class starts with
`expr2t::do_crc` (the tag byte, then `type->do_crc`) and goes on with its
fields. -/
def expr2t.do_crc : expr2t → Option (List Nat)
  | .mk t b =>
    feed (feed (some [b.expr_id.toNat]) (type2t.do_crc t)) (expr_body.do_crc b)
termination_by structural x => x
/-- What the `do_crc` of each expression class feeds after `expr2t::do_crc`. -/
def expr_body.do_crc : expr_body → Option (List Nat)
  | .constant_int2t v => some (do_type_crc_BigInt v)
  | .constant_bool2t v => some (do_type_crc_bool v)
  | .constant_string2t v => some (string_bytes v)
  | .constant_datatype2t _ m => expr_vec_do_crc m
  | .constant_array2t m => expr_vec_do_crc m
  | .constant_array_of2t i => expr2tc_do_crc i
  | .symbol2t n => some (string_bytes n)
  | .typecast2t f => expr2tc_do_crc f
  | .if2t c t f => feed (expr2tc_do_crc c) (feed (expr2tc_do_crc t) (expr2tc_do_crc f))
  | .rel2t _ a b => feed (expr2tc_do_crc a) (expr2tc_do_crc b)
  | .not2t x => expr2tc_do_crc x
  | .logical_2ops2t _ a b => feed (expr2tc_do_crc a) (expr2tc_do_crc b)
  | .binops2t _ a b => feed (expr2tc_do_crc a) (expr2tc_do_crc b)
  | .neg2t x => expr2tc_do_crc x
  | .abs2t x => expr2tc_do_crc x
  | .arith_2op2t _ a b => feed (expr2tc_do_crc a) (expr2tc_do_crc b)
  | .pointer_offset2t x => expr2tc_do_crc x
  | .pointer_object2t x => expr2tc_do_crc x
  | .address_of2t x => expr2tc_do_crc x
  | .byte_extract2t e v o =>
    feed (some [if e then 1 else 0]) (feed (expr2tc_do_crc v) (expr2tc_do_crc o))
  | .byte_update2t e v o u =>
    feed (some [if e then 1 else 0])
      (feed (expr2tc_do_crc v) (feed (expr2tc_do_crc o) (expr2tc_do_crc u)))
  | .with2t s f d => feed (expr2tc_do_crc s) (feed (expr2tc_do_crc f) (expr2tc_do_crc d))
  | .member2t s mt mv =>
    feed (expr2tc_do_crc s)
      (feed (feed (some [expr_ids.constant_string_id.toNat]) (type2t.do_crc mt))
        (some (string_bytes mv)))
  | .index2t s i => feed (expr2tc_do_crc s) (expr2tc_do_crc i)
  | .zero_string2t x => expr2tc_do_crc x
  | .zero_length_string2t x => expr2tc_do_crc x
  | .isnan2t x => expr2tc_do_crc x
  | .overflow2t x => expr2tc_do_crc x
  | .overflow_cast2t x n => feed (expr2tc_do_crc x) (some (uint_bytes n))
  | .overflow_neg2t x => expr2tc_do_crc x
termination_by structural x => x
/-- The call `h->do_crc(crc)` on an expression handle. -/
def expr2tc_do_crc : Option expr2t → Option (List Nat)
  | some a => expr2t.do_crc a
  | none => none
termination_by structural x => x
/-- The loop `forall_exprs(it, datatype_members) (*it)->do_crc(crc);`. -/
def expr_vec_do_crc : List (Option expr2t) → Option (List Nat)
  | [] => some []
  | a :: as => feed (expr2tc_do_crc a) (expr_vec_do_crc as)
termination_by structural x => x
end

/-- `type2t::crc`: the checksum of a fresh CRC computer after `do_crc`. -/
def type2t.crc (t : type2t) : Option Nat := (type2t.do_crc t).map crc32_checksum

/-- `expr2t::crc`: the checksum of a fresh CRC computer after `do_crc`. -/
def expr2t.crc (e : expr2t) : Option Nat := (expr2t.do_crc e).map crc32_checksum

/-! ## Clone -/

/-- The copy constructor of each expression class, as far as the fields the
class adds are concerned.  `not2t::not2t(const not2t &)`,
`neg2t::neg2t(const neg2t &)` and `abs2t::abs2t(const abs2t &)` initialise only
their base, so the operand handle of the copy is default-constructed (nil).
The classes built on `constant_datatype2t`, `rel2t`, `logical_2ops2t`,
`binops2t`, `arith_2op2t` and `constant_int2t` pass the copy to their template
base, which holds the fields. -/
def expr_body.copy : expr_body → expr_body
  | .constant_int2t v => .constant_int2t v
  | .constant_bool2t v => .constant_bool2t v
  | .constant_string2t v => .constant_string2t v
  | .constant_datatype2t d m => .constant_datatype2t d m
  | .constant_array2t m => .constant_array2t m
  | .constant_array_of2t i => .constant_array_of2t i
  | .symbol2t n => .symbol2t n
  | .typecast2t f => .typecast2t f
  | .if2t c t f => .if2t c t f
  | .rel2t d a b => .rel2t d a b
  | .not2t _ => .not2t none
  | .logical_2ops2t d a b => .logical_2ops2t d a b
  | .binops2t d a b => .binops2t d a b
  | .neg2t _ => .neg2t none
  | .abs2t _ => .abs2t none
  | .arith_2op2t d a b => .arith_2op2t d a b
  | .pointer_offset2t x => .pointer_offset2t x
  | .pointer_object2t x => .pointer_object2t x
  | .address_of2t x => .address_of2t x
  | .byte_extract2t e v o => .byte_extract2t e v o
  | .byte_update2t e v o u => .byte_update2t e v o u
  | .with2t s f d => .with2t s f d
  | .member2t s mt mv => .member2t s mt mv
  | .index2t s i => .index2t s i
  | .zero_string2t x => .zero_string2t x
  | .zero_length_string2t x => .zero_length_string2t x
  | .isnan2t x => .isnan2t x
  | .overflow2t x => .overflow2t x
  | .overflow_cast2t x n => .overflow_cast2t x n
  | .overflow_neg2t x => .overflow_neg2t x

/-- The function `expr_body<derived>::clone`: a new object made by the copy
constructor of the class; `expr2t::expr2t(const expr2t &)` copies the tag and
the type. -/
def expr2t.clone : expr2t → expr2t
  | .mk t b => .mk t b.copy

/-! ## Constructors and pool entries used in examples -/

/-- `type_pool.get_bool()`. -/
def type_pool.get_bool : type2t := .mk .bool_type2t

/-- `type_pool.get_uint8()`: the `unsignedbv_type2t(8)` made by `type_poolt::type_poolt`. -/
def type_pool.get_uint8 : type2t := .mk (.unsignedbv_type2t 8)

/-- `type_pool.get_int32()`: the `signedbv_type2t(32)` made by `type_poolt::type_poolt`. -/
def type_pool.get_int32 : type2t := .mk (.signedbv_type2t 32)

/-- `constant_bool2t::constant_bool2t(bool value)`. -/
def expr2t.constant_bool2t (value : Bool) : expr2t :=
  .mk type_pool.get_bool (.constant_bool2t value)

/-- The constructor of `constant_int2t`: a type and a `BigInt`. -/
def expr2t.constant_int2t (type : type2t) (value : Int) : expr2t :=
  .mk type (.constant_int2t value)

/-- `symbol2t::symbol2t(const type2tc type, irep_idt _name)`. -/
def expr2t.symbol2t (type : type2t) (name : String) : expr2t :=
  .mk type (.symbol2t name)

/-- `not2t::not2t(const expr2tc val)`; its base `lops2t` gives it the bool type. -/
def expr2t.not2t (val : expr2tc) : expr2t :=
  .mk type_pool.get_bool (.not2t val)

/-- `neg2t::neg2t(const type2tc type, const expr2tc _value)`. -/
def expr2t.neg2t (type : type2t) (value : expr2tc) : expr2t :=
  .mk type (.neg2t value)

/-- `abs2t::abs2t(const type2tc type, const expr2tc _value)`. -/
def expr2t.abs2t (type : type2t) (value : expr2tc) : expr2t :=
  .mk type (.abs2t value)

/-- `constant_array2t::constant_array2t(const type2tc type, const
std::vector<expr2tc> &members)`. -/
def expr2t.constant_array2t (type : type2t) (members : List expr2tc) : expr2t :=
  .mk type (.constant_array2t members)

/-- `constant_array_of2t::constant_array_of2t(const type2tc type, expr2tc init)`. -/
def expr2t.constant_array_of2t (type : type2t) (init : expr2tc) : expr2t :=
  .mk type (.constant_array_of2t init)

/-- `array_type2t::array_type2t(const type2tc t, const expr2tc s, bool inf)`. -/
def type2t.array_type2t (t : type2t) (s : expr2tc) (inf : Bool) : type2t :=
  .mk (.array_type2t t s inf)

/-! ## Notions used to state the theorems -/

/-- A Boolean comparison that is a strict total order. -/
structure IsSTO {α : Type} (less : α → α → Bool) : Prop where
  irrefl : ∀ a, less a a = false
  trans : ∀ a b c, less a b = true → less b c = true → less a c = true
  conn : ∀ a b, less a b = false → less b a = false → a = b

/-- Negation of a three-way result. -/
def neg_res (x : Option Int) : Option Int := x.map (fun r => -r)

/-- Sign test `r < 0` on a three-way result. -/
def is_neg (x : Option Int) : Option Bool := x.map (fun r => decide (r < 0))

/-- A three-way result clamped to -1, 0, 1. -/
def sign_res (x : Option Int) : Option Int := x.map Int.sign

/-- The equality result `e` agrees with the three-way result `x` whenever `x`
is defined. -/
def EqOk (x : Option Int) (e : Option Bool) : Prop :=
  ∀ r, x = some r → e = some (decide (r = 0))

/-- Transitivity of three three-way results (first against second, second
against third, first against third), stated for the non-positive direction. -/
def TransOk (x y z : Option Int) : Prop :=
  ∀ r1 r2, x = some r1 → y = some r2 → r1 ≤ 0 → r2 ≤ 0 →
    ∃ r3, z = some r3 ∧ r3 ≤ 0 ∧ (r3 = 0 ↔ r1 = 0 ∧ r2 = 0)

/-- When the equality result `e` is true, the two CRC feeds are the same
defined byte sequence. -/
def CrcOk (e : Option Bool) (x y : Option (List Nat)) : Prop :=
  e = some true → x = y ∧ ∃ l, x = some l

/-- Exactly one of three propositions holds. -/
def exactly_one (p q r : Prop) : Prop :=
  (p ∧ ¬ q ∧ ¬ r) ∨ (¬ p ∧ q ∧ ¬ r) ∨ (¬ p ∧ ¬ q ∧ r)

/-- Three-way lexicographic comparison of two `std::vector<type2tc>` by
`ltchecked` on the elements (a proper prefix comes first). -/
def type_vec3 : List type2t → List type2t → Option Int
  | [], [] => some 0
  | [], _ :: _ => some (-1)
  | _ :: _, [] => some 1
  | a :: as, b :: bs => lt_then (type2t.ltchecked a b) (type_vec3 as bs)

/-- Three-way lexicographic comparison of two `std::vector<expr2tc>` by
`ltchecked` on the elements (a proper prefix comes first). -/
def expr_vec3 : List (Option expr2t) → List (Option expr2t) → Option Int
  | [], [] => some 0
  | [], _ :: _ => some (-1)
  | _ :: _, [] => some 1
  | a :: as, b :: bs => lt_then (expr2tc_ltchecked a b) (expr_vec3 as bs)

/-- Index of the C++ class of an expression object. -/
def expr_body.class_index : expr_body → Nat
  | .constant_int2t _ => 0
  | .constant_bool2t _ => 1
  | .constant_string2t _ => 2
  | .constant_datatype2t _ _ => 3
  | .constant_array2t _ => 4
  | .constant_array_of2t _ => 5
  | .symbol2t _ => 6
  | .typecast2t _ => 7
  | .if2t _ _ _ => 8
  | .rel2t _ _ _ => 9
  | .not2t _ => 10
  | .logical_2ops2t _ _ _ => 11
  | .binops2t _ _ _ => 12
  | .neg2t _ => 13
  | .abs2t _ => 14
  | .arith_2op2t _ _ _ => 15
  | .pointer_offset2t _ => 16
  | .pointer_object2t _ => 17
  | .address_of2t _ => 18
  | .byte_extract2t _ _ _ => 19
  | .byte_update2t _ _ _ _ => 20
  | .with2t _ _ _ => 21
  | .member2t _ _ _ => 22
  | .index2t _ _ => 23
  | .zero_string2t _ => 24
  | .zero_length_string2t _ => 25
  | .isnan2t _ => 26
  | .overflow2t _ => 27
  | .overflow_cast2t _ _ => 28
  | .overflow_neg2t _ => 29

mutual
/-- The specification's notion of equal types: "their tags and all fields match
by structural equality (member order is significant)". -/
def type2t.fields_match : type2t → type2t → Prop
  | .mk b1, .mk b2 => b1.type_id = b2.type_id ∧ type_body.fields_match b1 b2
termination_by structural x => x
/-- The fields of two type objects match: the bit-vector width; the fixedbv
width and integer_bits; the string element count; the symbol name; the pointer
or array subtype; the array size, or both arrays infinite; the struct or union
name, member types in order and member names in order. -/
def type_body.fields_match : type_body → type_body → Prop
  | .bool_type2t, _ => True
  | .empty_type2t, _ => True
  | .code_type2t, _ => True
  | .symbol_type2t n1, ref =>
    match ref with
    | .symbol_type2t n2 => n1 = n2
    | _ => False
  | .struct_type2t ms1 ns1 n1, ref =>
    match ref with
    | .struct_type2t ms2 ns2 n2 => n1 = n2 ∧ type_vec_match ms1 ms2 ∧ ns1 = ns2
    | _ => False
  | .union_type2t ms1 ns1 n1, ref =>
    match ref with
    | .union_type2t ms2 ns2 n2 => n1 = n2 ∧ type_vec_match ms1 ms2 ∧ ns1 = ns2
    | _ => False
  | .array_type2t s1 z1 i1, ref =>
    match ref with
    | .array_type2t s2 z2 i2 =>
      type2t.fields_match s1 s2 ∧
        ((i1 = true ∧ i2 = true) ∨ (i1 = false ∧ i2 = false ∧ expr2tc_match z1 z2))
    | _ => False
  | .pointer_type2t s1, ref =>
    match ref with
    | .pointer_type2t s2 => type2t.fields_match s1 s2
    | _ => False
  | .unsignedbv_type2t w1, ref =>
    match ref with
    | .unsignedbv_type2t w2 => w1 = w2
    | _ => False
  | .signedbv_type2t w1, ref =>
    match ref with
    | .signedbv_type2t w2 => w1 = w2
    | _ => False
  | .fixedbv_type2t w1 ib1, ref =>
    match ref with
    | .fixedbv_type2t w2 ib2 => w1 = w2 ∧ ib1 = ib2
    | _ => False
  | .string_type2t e1, ref =>
    match ref with
    | .string_type2t e2 => e1 = e2
    | _ => False
termination_by structural x => x
/-- Member types match in order (and are as many). -/
def type_vec_match : List type2t → List type2t → Prop
  | [], [] => True
  | [], _ :: _ => False
  | _ :: _, [] => False
  | a :: as, b :: bs => type2t.fields_match a b ∧ type_vec_match as bs
termination_by structural x => x
/-- Two expressions match structurally: their tags agree, their types match
and their fields match. -/
def expr2t.fields_match : expr2t → expr2t → Prop
  | .mk t1 b1, .mk t2 b2 =>
    b1.expr_id = b2.expr_id ∧ type2t.fields_match t1 t2 ∧ expr_body.fields_match b1 b2
termination_by structural x => x
/-- The fields of two expression objects match: they are objects with the same
fields, constants and flags are the same and operands match; which class of a
template an object is made from is told by its tag. -/
def expr_body.fields_match : expr_body → expr_body → Prop
  | .constant_int2t v1, ref =>
    match ref with
    | .constant_int2t v2 => v1 = v2
    | _ => False
  | .constant_bool2t v1, ref =>
    match ref with
    | .constant_bool2t v2 => v1 = v2
    | _ => False
  | .constant_string2t v1, ref =>
    match ref with
    | .constant_string2t v2 => v1 = v2
    | _ => False
  | .constant_datatype2t _ m1, ref =>
    match ref with
    | .constant_datatype2t _ m2 => expr_vec_match m1 m2
    | _ => False
  | .constant_array2t m1, ref =>
    match ref with
    | .constant_array2t m2 => expr_vec_match m1 m2
    | _ => False
  | .constant_array_of2t i1, ref =>
    match ref with
    | .constant_array_of2t i2 => expr2tc_match i1 i2
    | _ => False
  | .symbol2t n1, ref =>
    match ref with
    | .symbol2t n2 => n1 = n2
    | _ => False
  | .typecast2t f1, ref =>
    match ref with
    | .typecast2t f2 => expr2tc_match f1 f2
    | _ => False
  | .if2t c1 t1 f1, ref =>
    match ref with
    | .if2t c2 t2 f2 => expr2tc_match c1 c2 ∧ expr2tc_match t1 t2 ∧ expr2tc_match f1 f2
    | _ => False
  | .rel2t _ a1 b1, ref =>
    match ref with
    | .rel2t _ a2 b2 => expr2tc_match a1 a2 ∧ expr2tc_match b1 b2
    | _ => False
  | .not2t x1, ref =>
    match ref with
    | .not2t x2 => expr2tc_match x1 x2
    | _ => False
  | .logical_2ops2t _ a1 b1, ref =>
    match ref with
    | .logical_2ops2t _ a2 b2 => expr2tc_match a1 a2 ∧ expr2tc_match b1 b2
    | _ => False
  | .binops2t _ a1 b1, ref =>
    match ref with
    | .binops2t _ a2 b2 => expr2tc_match a1 a2 ∧ expr2tc_match b1 b2
    | _ => False
  | .neg2t x1, ref =>
    match ref with
    | .neg2t x2 => expr2tc_match x1 x2
    | _ => False
  | .abs2t x1, ref =>
    match ref with
    | .abs2t x2 => expr2tc_match x1 x2
    | _ => False
  | .arith_2op2t _ a1 b1, ref =>
    match ref with
    | .arith_2op2t _ a2 b2 => expr2tc_match a1 a2 ∧ expr2tc_match b1 b2
    | _ => False
  | .pointer_offset2t x1, ref =>
    match ref with
    | .pointer_offset2t x2 => expr2tc_match x1 x2
    | _ => False
  | .pointer_object2t x1, ref =>
    match ref with
    | .pointer_object2t x2 => expr2tc_match x1 x2
    | _ => False
  | .address_of2t x1, ref =>
    match ref with
    | .address_of2t x2 => expr2tc_match x1 x2
    | _ => False
  | .byte_extract2t e1 v1 o1, ref =>
    match ref with
    | .byte_extract2t e2 v2 o2 => e1 = e2 ∧ expr2tc_match v1 v2 ∧ expr2tc_match o1 o2
    | _ => False
  | .byte_update2t e1 v1 o1 u1, ref =>
    match ref with
    | .byte_update2t e2 v2 o2 u2 =>
      e1 = e2 ∧ expr2tc_match v1 v2 ∧ expr2tc_match o1 o2 ∧ expr2tc_match u1 u2
    | _ => False
  | .with2t s1 f1 d1, ref =>
    match ref with
    | .with2t s2 f2 d2 => expr2tc_match s1 s2 ∧ expr2tc_match f1 f2 ∧ expr2tc_match d1 d2
    | _ => False
  | .member2t s1 mt1 mv1, ref =>
    match ref with
    | .member2t s2 mt2 mv2 => expr2tc_match s1 s2 ∧ type2t.fields_match mt1 mt2 ∧ mv1 = mv2
    | _ => False
  | .index2t s1 i1, ref =>
    match ref with
    | .index2t s2 i2 => expr2tc_match s1 s2 ∧ expr2tc_match i1 i2
    | _ => False
  | .zero_string2t x1, ref =>
    match ref with
    | .zero_string2t x2 => expr2tc_match x1 x2
    | _ => False
  | .zero_length_string2t x1, ref =>
    match ref with
    | .zero_length_string2t x2 => expr2tc_match x1 x2
    | _ => False
  | .isnan2t x1, ref =>
    match ref with
    | .isnan2t x2 => expr2tc_match x1 x2
    | _ => False
  | .overflow2t x1, ref =>
    match ref with
    | .overflow2t x2 => expr2tc_match x1 x2
    | _ => False
  | .overflow_cast2t x1 n1, ref =>
    match ref with
    | .overflow_cast2t x2 n2 => n1 = n2 ∧ expr2tc_match x1 x2
    | _ => False
  | .overflow_neg2t x1, ref =>
    match ref with
    | .overflow_neg2t x2 => expr2tc_match x1 x2
    | _ => False
termination_by structural x => x
/-- Two operand handles match: both are nil, or both hold expressions that
match. -/
def expr2tc_match : Option expr2t → Option expr2t → Prop
  | none, none => True
  | some a, some b => expr2t.fields_match a b
  | none, some _ => False
  | some _, none => False
termination_by structural x => x
/-- Operands match in order (and are as many). -/
def expr_vec_match : List (Option expr2t) → List (Option expr2t) → Prop
  | [], [] => True
  | [], _ :: _ => False
  | _ :: _, [] => False
  | a :: as, b :: bs => expr2tc_match a b ∧ expr_vec_match as bs
termination_by structural x => x
end

/-- The equality result `r` agrees with the proposition `P` whenever `r` is
defined. -/
def EqAgrees (r : Option Bool) (P : Prop) : Prop :=
  ∀ b, r = some b → (b = true ↔ P)

/-! ## Level-2 renaming (`goto-symex/renaming.cpp`) -/

namespace goto_symex

/-- The enumeration `symbol2t::renaming_level`. -/
inductive renaming_level where
  | level0 | level1 | level2 | level1_global | level2_global
  deriving DecidableEq, Repr

/-- An expression as `renaming.cpp` handles it: a `symbol2t` with its renaming
fields, an `address_of2t` with its operand `ptr_obj`, or an object of any other
class, of which renaming only visits the operand handles (`Forall_operands2`);
`data` stands for the fields of such an object that are not operands. -/
inductive expr2t (α : Type) where
  | symbol2t (type : type2t) (thename : String) (rlevel : renaming_level)
      (level1_num : Nat) (level2_num : Nat) (thread_num : Nat) (node_num : Nat)
  | address_of2t (type : type2t) (ptr_obj : Option (expr2t α))
  | other (expr_id : expr_ids) (type : type2t) (data : α)
      (operands : List (Option (expr2t α)))

/-- Modelled from the spec: the class `name_record` of `renaming.h`, which
"captures (base name, L1 number, thread num, current level)"; two records are
the same key when the four fields agree. -/
structure name_record where
  base_name : String
  lev : renaming_level
  l1_num : Nat
  t_num : Nat
  deriving DecidableEq, Repr

/-- Modelled from the spec: the struct `valuet` of `renaming.h`,
`Value{count: u32, node_id: u32, constant: Option<Expr>}`. -/
structure valuet (α : Type) where
  count : Nat
  constant : Option (expr2t α)
  node_id : Nat

/-- State of level-2 renaming: the map `current_names`. -/
structure level2t (α : Type) where
  current_names : name_record → Option (valuet α)

/-- Modelled from the spec: a freshly inserted `valuet` (what
`current_names[key]` creates for an absent key): count 0, node 0, nil constant. -/
def valuet.fresh {α : Type} : valuet α := ⟨0, none, 0⟩

/-- The call `current_names[key]`, reading the entry it returns. -/
def level2t.entry {α : Type} (st : level2t α) (key : name_record) : valuet α :=
  (st.current_names key).getD valuet.fresh

/-- Writing `v` through the reference returned by `current_names[key]`. -/
def level2t.set_entry {α : Type} (st : level2t α) (key : name_record) (v : valuet α) :
    level2t α :=
  ⟨fun k => if k = key then some v else st.current_names k⟩

/-- Modelled from the spec: the function `has_prefix` of `prefix.h`, whether
`s` begins with `p`. -/
def has_prefix (s p : String) : Bool := p.data.isPrefixOf s.data

/-- The key `name_record(to_symbol2t(e))` of a symbol; nothing for an
expression that is not a symbol. -/
def expr2t.name_record {α : Type} : expr2t α → Option name_record
  | .symbol2t _ thename rlevel level1_num _ thread_num _ =>
    some ⟨thename, rlevel, level1_num, thread_num⟩
  | _ => none

mutual
/-- `renaming::level2t::rename(expr2tc &expr)`; the result is the new value of
`expr`. -/
def level2t.rename {α : Type} (st : level2t α) : expr2t α → expr2t α
  | .symbol2t type thename rlevel level1_num level2_num thread_num node_num =>
    if rlevel = .level2 ∨ rlevel = .level2_global then
      .symbol2t type thename rlevel level1_num level2_num thread_num node_num
    else if thename = "NULL" then
      .symbol2t type thename rlevel level1_num level2_num thread_num node_num
    else if thename = "INVALID" then
      .symbol2t type thename rlevel level1_num level2_num thread_num node_num
    else if has_prefix thename "nondet$" then
      .symbol2t type thename rlevel level1_num level2_num thread_num node_num
    else
      match st.current_names ⟨thename, rlevel, level1_num, thread_num⟩ with
      | some it =>
        let lev : renaming_level :=
          if rlevel = .level0 ∨ rlevel = .level1_global then .level2_global else .level2
        match it.constant with
        | some c => c
        | none => .symbol2t type thename lev level1_num it.count thread_num it.node_id
      | none =>
        let lev : renaming_level :=
          if rlevel = .level0 ∨ rlevel = .level1_global then .level2_global else .level2
        .symbol2t type thename lev level1_num 0 thread_num 0
  | .address_of2t type ptr_obj => .address_of2t type ptr_obj
  | .other expr_id type data operands =>
    .other expr_id type data (level2t.rename_operands st operands)
termination_by structural x => x
/-- The loop `Forall_operands2(it, idx, expr) if (!is_nil_expr(*it)) rename(*it);`. -/
def level2t.rename_operands {α : Type} (st : level2t α) :
    List (Option (expr2t α)) → List (Option (expr2t α))
  | [] => []
  | none :: rest => none :: level2t.rename_operands st rest
  | some e :: rest => some (level2t.rename st e) :: level2t.rename_operands st rest
termination_by structural x => x
end

/-- `renaming::level2t::current_number(const name_record &symbol)`. -/
def level2t.current_number_rec {α : Type} (st : level2t α) (symbol : name_record) : Nat :=
  match st.current_names symbol with
  | none => 0
  | some it => it.count

/-- `renaming::level2t::current_number(const expr2tc &symbol)`; undefined when
the expression is not a symbol. -/
def level2t.current_number {α : Type} (st : level2t α) (symbol : expr2t α) : Option Nat :=
  (expr2t.name_record symbol).map (level2t.current_number_rec st)

/-- Modelled from the spec: the two-argument `rename(lhs_symbol, count)`
declared in `renaming.h`, by which `make_assignment` "increments
`entry.count`": it stores `count` in the entry of the symbol's name record. -/
def level2t.rename_count {α : Type} (st : level2t α) (key : name_record) (count : Nat) :
    level2t α :=
  st.set_entry key { st.entry key with count := count }

/-- `renaming::level2t::make_assignment(lhs_symbol, const_value,
assigned_value)`: the new state and the new value of `lhs_symbol`; `none` when
the assertion on the level of `lhs_symbol` fails or it is not a symbol.  The
count is an `unsigned`, so `entry.count + 1` is taken modulo 2^32. -/
def level2t.make_assignment {α : Type} (st : level2t α) (lhs_symbol : expr2t α)
    (const_value : Option (expr2t α)) (assigned_value : Option (expr2t α)) :
    Option (level2t α × expr2t α) :=
  match lhs_symbol with
  | .symbol2t type thename rlevel level1_num level2_num thread_num node_num =>
    if rlevel = .level1 ∨ rlevel = .level1_global then
      let key : name_record := ⟨thename, rlevel, level1_num, thread_num⟩
      let st1 := st.rename_count key (((st.entry key).count + 1) % 4294967296)
      let entry := st1.entry key
      let lev : renaming_level :=
        if rlevel = .level0 ∨ rlevel = .level1_global then .level2_global else .level2
      some (st1.set_entry key { entry with constant := const_value },
        .symbol2t type thename lev level1_num entry.count thread_num entry.node_id)
    else none
  | _ => none

/-- A sequence of `make_assignment` calls, each given by its `lhs_symbol` and
its `const_value`; `none` as soon as one of them fails its assertion. -/
def level2t.make_assignments {α : Type} (st : level2t α) :
    List (expr2t α × Option (expr2t α)) → Option (level2t α)
  | [] => some st
  | (lhs, c) :: rest =>
    match st.make_assignment lhs c none with
    | none => none
    | some (st1, _) => level2t.make_assignments st1 rest

/-- How many calls of a sequence assign to the symbol with name record `key`. -/
def assignments_to {α : Type} (key : name_record) :
    List (expr2t α × Option (expr2t α)) → Nat
  | [] => 0
  | (lhs, _) :: rest =>
    (if expr2t.name_record lhs = some key then 1 else 0) + assignments_to key rest

/-- `renaming::level2t::coveredinbees(lhs_sym, count, node_id)`: the new state;
`none` when one of its assertions fails or `lhs_sym` is not a symbol. -/
def level2t.coveredinbees {α : Type} (st : level2t α) (lhs_sym : expr2t α)
    (count : Nat) (node_id : Nat) : Option (level2t α) :=
  match lhs_sym with
  | .symbol2t _ thename rlevel level1_num _ thread_num _ =>
    if rlevel = .level1 ∨ rlevel = .level1_global then
      let key : name_record := ⟨thename, rlevel, level1_num, thread_num⟩
      let entry := st.entry key
      if entry.count ≤ count then
        some (st.set_entry key { entry with count := count, node_id := node_id })
      else none
    else none
  | _ => none

/-- State of level-1 renaming: the map `current_names` (name record to count)
and `thread_id`. -/
structure level1t where
  current_names : name_record → Option Nat
  thread_id : Nat

mutual
/-- `renaming::level1t::rename(expr2tc &expr)` on a non-nil handle; the result
is the new value of `expr`. -/
def level1t.rename {α : Type} (st : level1t) : expr2t α → expr2t α
  | .symbol2t type thename rlevel level1_num level2_num thread_num node_num =>
    if rlevel ≠ .level0 then
      .symbol2t type thename rlevel level1_num level2_num thread_num node_num
    else
      match st.current_names ⟨thename, rlevel, level1_num, thread_num⟩ with
      | some count => .symbol2t type thename .level1 count 0 st.thread_id 0
      | none =>
        .symbol2t type thename .level1_global level1_num level2_num thread_num node_num
  | .address_of2t type ptr_obj => .address_of2t type (level1t.rename_handle st ptr_obj)
  | .other expr_id type data operands =>
    .other expr_id type data (level1t.rename_operands st operands)
termination_by structural x => x
/-- `renaming::level1t::rename(expr2tc &expr)` on a handle: a nil handle is
left as it is. -/
def level1t.rename_handle {α : Type} (st : level1t) : Option (expr2t α) → Option (expr2t α)
  | none => none
  | some e => some (level1t.rename st e)
termination_by structural x => x
/-- The loop `Forall_operands2(it, idx, expr) rename(*it);`. -/
def level1t.rename_operands {α : Type} (st : level1t) :
    List (Option (expr2t α)) → List (Option (expr2t α))
  | [] => []
  | none :: rest => none :: level1t.rename_operands st rest
  | some e :: rest => some (level1t.rename st e) :: level1t.rename_operands st rest
termination_by structural x => x
end

/-- The end of `renaming_levelt::get_original_name` on a symbol, given by its
fields: the return for a symbol at level0 and the `switch (lev)`; `none` is the
`abort()` of the `default` case. -/
def get_original_name_switch {α : Type} (type : type2t) (thename : String)
    (rlevel : renaming_level) (level1_num level2_num thread_num node_num : Nat)
    (lev : renaming_level) : Option (expr2t α) :=
  if rlevel = .level0 then
    some (.symbol2t type thename rlevel level1_num level2_num thread_num node_num)
  else
    match lev with
    | .level1 => some (.symbol2t type thename lev level1_num 0 thread_num 0)
    | .level1_global => some (.symbol2t type thename lev level1_num 0 thread_num 0)
    | .level0 => some (.symbol2t type thename lev 0 0 0 0)
    | _ => none

/-- The part of `renaming_levelt::get_original_name` that handles a symbol,
given by its fields. -/
def get_original_name_symbol {α : Type} (type : type2t) (thename : String)
    (rlevel : renaming_level) (level1_num level2_num thread_num node_num : Nat)
    (lev : renaming_level) : Option (expr2t α) :=
  if lev = .level1 ∧ rlevel = .level2_global then
    get_original_name_switch type thename rlevel level1_num level2_num thread_num node_num
      .level1_global
  else if lev = .level1 ∧ rlevel = .level1_global then
    some (.symbol2t type thename rlevel level1_num level2_num thread_num node_num)
  else
    get_original_name_switch type thename rlevel level1_num level2_num thread_num node_num lev

mutual
/-- `renaming::renaming_levelt::get_original_name(expr, lev)` on a non-nil
handle; `none` when it aborts.  The operands are visited by
`get_original_name(*it)`, the one-argument form that `renaming.h` declares;
`dflt` is the level that form asks for. -/
def get_original_name {α : Type} (dflt : renaming_level) :
    expr2t α → renaming_level → Option (expr2t α)
  | .symbol2t type thename rlevel level1_num level2_num thread_num node_num, lev =>
    get_original_name_symbol type thename rlevel level1_num level2_num thread_num node_num lev
  | .address_of2t type ptr_obj, _ =>
    (get_original_name_handle dflt ptr_obj).map (.address_of2t type)
  | .other expr_id type data operands, _ =>
    (get_original_name_operands dflt operands).map (.other expr_id type data)
termination_by structural x => x
/-- The call `get_original_name(*it)` on an operand handle: a nil handle is
left as it is. -/
def get_original_name_handle {α : Type} (dflt : renaming_level) :
    Option (expr2t α) → Option (Option (expr2t α))
  | none => some none
  | some e => (get_original_name dflt e dflt).map some
termination_by structural x => x
/-- The loop `Forall_operands2(it, idx, expr) get_original_name(*it);`. -/
def get_original_name_operands {α : Type} (dflt : renaming_level) :
    List (Option (expr2t α)) → Option (List (Option (expr2t α)))
  | [] => some []
  | none :: rest => (get_original_name_operands dflt rest).map (fun r => none :: r)
  | some e :: rest =>
    match get_original_name dflt e dflt with
    | none => none
    | some e1 => (get_original_name_operands dflt rest).map (fun r => some e1 :: r)
termination_by structural x => x
end

mutual
/-- Whether some symbol of the expression, at any depth, is at level0. -/
def expr2t.has_level0 {α : Type} : expr2t α → Bool
  | .symbol2t _ _ rlevel _ _ _ _ => decide (rlevel = .level0)
  | .address_of2t _ none => false
  | .address_of2t _ (some p) => expr2t.has_level0 p
  | .other _ _ _ operands => operands_have_level0 operands
termination_by structural x => x
/-- Whether some operand holds a symbol at level0. -/
def operands_have_level0 {α : Type} : List (Option (expr2t α)) → Bool
  | [] => false
  | none :: rest => operands_have_level0 rest
  | some e :: rest => expr2t.has_level0 e || operands_have_level0 rest
termination_by structural x => x
end

mutual
/-- Whether some symbol of the expression that is not under an `address_of` is
at level0. -/
def expr2t.has_level0_outside_address_of {α : Type} : expr2t α → Bool
  | .symbol2t _ _ rlevel _ _ _ _ => decide (rlevel = .level0)
  | .address_of2t _ _ => false
  | .other _ _ _ operands => operands_have_level0_outside_address_of operands
termination_by structural x => x
/-- Whether some operand holds, outside every `address_of`, a symbol at level0. -/
def operands_have_level0_outside_address_of {α : Type} : List (Option (expr2t α)) → Bool
  | [] => false
  | none :: rest => operands_have_level0_outside_address_of rest
  | some e :: rest =>
    expr2t.has_level0_outside_address_of e || operands_have_level0_outside_address_of rest
termination_by structural x => x
end

mutual
/-- Whether every symbol of the expression, at any depth, is an un-renamed
symbol: at level0 with `level1_num`, `level2_num`, `thread_num` and `node_num`
all 0. -/
def expr2t.all_level0 {α : Type} : expr2t α → Bool
  | .symbol2t _ _ rlevel level1_num level2_num thread_num node_num =>
    decide (rlevel = .level0) && decide (level1_num = 0) && decide (level2_num = 0) &&
      decide (thread_num = 0) && decide (node_num = 0)
  | .address_of2t _ none => true
  | .address_of2t _ (some p) => expr2t.all_level0 p
  | .other _ _ _ operands => operands_all_level0 operands
termination_by structural x => x
/-- Whether every operand holds un-renamed symbols only. -/
def operands_all_level0 {α : Type} : List (Option (expr2t α)) → Bool
  | [] => true
  | none :: rest => operands_all_level0 rest
  | some e :: rest => expr2t.all_level0 e && operands_all_level0 rest
termination_by structural x => x
end

mutual
/-- Whether every symbol of the expression that is at level0 carries no
renaming numbers (`level1_num`, `level2_num`, `thread_num`, `node_num` all 0). -/
def expr2t.level0_unnumbered {α : Type} : expr2t α → Bool
  | .symbol2t _ _ rlevel level1_num level2_num thread_num node_num =>
    decide (rlevel = .level0 → level1_num = 0 ∧ level2_num = 0 ∧ thread_num = 0 ∧ node_num = 0)
  | .address_of2t _ none => true
  | .address_of2t _ (some p) => expr2t.level0_unnumbered p
  | .other _ _ _ operands => operands_level0_unnumbered operands
termination_by structural x => x
/-- Whether every operand satisfies `expr2t.level0_unnumbered`. -/
def operands_level0_unnumbered {α : Type} : List (Option (expr2t α)) → Bool
  | [] => true
  | none :: rest => operands_level0_unnumbered rest
  | some e :: rest => expr2t.level0_unnumbered e && operands_level0_unnumbered rest
termination_by structural x => x
end

mutual
/-- The expression with every symbol, at any depth, reset to level0 with
`level1_num`, `level2_num`, `thread_num` and `node_num` 0, and nothing else
changed. -/
def expr2t.reset_symbols {α : Type} : expr2t α → expr2t α
  | .symbol2t type thename _ _ _ _ _ => .symbol2t type thename .level0 0 0 0 0
  | .address_of2t type none => .address_of2t type none
  | .address_of2t type (some p) => .address_of2t type (some (expr2t.reset_symbols p))
  | .other expr_id type data operands =>
    .other expr_id type data (operands_reset_symbols operands)
termination_by structural x => x
/-- The operands with every symbol reset as by `expr2t.reset_symbols`. -/
def operands_reset_symbols {α : Type} : List (Option (expr2t α)) → List (Option (expr2t α))
  | [] => []
  | none :: rest => none :: operands_reset_symbols rest
  | some e :: rest => some (expr2t.reset_symbols e) :: operands_reset_symbols rest
termination_by structural x => x
end

/-- A level-2 state whose entries are all keyed by level1 or level1_global name
records, as `make_assignment` and `coveredinbees` assert of the symbols they
enter. -/
def level2t.keys_are_l1 {α : Type} (st : level2t α) : Prop :=
  ∀ key v, st.current_names key = some v → key.lev = .level1 ∨ key.lev = .level1_global


mutual
/-- Whether the expression holds, at any depth, a symbol whose name record is
`key`. -/
def expr2t.mentions {α : Type} (key : name_record) : expr2t α → Bool
  | .symbol2t _ thename rlevel level1_num _ thread_num _ =>
    decide ((⟨thename, rlevel, level1_num, thread_num⟩ : name_record) = key)
  | .address_of2t _ none => false
  | .address_of2t _ (some p) => expr2t.mentions key p
  | .other _ _ _ operands => operands_mention key operands
termination_by structural x => x
/-- Whether some operand mentions `key`. -/
def operands_mention {α : Type} (key : name_record) : List (Option (expr2t α)) → Bool
  | [] => false
  | none :: rest => operands_mention key rest
  | some e :: rest => expr2t.mentions key e || operands_mention key rest
termination_by structural x => x
end

/-- Modelled from the spec: `get_original_name(expr, target_level)` with its
operand visits filled in.  The code visits the operands by the one-argument
`get_original_name(*it)`, which `renaming.h` declares and which is not in the
source.  The spec has one operation, which is to "strip rename info down to
`target_level`" in the expression as a whole; so the one-argument form is
taken to strip an operand down to the target level of the call that visits
it. -/
def renaming_levelt.get_original_name {α : Type} (expr : expr2t α)
    (target_level : renaming_level) : Option (expr2t α) :=
  goto_symex.get_original_name target_level expr target_level

mutual
/-- The expression with every symbol that is not at level0, at any depth, reset
to level0 with `level1_num`, `level2_num`, `thread_num` and `node_num` 0; the
symbols at level0 and everything else are unchanged. -/
def expr2t.reset_renamed {α : Type} : expr2t α → expr2t α
  | .symbol2t type thename rlevel level1_num level2_num thread_num node_num =>
    if rlevel = .level0 then
      .symbol2t type thename rlevel level1_num level2_num thread_num node_num
    else .symbol2t type thename .level0 0 0 0 0
  | .address_of2t type none => .address_of2t type none
  | .address_of2t type (some p) => .address_of2t type (some (expr2t.reset_renamed p))
  | .other expr_id type data operands =>
    .other expr_id type data (operands_reset_renamed operands)
termination_by structural x => x
/-- The operands with every symbol reset as by `expr2t.reset_renamed`. -/
def operands_reset_renamed {α : Type} : List (Option (expr2t α)) → List (Option (expr2t α))
  | [] => []
  | none :: rest => none :: operands_reset_renamed rest
  | some e :: rest => some (expr2t.reset_renamed e) :: operands_reset_renamed rest
termination_by structural x => x
end

/-- A level-2 state that holds no constant under a level0 name record; every
state whose entries are keyed by level1 or level1_global records is one. -/
def level2t.no_level0_constant {α : Type} (st : level2t α) : Prop :=
  ∀ key v, st.current_names key = some v → key.lev = .level0 → v.constant = none

end goto_symex

/-! ## Width queries -/

/-- How a width query ends when it returns no number: one of the exceptions
`get_width` throws (`dyn_sized_array_excp` carries the size handle), a failed
`assert`, or the dereference of a nil handle. -/
inductive width_failure where
  | symbolic_type_excp
  | inf_sized_array_excp
  | dyn_sized_array_excp (size : expr2tc)
  | assertion_failed
  | nil_dereferenced

/-- Modelled from the spec: `BigInt::to_ulong` of `bigint.hh`, the value of a
non-negative integer as an `unsigned long` (64 bits). -/
def BigInt_to_ulong (z : Int) : Nat := z.toNat % 18446744073709551616

mutual
/-- The virtual `get_width` of a type; `pointer_width` is
`config.ansi_c.pointer_width`.  The result is an `unsigned int`. -/
def type2t.get_width (pointer_width : Nat) : type2t → Except width_failure Nat
  | .mk b => type_body.get_width pointer_width b
termination_by structural x => x
/-- The `get_width` of each type class. -/
def type_body.get_width (pointer_width : Nat) : type_body → Except width_failure Nat
  | .bool_type2t => .ok 1
  | .empty_type2t => .error .symbolic_type_excp
  | .symbol_type2t _ => .error .assertion_failed
  | .struct_type2t members _ _ => struct_width_loop pointer_width members 0
  | .union_type2t members _ _ => union_width_loop pointer_width members 0
  | .code_type2t => .error .symbolic_type_excp
  | .array_type2t subtype array_size size_is_infinite =>
    if size_is_infinite then .error .inf_sized_array_excp
    else
      match array_size with
      | none => .error .nil_dereferenced
      | some s =>
        if s.expr_id ≠ .constant_int_id then .error (.dyn_sized_array_excp array_size)
        else
          match type2t.get_width pointer_width subtype with
          | .error e => .error e
          | .ok sub_width =>
            match s with
            | .mk _ (.constant_int2t constant_value) =>
              if constant_value < 0 then .error .assertion_failed
              else
                .ok ((BigInt_to_ulong constant_value * sub_width) % 18446744073709551616
                  % 4294967296)
            | _ => .error .assertion_failed
  | .pointer_type2t _ => .ok pointer_width
  | .unsignedbv_type2t width => .ok width
  | .signedbv_type2t width => .ok width
  | .fixedbv_type2t width _ => .ok width
  | .string_type2t elements => .ok ((elements * 8) % 4294967296)
termination_by structural x => x
/-- The loop of `struct_type2t::get_width`:
`for (it = members.begin(); ...) width += (*it)->get_width();` on an
`unsigned int`. -/
def struct_width_loop (pointer_width : Nat) : List type2t → Nat → Except width_failure Nat
  | [], width => .ok width
  | m :: rest, width =>
    match type2t.get_width pointer_width m with
    | .error e => .error e
    | .ok w => struct_width_loop pointer_width rest ((width + w) % 4294967296)
termination_by structural x => x
/-- The loop of `union_type2t::get_width`:
`width = std::max(width, (*it)->get_width());`. -/
def union_width_loop (pointer_width : Nat) : List type2t → Nat → Except width_failure Nat
  | [], width => .ok width
  | m :: rest, width =>
    match type2t.get_width pointer_width m with
    | .error e => .error e
    | .ok w => union_width_loop pointer_width rest (max width w)
termination_by structural x => x
end

/-! ## Constructors with assertions, names, string expansion -/

/-- `or2t::or2t(const expr2tc val1, const expr2tc val2)`; the base `lops2t`
gives it the bool type. -/
def expr2t.or2t (val1 val2 : expr2tc) : expr2t :=
  .mk type_pool.get_bool (.logical_2ops2t .or2t val1 val2)

/-- `implies2t::implies2t(const expr2tc val1, const expr2tc val2)`; the tag it
passes is `or_id` (see `logical_class.expr_id`). -/
def expr2t.implies2t (val1 val2 : expr2tc) : expr2t :=
  .mk type_pool.get_bool (.logical_2ops2t .implies2t val1 val2)

/-- `overflow2t::overflow2t(const expr2tc val)`: `none` when the assertion on
the tag of the operand fails, or when the operand handle is nil (the assertion
dereferences it). -/
def expr2t.overflow2t (val : expr2tc) : Option expr2t :=
  match val with
  | none => none
  | some operand =>
    if operand.expr_id = .add_id ∨ operand.expr_id = .sub_id ∨ operand.expr_id = .mul_id then
      some (.mk type_pool.get_bool (.overflow2t val))
    else none

/-- `overflow_cast2t::overflow_cast2t(const expr2tc val, unsigned int _bits)`. -/
def expr2t.overflow_cast2t (val : expr2tc) (bits : Nat) : expr2t :=
  .mk type_pool.get_bool (.overflow_cast2t val bits)

/-- `byte_extract2t::byte_extract2t(type, is_big_endian, source, offs)`. -/
def expr2t.byte_extract2t (type : type2t) (is_big_endian : Bool) (source offs : expr2tc) :
    expr2t :=
  .mk type (.byte_extract2t is_big_endian source offs)

/-- The table `expr2t::expr_names`. -/
def expr_names : List String :=
  ["constant_int", "constant_fixedbv", "constant_bool", "constant_string",
   "constant_struct", "constant_union", "constant_array", "constant_array_of", "symbol",
   "typecast", "if", "equality", "notequal", "lessthan", "greaterthan", "lessthanequal",
   "greaterthanequal", "not", "and", "or", "xor", "bitand", "bitor", "bitxor", "bitnand",
   "bitnor", "bitnxor", "lshr", "neg", "abs", "add", "sub", "mul", "div", "modulus", "shl",
   "ashr", "dynamic_object", "same_object", "pointer_offset", "pointer_object",
   "address_of", "byte_extract", "byte_update", "with", "member", "index", "zero_string",
   "zero_length_string", "isnan", "overflow", "overflow_cast", "overflow_neg"]

/-- The name under which `expr2t::pretty` prints an expression:
`expr_names[expr_id]`. -/
def expr2t.pretty_name (e : expr2t) : String :=
  expr_names.getD e.expr_id.toNat ""

/-- The integer `BigInt(value[i])` made of a `char`; whether a plain `char` is
signed is left to the platform. -/
def char_value (char_is_signed : Bool) (c : Char) : Int :=
  if char_is_signed && decide (128 ≤ c.toNat % 256) then (c.toNat % 256 : Int) - 256
  else (c.toNat % 256 : Int)

/-- `constant_string2t::to_array()` of a string constant with the given
`value`; `int_width` is `config.ansi_c.int_width`.  `length` is an
`unsigned int`. -/
def constant_string2t.to_array (int_width : Nat) (char_is_signed : Bool) (value : String) :
    expr2t :=
  let length := value.data.length % 4294967296
  let type := type_pool.get_uint8
  let contents : List expr2tc :=
    (value.data.take length).map
      (fun c => some (expr2t.constant_int2t type (char_value char_is_signed c)))
  let len_tp : type2t := .mk (.unsignedbv_type2t int_width)
  let len_val_ref : expr2tc := some (expr2t.constant_int2t len_tp (length : Int))
  let arr_tp := type2t.array_type2t type len_val_ref false
  expr2t.constant_array2t arr_tp contents

/-! ## The type pool -/

mutual
/-- Modelled from the spec: the old-IR type `typet` (`std_types.h`), as far as
the bit-vector maps of the pool are keyed by it and `pointer_offset_size` and
`member_offset` read it: the bit-vector types, an array with its `subtype()`
and the integer that `to_integer` finds in its `size_irep()` (`none` when it
finds none), a struct or union with its `components()`, and any other type by
its `id()`. -/
inductive typet where
  | unsignedbv_typet (width : Nat)
  | signedbv_typet (width : Nat)
  | array_typet (subtype : typet) (size : Option Int)
  | struct_typet (components : componentst)
  | union_typet (components : componentst)
  | other_typet (id : String)
  deriving DecidableEq, Repr
/-- Modelled from the spec: `struct_typet::componentst`, the components of a
struct or union in order, each with its name, its flag `#is_bit_field` and its
type. -/
inductive componentst where
  | nil
  | cons (name : String) (is_bit_field : Bool) (type : typet) (rest : componentst)
  deriving DecidableEq, Repr
end

/-- Modelled from the spec: the class `symbolt` (`symbol.h`), a symbol record:
its identifier `id`, its base name `name`, and its other fields `rest`. -/
structure symbolt (α : Type) where
  id : String
  name : String
  rest : α

/-- The class `contextt`: the map `symbols` from identifier to symbol, the
base-name index `symbol_base_map` (a multimap, given by its pairs of base name
and identifier), and `ordered_symbols`, the pointers to entries of `symbols`
in insertion order, each given by the key of the entry it points to. -/
structure contextt (α : Type) where
  symbols : String → Option (symbolt α)
  symbol_base_map : List (String × String)
  ordered_symbols : List String

/-- `contextt::add(const symbolt &symbol)`: the value returned and the table
afterwards. -/
def contextt.add {α : Type} (ctx : contextt α) (symbol : symbolt α) : Bool × contextt α :=
  match ctx.symbols symbol.id with
  | some _ => (true, ctx)
  | none =>
    (false,
      { symbols := fun k => if k = symbol.id then some symbol else ctx.symbols k,
        symbol_base_map := ctx.symbol_base_map ++ [(symbol.name, symbol.id)],
        ordered_symbols := ctx.ordered_symbols ++ [symbol.id] })

/-- What `contextt::move(symbol, new_symbol)` leaves: the value returned, the
table, the caller's `symbol`, and the key of the entry `new_symbol` points to. -/
structure move_result (α : Type) where
  result : Bool
  context : contextt α
  symbol : symbolt α
  new_symbol : String

/-- `contextt::move(symbolt &symbol, symbolt *&new_symbol)`; `tmp` is the
default-constructed `symbolt tmp`. -/
def contextt.move {α : Type} (tmp : symbolt α) (ctx : contextt α) (symbol : symbolt α) :
    move_result α :=
  match ctx.symbols symbol.id with
  | some _ => { result := true, context := ctx, symbol := symbol, new_symbol := symbol.id }
  | none =>
    { result := false,
      context :=
        { symbols := fun k => if k = symbol.id then some symbol else ctx.symbols k,
          symbol_base_map := ctx.symbol_base_map ++ [(symbol.name, symbol.id)],
          ordered_symbols := ctx.ordered_symbols ++ [symbol.id] },
      symbol := tmp,
      new_symbol := symbol.id }

/-- `contextt::find_symbol(irep_idt name)`: the symbol pointed to, `none` for
`nullptr`. -/
def contextt.find_symbol {α : Type} (ctx : contextt α) (name : String) : Option (symbolt α) :=
  ctx.symbols name

/-- `contextt::erase_symbol(irep_idt name)`: the table afterwards; `none` is
the `abort()` for a name that is not in the table.  `remove_if` drops the
pointers whose symbol has the id `name`, read from `symbols` before the entry
is erased. -/
def contextt.erase_symbol {α : Type} (ctx : contextt α) (name : String) :
    Option (contextt α) :=
  match ctx.symbols name with
  | none => none
  | some _ =>
    some
      { symbols := fun k => if k = name then none else ctx.symbols k,
        symbol_base_map := ctx.symbol_base_map,
        ordered_symbols :=
          ctx.ordered_symbols.filter
            (fun key =>
              match ctx.symbols key with
              | some s => decide (s.id ≠ name)
              | none => true) }

/-- The table a `contextt` is constructed with: nothing in it. -/
def contextt.empty {α : Type} : contextt α := ⟨fun _ => none, [], []⟩

/-- A call of one of `add`, `move` and `erase_symbol`. -/
inductive context_op (α : Type) where
  | add (symbol : symbolt α)
  | move (symbol : symbolt α)
  | erase_symbol (name : String)

/-- The table after one call; `none` when `erase_symbol` aborts. -/
def contextt.apply {α : Type} (tmp : symbolt α) (ctx : contextt α) :
    context_op α → Option (contextt α)
  | .add symbol => some (ctx.add symbol).2
  | .move symbol => some (ctx.move tmp symbol).context
  | .erase_symbol name => ctx.erase_symbol name

/-- The table after a sequence of calls, `none` as soon as one aborts. -/
def contextt.run {α : Type} (tmp : symbolt α) (ctx : contextt α) :
    List (context_op α) → Option (contextt α)
  | [] => some ctx
  | op :: rest =>
    match ctx.apply tmp op with
    | none => none
    | some ctx1 => contextt.run tmp ctx1 rest

/-- The identifiers in the table after a sequence of calls, in the order of
their successful insertion: `add` and `move` append an identifier that is not
there yet, `erase_symbol` takes the identifier out. -/
def insertion_order {α : Type} : List String → List (context_op α) → List String
  | ids, [] => ids
  | ids, .add symbol :: rest =>
    insertion_order (if symbol.id ∈ ids then ids else ids ++ [symbol.id]) rest
  | ids, .move symbol :: rest =>
    insertion_order (if symbol.id ∈ ids then ids else ids ++ [symbol.id]) rest
  | ids, .erase_symbol name :: rest =>
    insertion_order (ids.filter (fun k => decide (k ≠ name))) rest

/-- Consistency of a table: every entry holds a symbol whose id is its key,
and `ordered_symbols` lists exactly the keys of the entries, each once. -/
def contextt.consistent {α : Type} (ctx : contextt α) : Prop :=
  (∀ k s, ctx.symbols k = some s → s.id = k) ∧
  ctx.ordered_symbols.Nodup ∧
  ∀ k, k ∈ ctx.ordered_symbols ↔ (ctx.symbols k).isSome = true

/-! ## The interleaving loop of `bmct::run` -/

/-- The enumeration `smt_convt::resultt`, by the enumerators that `bmc.cpp`
names. -/
inductive resultt where
  | P_UNSATISFIABLE | P_SATISFIABLE | P_ERROR | P_SMTLIB
  deriving DecidableEq, Repr

/-- The options that `bmct::run` reads to steer the loop. -/
structure bmc_options where
  schedule : Bool
  all_runs : Bool
  interactive_ileaves : Bool

/-- What a call of `bmct::run` comes to: the result it returns and, in order,
what `run_thread` returned for each interleaving it explored. -/
structure run_outcome where
  result : resultt
  explored : List resultt

/-- The `do ... while(symex->setup_next_formula())` loop of `bmct::run`: `res`
is what `run_thread` returns for the current interleaving, `rest` what it
returns for the interleavings that `setup_next_formula` still offers, and
`interleaving_failed` the counter, a member declared in `bmc.h` and taken as a
natural number.  `value` gives the integer values of the enumerators, which the
test `if(res)` reads; they are declared in the `smt_conv.h` that `bmc.cpp` is
compiled with. -/
def bmct.run_loop (value : resultt → Nat) (options : bmc_options) :
    Nat → resultt → List resultt → run_outcome
  | interleaving_failed, res, rest =>
    let interleaving_failed1 :=
      if value res ≠ 0 ∧ res = .P_SATISFIABLE then interleaving_failed + 1
      else interleaving_failed
    if value res ≠ 0 ∧ options.all_runs = false then ⟨res, [res]⟩
    else if options.interactive_ileaves then ⟨res, [res]⟩
    else
      match rest with
      | [] => ⟨if interleaving_failed1 > 0 then .P_SATISFIABLE else res, [res]⟩
      | next :: rest1 =>
        let out := bmct.run_loop value options interleaving_failed1 next rest1
        ⟨out.result, res :: out.explored⟩
termination_by structural _ _ rest => rest

/-- `bmct::run`: with `schedule` the single `run_thread` result, otherwise the
loop over the interleavings; `interleaving_failed` is the value of the member
when `run` is entered (the constructor sets it to 0). -/
def bmct.run (value : resultt → Nat) (options : bmc_options) (interleaving_failed : Nat)
    (res : resultt) (rest : List resultt) : run_outcome :=
  if options.schedule then ⟨res, [res]⟩
  else bmct.run_loop value options interleaving_failed res rest

/-! ## Splitting a string by shell rules (`util/cmdline.cpp`) -/

/-- The test `strchr(WHITE, c)` for a character `c` of the string, `WHITE`
being `" \t\r\n\f\v"`: space, tab, CR, LF, form feed, vertical tab. -/
def is_white (c : Char) : Bool :=
  decide (c.toNat = 32) || decide (c.toNat = 9) || decide (c.toNat = 13) ||
    decide (c.toNat = 10) || decide (c.toNat = 12) || decide (c.toNat = 11)

/-- The enumeration of parser modes in `simple_shell_unescape`; `NONE` is 0. -/
inductive shell_mode where
  | NONE | DQUOT | SQUOT | ESC
  deriving DecidableEq, Repr

/-- How the inner loop `while(*s)` of `simple_shell_unescape` ends: at the
label `done` (or at the end of the string) with the mode, the argument read
and the rest of the string, or in the `abort()` of the case `ESC`. -/
inductive scan_result where
  | done (mode : shell_mode) (arg : List Char) (s : List Char)
  | abort
  deriving DecidableEq, Repr

/-- The inner loop `while(*s) { switch(mode) ... arg.push_back(*s++); }` of
`simple_shell_unescape`, on the characters of the string before its
terminating NUL; `c` is `*s` and `d` is `s[1]`.  The characters 39, 34 and 92
are the single quote, the double quote and the backslash. -/
def scan_arg : shell_mode → List Char → List Char → scan_result
  | mode, arg, [] => .done mode arg []
  | .NONE, arg, [c] =>
    if is_white c then .done .NONE arg [c]
    else if c.toNat = 39 then scan_arg .SQUOT arg []
    else if c.toNat = 34 then scan_arg .DQUOT arg []
    else if c.toNat = 92 then .done .ESC arg []
    else scan_arg .NONE (arg ++ [c]) []
  | .NONE, arg, c :: d :: s =>
    if is_white c then .done .NONE arg (c :: d :: s)
    else if c.toNat = 39 then scan_arg .SQUOT arg (d :: s)
    else if c.toNat = 34 then scan_arg .DQUOT arg (d :: s)
    else if c.toNat = 92 then scan_arg .NONE (arg ++ [d]) s
    else scan_arg .NONE (arg ++ [c]) (d :: s)
  | .SQUOT, arg, c :: s =>
    if c.toNat = 39 then scan_arg .NONE arg s
    else scan_arg .SQUOT (arg ++ [c]) s
  | .DQUOT, arg, [c] =>
    if c.toNat = 34 then scan_arg .NONE arg []
    else if c.toNat = 92 then .done .ESC arg [c]
    else scan_arg .DQUOT (arg ++ [c]) []
  | .DQUOT, arg, c :: d :: s =>
    if c.toNat = 34 then scan_arg .NONE arg (d :: s)
    else if c.toNat = 92 then
      if d.toNat = 92 ∨ d.toNat = 34 then scan_arg .DQUOT (arg ++ [d]) s
      else scan_arg .DQUOT (arg ++ [c]) (d :: s)
    else scan_arg .DQUOT (arg ++ [c]) (d :: s)
  | .ESC, _, _ :: _ => .abort

/-- The loop `while(*s && strchr(WHITE, *s)) s++;`. -/
def skip_white : List Char → List Char
  | [] => []
  | c :: s => if is_white c then skip_white s else c :: s

/-- What a call of `simple_shell_unescape` ends with: the vector returned, the
`abort()` of the inner loop, or, for the model only, an outer loop that was
given too few rounds. -/
inductive unescape_result where
  | returned (split : List String)
  | aborted
  | out_of_rounds
  deriving DecidableEq, Repr

/-- The outer loop `while(*s)` of `simple_shell_unescape`, run for at most
`rounds` rounds, with `split` the arguments collected so far. -/
def unescape_loop : Nat → List Char → List String → unescape_result
  | 0, _, _ => .out_of_rounds
  | rounds + 1, s, split =>
    match skip_white s with
    | [] => .returned split
    | c :: s1 =>
      match scan_arg .NONE [] (c :: s1) with
      | .abort => .aborted
      | .done mode arg s2 =>
        if mode ≠ .NONE then .returned []
        else unescape_loop rounds s2 (split ++ [String.mk arg])

/-- `simple_shell_unescape(s, msg, var)`: `none` is the null pointer; every
round of the outer loop that does not end it reads at least one character, so
one round more than the string has characters is enough. -/
def simple_shell_unescape (s : Option String) : unescape_result :=
  match s with
  | none => .returned []
  | some str => unescape_loop (str.data.length + 1) str.data []

/-- The maximal runs of characters that are not white-space, in order, with
`cur` the run that is being read. -/
def maximal_runs_from : List Char → List Char → List String
  | cur, [] => if cur = [] then [] else [String.mk cur]
  | cur, c :: s =>
    if is_white c then
      if cur = [] then maximal_runs_from [] s else String.mk cur :: maximal_runs_from [] s
    else maximal_runs_from (cur ++ [c]) s

/-- The maximal runs of non-white-space characters of a string. -/
def maximal_runs (s : String) : List String := maximal_runs_from [] s.data

/-! ## Pointer offsets (`util/pointer_offset_size.cpp`) -/

mutual
/-- `pointer_offset_size(const typet &type)`. -/
def typet.pointer_offset_size : typet → Int
  | .array_typet subtype size =>
    match size with
    | none => 1
    | some i => typet.pointer_offset_size subtype * i
  | .struct_typet components => componentst.pointer_offset_size components 1
  | .union_typet components => componentst.pointer_offset_size components 1
  | _ => 1
termination_by structural x => x
/-- The loop `forall_irep(it, components) result += pointer_offset_size(it->type());`. -/
def componentst.pointer_offset_size : componentst → Int → Int
  | .nil, result => result
  | .cons _ _ type rest, result =>
    componentst.pointer_offset_size rest (result + typet.pointer_offset_size type)
termination_by structural x => x
end

/-- The attribute `width` of a type as `binary2integer(type.get("width"), 2)`
reads it for a bit-field: the width of a bit-vector type, 0 where the
attribute is missing. -/
def typet.width (type : typet) : Nat :=
  match type with
  | .unsignedbv_typet width => width
  | .signedbv_typet width => width
  | _ => 0

/-- The loop of `member_offset(const struct_typet &type, const irep_idt
&member)` over the components, with the running `result` and
`bit_field_bits` (an `unsigned`). -/
def componentst.member_offset (member : String) : componentst → Int → Nat → Int
  | .nil, result, _ => result
  | .cons name is_bit_field type rest, result, bit_field_bits =>
    if name = member then result
    else if is_bit_field then
      componentst.member_offset member rest result
        ((bit_field_bits + type.width) % 4294967296)
    else
      let result1 := if bit_field_bits ≠ 0 then result + (bit_field_bits / 8 : Nat) else result
      let sub_size := typet.pointer_offset_size type
      if sub_size = -1 then -1
      else componentst.member_offset member rest (result1 + sub_size) 0

/-- `member_offset(const struct_typet &type, const irep_idt &member)`, on the
components of the struct. -/
def struct_typet.member_offset (components : componentst) (member : String) : Int :=
  componentst.member_offset member components 0 0

mutual
/-- `pointer_offset_size(const type2t &type)`; `none` when a nil `array_size`
is dereferenced. -/
def type2t.pointer_offset_size : type2t → Option Int
  | .mk b => type_body.pointer_offset_size b
termination_by structural x => x
/-- The body of `pointer_offset_size(const type2t &type)` by the class of the
type. -/
def type_body.pointer_offset_size : type_body → Option Int
  | .array_type2t subtype array_size _ =>
    match type2t.pointer_offset_size subtype with
    | none => none
    | some sub =>
      match array_size with
      | none => none
      | some size =>
        if size.expr_id ≠ .constant_int_id then some 1
        else
          match size with
          | .mk _ (.constant_int2t constant_value) => some (sub * constant_value)
          | _ => none
  | .struct_type2t members _ _ => type_vec_pointer_offset_size members 1
  | .union_type2t members _ _ => type_vec_pointer_offset_size members 1
  | _ => some 1
termination_by structural x => x
/-- The loop `forall_types(it, members) result += pointer_offset_size(**it);`. -/
def type_vec_pointer_offset_size : List type2t → Int → Option Int
  | [], result => some result
  | m :: rest, result =>
    match type2t.pointer_offset_size m with
    | none => none
    | some sub_size => type_vec_pointer_offset_size rest (result + sub_size)
termination_by structural x => x
end

/-- The loop of `member_offset(const struct_type2t &type, const irep_idt
&member)` over `type.members`: each round tests `type.member_names[idx]`,
and `idx` stays 0, it is not advanced anywhere in the loop; `none` when
`member_names` is empty (the index is out of range) or a size is undefined. -/
def struct_type2t.member_offset_loop (member_names : List String) (member : String) :
    List type2t → Int → Option Int
  | [], result => some result
  | m :: rest, result =>
    match member_names with
    | [] => none
    | name0 :: _ =>
      if name0 = member then some result
      else
        match type2t.pointer_offset_size m with
        | none => none
        | some sub_size =>
          if sub_size = -1 then some (-1)
          else struct_type2t.member_offset_loop member_names member rest (result + sub_size)

/-- `member_offset(const struct_type2t &type, const irep_idt &member)`, on the
fields `members` and `member_names` of the struct type. -/
def struct_type2t.member_offset (members : List type2t) (member_names : List String)
    (member : String) : Option Int :=
  struct_type2t.member_offset_loop member_names member members 0

/-- `compute_pointer_offset(ns, expr)` on a non-nil handle; `uint_type2` is
the type `uint_type2()` of `c_types`; `none` is an `abort()`, a nil handle
that is dereferenced, or a cast to a class the object does not have.  The
source operand that the function reads as `index.source_value` is the field
`source_data` of `index2t`, and the name it reads as `memb.member` is the
value of the field `member` of `member2t`. -/
def compute_pointer_offset (uint_type2 : type2t) (expr : expr2t) : Option expr2t :=
  if expr.expr_id = .symbol_id then some (expr2t.constant_int2t uint_type2 0)
  else if expr.expr_id = .index_id then
    match expr with
    | .mk _ (.index2t source_value index) =>
      match source_value with
      | none => none
      | some source =>
        let sub_size : Option Int :=
          match source.type with
          | .mk (.array_type2t subtype _ _) => type2t.pointer_offset_size subtype
          | .mk (.string_type2t _) => some 8
          | _ => none
        match sub_size with
        | none => none
        | some sub_size =>
          match index with
          | none => none
          | some i =>
            if i.expr_id = .constant_int_id then
              match i with
              | .mk _ (.constant_int2t constant_value) =>
                some (expr2t.constant_int2t uint_type2 (sub_size * constant_value))
              | _ => none
            else
              some (.mk uint_type2
                (.arith_2op2t .mul2t (some (expr2t.constant_int2t uint_type2 sub_size)) index))
    | _ => none
  else if expr.expr_id = .member_id then
    match expr with
    | .mk type (.member2t _ _ member) =>
      match type with
      | .mk (.struct_type2t members member_names _) =>
        (struct_type2t.member_offset members member_names member).map
          (fun result => expr2t.constant_int2t uint_type2 result)
      | _ => some (expr2t.constant_int2t uint_type2 0)
    | _ => none
  else none

mutual
/-- Modelled from the spec: which new-IR type stands for an old-IR type (what
the migration of `migrate.cpp` yields): bit-vector types with the same width,
arrays with corresponding element types and the same constant size, or a size
that is no integer constant on both sides, or no size (an infinite array) in
the new type where the old size is no integer; structs and unions with
corresponding components under the same names; any other type with a type
that is no array, struct or union. -/
def typet.corresponds : typet → type2t → Prop
  | .unsignedbv_typet width, t2 => t2 = .mk (.unsignedbv_type2t width)
  | .signedbv_typet width, t2 => t2 = .mk (.signedbv_type2t width)
  | .array_typet subtype size, t2 =>
    match t2 with
    | .mk (.array_type2t subtype2 array_size size_is_infinite) =>
      typet.corresponds subtype subtype2 ∧
        (match size, array_size with
          | some i, some s =>
            size_is_infinite = false ∧ ∃ ty, s = expr2t.constant_int2t ty i
          | none, some s => size_is_infinite = false ∧ s.expr_id ≠ .constant_int_id
          | none, none => size_is_infinite = true
          | some _, none => False)
    | _ => False
  | .struct_typet components, t2 =>
    match t2 with
    | .mk (.struct_type2t members member_names _) =>
      componentst.correspond components members member_names
    | _ => False
  | .union_typet components, t2 =>
    match t2 with
    | .mk (.union_type2t members member_names _) =>
      componentst.correspond components members member_names
    | _ => False
  | .other_typet _, t2 =>
    t2.type_id ≠ .array_id ∧ t2.type_id ≠ .struct_id ∧ t2.type_id ≠ .union_id
termination_by structural x => x
/-- Components that correspond, one by one and in order, to the members and
member names of a new-IR struct or union; none of them a bit-field. -/
def componentst.correspond : componentst → List type2t → List String → Prop
  | .nil, members, member_names => members = [] ∧ member_names = []
  | .cons name is_bit_field type rest, members, member_names =>
    match members, member_names with
    | m :: ms, n :: ns =>
      is_bit_field = false ∧ n = name ∧ typet.corresponds type m ∧
        componentst.correspond rest ms ns
    | _, _ => False
termination_by structural x => x
end

/-- The components of a struct or union as a list, in order. -/
def componentst.toList : componentst → List (String × Bool × typet)
  | .nil => []
  | .cons name is_bit_field type rest => (name, is_bit_field, type) :: componentst.toList rest

set_option maxHeartbeats 4000000
set_option linter.unreachableTactic false
set_option linter.unusedTactic false

/-! ## Pure comparisons are strict total orders -/

theorem IsSTO.asymm {α : Type} {less : α → α → Bool} (h : IsSTO less) (a b : α)
    (hab : less a b = true) : less b a = false := by
  cases hba : less b a with
  | false => rfl
  | true =>
    have := h.trans a b a hab hba
    rw [h.irrefl] at this
    exact absurd this (by simp)

theorem nat_lt_sto : IsSTO nat_lt where
  irrefl a := by simp [nat_lt]
  trans a b c := by simp only [nat_lt, decide_eq_true_eq]; omega
  conn a b := by simp only [nat_lt, decide_eq_false_iff_not]; omega

theorem bool_lt_sto : IsSTO bool_lt where
  irrefl a := by cases a <;> rfl
  trans a b c := by cases a <;> cases b <;> cases c <;> simp [bool_lt]
  conn a b := by cases a <;> cases b <;> simp [bool_lt]

theorem char_lt_sto : IsSTO (fun x y : Char => decide (x.toNat < y.toNat)) where
  irrefl a := by simp
  trans a b c := by simp only [decide_eq_true_eq]; omega
  conn a b := by
    simp only [decide_eq_false_iff_not]
    intro h1 h2
    have h : a.toNat = b.toNat := by omega
    apply Char.ext
    apply UInt32.ext
    simpa [Char.toNat] using h

theorem lexicographical_compare_sto {α : Type} {less : α → α → Bool} (h : IsSTO less) :
    IsSTO (lexicographical_compare less) where
  irrefl a := by
    induction a with
    | nil => rfl
    | cons x xs ih => simp [lexicographical_compare, h.irrefl, ih]
  trans a := by
    induction a with
    | nil =>
      intro b c hab hbc
      cases b with
      | nil => simp [lexicographical_compare] at hab
      | cons y ys =>
        cases c with
        | nil => simp [lexicographical_compare] at hbc
        | cons z zs => rfl
    | cons x xs ih =>
      intro b c hab hbc
      cases b with
      | nil => simp [lexicographical_compare] at hab
      | cons y ys =>
        cases c with
        | nil => simp [lexicographical_compare] at hbc
        | cons z zs =>
          simp only [lexicographical_compare] at hab hbc ⊢
          cases hxy : less x y with
          | true =>
            cases hyz : less y z with
            | true => simp [h.trans x y z hxy hyz]
            | false =>
              simp only [hyz, Bool.false_eq_true, if_false] at hbc
              cases hzy : less z y with
              | true => simp [hzy] at hbc
              | false =>
                have := h.conn y z hyz hzy
                subst this
                simp [hxy]
          | false =>
            simp only [hxy, Bool.false_eq_true, if_false] at hab
            cases hyx : less y x with
            | true => simp [hyx] at hab
            | false =>
              have := h.conn x y hxy hyx
              subst this
              simp only [hyx, Bool.false_eq_true, if_false] at hab
              cases hxz : less x z with
              | true => simp
              | false =>
                simp only [hxz, Bool.false_eq_true, if_false] at hbc ⊢
                cases hzx : less z x with
                | true => simp [hzx] at hbc
                | false =>
                  simp only [hzx, Bool.false_eq_true, if_false] at hbc ⊢
                  exact ih ys zs hab hbc
  conn a := by
    induction a with
    | nil =>
      intro b h1 h2
      cases b with
      | nil => rfl
      | cons y ys => simp [lexicographical_compare] at h1
    | cons x xs ih =>
      intro b h1 h2
      cases b with
      | nil => simp [lexicographical_compare] at h2
      | cons y ys =>
        simp only [lexicographical_compare] at h1 h2
        cases hxy : less x y with
        | true => simp [hxy] at h1
        | false =>
          cases hyx : less y x with
          | true => simp [hyx] at h2
          | false =>
            have := h.conn x y hxy hyx
            subst this
            simp only [hxy, Bool.false_eq_true, if_false] at h1 h2
            rw [ih ys h1 h2]

theorem string_lt_sto : IsSTO string_lt where
  irrefl a := (lexicographical_compare_sto char_lt_sto).irrefl a.data
  trans a b c := (lexicographical_compare_sto char_lt_sto).trans a.data b.data c.data
  conn a b h1 h2 := by
    have := (lexicographical_compare_sto char_lt_sto).conn a.data b.data h1 h2
    exact String.ext this

theorem string_vec_lt_sto : IsSTO string_vec_lt :=
  lexicographical_compare_sto string_lt_sto

theorem int_lt_sto : IsSTO (fun a b : Int => decide (a < b)) where
  irrefl a := by simp
  trans a b c := by simp only [decide_eq_true_eq]; omega
  conn a b := by simp only [decide_eq_false_iff_not]; omega

theorem BigInt_compare_eq (a b : Int) :
    BigInt_compare a b = three_way (fun a b : Int => decide (a < b)) a b := by
  simp [BigInt_compare, three_way]

theorem type_ids_toNat_inj (a b : type_ids) (h : a.toNat = b.toNat) : a = b := by
  cases a <;> cases b <;> first | rfl | (simp [type_ids.toNat] at h)

theorem expr_ids_toNat_inj (a b : expr_ids) (h : a.toNat = b.toNat) : a = b := by
  cases a <;> cases b <;> first | rfl | (simp [expr_ids.toNat] at h)

/-! ## Algebra of three-way results -/

theorem three_way_swap {α : Type} {less : α → α → Bool} (h : IsSTO less) (a b : α) :
    some (three_way less b a) = neg_res (some (three_way less a b)) := by
  simp only [three_way, neg_res, Option.map_some']
  cases hab : less a b with
  | true => simp [h.asymm a b hab]
  | false => cases hba : less b a <;> simp

theorem three_way_eq_zero {α : Type} [DecidableEq α] {less : α → α → Bool} (h : IsSTO less)
    (a b : α) : three_way less a b = 0 ↔ a = b := by
  simp only [three_way]
  constructor
  · intro h0
    cases hab : less a b with
    | true => simp [hab] at h0
    | false =>
      cases hba : less b a with
      | true => simp [hab, hba] at h0
      | false => exact h.conn a b hab hba
  · intro e
    subst e
    simp [h.irrefl]

theorem three_way_nonpos {α : Type} {less : α → α → Bool} (h : IsSTO less)
    (a b : α) : three_way less a b ≤ 0 ↔ less b a = false := by
  simp only [three_way]
  cases hab : less a b with
  | true => simp [h.asymm a b hab]
  | false => cases hba : less b a <;> simp

theorem three_way_neg {α : Type} {less : α → α → Bool}
    (a b : α) : three_way less a b < 0 ↔ less a b = true := by
  simp only [three_way]
  cases hab : less a b with
  | true => simp
  | false => cases hba : less b a <;> simp

theorem EqOk_pure {α : Type} [DecidableEq α] {less : α → α → Bool} (h : IsSTO less) (a b : α) :
    EqOk (some (three_way less a b)) (some (decide (a = b))) := by
  intro r hr
  simp only [Option.some.injEq] at hr
  subst hr
  simp [three_way_eq_zero h]

theorem TransOk_pure {α : Type} [DecidableEq α] {less : α → α → Bool} (h : IsSTO less) (a b c : α) :
    TransOk (some (three_way less a b)) (some (three_way less b c))
      (some (three_way less a c)) := by
  intro r1 r2 h1 h2 n1 n2
  simp only [Option.some.injEq] at h1 h2
  subst h1 h2
  refine ⟨_, rfl, ?_, ?_⟩
  · rw [three_way_nonpos h] at *
    cases hca : less c a with
    | false => rfl
    | true =>
      -- c < a, b ≤ c, a ≤ b
      cases hcb : less b c with
      | true =>
        have := h.trans b c a hcb hca
        rw [n1] at this; exact absurd this (by simp)
      | false =>
        have e := h.conn b c hcb n2
        subst e
        rw [n1] at hca; exact absurd hca (by simp)
  · rw [three_way_eq_zero h, three_way_eq_zero h, three_way_eq_zero h]
    constructor
    · intro e
      subst e
      rw [three_way_nonpos h] at n1 n2
      have := h.conn a b n2 n1
      exact ⟨this, this.symm⟩
    · rintro ⟨e1, e2⟩
      exact e1.trans e2

theorem neg_res_neg_res (x : Option Int) : neg_res (neg_res x) = x := by
  cases x <;> simp [neg_res]

theorem lt_then_swap {x x' y y' : Option Int} (hx : x' = neg_res x)
    (hy : x = some 0 → y' = neg_res y) : lt_then x' y' = neg_res (lt_then x y) := by
  subst hx
  cases x with
  | none => rfl
  | some t =>
    by_cases ht : t = 0
    · subst ht
      simp [lt_then, neg_res, hy rfl]
    · simp [lt_then, neg_res, ht]

theorem EqOk_lt_then {x y : Option Int} {e f : Option Bool} (hx : EqOk x e)
    (hy : x = some 0 → EqOk y f) : EqOk (lt_then x y) (cmp_then e f) := by
  intro r hr
  cases x with
  | none => simp [lt_then] at hr
  | some t =>
    rw [hx t rfl]
    by_cases ht : t = 0
    · subst ht
      simp only [lt_then, ne_eq, not_true_eq_false, if_false] at hr
      simp [cmp_then, hy rfl r hr]
    · simp only [lt_then, ne_eq, ht, not_false_eq_true, if_true, Option.some.injEq] at hr
      subst hr
      simp [cmp_then, ht]

theorem EqOk_none (e : Option Bool) : EqOk none e := by
  intro r hr; cases hr

theorem EqOk_and_true {x : Option Int} {e : Option Bool} (hx : EqOk x e) :
    EqOk x (cmp_then e (some true)) := by
  intro r hr
  rw [hx r hr]
  by_cases h : r = 0 <;> simp [cmp_then, h]

theorem EqOk_sign {x : Option Int} {e : Option Bool} (hx : EqOk x e) :
    EqOk (sign_res x) e := by
  intro r hr
  cases x with
  | none => simp [sign_res] at hr
  | some t =>
    simp only [sign_res, Option.map_some', Option.some.injEq] at hr
    subst hr
    rw [hx t rfl]
    simp [Int.sign_eq_zero_iff_zero]

theorem TransOk_none_left (y z : Option Int) : TransOk none y z := by
  intro r1 r2 h1; cases h1

theorem TransOk_none_mid (x z : Option Int) : TransOk x none z := by
  intro r1 r2 h1 h2; cases h2

theorem TransOk_lt_then {x y z x' y' z' : Option Int} (h : TransOk x y z)
    (h' : x = some 0 → y = some 0 → TransOk x' y' z') :
    TransOk (lt_then x x') (lt_then y y') (lt_then z z') := by
  intro r1 r2 h1 h2 n1 n2
  cases x with
  | none => simp [lt_then] at h1
  | some s1 =>
    cases y with
    | none => simp [lt_then] at h2
    | some s2 =>
      by_cases hs1 : s1 = 0
      · subst hs1
        simp only [lt_then, ne_eq, not_true_eq_false, if_false] at h1
        by_cases hs2 : s2 = 0
        · subst hs2
          simp only [lt_then, ne_eq, not_true_eq_false, if_false] at h2
          obtain ⟨s3, hz, _, hz0⟩ := h 0 0 rfl rfl (le_refl 0) (le_refl 0)
          have : s3 = 0 := hz0.mpr ⟨rfl, rfl⟩
          subst this
          subst hz
          simp only [lt_then, ne_eq, not_true_eq_false, if_false]
          exact h' rfl rfl r1 r2 h1 h2 n1 n2
        · simp only [lt_then, ne_eq, hs2, not_false_eq_true, if_true,
            Option.some.injEq] at h2
          subst h2
          obtain ⟨s3, hz, hn, hz0⟩ := h 0 s2 rfl rfl (le_refl 0) n2
          have h3 : s3 ≠ 0 := fun e => hs2 (hz0.mp e).2
          subst hz
          refine ⟨s3, by simp [lt_then, h3], hn, ?_⟩
          constructor
          · intro e; exact absurd e h3
          · rintro ⟨_, e⟩; exact absurd e hs2
      · simp only [lt_then, ne_eq, hs1, not_false_eq_true, if_true,
          Option.some.injEq] at h1
        subst h1
        have hs2 : s2 ≤ 0 := by
          by_cases e : s2 = 0
          · omega
          · simp only [lt_then, ne_eq, e, not_false_eq_true, if_true,
              Option.some.injEq] at h2
            omega
        obtain ⟨s3, hz, hn, hz0⟩ := h s1 s2 rfl rfl n1 hs2
        have h3 : s3 ≠ 0 := fun e => hs1 (hz0.mp e).1
        subst hz
        refine ⟨s3, by simp [lt_then, h3], hn, ?_⟩
        constructor
        · intro e; exact absurd e h3
        · rintro ⟨e, _⟩; exact absurd e hs1

theorem TransOk_sign {x y z : Option Int} (h : TransOk x y z) :
    TransOk (sign_res x) (sign_res y) (sign_res z) := by
  intro r1 r2 h1 h2 n1 n2
  cases x with
  | none => simp [sign_res] at h1
  | some s1 =>
    cases y with
    | none => simp [sign_res] at h2
    | some s2 =>
      simp only [sign_res, Option.map_some', Option.some.injEq] at h1 h2
      subst h1 h2
      have a1 : s1 ≤ 0 := by
        rcases lt_trichotomy s1 0 with h | h | h
        · omega
        · omega
        · rw [Int.sign_eq_one_of_pos h] at n1; omega
      have a2 : s2 ≤ 0 := by
        rcases lt_trichotomy s2 0 with h | h | h
        · omega
        · omega
        · rw [Int.sign_eq_one_of_pos h] at n2; omega
      obtain ⟨s3, hz, hn, hz0⟩ := h s1 s2 rfl rfl a1 a2
      subst hz
      refine ⟨Int.sign s3, rfl, ?_, ?_⟩
      · rcases lt_trichotomy s3 0 with h | h | h
        · rw [Int.sign_eq_neg_one_of_neg h]; omega
        · subst h; simp
        · omega
      · simp only [Int.sign_eq_zero_iff_zero]
        exact hz0

/-- `operator<` is the sign test of `ltchecked`. -/
theorem less_of_lt_eq (tmp k : Option Int) : less_of_lt tmp k = is_neg (lt_then tmp k) := by
  cases tmp with
  | none => rfl
  | some t =>
    simp only [less_of_lt, lt_then, is_neg]
    by_cases h1 : t < 0
    · have : t ≠ 0 := by omega
      simp [h1, this]
    · by_cases h2 : t > 0
      · have : t ≠ 0 := by omega
        simp [h1, h2, this]
      · have : t = 0 := by omega
        subst this
        simp

/-- The idiom `if (a < b) return -1; else if (b < a) return 1; else return 0`
on two values whose three-way results are opposite. -/
theorem lt_of_less_is_neg (x : Option Int) :
    lt_of_less (is_neg x) (is_neg (neg_res x)) = sign_res x := by
  cases x with
  | none => rfl
  | some t =>
    simp only [is_neg, neg_res, sign_res, Option.map_some', lt_of_less]
    rcases lt_trichotomy t 0 with h | h | h
    · simp [h, Int.sign_eq_neg_one_of_neg h]
    · subst h; simp
    · have h1 : ¬ t < 0 := by omega
      simp [h1, h, Int.sign_eq_one_of_pos h]

theorem sign_res_neg_res (x : Option Int) : sign_res (neg_res x) = neg_res (sign_res x) := by
  cases x with
  | none => rfl
  | some t => simp [sign_res, neg_res, Int.sign_neg]

theorem type2t_operator_lt_eq (a b : type2t) :
    type2t.operator_lt a b = is_neg (type2t.ltchecked a b) := by
  cases a; cases b
  simp only [type2t.operator_lt, type2t.ltchecked, less_of_lt_eq]

theorem expr2t_operator_lt_eq (a b : expr2t) :
    expr2t.operator_lt a b = is_neg (expr2t.ltchecked a b) := by
  cases a; cases b
  simp only [expr2t.operator_lt, expr2t.ltchecked, less_of_lt_eq]

theorem expr2tc_less_eq (a b : Option expr2t) :
    expr2tc_less a b = is_neg (expr2tc_ltchecked a b) := by
  cases a <;> cases b <;>
    simp [expr2tc_less, expr2tc_ltchecked, expr2t_operator_lt_eq, is_neg]

theorem vec_less_step (x y : Option Int) (hy : y = neg_res x) (r r' : Option Int)
    (k : Option Bool) (hk : k = is_neg r') (hr : r = lt_then x r') :
    (match is_neg x with
      | none => none
      | some true => some true
      | some false =>
        match is_neg y with
        | none => none
        | some true => some false
        | some false => k) = is_neg r := by
  subst hy hk hr
  cases x with
  | none => rfl
  | some t =>
    simp only [is_neg, neg_res, Option.map_some', lt_then]
    rcases lt_trichotomy t 0 with h | h | h
    · have : t ≠ 0 := by omega
      simp [h, this]
    · subst h; simp
    · have h1 : ¬ t < 0 := by omega
      have h2 : t ≠ 0 := by omega
      simp [h1, h, h2]


/-- The idiom `if (a < b) return -1; else if (b < a) return 1; else return 0;`
computes the sign of the three-way comparison when the two tests are its sign
tests in the two directions. -/
theorem vec_row (l1 l2 : Option Bool) (v w : Option Int) (h1 : l1 = is_neg v)
    (h2 : l2 = is_neg w) (hw : w = neg_res v) : lt_of_less l1 l2 = sign_res v := by
  subst h1 h2 hw
  exact lt_of_less_is_neg v

/-- The virtual `lt` of a class is undefined on an object of another class. -/
theorem expr_body_lt_none (a b : expr_body) (h : a.class_index ≠ b.class_index) :
    expr_body.lt a b = none := by
  cases a <;> cases b <;> first | exact absurd rfl h | simp only [expr_body.lt]

/-- The `lt` of a type class is undefined on an object of another class. -/
theorem type_body_lt_none (a b : type_body) (h : a.type_id ≠ b.type_id) :
    type_body.lt a b = none := by
  cases a <;> cases b <;> first | exact absurd rfl h | simp only [type_body.lt]

set_option maxHeartbeats 40000000 in
mutual
theorem type2t_ltchecked_swap : ∀ (a b : type2t),
    type2t.ltchecked b a = neg_res (type2t.ltchecked a b)
  | .mk b1, .mk b2 => by
    simp only [type2t.ltchecked]
    exact lt_then_swap (three_way_swap nat_lt_sto _ _) (fun _ => type_body_lt_swap b1 b2)
termination_by a b => sizeOf a + sizeOf b
theorem type_body_lt_swap (a b : type_body) :
    type_body.lt b a = neg_res (type_body.lt a b) := by
  by_cases h : a.type_id = b.type_id
  · cases a with
    | bool_type2t =>
      cases b with
      | bool_type2t =>
        simp only [type_body.lt]
        rfl
      | _ => exact type_ids.noConfusion h
    | empty_type2t =>
      cases b with
      | empty_type2t =>
        simp only [type_body.lt]
        rfl
      | _ => exact type_ids.noConfusion h
    | symbol_type2t n1 =>
      cases b with
      | symbol_type2t n2 =>
        simp only [type_body.lt]
        repeat' first
          | rfl
          | apply lt_then_swap
          | intro _
          | exact three_way_swap nat_lt_sto _ _
          | exact three_way_swap bool_lt_sto _ _
          | exact three_way_swap string_lt_sto _ _
          | exact three_way_swap string_vec_lt_sto _ _
          | exact type2t_ltchecked_swap _ _
          | exact expr2tc_ltchecked_swap _ _
      | _ => exact type_ids.noConfusion h
    | struct_type2t ms1 ns1 n1 =>
      cases b with
      | struct_type2t ms2 ns2 n2 =>
        simp only [type_body.lt]
        rw [vec_row _ _ _ _ (type_vec_less_eq ms1 ms2) (type_vec_less_eq ms2 ms1)
            (type_vec3_swap ms1 ms2),
          vec_row _ _ _ _ (type_vec_less_eq ms2 ms1) (type_vec_less_eq ms1 ms2)
            (by rw [type_vec3_swap ms1 ms2, neg_res_neg_res]),
          type_vec3_swap ms1 ms2, sign_res_neg_res]
        repeat' first
          | rfl
          | apply lt_then_swap
          | intro _
          | exact three_way_swap nat_lt_sto _ _
          | exact three_way_swap bool_lt_sto _ _
          | exact three_way_swap string_lt_sto _ _
          | exact three_way_swap string_vec_lt_sto _ _
          | exact type2t_ltchecked_swap _ _
          | exact expr2tc_ltchecked_swap _ _
      | _ => exact type_ids.noConfusion h
    | union_type2t ms1 ns1 n1 =>
      cases b with
      | union_type2t ms2 ns2 n2 =>
        simp only [type_body.lt]
        rw [vec_row _ _ _ _ (type_vec_less_eq ms1 ms2) (type_vec_less_eq ms2 ms1)
            (type_vec3_swap ms1 ms2),
          vec_row _ _ _ _ (type_vec_less_eq ms2 ms1) (type_vec_less_eq ms1 ms2)
            (by rw [type_vec3_swap ms1 ms2, neg_res_neg_res]),
          type_vec3_swap ms1 ms2, sign_res_neg_res]
        repeat' first
          | rfl
          | apply lt_then_swap
          | intro _
          | exact three_way_swap nat_lt_sto _ _
          | exact three_way_swap bool_lt_sto _ _
          | exact three_way_swap string_lt_sto _ _
          | exact three_way_swap string_vec_lt_sto _ _
          | exact type2t_ltchecked_swap _ _
          | exact expr2tc_ltchecked_swap _ _
      | _ => exact type_ids.noConfusion h
    | code_type2t =>
      cases b with
      | code_type2t =>
        simp only [type_body.lt]
        rfl
      | _ => exact type_ids.noConfusion h
    | array_type2t s1 z1 i1 =>
      cases b with
      | array_type2t s2 z2 i2 =>
        simp only [type_body.lt]
        apply lt_then_swap (type2t_ltchecked_swap s1 s2)
        intro _
        apply lt_then_swap (three_way_swap bool_lt_sto _ _)
        intro h0
        have e : i1 = i2 := by
          simp only [Option.some.injEq] at h0
          exact (three_way_eq_zero bool_lt_sto i1 i2).mp h0
        subst e
        cases i1 with
        | true => rfl
        | false => exact expr2tc_ltchecked_swap z1 z2
      | _ => exact type_ids.noConfusion h
    | pointer_type2t s1 =>
      cases b with
      | pointer_type2t s2 =>
        simp only [type_body.lt]
        repeat' first
          | rfl
          | apply lt_then_swap
          | intro _
          | exact three_way_swap nat_lt_sto _ _
          | exact three_way_swap bool_lt_sto _ _
          | exact three_way_swap string_lt_sto _ _
          | exact three_way_swap string_vec_lt_sto _ _
          | exact type2t_ltchecked_swap _ _
          | exact expr2tc_ltchecked_swap _ _
      | _ => exact type_ids.noConfusion h
    | unsignedbv_type2t w1 =>
      cases b with
      | unsignedbv_type2t w2 =>
        simp only [type_body.lt]
        repeat' first
          | rfl
          | apply lt_then_swap
          | intro _
          | exact three_way_swap nat_lt_sto _ _
          | exact three_way_swap bool_lt_sto _ _
          | exact three_way_swap string_lt_sto _ _
          | exact three_way_swap string_vec_lt_sto _ _
          | exact type2t_ltchecked_swap _ _
          | exact expr2tc_ltchecked_swap _ _
      | _ => exact type_ids.noConfusion h
    | signedbv_type2t w1 =>
      cases b with
      | signedbv_type2t w2 =>
        simp only [type_body.lt]
        repeat' first
          | rfl
          | apply lt_then_swap
          | intro _
          | exact three_way_swap nat_lt_sto _ _
          | exact three_way_swap bool_lt_sto _ _
          | exact three_way_swap string_lt_sto _ _
          | exact three_way_swap string_vec_lt_sto _ _
          | exact type2t_ltchecked_swap _ _
          | exact expr2tc_ltchecked_swap _ _
      | _ => exact type_ids.noConfusion h
    | fixedbv_type2t w1 ib1 =>
      cases b with
      | fixedbv_type2t w2 ib2 =>
        simp only [type_body.lt]
        repeat' first
          | rfl
          | apply lt_then_swap
          | intro _
          | exact three_way_swap nat_lt_sto _ _
          | exact three_way_swap bool_lt_sto _ _
          | exact three_way_swap string_lt_sto _ _
          | exact three_way_swap string_vec_lt_sto _ _
          | exact type2t_ltchecked_swap _ _
          | exact expr2tc_ltchecked_swap _ _
      | _ => exact type_ids.noConfusion h
    | string_type2t e1 =>
      cases b with
      | string_type2t e2 =>
        simp only [type_body.lt]
        repeat' first
          | rfl
          | apply lt_then_swap
          | intro _
          | exact three_way_swap nat_lt_sto _ _
          | exact three_way_swap bool_lt_sto _ _
          | exact three_way_swap string_lt_sto _ _
          | exact three_way_swap string_vec_lt_sto _ _
          | exact type2t_ltchecked_swap _ _
          | exact expr2tc_ltchecked_swap _ _
      | _ => exact type_ids.noConfusion h
  · rw [type_body_lt_none a b h, type_body_lt_none b a (Ne.symm h)]
    rfl
termination_by sizeOf a + sizeOf b
theorem type_vec_less_eq : ∀ (as bs : List type2t),
    type_vec_less as bs = is_neg (type_vec3 as bs)
  | [], [] => by simp [type_vec_less, type_vec3, is_neg]
  | [], _ :: _ => by simp [type_vec_less, type_vec3, is_neg]
  | _ :: _, [] => by simp [type_vec_less, type_vec3, is_neg]
  | a :: as, b :: bs => by
    rw [type_vec_less, type2t_operator_lt_eq, type2t_operator_lt_eq]
    exact vec_less_step _ _ (type2t_ltchecked_swap a b) _ _ _ (type_vec_less_eq as bs) rfl
termination_by a b => sizeOf a + sizeOf b
theorem type_vec3_swap : ∀ (as bs : List type2t),
    type_vec3 bs as = neg_res (type_vec3 as bs)
  | [], [] => by simp [type_vec3, neg_res]
  | [], _ :: _ => by simp [type_vec3, neg_res]
  | _ :: _, [] => by simp [type_vec3, neg_res]
  | a :: as, b :: bs => by
    simp only [type_vec3]
    exact lt_then_swap (type2t_ltchecked_swap a b) (fun _ => type_vec3_swap as bs)
termination_by a b => sizeOf a + sizeOf b
theorem expr2t_ltchecked_swap : ∀ (a b : expr2t),
    expr2t.ltchecked b a = neg_res (expr2t.ltchecked a b)
  | .mk t1 b1, .mk t2 b2 => by
    simp only [expr2t.ltchecked]
    exact lt_then_swap
      (lt_then_swap (three_way_swap nat_lt_sto _ _) (fun _ => type2t_ltchecked_swap t1 t2))
      (fun _ => expr_body_lt_swap b1 b2)
termination_by a b => sizeOf a + sizeOf b
theorem expr_body_lt_swap (a b : expr_body) :
    expr_body.lt b a = neg_res (expr_body.lt a b) := by
  by_cases h : a.class_index = b.class_index
  · cases a with
    | constant_int2t v1 =>
      cases b with
      | constant_int2t v2 =>
        simp only [expr_body.lt]
        rw [BigInt_compare_eq, BigInt_compare_eq]
        exact three_way_swap int_lt_sto _ _
      | _ => exact absurd h (Nat.ne_of_beq_eq_false rfl)
    | constant_bool2t v1 =>
      cases b with
      | constant_bool2t v2 =>
        simp only [expr_body.lt]
        repeat' first
          | rfl
          | apply lt_then_swap
          | intro _
          | exact three_way_swap nat_lt_sto _ _
          | exact three_way_swap bool_lt_sto _ _
          | exact three_way_swap string_lt_sto _ _
          | exact three_way_swap string_vec_lt_sto _ _
          | exact type2t_ltchecked_swap _ _
          | exact expr2tc_ltchecked_swap _ _
      | _ => exact absurd h (Nat.ne_of_beq_eq_false rfl)
    | constant_string2t v1 =>
      cases b with
      | constant_string2t v2 =>
        simp only [expr_body.lt]
        repeat' first
          | rfl
          | apply lt_then_swap
          | intro _
          | exact three_way_swap nat_lt_sto _ _
          | exact three_way_swap bool_lt_sto _ _
          | exact three_way_swap string_lt_sto _ _
          | exact three_way_swap string_vec_lt_sto _ _
          | exact type2t_ltchecked_swap _ _
          | exact expr2tc_ltchecked_swap _ _
      | _ => exact absurd h (Nat.ne_of_beq_eq_false rfl)
    | constant_datatype2t d1 m1 =>
      cases b with
      | constant_datatype2t d2 m2 =>
        simp only [expr_body.lt]
        rw [vec_row _ _ _ _ (expr_vec_less_eq m1 m2) (expr_vec_less_eq m2 m1)
            (expr_vec3_swap m1 m2),
          vec_row _ _ _ _ (expr_vec_less_eq m2 m1) (expr_vec_less_eq m1 m2)
            (by rw [expr_vec3_swap m1 m2, neg_res_neg_res]),
          expr_vec3_swap m1 m2, sign_res_neg_res]
      | _ => exact absurd h (Nat.ne_of_beq_eq_false rfl)
    | constant_array2t m1 =>
      cases b with
      | constant_array2t m2 =>
        simp only [expr_body.lt]
        rw [vec_row _ _ _ _ (expr_vec_less_eq m1 m2) (expr_vec_less_eq m2 m1)
            (expr_vec3_swap m1 m2),
          vec_row _ _ _ _ (expr_vec_less_eq m2 m1) (expr_vec_less_eq m1 m2)
            (by rw [expr_vec3_swap m1 m2, neg_res_neg_res]),
          expr_vec3_swap m1 m2, sign_res_neg_res]
      | _ => exact absurd h (Nat.ne_of_beq_eq_false rfl)
    | constant_array_of2t i1 =>
      cases b with
      | constant_array_of2t i2 =>
        simp only [expr_body.lt]
        repeat' first
          | rfl
          | apply lt_then_swap
          | intro _
          | exact three_way_swap nat_lt_sto _ _
          | exact three_way_swap bool_lt_sto _ _
          | exact three_way_swap string_lt_sto _ _
          | exact three_way_swap string_vec_lt_sto _ _
          | exact type2t_ltchecked_swap _ _
          | exact expr2tc_ltchecked_swap _ _
      | _ => exact absurd h (Nat.ne_of_beq_eq_false rfl)
    | symbol2t n1 =>
      cases b with
      | symbol2t n2 =>
        simp only [expr_body.lt]
        repeat' first
          | rfl
          | apply lt_then_swap
          | intro _
          | exact three_way_swap nat_lt_sto _ _
          | exact three_way_swap bool_lt_sto _ _
          | exact three_way_swap string_lt_sto _ _
          | exact three_way_swap string_vec_lt_sto _ _
          | exact type2t_ltchecked_swap _ _
          | exact expr2tc_ltchecked_swap _ _
      | _ => exact absurd h (Nat.ne_of_beq_eq_false rfl)
    | typecast2t f1 =>
      cases b with
      | typecast2t f2 =>
        simp only [expr_body.lt]
        rw [vec_row _ _ _ _ (expr2tc_less_eq f1 f2) (expr2tc_less_eq f2 f1)
            (expr2tc_ltchecked_swap f1 f2),
          vec_row _ _ _ _ (expr2tc_less_eq f2 f1) (expr2tc_less_eq f1 f2)
            (by rw [expr2tc_ltchecked_swap f1 f2, neg_res_neg_res]),
          expr2tc_ltchecked_swap f1 f2, sign_res_neg_res]
      | _ => exact absurd h (Nat.ne_of_beq_eq_false rfl)
    | if2t c1 t1 f1 =>
      cases b with
      | if2t c2 t2 f2 =>
        simp only [expr_body.lt]
        repeat' first
          | rfl
          | apply lt_then_swap
          | intro _
          | exact three_way_swap nat_lt_sto _ _
          | exact three_way_swap bool_lt_sto _ _
          | exact three_way_swap string_lt_sto _ _
          | exact three_way_swap string_vec_lt_sto _ _
          | exact type2t_ltchecked_swap _ _
          | exact expr2tc_ltchecked_swap _ _
      | _ => exact absurd h (Nat.ne_of_beq_eq_false rfl)
    | rel2t d1 a1 b1 =>
      cases b with
      | rel2t d2 a2 b2 =>
        simp only [expr_body.lt]
        repeat' first
          | rfl
          | apply lt_then_swap
          | intro _
          | exact three_way_swap nat_lt_sto _ _
          | exact three_way_swap bool_lt_sto _ _
          | exact three_way_swap string_lt_sto _ _
          | exact three_way_swap string_vec_lt_sto _ _
          | exact type2t_ltchecked_swap _ _
          | exact expr2tc_ltchecked_swap _ _
      | _ => exact absurd h (Nat.ne_of_beq_eq_false rfl)
    | not2t x1 =>
      cases b with
      | not2t x2 =>
        simp only [expr_body.lt]
        repeat' first
          | rfl
          | apply lt_then_swap
          | intro _
          | exact three_way_swap nat_lt_sto _ _
          | exact three_way_swap bool_lt_sto _ _
          | exact three_way_swap string_lt_sto _ _
          | exact three_way_swap string_vec_lt_sto _ _
          | exact type2t_ltchecked_swap _ _
          | exact expr2tc_ltchecked_swap _ _
      | _ => exact absurd h (Nat.ne_of_beq_eq_false rfl)
    | logical_2ops2t d1 a1 b1 =>
      cases b with
      | logical_2ops2t d2 a2 b2 =>
        simp only [expr_body.lt]
        repeat' first
          | rfl
          | apply lt_then_swap
          | intro _
          | exact three_way_swap nat_lt_sto _ _
          | exact three_way_swap bool_lt_sto _ _
          | exact three_way_swap string_lt_sto _ _
          | exact three_way_swap string_vec_lt_sto _ _
          | exact type2t_ltchecked_swap _ _
          | exact expr2tc_ltchecked_swap _ _
      | _ => exact absurd h (Nat.ne_of_beq_eq_false rfl)
    | binops2t d1 a1 b1 =>
      cases b with
      | binops2t d2 a2 b2 =>
        simp only [expr_body.lt]
        repeat' first
          | rfl
          | apply lt_then_swap
          | intro _
          | exact three_way_swap nat_lt_sto _ _
          | exact three_way_swap bool_lt_sto _ _
          | exact three_way_swap string_lt_sto _ _
          | exact three_way_swap string_vec_lt_sto _ _
          | exact type2t_ltchecked_swap _ _
          | exact expr2tc_ltchecked_swap _ _
      | _ => exact absurd h (Nat.ne_of_beq_eq_false rfl)
    | neg2t x1 =>
      cases b with
      | neg2t x2 =>
        simp only [expr_body.lt]
        repeat' first
          | rfl
          | apply lt_then_swap
          | intro _
          | exact three_way_swap nat_lt_sto _ _
          | exact three_way_swap bool_lt_sto _ _
          | exact three_way_swap string_lt_sto _ _
          | exact three_way_swap string_vec_lt_sto _ _
          | exact type2t_ltchecked_swap _ _
          | exact expr2tc_ltchecked_swap _ _
      | _ => exact absurd h (Nat.ne_of_beq_eq_false rfl)
    | abs2t x1 =>
      cases b with
      | abs2t x2 =>
        simp only [expr_body.lt]
        repeat' first
          | rfl
          | apply lt_then_swap
          | intro _
          | exact three_way_swap nat_lt_sto _ _
          | exact three_way_swap bool_lt_sto _ _
          | exact three_way_swap string_lt_sto _ _
          | exact three_way_swap string_vec_lt_sto _ _
          | exact type2t_ltchecked_swap _ _
          | exact expr2tc_ltchecked_swap _ _
      | _ => exact absurd h (Nat.ne_of_beq_eq_false rfl)
    | arith_2op2t d1 a1 b1 =>
      cases b with
      | arith_2op2t d2 a2 b2 =>
        simp only [expr_body.lt]
        repeat' first
          | rfl
          | apply lt_then_swap
          | intro _
          | exact three_way_swap nat_lt_sto _ _
          | exact three_way_swap bool_lt_sto _ _
          | exact three_way_swap string_lt_sto _ _
          | exact three_way_swap string_vec_lt_sto _ _
          | exact type2t_ltchecked_swap _ _
          | exact expr2tc_ltchecked_swap _ _
      | _ => exact absurd h (Nat.ne_of_beq_eq_false rfl)
    | pointer_offset2t x1 =>
      cases b with
      | pointer_offset2t x2 =>
        simp only [expr_body.lt]
        repeat' first
          | rfl
          | apply lt_then_swap
          | intro _
          | exact three_way_swap nat_lt_sto _ _
          | exact three_way_swap bool_lt_sto _ _
          | exact three_way_swap string_lt_sto _ _
          | exact three_way_swap string_vec_lt_sto _ _
          | exact type2t_ltchecked_swap _ _
          | exact expr2tc_ltchecked_swap _ _
      | _ => exact absurd h (Nat.ne_of_beq_eq_false rfl)
    | pointer_object2t x1 =>
      cases b with
      | pointer_object2t x2 =>
        simp only [expr_body.lt]
        repeat' first
          | rfl
          | apply lt_then_swap
          | intro _
          | exact three_way_swap nat_lt_sto _ _
          | exact three_way_swap bool_lt_sto _ _
          | exact three_way_swap string_lt_sto _ _
          | exact three_way_swap string_vec_lt_sto _ _
          | exact type2t_ltchecked_swap _ _
          | exact expr2tc_ltchecked_swap _ _
      | _ => exact absurd h (Nat.ne_of_beq_eq_false rfl)
    | address_of2t x1 =>
      cases b with
      | address_of2t x2 =>
        simp only [expr_body.lt]
        repeat' first
          | rfl
          | apply lt_then_swap
          | intro _
          | exact three_way_swap nat_lt_sto _ _
          | exact three_way_swap bool_lt_sto _ _
          | exact three_way_swap string_lt_sto _ _
          | exact three_way_swap string_vec_lt_sto _ _
          | exact type2t_ltchecked_swap _ _
          | exact expr2tc_ltchecked_swap _ _
      | _ => exact absurd h (Nat.ne_of_beq_eq_false rfl)
    | byte_extract2t e1 v1 o1 =>
      cases b with
      | byte_extract2t e2 v2 o2 =>
        simp only [expr_body.lt]
        repeat' first
          | rfl
          | apply lt_then_swap
          | intro _
          | exact three_way_swap nat_lt_sto _ _
          | exact three_way_swap bool_lt_sto _ _
          | exact three_way_swap string_lt_sto _ _
          | exact three_way_swap string_vec_lt_sto _ _
          | exact type2t_ltchecked_swap _ _
          | exact expr2tc_ltchecked_swap _ _
      | _ => exact absurd h (Nat.ne_of_beq_eq_false rfl)
    | byte_update2t e1 v1 o1 u1 =>
      cases b with
      | byte_update2t e2 v2 o2 u2 =>
        simp only [expr_body.lt]
        repeat' first
          | rfl
          | apply lt_then_swap
          | intro _
          | exact three_way_swap nat_lt_sto _ _
          | exact three_way_swap bool_lt_sto _ _
          | exact three_way_swap string_lt_sto _ _
          | exact three_way_swap string_vec_lt_sto _ _
          | exact type2t_ltchecked_swap _ _
          | exact expr2tc_ltchecked_swap _ _
      | _ => exact absurd h (Nat.ne_of_beq_eq_false rfl)
    | with2t s1 f1 d1 =>
      cases b with
      | with2t s2 f2 d2 =>
        simp only [expr_body.lt]
        repeat' first
          | rfl
          | apply lt_then_swap
          | intro _
          | exact three_way_swap nat_lt_sto _ _
          | exact three_way_swap bool_lt_sto _ _
          | exact three_way_swap string_lt_sto _ _
          | exact three_way_swap string_vec_lt_sto _ _
          | exact type2t_ltchecked_swap _ _
          | exact expr2tc_ltchecked_swap _ _
      | _ => exact absurd h (Nat.ne_of_beq_eq_false rfl)
    | member2t s1 mt1 mv1 =>
      cases b with
      | member2t s2 mt2 mv2 =>
        simp only [expr_body.lt]
        repeat' first
          | rfl
          | apply lt_then_swap
          | intro _
          | exact three_way_swap nat_lt_sto _ _
          | exact three_way_swap bool_lt_sto _ _
          | exact three_way_swap string_lt_sto _ _
          | exact three_way_swap string_vec_lt_sto _ _
          | exact type2t_ltchecked_swap _ _
          | exact expr2tc_ltchecked_swap _ _
      | _ => exact absurd h (Nat.ne_of_beq_eq_false rfl)
    | index2t s1 i1 =>
      cases b with
      | index2t s2 i2 =>
        simp only [expr_body.lt]
        repeat' first
          | rfl
          | apply lt_then_swap
          | intro _
          | exact three_way_swap nat_lt_sto _ _
          | exact three_way_swap bool_lt_sto _ _
          | exact three_way_swap string_lt_sto _ _
          | exact three_way_swap string_vec_lt_sto _ _
          | exact type2t_ltchecked_swap _ _
          | exact expr2tc_ltchecked_swap _ _
      | _ => exact absurd h (Nat.ne_of_beq_eq_false rfl)
    | zero_string2t x1 =>
      cases b with
      | zero_string2t x2 =>
        simp only [expr_body.lt]
        repeat' first
          | rfl
          | apply lt_then_swap
          | intro _
          | exact three_way_swap nat_lt_sto _ _
          | exact three_way_swap bool_lt_sto _ _
          | exact three_way_swap string_lt_sto _ _
          | exact three_way_swap string_vec_lt_sto _ _
          | exact type2t_ltchecked_swap _ _
          | exact expr2tc_ltchecked_swap _ _
      | _ => exact absurd h (Nat.ne_of_beq_eq_false rfl)
    | zero_length_string2t x1 =>
      cases b with
      | zero_length_string2t x2 =>
        simp only [expr_body.lt]
        repeat' first
          | rfl
          | apply lt_then_swap
          | intro _
          | exact three_way_swap nat_lt_sto _ _
          | exact three_way_swap bool_lt_sto _ _
          | exact three_way_swap string_lt_sto _ _
          | exact three_way_swap string_vec_lt_sto _ _
          | exact type2t_ltchecked_swap _ _
          | exact expr2tc_ltchecked_swap _ _
      | _ => exact absurd h (Nat.ne_of_beq_eq_false rfl)
    | isnan2t x1 =>
      cases b with
      | isnan2t x2 =>
        simp only [expr_body.lt]
        repeat' first
          | rfl
          | apply lt_then_swap
          | intro _
          | exact three_way_swap nat_lt_sto _ _
          | exact three_way_swap bool_lt_sto _ _
          | exact three_way_swap string_lt_sto _ _
          | exact three_way_swap string_vec_lt_sto _ _
          | exact type2t_ltchecked_swap _ _
          | exact expr2tc_ltchecked_swap _ _
      | _ => exact absurd h (Nat.ne_of_beq_eq_false rfl)
    | overflow2t x1 =>
      cases b with
      | overflow2t x2 =>
        simp only [expr_body.lt]
        repeat' first
          | rfl
          | apply lt_then_swap
          | intro _
          | exact three_way_swap nat_lt_sto _ _
          | exact three_way_swap bool_lt_sto _ _
          | exact three_way_swap string_lt_sto _ _
          | exact three_way_swap string_vec_lt_sto _ _
          | exact type2t_ltchecked_swap _ _
          | exact expr2tc_ltchecked_swap _ _
      | _ => exact absurd h (Nat.ne_of_beq_eq_false rfl)
    | overflow_cast2t x1 n1 =>
      cases b with
      | overflow_cast2t x2 n2 =>
        simp only [expr_body.lt]
        repeat' first
          | rfl
          | apply lt_then_swap
          | intro _
          | exact three_way_swap nat_lt_sto _ _
          | exact three_way_swap bool_lt_sto _ _
          | exact three_way_swap string_lt_sto _ _
          | exact three_way_swap string_vec_lt_sto _ _
          | exact type2t_ltchecked_swap _ _
          | exact expr2tc_ltchecked_swap _ _
      | _ => exact absurd h (Nat.ne_of_beq_eq_false rfl)
    | overflow_neg2t x1 =>
      cases b with
      | overflow_neg2t x2 =>
        simp only [expr_body.lt]
        repeat' first
          | rfl
          | apply lt_then_swap
          | intro _
          | exact three_way_swap nat_lt_sto _ _
          | exact three_way_swap bool_lt_sto _ _
          | exact three_way_swap string_lt_sto _ _
          | exact three_way_swap string_vec_lt_sto _ _
          | exact type2t_ltchecked_swap _ _
          | exact expr2tc_ltchecked_swap _ _
      | _ => exact absurd h (Nat.ne_of_beq_eq_false rfl)
  · rw [expr_body_lt_none a b h, expr_body_lt_none b a (Ne.symm h)]
    rfl
termination_by sizeOf a + sizeOf b
theorem expr2tc_ltchecked_swap : ∀ (a b : Option expr2t),
    expr2tc_ltchecked b a = neg_res (expr2tc_ltchecked a b)
  | some a, some b => by
    simp only [expr2tc_ltchecked]
    exact expr2t_ltchecked_swap a b
  | none, none => by simp [expr2tc_ltchecked, neg_res]
  | none, some _ => by simp [expr2tc_ltchecked, neg_res]
  | some _, none => by simp [expr2tc_ltchecked, neg_res]
termination_by a b => sizeOf a + sizeOf b
theorem expr_vec_less_eq : ∀ (as bs : List (Option expr2t)),
    expr_vec_less as bs = is_neg (expr_vec3 as bs)
  | [], [] => by simp [expr_vec_less, expr_vec3, is_neg]
  | [], _ :: _ => by simp [expr_vec_less, expr_vec3, is_neg]
  | _ :: _, [] => by simp [expr_vec_less, expr_vec3, is_neg]
  | a :: as, b :: bs => by
    rw [expr_vec_less, expr2tc_less_eq, expr2tc_less_eq]
    exact vec_less_step _ _ (expr2tc_ltchecked_swap a b) _ _ _ (expr_vec_less_eq as bs) rfl
termination_by a b => sizeOf a + sizeOf b
theorem expr_vec3_swap : ∀ (as bs : List (Option expr2t)),
    expr_vec3 bs as = neg_res (expr_vec3 as bs)
  | [], [] => by simp [expr_vec3, neg_res]
  | [], _ :: _ => by simp [expr_vec3, neg_res]
  | _ :: _, [] => by simp [expr_vec3, neg_res]
  | a :: as, b :: bs => by
    simp only [expr_vec3]
    exact lt_then_swap (expr2tc_ltchecked_swap a b) (fun _ => expr_vec3_swap as bs)
termination_by a b => sizeOf a + sizeOf b
end

theorem ite_ne_eq_cmp_then {α : Type} [DecidableEq α] (a b : α) (f : Option Bool) :
    (if a ≠ b then some false else f) = cmp_then (some (decide (a = b))) f := by
  by_cases h : a = b <;> simp [cmp_then, h]

theorem EqOk_type_id (a b : type_ids) :
    EqOk (some (three_way nat_lt a.toNat b.toNat)) (some (decide (a = b))) := by
  intro r hr
  simp only [Option.some.injEq] at hr
  subst hr
  have h1 := three_way_eq_zero nat_lt_sto a.toNat b.toNat
  have h2 : a.toNat = b.toNat ↔ a = b := ⟨type_ids_toNat_inj a b, fun e => by rw [e]⟩
  simp only [h1, h2]

theorem EqOk_expr_id (a b : expr_ids) :
    EqOk (some (three_way nat_lt a.toNat b.toNat)) (some (decide (a = b))) := by
  intro r hr
  simp only [Option.some.injEq] at hr
  subst hr
  have h1 := three_way_eq_zero nat_lt_sto a.toNat b.toNat
  have h2 : a.toNat = b.toNat ↔ a = b := ⟨expr_ids_toNat_inj a b, fun e => by rw [e]⟩
  simp only [h1, h2]

theorem EqOk_vec_cons {x v : Option Int} {e q : Option Bool} {n m : Nat} (hx : EqOk x e)
    (hv : x = some 0 → EqOk v (vector_eq n m q)) :
    EqOk (lt_then x v) (vector_eq (n + 1) (m + 1) (cmp_then e q)) := by
  intro r hr
  cases x with
  | none => simp [lt_then] at hr
  | some t =>
    rw [hx t rfl]
    by_cases ht : t = 0
    · subst ht
      simp only [lt_then, ne_eq, not_true_eq_false, if_false] at hr
      have := hv rfl r hr
      simpa [vector_eq, cmp_then] using this
    · simp only [lt_then, ne_eq, ht, not_false_eq_true, if_true, Option.some.injEq] at hr
      subst hr
      simp [vector_eq, cmp_then, ht]

set_option maxHeartbeats 40000000 in
mutual
theorem type2t_ltchecked_eq : ∀ (a b : type2t),
    EqOk (type2t.ltchecked a b) (type2t.operator_eq a b)
  | .mk b1, .mk b2 => by
    simp only [type2t.ltchecked, type2t.operator_eq, ite_ne_eq_cmp_then]
    exact EqOk_lt_then (EqOk_type_id _ _) (fun _ => type_body_lt_eq b1 b2)
termination_by a b => sizeOf a + sizeOf b
theorem type_body_lt_eq (a b : type_body) :
    EqOk (type_body.lt a b) (type_body.cmp a b) := by
  by_cases h : a.type_id = b.type_id
  · cases a with
    | bool_type2t =>
      cases b with
      | bool_type2t =>
        simp only [type_body.lt, type_body.cmp]
        intro r hr
        simp only [Option.some.injEq] at hr
        subst hr
        rfl
      | _ => exact type_ids.noConfusion h
    | empty_type2t =>
      cases b with
      | empty_type2t =>
        simp only [type_body.lt, type_body.cmp]
        intro r hr
        simp only [Option.some.injEq] at hr
        subst hr
        rfl
      | _ => exact type_ids.noConfusion h
    | symbol_type2t n1 =>
      cases b with
      | symbol_type2t n2 =>
        simp only [type_body.lt, type_body.cmp]
        repeat' first
          | apply EqOk_lt_then
          | apply EqOk_and_true
          | exact EqOk_pure nat_lt_sto _ _
          | exact EqOk_pure bool_lt_sto _ _
          | exact EqOk_pure string_lt_sto _ _
          | exact EqOk_pure string_vec_lt_sto _ _
          | exact type2t_ltchecked_eq _ _
          | exact expr2tc_ltchecked_eq _ _
          | intro _
      | _ => exact type_ids.noConfusion h
    | struct_type2t ms1 ns1 n1 =>
      cases b with
      | struct_type2t ms2 ns2 n2 =>
        simp only [type_body.lt, type_body.cmp]
        rw [vec_row _ _ _ _ (type_vec_less_eq ms1 ms2) (type_vec_less_eq ms2 ms1)
            (type_vec3_swap ms1 ms2)]
        apply EqOk_lt_then (EqOk_pure string_lt_sto _ _)
        intro _
        apply EqOk_lt_then (EqOk_pure nat_lt_sto _ _)
        intro _
        apply EqOk_lt_then (EqOk_sign (type_vec3_eq ms1 ms2))
        intro _
        exact EqOk_and_true (EqOk_pure string_vec_lt_sto _ _)
      | _ => exact type_ids.noConfusion h
    | union_type2t ms1 ns1 n1 =>
      cases b with
      | union_type2t ms2 ns2 n2 =>
        simp only [type_body.lt, type_body.cmp]
        rw [vec_row _ _ _ _ (type_vec_less_eq ms1 ms2) (type_vec_less_eq ms2 ms1)
            (type_vec3_swap ms1 ms2)]
        apply EqOk_lt_then (EqOk_pure string_lt_sto _ _)
        intro _
        apply EqOk_lt_then (EqOk_pure nat_lt_sto _ _)
        intro _
        apply EqOk_lt_then (EqOk_sign (type_vec3_eq ms1 ms2))
        intro _
        exact EqOk_and_true (EqOk_pure string_vec_lt_sto _ _)
      | _ => exact type_ids.noConfusion h
    | code_type2t =>
      cases b with
      | code_type2t =>
        simp only [type_body.lt, type_body.cmp]
        intro r hr
        simp only [Option.some.injEq] at hr
        subst hr
        rfl
      | _ => exact type_ids.noConfusion h
    | array_type2t s1 z1 i1 =>
      cases b with
      | array_type2t s2 z2 i2 =>
        simp only [type_body.lt, type_body.cmp]
        apply EqOk_lt_then (type2t_ltchecked_eq s1 s2)
        intro _
        cases i1 <;> cases i2
        all_goals first
          | exact expr2tc_ltchecked_eq z1 z2
          | (intro r hr
             simp [three_way, bool_lt, lt_then] at hr
             subst hr
             rfl)
      | _ => exact type_ids.noConfusion h
    | pointer_type2t s1 =>
      cases b with
      | pointer_type2t s2 =>
        simp only [type_body.lt, type_body.cmp]
        repeat' first
          | apply EqOk_lt_then
          | apply EqOk_and_true
          | exact EqOk_pure nat_lt_sto _ _
          | exact EqOk_pure bool_lt_sto _ _
          | exact EqOk_pure string_lt_sto _ _
          | exact EqOk_pure string_vec_lt_sto _ _
          | exact type2t_ltchecked_eq _ _
          | exact expr2tc_ltchecked_eq _ _
          | intro _
      | _ => exact type_ids.noConfusion h
    | unsignedbv_type2t w1 =>
      cases b with
      | unsignedbv_type2t w2 =>
        simp only [type_body.lt, type_body.cmp]
        repeat' first
          | apply EqOk_lt_then
          | apply EqOk_and_true
          | exact EqOk_pure nat_lt_sto _ _
          | exact EqOk_pure bool_lt_sto _ _
          | exact EqOk_pure string_lt_sto _ _
          | exact EqOk_pure string_vec_lt_sto _ _
          | exact type2t_ltchecked_eq _ _
          | exact expr2tc_ltchecked_eq _ _
          | intro _
      | _ => exact type_ids.noConfusion h
    | signedbv_type2t w1 =>
      cases b with
      | signedbv_type2t w2 =>
        simp only [type_body.lt, type_body.cmp]
        repeat' first
          | apply EqOk_lt_then
          | apply EqOk_and_true
          | exact EqOk_pure nat_lt_sto _ _
          | exact EqOk_pure bool_lt_sto _ _
          | exact EqOk_pure string_lt_sto _ _
          | exact EqOk_pure string_vec_lt_sto _ _
          | exact type2t_ltchecked_eq _ _
          | exact expr2tc_ltchecked_eq _ _
          | intro _
      | _ => exact type_ids.noConfusion h
    | fixedbv_type2t w1 ib1 =>
      cases b with
      | fixedbv_type2t w2 ib2 =>
        simp only [type_body.lt, type_body.cmp]
        repeat' first
          | apply EqOk_lt_then
          | apply EqOk_and_true
          | exact EqOk_pure nat_lt_sto _ _
          | exact EqOk_pure bool_lt_sto _ _
          | exact EqOk_pure string_lt_sto _ _
          | exact EqOk_pure string_vec_lt_sto _ _
          | exact type2t_ltchecked_eq _ _
          | exact expr2tc_ltchecked_eq _ _
          | intro _
      | _ => exact type_ids.noConfusion h
    | string_type2t e1 =>
      cases b with
      | string_type2t e2 =>
        simp only [type_body.lt, type_body.cmp]
        repeat' first
          | apply EqOk_lt_then
          | apply EqOk_and_true
          | exact EqOk_pure nat_lt_sto _ _
          | exact EqOk_pure bool_lt_sto _ _
          | exact EqOk_pure string_lt_sto _ _
          | exact EqOk_pure string_vec_lt_sto _ _
          | exact type2t_ltchecked_eq _ _
          | exact expr2tc_ltchecked_eq _ _
          | intro _
      | _ => exact type_ids.noConfusion h
  · rw [type_body_lt_none a b h]
    exact EqOk_none _
termination_by sizeOf a + sizeOf b
theorem type_vec3_eq : ∀ (as bs : List type2t),
    EqOk (type_vec3 as bs) (vector_eq as.length bs.length (type_vec_equal as bs))
  | [], [] => by
    intro r hr
    simp only [type_vec3, Option.some.injEq] at hr
    subst hr
    rfl
  | [], _ :: _ => by
    intro r hr
    simp only [type_vec3, Option.some.injEq] at hr
    subst hr
    simp [vector_eq]
  | _ :: _, [] => by
    intro r hr
    simp only [type_vec3, Option.some.injEq] at hr
    subst hr
    simp [vector_eq]
  | a :: as, b :: bs => by
    simp only [type_vec3, type_vec_equal, List.length_cons]
    exact EqOk_vec_cons (type2t_ltchecked_eq a b) (fun _ => type_vec3_eq as bs)
termination_by a b => sizeOf a + sizeOf b
theorem expr2t_ltchecked_eq : ∀ (a b : expr2t),
    EqOk (expr2t.ltchecked a b) (expr2t.operator_eq a b)
  | .mk t1 b1, .mk t2 b2 => by
    simp only [expr2t.ltchecked, expr2t.operator_eq, ite_ne_eq_cmp_then]
    exact EqOk_lt_then
      (EqOk_lt_then (EqOk_expr_id _ _) (fun _ => EqOk_and_true (type2t_ltchecked_eq t1 t2)))
      (fun _ => expr_body_lt_eq b1 b2)
termination_by a b => sizeOf a + sizeOf b
theorem expr_body_lt_eq (a b : expr_body) :
    EqOk (expr_body.lt a b) (expr_body.cmp a b) := by
  by_cases h : a.class_index = b.class_index
  · cases a with
    | constant_int2t v1 =>
      cases b with
      | constant_int2t v2 =>
        simp only [expr_body.lt, expr_body.cmp]
        rw [BigInt_compare_eq]
        exact EqOk_pure int_lt_sto _ _
      | _ => exact absurd h (Nat.ne_of_beq_eq_false rfl)
    | constant_bool2t v1 =>
      cases b with
      | constant_bool2t v2 =>
        simp only [expr_body.lt, expr_body.cmp]
        repeat' first
          | apply EqOk_lt_then
          | apply EqOk_and_true
          | exact EqOk_pure nat_lt_sto _ _
          | exact EqOk_pure bool_lt_sto _ _
          | exact EqOk_pure string_lt_sto _ _
          | exact EqOk_pure string_vec_lt_sto _ _
          | exact type2t_ltchecked_eq _ _
          | exact expr2tc_ltchecked_eq _ _
          | intro _
      | _ => exact absurd h (Nat.ne_of_beq_eq_false rfl)
    | constant_string2t v1 =>
      cases b with
      | constant_string2t v2 =>
        simp only [expr_body.lt, expr_body.cmp]
        repeat' first
          | apply EqOk_lt_then
          | apply EqOk_and_true
          | exact EqOk_pure nat_lt_sto _ _
          | exact EqOk_pure bool_lt_sto _ _
          | exact EqOk_pure string_lt_sto _ _
          | exact EqOk_pure string_vec_lt_sto _ _
          | exact type2t_ltchecked_eq _ _
          | exact expr2tc_ltchecked_eq _ _
          | intro _
      | _ => exact absurd h (Nat.ne_of_beq_eq_false rfl)
    | constant_datatype2t d1 m1 =>
      cases b with
      | constant_datatype2t d2 m2 =>
        simp only [expr_body.lt, expr_body.cmp]
        rw [vec_row _ _ _ _ (expr_vec_less_eq m1 m2) (expr_vec_less_eq m2 m1)
            (expr_vec3_swap m1 m2)]
        exact EqOk_sign (expr_vec3_eq m1 m2)
      | _ => exact absurd h (Nat.ne_of_beq_eq_false rfl)
    | constant_array2t m1 =>
      cases b with
      | constant_array2t m2 =>
        simp only [expr_body.lt, expr_body.cmp]
        rw [vec_row _ _ _ _ (expr_vec_less_eq m1 m2) (expr_vec_less_eq m2 m1)
            (expr_vec3_swap m1 m2)]
        exact EqOk_sign (expr_vec3_eq m1 m2)
      | _ => exact absurd h (Nat.ne_of_beq_eq_false rfl)
    | constant_array_of2t i1 =>
      cases b with
      | constant_array_of2t i2 =>
        simp only [expr_body.lt, expr_body.cmp]
        repeat' first
          | apply EqOk_lt_then
          | apply EqOk_and_true
          | exact EqOk_pure nat_lt_sto _ _
          | exact EqOk_pure bool_lt_sto _ _
          | exact EqOk_pure string_lt_sto _ _
          | exact EqOk_pure string_vec_lt_sto _ _
          | exact type2t_ltchecked_eq _ _
          | exact expr2tc_ltchecked_eq _ _
          | intro _
      | _ => exact absurd h (Nat.ne_of_beq_eq_false rfl)
    | symbol2t n1 =>
      cases b with
      | symbol2t n2 =>
        simp only [expr_body.lt, expr_body.cmp]
        repeat' first
          | apply EqOk_lt_then
          | apply EqOk_and_true
          | exact EqOk_pure nat_lt_sto _ _
          | exact EqOk_pure bool_lt_sto _ _
          | exact EqOk_pure string_lt_sto _ _
          | exact EqOk_pure string_vec_lt_sto _ _
          | exact type2t_ltchecked_eq _ _
          | exact expr2tc_ltchecked_eq _ _
          | intro _
      | _ => exact absurd h (Nat.ne_of_beq_eq_false rfl)
    | typecast2t f1 =>
      cases b with
      | typecast2t f2 =>
        simp only [expr_body.lt, expr_body.cmp]
        rw [vec_row _ _ _ _ (expr2tc_less_eq f1 f2) (expr2tc_less_eq f2 f1)
            (expr2tc_ltchecked_swap f1 f2)]
        exact EqOk_sign (expr2tc_ltchecked_eq f1 f2)
      | _ => exact absurd h (Nat.ne_of_beq_eq_false rfl)
    | if2t c1 t1 f1 =>
      cases b with
      | if2t c2 t2 f2 =>
        simp only [expr_body.lt, expr_body.cmp]
        repeat' first
          | apply EqOk_lt_then
          | apply EqOk_and_true
          | exact EqOk_pure nat_lt_sto _ _
          | exact EqOk_pure bool_lt_sto _ _
          | exact EqOk_pure string_lt_sto _ _
          | exact EqOk_pure string_vec_lt_sto _ _
          | exact type2t_ltchecked_eq _ _
          | exact expr2tc_ltchecked_eq _ _
          | intro _
      | _ => exact absurd h (Nat.ne_of_beq_eq_false rfl)
    | rel2t d1 a1 b1 =>
      cases b with
      | rel2t d2 a2 b2 =>
        simp only [expr_body.lt, expr_body.cmp]
        repeat' first
          | apply EqOk_lt_then
          | apply EqOk_and_true
          | exact EqOk_pure nat_lt_sto _ _
          | exact EqOk_pure bool_lt_sto _ _
          | exact EqOk_pure string_lt_sto _ _
          | exact EqOk_pure string_vec_lt_sto _ _
          | exact type2t_ltchecked_eq _ _
          | exact expr2tc_ltchecked_eq _ _
          | intro _
      | _ => exact absurd h (Nat.ne_of_beq_eq_false rfl)
    | not2t x1 =>
      cases b with
      | not2t x2 =>
        simp only [expr_body.lt, expr_body.cmp]
        repeat' first
          | apply EqOk_lt_then
          | apply EqOk_and_true
          | exact EqOk_pure nat_lt_sto _ _
          | exact EqOk_pure bool_lt_sto _ _
          | exact EqOk_pure string_lt_sto _ _
          | exact EqOk_pure string_vec_lt_sto _ _
          | exact type2t_ltchecked_eq _ _
          | exact expr2tc_ltchecked_eq _ _
          | intro _
      | _ => exact absurd h (Nat.ne_of_beq_eq_false rfl)
    | logical_2ops2t d1 a1 b1 =>
      cases b with
      | logical_2ops2t d2 a2 b2 =>
        simp only [expr_body.lt, expr_body.cmp]
        repeat' first
          | apply EqOk_lt_then
          | apply EqOk_and_true
          | exact EqOk_pure nat_lt_sto _ _
          | exact EqOk_pure bool_lt_sto _ _
          | exact EqOk_pure string_lt_sto _ _
          | exact EqOk_pure string_vec_lt_sto _ _
          | exact type2t_ltchecked_eq _ _
          | exact expr2tc_ltchecked_eq _ _
          | intro _
      | _ => exact absurd h (Nat.ne_of_beq_eq_false rfl)
    | binops2t d1 a1 b1 =>
      cases b with
      | binops2t d2 a2 b2 =>
        simp only [expr_body.lt, expr_body.cmp]
        repeat' first
          | apply EqOk_lt_then
          | apply EqOk_and_true
          | exact EqOk_pure nat_lt_sto _ _
          | exact EqOk_pure bool_lt_sto _ _
          | exact EqOk_pure string_lt_sto _ _
          | exact EqOk_pure string_vec_lt_sto _ _
          | exact type2t_ltchecked_eq _ _
          | exact expr2tc_ltchecked_eq _ _
          | intro _
      | _ => exact absurd h (Nat.ne_of_beq_eq_false rfl)
    | neg2t x1 =>
      cases b with
      | neg2t x2 =>
        simp only [expr_body.lt, expr_body.cmp]
        repeat' first
          | apply EqOk_lt_then
          | apply EqOk_and_true
          | exact EqOk_pure nat_lt_sto _ _
          | exact EqOk_pure bool_lt_sto _ _
          | exact EqOk_pure string_lt_sto _ _
          | exact EqOk_pure string_vec_lt_sto _ _
          | exact type2t_ltchecked_eq _ _
          | exact expr2tc_ltchecked_eq _ _
          | intro _
      | _ => exact absurd h (Nat.ne_of_beq_eq_false rfl)
    | abs2t x1 =>
      cases b with
      | abs2t x2 =>
        simp only [expr_body.lt, expr_body.cmp]
        repeat' first
          | apply EqOk_lt_then
          | apply EqOk_and_true
          | exact EqOk_pure nat_lt_sto _ _
          | exact EqOk_pure bool_lt_sto _ _
          | exact EqOk_pure string_lt_sto _ _
          | exact EqOk_pure string_vec_lt_sto _ _
          | exact type2t_ltchecked_eq _ _
          | exact expr2tc_ltchecked_eq _ _
          | intro _
      | _ => exact absurd h (Nat.ne_of_beq_eq_false rfl)
    | arith_2op2t d1 a1 b1 =>
      cases b with
      | arith_2op2t d2 a2 b2 =>
        simp only [expr_body.lt, expr_body.cmp]
        repeat' first
          | apply EqOk_lt_then
          | apply EqOk_and_true
          | exact EqOk_pure nat_lt_sto _ _
          | exact EqOk_pure bool_lt_sto _ _
          | exact EqOk_pure string_lt_sto _ _
          | exact EqOk_pure string_vec_lt_sto _ _
          | exact type2t_ltchecked_eq _ _
          | exact expr2tc_ltchecked_eq _ _
          | intro _
      | _ => exact absurd h (Nat.ne_of_beq_eq_false rfl)
    | pointer_offset2t x1 =>
      cases b with
      | pointer_offset2t x2 =>
        simp only [expr_body.lt, expr_body.cmp]
        repeat' first
          | apply EqOk_lt_then
          | apply EqOk_and_true
          | exact EqOk_pure nat_lt_sto _ _
          | exact EqOk_pure bool_lt_sto _ _
          | exact EqOk_pure string_lt_sto _ _
          | exact EqOk_pure string_vec_lt_sto _ _
          | exact type2t_ltchecked_eq _ _
          | exact expr2tc_ltchecked_eq _ _
          | intro _
      | _ => exact absurd h (Nat.ne_of_beq_eq_false rfl)
    | pointer_object2t x1 =>
      cases b with
      | pointer_object2t x2 =>
        simp only [expr_body.lt, expr_body.cmp]
        repeat' first
          | apply EqOk_lt_then
          | apply EqOk_and_true
          | exact EqOk_pure nat_lt_sto _ _
          | exact EqOk_pure bool_lt_sto _ _
          | exact EqOk_pure string_lt_sto _ _
          | exact EqOk_pure string_vec_lt_sto _ _
          | exact type2t_ltchecked_eq _ _
          | exact expr2tc_ltchecked_eq _ _
          | intro _
      | _ => exact absurd h (Nat.ne_of_beq_eq_false rfl)
    | address_of2t x1 =>
      cases b with
      | address_of2t x2 =>
        simp only [expr_body.lt, expr_body.cmp]
        repeat' first
          | apply EqOk_lt_then
          | apply EqOk_and_true
          | exact EqOk_pure nat_lt_sto _ _
          | exact EqOk_pure bool_lt_sto _ _
          | exact EqOk_pure string_lt_sto _ _
          | exact EqOk_pure string_vec_lt_sto _ _
          | exact type2t_ltchecked_eq _ _
          | exact expr2tc_ltchecked_eq _ _
          | intro _
      | _ => exact absurd h (Nat.ne_of_beq_eq_false rfl)
    | byte_extract2t e1 v1 o1 =>
      cases b with
      | byte_extract2t e2 v2 o2 =>
        simp only [expr_body.lt, expr_body.cmp]
        repeat' first
          | apply EqOk_lt_then
          | apply EqOk_and_true
          | exact EqOk_pure nat_lt_sto _ _
          | exact EqOk_pure bool_lt_sto _ _
          | exact EqOk_pure string_lt_sto _ _
          | exact EqOk_pure string_vec_lt_sto _ _
          | exact type2t_ltchecked_eq _ _
          | exact expr2tc_ltchecked_eq _ _
          | intro _
      | _ => exact absurd h (Nat.ne_of_beq_eq_false rfl)
    | byte_update2t e1 v1 o1 u1 =>
      cases b with
      | byte_update2t e2 v2 o2 u2 =>
        simp only [expr_body.lt, expr_body.cmp]
        repeat' first
          | apply EqOk_lt_then
          | apply EqOk_and_true
          | exact EqOk_pure nat_lt_sto _ _
          | exact EqOk_pure bool_lt_sto _ _
          | exact EqOk_pure string_lt_sto _ _
          | exact EqOk_pure string_vec_lt_sto _ _
          | exact type2t_ltchecked_eq _ _
          | exact expr2tc_ltchecked_eq _ _
          | intro _
      | _ => exact absurd h (Nat.ne_of_beq_eq_false rfl)
    | with2t s1 f1 d1 =>
      cases b with
      | with2t s2 f2 d2 =>
        simp only [expr_body.lt, expr_body.cmp]
        repeat' first
          | apply EqOk_lt_then
          | apply EqOk_and_true
          | exact EqOk_pure nat_lt_sto _ _
          | exact EqOk_pure bool_lt_sto _ _
          | exact EqOk_pure string_lt_sto _ _
          | exact EqOk_pure string_vec_lt_sto _ _
          | exact type2t_ltchecked_eq _ _
          | exact expr2tc_ltchecked_eq _ _
          | intro _
      | _ => exact absurd h (Nat.ne_of_beq_eq_false rfl)
    | member2t s1 mt1 mv1 =>
      cases b with
      | member2t s2 mt2 mv2 =>
        simp only [expr_body.lt, expr_body.cmp]
        apply EqOk_lt_then (expr2tc_ltchecked_eq s1 s2)
        intro _
        apply EqOk_and_true
        apply EqOk_lt_then (EqOk_and_true (type2t_ltchecked_eq mt1 mt2))
        intro _
        exact EqOk_pure string_lt_sto _ _
      | _ => exact absurd h (Nat.ne_of_beq_eq_false rfl)
    | index2t s1 i1 =>
      cases b with
      | index2t s2 i2 =>
        simp only [expr_body.lt, expr_body.cmp]
        repeat' first
          | apply EqOk_lt_then
          | apply EqOk_and_true
          | exact EqOk_pure nat_lt_sto _ _
          | exact EqOk_pure bool_lt_sto _ _
          | exact EqOk_pure string_lt_sto _ _
          | exact EqOk_pure string_vec_lt_sto _ _
          | exact type2t_ltchecked_eq _ _
          | exact expr2tc_ltchecked_eq _ _
          | intro _
      | _ => exact absurd h (Nat.ne_of_beq_eq_false rfl)
    | zero_string2t x1 =>
      cases b with
      | zero_string2t x2 =>
        simp only [expr_body.lt, expr_body.cmp]
        repeat' first
          | apply EqOk_lt_then
          | apply EqOk_and_true
          | exact EqOk_pure nat_lt_sto _ _
          | exact EqOk_pure bool_lt_sto _ _
          | exact EqOk_pure string_lt_sto _ _
          | exact EqOk_pure string_vec_lt_sto _ _
          | exact type2t_ltchecked_eq _ _
          | exact expr2tc_ltchecked_eq _ _
          | intro _
      | _ => exact absurd h (Nat.ne_of_beq_eq_false rfl)
    | zero_length_string2t x1 =>
      cases b with
      | zero_length_string2t x2 =>
        simp only [expr_body.lt, expr_body.cmp]
        repeat' first
          | apply EqOk_lt_then
          | apply EqOk_and_true
          | exact EqOk_pure nat_lt_sto _ _
          | exact EqOk_pure bool_lt_sto _ _
          | exact EqOk_pure string_lt_sto _ _
          | exact EqOk_pure string_vec_lt_sto _ _
          | exact type2t_ltchecked_eq _ _
          | exact expr2tc_ltchecked_eq _ _
          | intro _
      | _ => exact absurd h (Nat.ne_of_beq_eq_false rfl)
    | isnan2t x1 =>
      cases b with
      | isnan2t x2 =>
        simp only [expr_body.lt, expr_body.cmp]
        repeat' first
          | apply EqOk_lt_then
          | apply EqOk_and_true
          | exact EqOk_pure nat_lt_sto _ _
          | exact EqOk_pure bool_lt_sto _ _
          | exact EqOk_pure string_lt_sto _ _
          | exact EqOk_pure string_vec_lt_sto _ _
          | exact type2t_ltchecked_eq _ _
          | exact expr2tc_ltchecked_eq _ _
          | intro _
      | _ => exact absurd h (Nat.ne_of_beq_eq_false rfl)
    | overflow2t x1 =>
      cases b with
      | overflow2t x2 =>
        simp only [expr_body.lt, expr_body.cmp]
        repeat' first
          | apply EqOk_lt_then
          | apply EqOk_and_true
          | exact EqOk_pure nat_lt_sto _ _
          | exact EqOk_pure bool_lt_sto _ _
          | exact EqOk_pure string_lt_sto _ _
          | exact EqOk_pure string_vec_lt_sto _ _
          | exact type2t_ltchecked_eq _ _
          | exact expr2tc_ltchecked_eq _ _
          | intro _
      | _ => exact absurd h (Nat.ne_of_beq_eq_false rfl)
    | overflow_cast2t x1 n1 =>
      cases b with
      | overflow_cast2t x2 n2 =>
        simp only [expr_body.lt, expr_body.cmp]
        repeat' first
          | apply EqOk_lt_then
          | apply EqOk_and_true
          | exact EqOk_pure nat_lt_sto _ _
          | exact EqOk_pure bool_lt_sto _ _
          | exact EqOk_pure string_lt_sto _ _
          | exact EqOk_pure string_vec_lt_sto _ _
          | exact type2t_ltchecked_eq _ _
          | exact expr2tc_ltchecked_eq _ _
          | intro _
      | _ => exact absurd h (Nat.ne_of_beq_eq_false rfl)
    | overflow_neg2t x1 =>
      cases b with
      | overflow_neg2t x2 =>
        simp only [expr_body.lt, expr_body.cmp]
        repeat' first
          | apply EqOk_lt_then
          | apply EqOk_and_true
          | exact EqOk_pure nat_lt_sto _ _
          | exact EqOk_pure bool_lt_sto _ _
          | exact EqOk_pure string_lt_sto _ _
          | exact EqOk_pure string_vec_lt_sto _ _
          | exact type2t_ltchecked_eq _ _
          | exact expr2tc_ltchecked_eq _ _
          | intro _
      | _ => exact absurd h (Nat.ne_of_beq_eq_false rfl)
  · rw [expr_body_lt_none a b h]
    exact EqOk_none _
termination_by sizeOf a + sizeOf b
theorem expr2tc_ltchecked_eq : ∀ (a b : Option expr2t),
    EqOk (expr2tc_ltchecked a b) (expr2tc_eq a b)
  | some a, some b => by
    simp only [expr2tc_ltchecked, expr2tc_eq]
    exact expr2t_ltchecked_eq a b
  | none, none => by simp only [expr2tc_ltchecked]; exact EqOk_none _
  | none, some _ => by simp only [expr2tc_ltchecked]; exact EqOk_none _
  | some _, none => by simp only [expr2tc_ltchecked]; exact EqOk_none _
termination_by a b => sizeOf a + sizeOf b
theorem expr_vec3_eq : ∀ (as bs : List (Option expr2t)),
    EqOk (expr_vec3 as bs) (vector_eq as.length bs.length (expr_vec_equal as bs))
  | [], [] => by
    intro r hr
    simp only [expr_vec3, Option.some.injEq] at hr
    subst hr
    rfl
  | [], _ :: _ => by
    intro r hr
    simp only [expr_vec3, Option.some.injEq] at hr
    subst hr
    simp [vector_eq]
  | _ :: _, [] => by
    intro r hr
    simp only [expr_vec3, Option.some.injEq] at hr
    subst hr
    simp [vector_eq]
  | a :: as, b :: bs => by
    simp only [expr_vec3, expr_vec_equal, List.length_cons]
    exact EqOk_vec_cons (expr2tc_ltchecked_eq a b) (fun _ => expr_vec3_eq as bs)
termination_by a b => sizeOf a + sizeOf b
end

theorem TransOk_const {a b c : Int} (h : a ≤ 0 → b ≤ 0 → c ≤ 0 ∧ (c = 0 ↔ a = 0 ∧ b = 0)) :
    TransOk (some a) (some b) (some c) := by
  intro r1 r2 h1 h2 n1 n2
  simp only [Option.some.injEq] at h1 h2
  subst h1 h2
  exact ⟨c, rfl, (h n1 n2).1, (h n1 n2).2⟩

theorem TransOk_zero : TransOk (some 0) (some 0) (some 0) :=
  TransOk_const (by omega)

theorem TransOk_neg_left (y : Option Int) : TransOk (some (-1)) y (some (-1)) := by
  intro r1 r2 h1 h2 n1 n2
  simp only [Option.some.injEq] at h1
  subst h1
  exact ⟨-1, rfl, by omega, by omega⟩

theorem TransOk_pos_left (y z : Option Int) : TransOk (some 1) y z := by
  intro r1 r2 h1 h2 n1 n2
  simp only [Option.some.injEq] at h1
  omega

theorem TransOk_pos_mid (x z : Option Int) : TransOk x (some 1) z := by
  intro r1 r2 h1 h2 n1 n2
  simp only [Option.some.injEq] at h2
  omega

set_option maxHeartbeats 40000000 in
mutual
theorem type2t_ltchecked_trans : ∀ (a b c : type2t),
    TransOk (type2t.ltchecked a b) (type2t.ltchecked b c) (type2t.ltchecked a c)
  | .mk b1, .mk b2, .mk b3 => by
    simp only [type2t.ltchecked]
    exact TransOk_lt_then (TransOk_pure nat_lt_sto _ _ _) (fun _ _ => type_body_lt_trans b1 b2 b3)
termination_by a b c => sizeOf a + sizeOf b + sizeOf c
theorem type_body_lt_trans (a b c : type_body) :
    TransOk (type_body.lt a b) (type_body.lt b c) (type_body.lt a c) := by
  by_cases h1 : a.type_id = b.type_id
  · by_cases h2 : b.type_id = c.type_id
    · cases a with
      | bool_type2t =>
        cases b with
        | bool_type2t =>
          cases c with
          | bool_type2t =>
            simp only [type_body.lt]
            exact TransOk_zero
          | _ => exact type_ids.noConfusion h2
        | _ => exact type_ids.noConfusion h1
      | empty_type2t =>
        cases b with
        | empty_type2t =>
          cases c with
          | empty_type2t =>
            simp only [type_body.lt]
            exact TransOk_zero
          | _ => exact type_ids.noConfusion h2
        | _ => exact type_ids.noConfusion h1
      | symbol_type2t n1 =>
        cases b with
        | symbol_type2t n2 =>
          cases c with
          | symbol_type2t n3 =>
            simp only [type_body.lt]
            repeat' first
              | apply TransOk_lt_then
              | exact TransOk_pure nat_lt_sto _ _ _
              | exact TransOk_pure bool_lt_sto _ _ _
              | exact TransOk_pure string_lt_sto _ _ _
              | exact TransOk_pure string_vec_lt_sto _ _ _
              | exact type2t_ltchecked_trans _ _ _
              | exact expr2tc_ltchecked_trans _ _ _
              | intro _
          | _ => exact type_ids.noConfusion h2
        | _ => exact type_ids.noConfusion h1
      | struct_type2t ms1 ns1 n1 =>
        cases b with
        | struct_type2t ms2 ns2 n2 =>
          cases c with
          | struct_type2t ms3 ns3 n3 =>
            simp only [type_body.lt]
            rw [vec_row _ _ _ _ (type_vec_less_eq ms1 ms2) (type_vec_less_eq ms2 ms1) (type_vec3_swap ms1 ms2),
              vec_row _ _ _ _ (type_vec_less_eq ms2 ms3) (type_vec_less_eq ms3 ms2) (type_vec3_swap ms2 ms3),
              vec_row _ _ _ _ (type_vec_less_eq ms1 ms3) (type_vec_less_eq ms3 ms1) (type_vec3_swap ms1 ms3)]
            apply TransOk_lt_then (TransOk_pure string_lt_sto _ _ _)
            intro _ _
            apply TransOk_lt_then (TransOk_pure nat_lt_sto _ _ _)
            intro _ _
            apply TransOk_lt_then (TransOk_sign (type_vec3_trans ms1 ms2 ms3))
            intro _ _
            exact TransOk_pure string_vec_lt_sto _ _ _
          | _ => exact type_ids.noConfusion h2
        | _ => exact type_ids.noConfusion h1
      | union_type2t ms1 ns1 n1 =>
        cases b with
        | union_type2t ms2 ns2 n2 =>
          cases c with
          | union_type2t ms3 ns3 n3 =>
            simp only [type_body.lt]
            rw [vec_row _ _ _ _ (type_vec_less_eq ms1 ms2) (type_vec_less_eq ms2 ms1) (type_vec3_swap ms1 ms2),
              vec_row _ _ _ _ (type_vec_less_eq ms2 ms3) (type_vec_less_eq ms3 ms2) (type_vec3_swap ms2 ms3),
              vec_row _ _ _ _ (type_vec_less_eq ms1 ms3) (type_vec_less_eq ms3 ms1) (type_vec3_swap ms1 ms3)]
            apply TransOk_lt_then (TransOk_pure string_lt_sto _ _ _)
            intro _ _
            apply TransOk_lt_then (TransOk_pure nat_lt_sto _ _ _)
            intro _ _
            apply TransOk_lt_then (TransOk_sign (type_vec3_trans ms1 ms2 ms3))
            intro _ _
            exact TransOk_pure string_vec_lt_sto _ _ _
          | _ => exact type_ids.noConfusion h2
        | _ => exact type_ids.noConfusion h1
      | code_type2t =>
        cases b with
        | code_type2t =>
          cases c with
          | code_type2t =>
            simp only [type_body.lt]
            exact TransOk_zero
          | _ => exact type_ids.noConfusion h2
        | _ => exact type_ids.noConfusion h1
      | array_type2t s1 z1 i1 =>
        cases b with
        | array_type2t s2 z2 i2 =>
          cases c with
          | array_type2t s3 z3 i3 =>
            simp only [type_body.lt]
            apply TransOk_lt_then (type2t_ltchecked_trans s1 s2 s3)
            intro _ _
            apply TransOk_lt_then (TransOk_pure bool_lt_sto _ _ _)
            intro e1 e2
            have e12 : i1 = i2 := by
              simp only [Option.some.injEq] at e1
              exact (three_way_eq_zero bool_lt_sto i1 i2).mp e1
            have e23 : i2 = i3 := by
              simp only [Option.some.injEq] at e2
              exact (three_way_eq_zero bool_lt_sto i2 i3).mp e2
            subst e12 e23
            cases i1 with
            | true => exact TransOk_zero
            | false => exact expr2tc_ltchecked_trans z1 z2 z3
          | _ => exact type_ids.noConfusion h2
        | _ => exact type_ids.noConfusion h1
      | pointer_type2t s1 =>
        cases b with
        | pointer_type2t s2 =>
          cases c with
          | pointer_type2t s3 =>
            simp only [type_body.lt]
            repeat' first
              | apply TransOk_lt_then
              | exact TransOk_pure nat_lt_sto _ _ _
              | exact TransOk_pure bool_lt_sto _ _ _
              | exact TransOk_pure string_lt_sto _ _ _
              | exact TransOk_pure string_vec_lt_sto _ _ _
              | exact type2t_ltchecked_trans _ _ _
              | exact expr2tc_ltchecked_trans _ _ _
              | intro _
          | _ => exact type_ids.noConfusion h2
        | _ => exact type_ids.noConfusion h1
      | unsignedbv_type2t w1 =>
        cases b with
        | unsignedbv_type2t w2 =>
          cases c with
          | unsignedbv_type2t w3 =>
            simp only [type_body.lt]
            repeat' first
              | apply TransOk_lt_then
              | exact TransOk_pure nat_lt_sto _ _ _
              | exact TransOk_pure bool_lt_sto _ _ _
              | exact TransOk_pure string_lt_sto _ _ _
              | exact TransOk_pure string_vec_lt_sto _ _ _
              | exact type2t_ltchecked_trans _ _ _
              | exact expr2tc_ltchecked_trans _ _ _
              | intro _
          | _ => exact type_ids.noConfusion h2
        | _ => exact type_ids.noConfusion h1
      | signedbv_type2t w1 =>
        cases b with
        | signedbv_type2t w2 =>
          cases c with
          | signedbv_type2t w3 =>
            simp only [type_body.lt]
            repeat' first
              | apply TransOk_lt_then
              | exact TransOk_pure nat_lt_sto _ _ _
              | exact TransOk_pure bool_lt_sto _ _ _
              | exact TransOk_pure string_lt_sto _ _ _
              | exact TransOk_pure string_vec_lt_sto _ _ _
              | exact type2t_ltchecked_trans _ _ _
              | exact expr2tc_ltchecked_trans _ _ _
              | intro _
          | _ => exact type_ids.noConfusion h2
        | _ => exact type_ids.noConfusion h1
      | fixedbv_type2t w1 ib1 =>
        cases b with
        | fixedbv_type2t w2 ib2 =>
          cases c with
          | fixedbv_type2t w3 ib3 =>
            simp only [type_body.lt]
            repeat' first
              | apply TransOk_lt_then
              | exact TransOk_pure nat_lt_sto _ _ _
              | exact TransOk_pure bool_lt_sto _ _ _
              | exact TransOk_pure string_lt_sto _ _ _
              | exact TransOk_pure string_vec_lt_sto _ _ _
              | exact type2t_ltchecked_trans _ _ _
              | exact expr2tc_ltchecked_trans _ _ _
              | intro _
          | _ => exact type_ids.noConfusion h2
        | _ => exact type_ids.noConfusion h1
      | string_type2t e1 =>
        cases b with
        | string_type2t e2 =>
          cases c with
          | string_type2t e3 =>
            simp only [type_body.lt]
            repeat' first
              | apply TransOk_lt_then
              | exact TransOk_pure nat_lt_sto _ _ _
              | exact TransOk_pure bool_lt_sto _ _ _
              | exact TransOk_pure string_lt_sto _ _ _
              | exact TransOk_pure string_vec_lt_sto _ _ _
              | exact type2t_ltchecked_trans _ _ _
              | exact expr2tc_ltchecked_trans _ _ _
              | intro _
          | _ => exact type_ids.noConfusion h2
        | _ => exact type_ids.noConfusion h1
    · rw [type_body_lt_none b c h2]
      exact TransOk_none_mid _ _
  · rw [type_body_lt_none a b h1]
    exact TransOk_none_left _ _
termination_by sizeOf a + sizeOf b + sizeOf c
theorem type_vec3_trans : ∀ (as bs cs : List type2t),
    TransOk (type_vec3 as bs) (type_vec3 bs cs) (type_vec3 as cs)
  | [], [], [] => by simp only [type_vec3]; exact TransOk_zero
  | [], [], _ :: _ => by
    simp only [type_vec3]
    exact TransOk_const (by omega)
  | [], _ :: _, [] => by
    simp only [type_vec3]
    exact TransOk_const (by omega)
  | [], _ :: _, _ :: _ => by
    simp only [type_vec3]
    exact TransOk_neg_left _
  | _ :: _, [], cs => by
    simp only [type_vec3]
    exact TransOk_pos_left _ _
  | _ :: _, _ :: _, [] => by
    simp only [type_vec3]
    exact TransOk_pos_mid _ _
  | a :: as, b :: bs, c :: cs => by
    simp only [type_vec3]
    exact TransOk_lt_then (type2t_ltchecked_trans a b c) (fun _ _ => type_vec3_trans as bs cs)
termination_by a b c => sizeOf a + sizeOf b + sizeOf c
theorem expr2t_ltchecked_trans : ∀ (a b c : expr2t),
    TransOk (expr2t.ltchecked a b) (expr2t.ltchecked b c) (expr2t.ltchecked a c)
  | .mk t1 b1, .mk t2 b2, .mk t3 b3 => by
    simp only [expr2t.ltchecked]
    exact TransOk_lt_then
      (TransOk_lt_then (TransOk_pure nat_lt_sto _ _ _)
        (fun _ _ => type2t_ltchecked_trans t1 t2 t3))
      (fun _ _ => expr_body_lt_trans b1 b2 b3)
termination_by a b c => sizeOf a + sizeOf b + sizeOf c
theorem expr_body_lt_trans (a b c : expr_body) :
    TransOk (expr_body.lt a b) (expr_body.lt b c) (expr_body.lt a c) := by
  by_cases h1 : a.class_index = b.class_index
  · by_cases h2 : b.class_index = c.class_index
    · cases a with
      | constant_int2t v1 =>
        cases b with
        | constant_int2t v2 =>
          cases c with
          | constant_int2t v3 =>
            simp only [expr_body.lt]
            rw [BigInt_compare_eq, BigInt_compare_eq, BigInt_compare_eq]
            exact TransOk_pure int_lt_sto _ _ _
          | _ => exact absurd h2 (Nat.ne_of_beq_eq_false rfl)
        | _ => exact absurd h1 (Nat.ne_of_beq_eq_false rfl)
      | constant_bool2t v1 =>
        cases b with
        | constant_bool2t v2 =>
          cases c with
          | constant_bool2t v3 =>
            simp only [expr_body.lt]
            repeat' first
              | apply TransOk_lt_then
              | exact TransOk_pure nat_lt_sto _ _ _
              | exact TransOk_pure bool_lt_sto _ _ _
              | exact TransOk_pure string_lt_sto _ _ _
              | exact TransOk_pure string_vec_lt_sto _ _ _
              | exact type2t_ltchecked_trans _ _ _
              | exact expr2tc_ltchecked_trans _ _ _
              | intro _
          | _ => exact absurd h2 (Nat.ne_of_beq_eq_false rfl)
        | _ => exact absurd h1 (Nat.ne_of_beq_eq_false rfl)
      | constant_string2t v1 =>
        cases b with
        | constant_string2t v2 =>
          cases c with
          | constant_string2t v3 =>
            simp only [expr_body.lt]
            repeat' first
              | apply TransOk_lt_then
              | exact TransOk_pure nat_lt_sto _ _ _
              | exact TransOk_pure bool_lt_sto _ _ _
              | exact TransOk_pure string_lt_sto _ _ _
              | exact TransOk_pure string_vec_lt_sto _ _ _
              | exact type2t_ltchecked_trans _ _ _
              | exact expr2tc_ltchecked_trans _ _ _
              | intro _
          | _ => exact absurd h2 (Nat.ne_of_beq_eq_false rfl)
        | _ => exact absurd h1 (Nat.ne_of_beq_eq_false rfl)
      | constant_datatype2t d1 m1 =>
        cases b with
        | constant_datatype2t d2 m2 =>
          cases c with
          | constant_datatype2t d3 m3 =>
            simp only [expr_body.lt]
            rw [vec_row _ _ _ _ (expr_vec_less_eq m1 m2) (expr_vec_less_eq m2 m1) (expr_vec3_swap m1 m2),
              vec_row _ _ _ _ (expr_vec_less_eq m2 m3) (expr_vec_less_eq m3 m2) (expr_vec3_swap m2 m3),
              vec_row _ _ _ _ (expr_vec_less_eq m1 m3) (expr_vec_less_eq m3 m1) (expr_vec3_swap m1 m3)]
            exact TransOk_sign (expr_vec3_trans m1 m2 m3)
          | _ => exact absurd h2 (Nat.ne_of_beq_eq_false rfl)
        | _ => exact absurd h1 (Nat.ne_of_beq_eq_false rfl)
      | constant_array2t m1 =>
        cases b with
        | constant_array2t m2 =>
          cases c with
          | constant_array2t m3 =>
            simp only [expr_body.lt]
            rw [vec_row _ _ _ _ (expr_vec_less_eq m1 m2) (expr_vec_less_eq m2 m1) (expr_vec3_swap m1 m2),
              vec_row _ _ _ _ (expr_vec_less_eq m2 m3) (expr_vec_less_eq m3 m2) (expr_vec3_swap m2 m3),
              vec_row _ _ _ _ (expr_vec_less_eq m1 m3) (expr_vec_less_eq m3 m1) (expr_vec3_swap m1 m3)]
            exact TransOk_sign (expr_vec3_trans m1 m2 m3)
          | _ => exact absurd h2 (Nat.ne_of_beq_eq_false rfl)
        | _ => exact absurd h1 (Nat.ne_of_beq_eq_false rfl)
      | constant_array_of2t i1 =>
        cases b with
        | constant_array_of2t i2 =>
          cases c with
          | constant_array_of2t i3 =>
            simp only [expr_body.lt]
            repeat' first
              | apply TransOk_lt_then
              | exact TransOk_pure nat_lt_sto _ _ _
              | exact TransOk_pure bool_lt_sto _ _ _
              | exact TransOk_pure string_lt_sto _ _ _
              | exact TransOk_pure string_vec_lt_sto _ _ _
              | exact type2t_ltchecked_trans _ _ _
              | exact expr2tc_ltchecked_trans _ _ _
              | intro _
          | _ => exact absurd h2 (Nat.ne_of_beq_eq_false rfl)
        | _ => exact absurd h1 (Nat.ne_of_beq_eq_false rfl)
      | symbol2t n1 =>
        cases b with
        | symbol2t n2 =>
          cases c with
          | symbol2t n3 =>
            simp only [expr_body.lt]
            repeat' first
              | apply TransOk_lt_then
              | exact TransOk_pure nat_lt_sto _ _ _
              | exact TransOk_pure bool_lt_sto _ _ _
              | exact TransOk_pure string_lt_sto _ _ _
              | exact TransOk_pure string_vec_lt_sto _ _ _
              | exact type2t_ltchecked_trans _ _ _
              | exact expr2tc_ltchecked_trans _ _ _
              | intro _
          | _ => exact absurd h2 (Nat.ne_of_beq_eq_false rfl)
        | _ => exact absurd h1 (Nat.ne_of_beq_eq_false rfl)
      | typecast2t f1 =>
        cases b with
        | typecast2t f2 =>
          cases c with
          | typecast2t f3 =>
            simp only [expr_body.lt]
            rw [vec_row _ _ _ _ (expr2tc_less_eq f1 f2) (expr2tc_less_eq f2 f1)
                (expr2tc_ltchecked_swap f1 f2),
              vec_row _ _ _ _ (expr2tc_less_eq f2 f3) (expr2tc_less_eq f3 f2)
                (expr2tc_ltchecked_swap f2 f3),
              vec_row _ _ _ _ (expr2tc_less_eq f1 f3) (expr2tc_less_eq f3 f1)
                (expr2tc_ltchecked_swap f1 f3)]
            exact TransOk_sign (expr2tc_ltchecked_trans f1 f2 f3)
          | _ => exact absurd h2 (Nat.ne_of_beq_eq_false rfl)
        | _ => exact absurd h1 (Nat.ne_of_beq_eq_false rfl)
      | if2t c1 t1 f1 =>
        cases b with
        | if2t c2 t2 f2 =>
          cases c with
          | if2t c3 t3 f3 =>
            simp only [expr_body.lt]
            repeat' first
              | apply TransOk_lt_then
              | exact TransOk_pure nat_lt_sto _ _ _
              | exact TransOk_pure bool_lt_sto _ _ _
              | exact TransOk_pure string_lt_sto _ _ _
              | exact TransOk_pure string_vec_lt_sto _ _ _
              | exact type2t_ltchecked_trans _ _ _
              | exact expr2tc_ltchecked_trans _ _ _
              | intro _
          | _ => exact absurd h2 (Nat.ne_of_beq_eq_false rfl)
        | _ => exact absurd h1 (Nat.ne_of_beq_eq_false rfl)
      | rel2t d1 a1 b1 =>
        cases b with
        | rel2t d2 a2 b2 =>
          cases c with
          | rel2t d3 a3 b3 =>
            simp only [expr_body.lt]
            repeat' first
              | apply TransOk_lt_then
              | exact TransOk_pure nat_lt_sto _ _ _
              | exact TransOk_pure bool_lt_sto _ _ _
              | exact TransOk_pure string_lt_sto _ _ _
              | exact TransOk_pure string_vec_lt_sto _ _ _
              | exact type2t_ltchecked_trans _ _ _
              | exact expr2tc_ltchecked_trans _ _ _
              | intro _
          | _ => exact absurd h2 (Nat.ne_of_beq_eq_false rfl)
        | _ => exact absurd h1 (Nat.ne_of_beq_eq_false rfl)
      | not2t x1 =>
        cases b with
        | not2t x2 =>
          cases c with
          | not2t x3 =>
            simp only [expr_body.lt]
            repeat' first
              | apply TransOk_lt_then
              | exact TransOk_pure nat_lt_sto _ _ _
              | exact TransOk_pure bool_lt_sto _ _ _
              | exact TransOk_pure string_lt_sto _ _ _
              | exact TransOk_pure string_vec_lt_sto _ _ _
              | exact type2t_ltchecked_trans _ _ _
              | exact expr2tc_ltchecked_trans _ _ _
              | intro _
          | _ => exact absurd h2 (Nat.ne_of_beq_eq_false rfl)
        | _ => exact absurd h1 (Nat.ne_of_beq_eq_false rfl)
      | logical_2ops2t d1 a1 b1 =>
        cases b with
        | logical_2ops2t d2 a2 b2 =>
          cases c with
          | logical_2ops2t d3 a3 b3 =>
            simp only [expr_body.lt]
            repeat' first
              | apply TransOk_lt_then
              | exact TransOk_pure nat_lt_sto _ _ _
              | exact TransOk_pure bool_lt_sto _ _ _
              | exact TransOk_pure string_lt_sto _ _ _
              | exact TransOk_pure string_vec_lt_sto _ _ _
              | exact type2t_ltchecked_trans _ _ _
              | exact expr2tc_ltchecked_trans _ _ _
              | intro _
          | _ => exact absurd h2 (Nat.ne_of_beq_eq_false rfl)
        | _ => exact absurd h1 (Nat.ne_of_beq_eq_false rfl)
      | binops2t d1 a1 b1 =>
        cases b with
        | binops2t d2 a2 b2 =>
          cases c with
          | binops2t d3 a3 b3 =>
            simp only [expr_body.lt]
            repeat' first
              | apply TransOk_lt_then
              | exact TransOk_pure nat_lt_sto _ _ _
              | exact TransOk_pure bool_lt_sto _ _ _
              | exact TransOk_pure string_lt_sto _ _ _
              | exact TransOk_pure string_vec_lt_sto _ _ _
              | exact type2t_ltchecked_trans _ _ _
              | exact expr2tc_ltchecked_trans _ _ _
              | intro _
          | _ => exact absurd h2 (Nat.ne_of_beq_eq_false rfl)
        | _ => exact absurd h1 (Nat.ne_of_beq_eq_false rfl)
      | neg2t x1 =>
        cases b with
        | neg2t x2 =>
          cases c with
          | neg2t x3 =>
            simp only [expr_body.lt]
            repeat' first
              | apply TransOk_lt_then
              | exact TransOk_pure nat_lt_sto _ _ _
              | exact TransOk_pure bool_lt_sto _ _ _
              | exact TransOk_pure string_lt_sto _ _ _
              | exact TransOk_pure string_vec_lt_sto _ _ _
              | exact type2t_ltchecked_trans _ _ _
              | exact expr2tc_ltchecked_trans _ _ _
              | intro _
          | _ => exact absurd h2 (Nat.ne_of_beq_eq_false rfl)
        | _ => exact absurd h1 (Nat.ne_of_beq_eq_false rfl)
      | abs2t x1 =>
        cases b with
        | abs2t x2 =>
          cases c with
          | abs2t x3 =>
            simp only [expr_body.lt]
            repeat' first
              | apply TransOk_lt_then
              | exact TransOk_pure nat_lt_sto _ _ _
              | exact TransOk_pure bool_lt_sto _ _ _
              | exact TransOk_pure string_lt_sto _ _ _
              | exact TransOk_pure string_vec_lt_sto _ _ _
              | exact type2t_ltchecked_trans _ _ _
              | exact expr2tc_ltchecked_trans _ _ _
              | intro _
          | _ => exact absurd h2 (Nat.ne_of_beq_eq_false rfl)
        | _ => exact absurd h1 (Nat.ne_of_beq_eq_false rfl)
      | arith_2op2t d1 a1 b1 =>
        cases b with
        | arith_2op2t d2 a2 b2 =>
          cases c with
          | arith_2op2t d3 a3 b3 =>
            simp only [expr_body.lt]
            repeat' first
              | apply TransOk_lt_then
              | exact TransOk_pure nat_lt_sto _ _ _
              | exact TransOk_pure bool_lt_sto _ _ _
              | exact TransOk_pure string_lt_sto _ _ _
              | exact TransOk_pure string_vec_lt_sto _ _ _
              | exact type2t_ltchecked_trans _ _ _
              | exact expr2tc_ltchecked_trans _ _ _
              | intro _
          | _ => exact absurd h2 (Nat.ne_of_beq_eq_false rfl)
        | _ => exact absurd h1 (Nat.ne_of_beq_eq_false rfl)
      | pointer_offset2t x1 =>
        cases b with
        | pointer_offset2t x2 =>
          cases c with
          | pointer_offset2t x3 =>
            simp only [expr_body.lt]
            repeat' first
              | apply TransOk_lt_then
              | exact TransOk_pure nat_lt_sto _ _ _
              | exact TransOk_pure bool_lt_sto _ _ _
              | exact TransOk_pure string_lt_sto _ _ _
              | exact TransOk_pure string_vec_lt_sto _ _ _
              | exact type2t_ltchecked_trans _ _ _
              | exact expr2tc_ltchecked_trans _ _ _
              | intro _
          | _ => exact absurd h2 (Nat.ne_of_beq_eq_false rfl)
        | _ => exact absurd h1 (Nat.ne_of_beq_eq_false rfl)
      | pointer_object2t x1 =>
        cases b with
        | pointer_object2t x2 =>
          cases c with
          | pointer_object2t x3 =>
            simp only [expr_body.lt]
            repeat' first
              | apply TransOk_lt_then
              | exact TransOk_pure nat_lt_sto _ _ _
              | exact TransOk_pure bool_lt_sto _ _ _
              | exact TransOk_pure string_lt_sto _ _ _
              | exact TransOk_pure string_vec_lt_sto _ _ _
              | exact type2t_ltchecked_trans _ _ _
              | exact expr2tc_ltchecked_trans _ _ _
              | intro _
          | _ => exact absurd h2 (Nat.ne_of_beq_eq_false rfl)
        | _ => exact absurd h1 (Nat.ne_of_beq_eq_false rfl)
      | address_of2t x1 =>
        cases b with
        | address_of2t x2 =>
          cases c with
          | address_of2t x3 =>
            simp only [expr_body.lt]
            repeat' first
              | apply TransOk_lt_then
              | exact TransOk_pure nat_lt_sto _ _ _
              | exact TransOk_pure bool_lt_sto _ _ _
              | exact TransOk_pure string_lt_sto _ _ _
              | exact TransOk_pure string_vec_lt_sto _ _ _
              | exact type2t_ltchecked_trans _ _ _
              | exact expr2tc_ltchecked_trans _ _ _
              | intro _
          | _ => exact absurd h2 (Nat.ne_of_beq_eq_false rfl)
        | _ => exact absurd h1 (Nat.ne_of_beq_eq_false rfl)
      | byte_extract2t e1 v1 o1 =>
        cases b with
        | byte_extract2t e2 v2 o2 =>
          cases c with
          | byte_extract2t e3 v3 o3 =>
            simp only [expr_body.lt]
            repeat' first
              | apply TransOk_lt_then
              | exact TransOk_pure nat_lt_sto _ _ _
              | exact TransOk_pure bool_lt_sto _ _ _
              | exact TransOk_pure string_lt_sto _ _ _
              | exact TransOk_pure string_vec_lt_sto _ _ _
              | exact type2t_ltchecked_trans _ _ _
              | exact expr2tc_ltchecked_trans _ _ _
              | intro _
          | _ => exact absurd h2 (Nat.ne_of_beq_eq_false rfl)
        | _ => exact absurd h1 (Nat.ne_of_beq_eq_false rfl)
      | byte_update2t e1 v1 o1 u1 =>
        cases b with
        | byte_update2t e2 v2 o2 u2 =>
          cases c with
          | byte_update2t e3 v3 o3 u3 =>
            simp only [expr_body.lt]
            repeat' first
              | apply TransOk_lt_then
              | exact TransOk_pure nat_lt_sto _ _ _
              | exact TransOk_pure bool_lt_sto _ _ _
              | exact TransOk_pure string_lt_sto _ _ _
              | exact TransOk_pure string_vec_lt_sto _ _ _
              | exact type2t_ltchecked_trans _ _ _
              | exact expr2tc_ltchecked_trans _ _ _
              | intro _
          | _ => exact absurd h2 (Nat.ne_of_beq_eq_false rfl)
        | _ => exact absurd h1 (Nat.ne_of_beq_eq_false rfl)
      | with2t s1 f1 d1 =>
        cases b with
        | with2t s2 f2 d2 =>
          cases c with
          | with2t s3 f3 d3 =>
            simp only [expr_body.lt]
            repeat' first
              | apply TransOk_lt_then
              | exact TransOk_pure nat_lt_sto _ _ _
              | exact TransOk_pure bool_lt_sto _ _ _
              | exact TransOk_pure string_lt_sto _ _ _
              | exact TransOk_pure string_vec_lt_sto _ _ _
              | exact type2t_ltchecked_trans _ _ _
              | exact expr2tc_ltchecked_trans _ _ _
              | intro _
          | _ => exact absurd h2 (Nat.ne_of_beq_eq_false rfl)
        | _ => exact absurd h1 (Nat.ne_of_beq_eq_false rfl)
      | member2t s1 mt1 mv1 =>
        cases b with
        | member2t s2 mt2 mv2 =>
          cases c with
          | member2t s3 mt3 mv3 =>
            simp only [expr_body.lt]
            repeat' first
              | apply TransOk_lt_then
              | exact TransOk_pure nat_lt_sto _ _ _
              | exact TransOk_pure bool_lt_sto _ _ _
              | exact TransOk_pure string_lt_sto _ _ _
              | exact TransOk_pure string_vec_lt_sto _ _ _
              | exact type2t_ltchecked_trans _ _ _
              | exact expr2tc_ltchecked_trans _ _ _
              | intro _
          | _ => exact absurd h2 (Nat.ne_of_beq_eq_false rfl)
        | _ => exact absurd h1 (Nat.ne_of_beq_eq_false rfl)
      | index2t s1 i1 =>
        cases b with
        | index2t s2 i2 =>
          cases c with
          | index2t s3 i3 =>
            simp only [expr_body.lt]
            repeat' first
              | apply TransOk_lt_then
              | exact TransOk_pure nat_lt_sto _ _ _
              | exact TransOk_pure bool_lt_sto _ _ _
              | exact TransOk_pure string_lt_sto _ _ _
              | exact TransOk_pure string_vec_lt_sto _ _ _
              | exact type2t_ltchecked_trans _ _ _
              | exact expr2tc_ltchecked_trans _ _ _
              | intro _
          | _ => exact absurd h2 (Nat.ne_of_beq_eq_false rfl)
        | _ => exact absurd h1 (Nat.ne_of_beq_eq_false rfl)
      | zero_string2t x1 =>
        cases b with
        | zero_string2t x2 =>
          cases c with
          | zero_string2t x3 =>
            simp only [expr_body.lt]
            repeat' first
              | apply TransOk_lt_then
              | exact TransOk_pure nat_lt_sto _ _ _
              | exact TransOk_pure bool_lt_sto _ _ _
              | exact TransOk_pure string_lt_sto _ _ _
              | exact TransOk_pure string_vec_lt_sto _ _ _
              | exact type2t_ltchecked_trans _ _ _
              | exact expr2tc_ltchecked_trans _ _ _
              | intro _
          | _ => exact absurd h2 (Nat.ne_of_beq_eq_false rfl)
        | _ => exact absurd h1 (Nat.ne_of_beq_eq_false rfl)
      | zero_length_string2t x1 =>
        cases b with
        | zero_length_string2t x2 =>
          cases c with
          | zero_length_string2t x3 =>
            simp only [expr_body.lt]
            repeat' first
              | apply TransOk_lt_then
              | exact TransOk_pure nat_lt_sto _ _ _
              | exact TransOk_pure bool_lt_sto _ _ _
              | exact TransOk_pure string_lt_sto _ _ _
              | exact TransOk_pure string_vec_lt_sto _ _ _
              | exact type2t_ltchecked_trans _ _ _
              | exact expr2tc_ltchecked_trans _ _ _
              | intro _
          | _ => exact absurd h2 (Nat.ne_of_beq_eq_false rfl)
        | _ => exact absurd h1 (Nat.ne_of_beq_eq_false rfl)
      | isnan2t x1 =>
        cases b with
        | isnan2t x2 =>
          cases c with
          | isnan2t x3 =>
            simp only [expr_body.lt]
            repeat' first
              | apply TransOk_lt_then
              | exact TransOk_pure nat_lt_sto _ _ _
              | exact TransOk_pure bool_lt_sto _ _ _
              | exact TransOk_pure string_lt_sto _ _ _
              | exact TransOk_pure string_vec_lt_sto _ _ _
              | exact type2t_ltchecked_trans _ _ _
              | exact expr2tc_ltchecked_trans _ _ _
              | intro _
          | _ => exact absurd h2 (Nat.ne_of_beq_eq_false rfl)
        | _ => exact absurd h1 (Nat.ne_of_beq_eq_false rfl)
      | overflow2t x1 =>
        cases b with
        | overflow2t x2 =>
          cases c with
          | overflow2t x3 =>
            simp only [expr_body.lt]
            repeat' first
              | apply TransOk_lt_then
              | exact TransOk_pure nat_lt_sto _ _ _
              | exact TransOk_pure bool_lt_sto _ _ _
              | exact TransOk_pure string_lt_sto _ _ _
              | exact TransOk_pure string_vec_lt_sto _ _ _
              | exact type2t_ltchecked_trans _ _ _
              | exact expr2tc_ltchecked_trans _ _ _
              | intro _
          | _ => exact absurd h2 (Nat.ne_of_beq_eq_false rfl)
        | _ => exact absurd h1 (Nat.ne_of_beq_eq_false rfl)
      | overflow_cast2t x1 n1 =>
        cases b with
        | overflow_cast2t x2 n2 =>
          cases c with
          | overflow_cast2t x3 n3 =>
            simp only [expr_body.lt]
            repeat' first
              | apply TransOk_lt_then
              | exact TransOk_pure nat_lt_sto _ _ _
              | exact TransOk_pure bool_lt_sto _ _ _
              | exact TransOk_pure string_lt_sto _ _ _
              | exact TransOk_pure string_vec_lt_sto _ _ _
              | exact type2t_ltchecked_trans _ _ _
              | exact expr2tc_ltchecked_trans _ _ _
              | intro _
          | _ => exact absurd h2 (Nat.ne_of_beq_eq_false rfl)
        | _ => exact absurd h1 (Nat.ne_of_beq_eq_false rfl)
      | overflow_neg2t x1 =>
        cases b with
        | overflow_neg2t x2 =>
          cases c with
          | overflow_neg2t x3 =>
            simp only [expr_body.lt]
            repeat' first
              | apply TransOk_lt_then
              | exact TransOk_pure nat_lt_sto _ _ _
              | exact TransOk_pure bool_lt_sto _ _ _
              | exact TransOk_pure string_lt_sto _ _ _
              | exact TransOk_pure string_vec_lt_sto _ _ _
              | exact type2t_ltchecked_trans _ _ _
              | exact expr2tc_ltchecked_trans _ _ _
              | intro _
          | _ => exact absurd h2 (Nat.ne_of_beq_eq_false rfl)
        | _ => exact absurd h1 (Nat.ne_of_beq_eq_false rfl)
    · rw [expr_body_lt_none b c h2]
      exact TransOk_none_mid _ _
  · rw [expr_body_lt_none a b h1]
    exact TransOk_none_left _ _
termination_by sizeOf a + sizeOf b + sizeOf c
theorem expr2tc_ltchecked_trans : ∀ (a b c : Option expr2t),
    TransOk (expr2tc_ltchecked a b) (expr2tc_ltchecked b c) (expr2tc_ltchecked a c)
  | some a, some b, some c => by
    simp only [expr2tc_ltchecked]
    exact expr2t_ltchecked_trans a b c
  | none, _, _ => by simp only [expr2tc_ltchecked]; exact TransOk_none_left _ _
  | some _, none, _ => by simp only [expr2tc_ltchecked]; exact TransOk_none_left _ _
  | some _, some _, none => by simp only [expr2tc_ltchecked]; exact TransOk_none_mid _ _
termination_by a b c => sizeOf a + sizeOf b + sizeOf c
theorem expr_vec3_trans : ∀ (as bs cs : List (Option expr2t)),
    TransOk (expr_vec3 as bs) (expr_vec3 bs cs) (expr_vec3 as cs)
  | [], [], [] => by simp only [expr_vec3]; exact TransOk_zero
  | [], [], _ :: _ => by
    simp only [expr_vec3]
    exact TransOk_const (by omega)
  | [], _ :: _, [] => by
    simp only [expr_vec3]
    exact TransOk_const (by omega)
  | [], _ :: _, _ :: _ => by
    simp only [expr_vec3]
    exact TransOk_neg_left _
  | _ :: _, [], cs => by
    simp only [expr_vec3]
    exact TransOk_pos_left _ _
  | _ :: _, _ :: _, [] => by
    simp only [expr_vec3]
    exact TransOk_pos_mid _ _
  | a :: as, b :: bs, c :: cs => by
    simp only [expr_vec3]
    exact TransOk_lt_then (expr2tc_ltchecked_trans a b c) (fun _ _ => expr_vec3_trans as bs cs)
termination_by a b c => sizeOf a + sizeOf b + sizeOf c
end

/-- The virtual `cmp` of a class is undefined on an object of another class. -/
theorem expr_body_cmp_none (a b : expr_body) (h : a.class_index ≠ b.class_index) :
    expr_body.cmp a b = none := by
  cases a <;> cases b <;> first | exact absurd rfl h | rfl

/-- The `cmp` of a type class is undefined on an object of another class. -/
theorem type_body_cmp_none (a b : type_body) (h : a.type_id ≠ b.type_id) :
    type_body.cmp a b = none := by
  cases a <;> cases b <;> first | exact absurd rfl h | rfl

theorem cmp_then_true {e f : Option Bool} (h : cmp_then e f = some true) :
    e = some true ∧ f = some true := by
  cases e with
  | none => simp [cmp_then] at h
  | some b =>
    cases b with
    | false => simp [cmp_then] at h
    | true => exact ⟨rfl, h⟩

theorem CrcOk_none (x y : Option (List Nat)) : CrcOk none x y := by
  intro h; cases h

theorem CrcOk_false (x y : Option (List Nat)) : CrcOk (some false) x y := by
  intro h; cases h

theorem CrcOk_refl (e : Option Bool) (l : List Nat) : CrcOk e (some l) (some l) :=
  fun _ => ⟨rfl, l, rfl⟩

theorem CrcOk_pure {α : Type} [DecidableEq α] (g : α → List Nat) (a b : α) :
    CrcOk (some (decide (a = b))) (some (g a)) (some (g b)) := by
  intro h
  simp only [Option.some.injEq, decide_eq_true_eq] at h
  subst h
  exact ⟨rfl, _, rfl⟩

theorem CrcOk_cmp_feed {e f : Option Bool} {x y x' y' : Option (List Nat)}
    (h1 : CrcOk e x y) (h2 : CrcOk f x' y') :
    CrcOk (cmp_then e f) (feed x x') (feed y y') := by
  intro h
  obtain ⟨he, hf⟩ := cmp_then_true h
  obtain ⟨e1, l1, hl1⟩ := h1 he
  obtain ⟨e2, l2, hl2⟩ := h2 hf
  subst e1 e2
  subst hl1 hl2
  exact ⟨rfl, l1 ++ l2, rfl⟩

theorem CrcOk_swap_feed {e f : Option Bool} {x y x' y' : Option (List Nat)}
    (h1 : CrcOk e x' y') (h2 : CrcOk f x y) :
    CrcOk (cmp_then e f) (feed x x') (feed y y') := by
  intro h
  obtain ⟨he, hf⟩ := cmp_then_true h
  obtain ⟨e1, l1, hl1⟩ := h1 he
  obtain ⟨e2, l2, hl2⟩ := h2 hf
  subst e1 e2
  subst hl1 hl2
  exact ⟨rfl, l2 ++ l1, rfl⟩

theorem CrcOk_and_true {e : Option Bool} {x y : Option (List Nat)} (h1 : CrcOk e x y) :
    CrcOk (cmp_then e (some true)) x y :=
  fun h => h1 (cmp_then_true h).1

theorem CrcOk_skip {c f : Option Bool} {x y : Option (List Nat)} (h1 : CrcOk f x y) :
    CrcOk (cmp_then c f) x y :=
  fun h => h1 (cmp_then_true h).2

theorem CrcOk_pre {f : Option Bool} {x y : Option (List Nat)} {c : List Nat}
    (h1 : CrcOk f x y) : CrcOk f (feed (some c) x) (feed (some c) y) := by
  intro h
  obtain ⟨e1, l1, hl1⟩ := h1 h
  subst e1
  subst hl1
  exact ⟨rfl, c ++ l1, rfl⟩

theorem CrcOk_vec {n m : Nat} {q : Option Bool} {x y : Option (List Nat)}
    (h1 : n = m → CrcOk q x y) : CrcOk (vector_eq n m q) x y := by
  intro h
  by_cases e : n = m
  · simp only [vector_eq, e, ne_eq, not_true_eq_false, if_false] at h
    exact h1 e h
  · simp [vector_eq, e] at h

theorem CrcOk_expr (id1 id2 : expr_ids) {te be : Option Bool}
    {tx ty bx bY : Option (List Nat)} (h1 : CrcOk te tx ty) (h2 : CrcOk be bx bY) :
    CrcOk (cmp_then (if id1 ≠ id2 then some false else cmp_then te (some true)) be)
      (feed (feed (some [id1.toNat]) tx) bx) (feed (feed (some [id2.toNat]) ty) bY) := by
  intro h
  obtain ⟨ha, hb⟩ := cmp_then_true h
  by_cases e : id1 = id2
  · subst e
    simp only [ne_eq, not_true_eq_false, if_false] at ha
    exact CrcOk_cmp_feed (CrcOk_pre (CrcOk_and_true h1)) h2
      (by rw [ha, hb]; rfl)
  · simp [e] at ha

set_option maxHeartbeats 40000000 in
mutual
theorem type2t_crc_ok : ∀ (a b : type2t),
    CrcOk (type2t.operator_eq a b) (type2t.do_crc a) (type2t.do_crc b)
  | .mk b1, .mk b2 => by
    simp only [type2t.operator_eq, type2t.do_crc, ite_ne_eq_cmp_then]
    exact CrcOk_skip (type_body_crc_ok b1 b2)
termination_by a b => sizeOf a + sizeOf b
theorem type_body_crc_ok (a b : type_body) :
    CrcOk (type_body.cmp a b) (type_body.do_crc a) (type_body.do_crc b) := by
  by_cases h : a.type_id = b.type_id
  · cases a with
    | bool_type2t =>
      cases b with
      | bool_type2t =>
        simp only [type_body.cmp, type_body.do_crc]
        exact CrcOk_refl _ _
      | _ => exact type_ids.noConfusion h
    | empty_type2t =>
      cases b with
      | empty_type2t =>
        simp only [type_body.cmp, type_body.do_crc]
        exact CrcOk_refl _ _
      | _ => exact type_ids.noConfusion h
    | symbol_type2t n1 =>
      cases b with
      | symbol_type2t n2 =>
        simp only [type_body.cmp, type_body.do_crc]
        exact CrcOk_pre (CrcOk_pure _ _ _)
      | _ => exact type_ids.noConfusion h
    | struct_type2t ms1 ns1 n1 =>
      cases b with
      | struct_type2t ms2 ns2 n2 =>
        simp only [type_body.cmp, type_body.do_crc]
        apply CrcOk_pre
        apply CrcOk_cmp_feed (CrcOk_pure _ _ _)
        apply CrcOk_skip
        apply CrcOk_cmp_feed (CrcOk_vec (type_vec_crc_ok ms1 ms2))
        exact CrcOk_and_true (CrcOk_pure (fun l : List String => l.flatMap string_bytes) ns1 ns2)
      | _ => exact type_ids.noConfusion h
    | union_type2t ms1 ns1 n1 =>
      cases b with
      | union_type2t ms2 ns2 n2 =>
        simp only [type_body.cmp, type_body.do_crc]
        apply CrcOk_pre
        apply CrcOk_cmp_feed (CrcOk_pure _ _ _)
        apply CrcOk_skip
        apply CrcOk_cmp_feed (CrcOk_vec (type_vec_crc_ok ms1 ms2))
        exact CrcOk_and_true (CrcOk_pure (fun l : List String => l.flatMap string_bytes) ns1 ns2)
      | _ => exact type_ids.noConfusion h
    | code_type2t =>
      cases b with
      | code_type2t =>
        simp only [type_body.cmp, type_body.do_crc]
        exact CrcOk_refl _ _
      | _ => exact type_ids.noConfusion h
    | array_type2t s1 z1 i1 =>
      cases b with
      | array_type2t s2 z2 i2 =>
        simp only [type_body.cmp, type_body.do_crc]
        apply CrcOk_pre
        apply CrcOk_cmp_feed (type2t_crc_ok s1 s2)
        cases i1 <;> cases i2
        · exact CrcOk_pre (expr2tc_crc_ok z1 z2)
        · exact CrcOk_false _ _
        · exact CrcOk_false _ _
        · exact CrcOk_refl _ _
      | _ => exact type_ids.noConfusion h
    | pointer_type2t s1 =>
      cases b with
      | pointer_type2t s2 =>
        simp only [type_body.cmp, type_body.do_crc]
        exact CrcOk_pre (type2t_crc_ok s1 s2)
      | _ => exact type_ids.noConfusion h
    | unsignedbv_type2t w1 =>
      cases b with
      | unsignedbv_type2t w2 =>
        simp only [type_body.cmp, type_body.do_crc]
        exact CrcOk_pre (CrcOk_pure _ _ _)
      | _ => exact type_ids.noConfusion h
    | signedbv_type2t w1 =>
      cases b with
      | signedbv_type2t w2 =>
        simp only [type_body.cmp, type_body.do_crc]
        exact CrcOk_pre (CrcOk_pure _ _ _)
      | _ => exact type_ids.noConfusion h
    | fixedbv_type2t w1 ib1 =>
      cases b with
      | fixedbv_type2t w2 ib2 =>
        simp only [type_body.cmp, type_body.do_crc]
        apply CrcOk_pre
        exact CrcOk_cmp_feed (CrcOk_pure _ _ _) (CrcOk_and_true (CrcOk_pure _ _ _))
      | _ => exact type_ids.noConfusion h
    | string_type2t e1 =>
      cases b with
      | string_type2t e2 =>
        simp only [type_body.cmp, type_body.do_crc]
        exact CrcOk_pre (CrcOk_pure _ _ _)
      | _ => exact type_ids.noConfusion h
  · rw [type_body_cmp_none a b h]
    exact CrcOk_none _ _
termination_by sizeOf a + sizeOf b
theorem type_vec_crc_ok : ∀ (as bs : List type2t), as.length = bs.length →
    CrcOk (type_vec_equal as bs) (type_vec_do_crc as) (type_vec_do_crc bs)
  | [], [], _ => by
    simp only [type_vec_do_crc]
    exact CrcOk_refl _ _
  | [], _ :: _, hl => by simp at hl
  | _ :: _, [], hl => by simp at hl
  | a :: as, b :: bs, hl => by
    simp only [type_vec_equal, type_vec_do_crc]
    exact CrcOk_cmp_feed (type2t_crc_ok a b)
      (type_vec_crc_ok as bs (by simpa using hl))
termination_by a b => sizeOf a + sizeOf b
theorem expr2t_crc_ok : ∀ (a b : expr2t),
    CrcOk (expr2t.operator_eq a b) (expr2t.do_crc a) (expr2t.do_crc b)
  | .mk t1 b1, .mk t2 b2 => by
    simp only [expr2t.operator_eq, expr2t.do_crc]
    exact CrcOk_expr _ _ (type2t_crc_ok t1 t2) (expr_body_crc_ok b1 b2)
termination_by a b => sizeOf a + sizeOf b
theorem expr_body_crc_ok (a b : expr_body) :
    CrcOk (expr_body.cmp a b) (expr_body.do_crc a) (expr_body.do_crc b) := by
  by_cases h : a.class_index = b.class_index
  · cases a with
    | constant_int2t v1 =>
      cases b with
      | constant_int2t v2 =>
        simp only [expr_body.cmp, expr_body.do_crc]
        repeat' first
          | apply CrcOk_cmp_feed
          | apply CrcOk_and_true
          | exact CrcOk_pure _ _ _
          | exact expr2tc_crc_ok _ _
      | _ => exact absurd h (Nat.ne_of_beq_eq_false rfl)
    | constant_bool2t v1 =>
      cases b with
      | constant_bool2t v2 =>
        simp only [expr_body.cmp, expr_body.do_crc]
        repeat' first
          | apply CrcOk_cmp_feed
          | apply CrcOk_and_true
          | exact CrcOk_pure _ _ _
          | exact expr2tc_crc_ok _ _
      | _ => exact absurd h (Nat.ne_of_beq_eq_false rfl)
    | constant_string2t v1 =>
      cases b with
      | constant_string2t v2 =>
        simp only [expr_body.cmp, expr_body.do_crc]
        repeat' first
          | apply CrcOk_cmp_feed
          | apply CrcOk_and_true
          | exact CrcOk_pure _ _ _
          | exact expr2tc_crc_ok _ _
      | _ => exact absurd h (Nat.ne_of_beq_eq_false rfl)
    | constant_datatype2t d1 m1 =>
      cases b with
      | constant_datatype2t d2 m2 =>
        simp only [expr_body.cmp, expr_body.do_crc]
        exact CrcOk_vec (expr_vec_crc_ok m1 m2)
      | _ => exact absurd h (Nat.ne_of_beq_eq_false rfl)
    | constant_array2t m1 =>
      cases b with
      | constant_array2t m2 =>
        simp only [expr_body.cmp, expr_body.do_crc]
        exact CrcOk_vec (expr_vec_crc_ok m1 m2)
      | _ => exact absurd h (Nat.ne_of_beq_eq_false rfl)
    | constant_array_of2t i1 =>
      cases b with
      | constant_array_of2t i2 =>
        simp only [expr_body.cmp, expr_body.do_crc]
        repeat' first
          | apply CrcOk_cmp_feed
          | apply CrcOk_and_true
          | exact CrcOk_pure _ _ _
          | exact expr2tc_crc_ok _ _
      | _ => exact absurd h (Nat.ne_of_beq_eq_false rfl)
    | symbol2t n1 =>
      cases b with
      | symbol2t n2 =>
        simp only [expr_body.cmp, expr_body.do_crc]
        repeat' first
          | apply CrcOk_cmp_feed
          | apply CrcOk_and_true
          | exact CrcOk_pure _ _ _
          | exact expr2tc_crc_ok _ _
      | _ => exact absurd h (Nat.ne_of_beq_eq_false rfl)
    | typecast2t f1 =>
      cases b with
      | typecast2t f2 =>
        simp only [expr_body.cmp, expr_body.do_crc]
        repeat' first
          | apply CrcOk_cmp_feed
          | apply CrcOk_and_true
          | exact CrcOk_pure _ _ _
          | exact expr2tc_crc_ok _ _
      | _ => exact absurd h (Nat.ne_of_beq_eq_false rfl)
    | if2t c1 t1 f1 =>
      cases b with
      | if2t c2 t2 f2 =>
        simp only [expr_body.cmp, expr_body.do_crc]
        repeat' first
          | apply CrcOk_cmp_feed
          | apply CrcOk_and_true
          | exact CrcOk_pure _ _ _
          | exact expr2tc_crc_ok _ _
      | _ => exact absurd h (Nat.ne_of_beq_eq_false rfl)
    | rel2t d1 a1 b1 =>
      cases b with
      | rel2t d2 a2 b2 =>
        simp only [expr_body.cmp, expr_body.do_crc]
        repeat' first
          | apply CrcOk_cmp_feed
          | apply CrcOk_and_true
          | exact CrcOk_pure _ _ _
          | exact expr2tc_crc_ok _ _
      | _ => exact absurd h (Nat.ne_of_beq_eq_false rfl)
    | not2t x1 =>
      cases b with
      | not2t x2 =>
        simp only [expr_body.cmp, expr_body.do_crc]
        repeat' first
          | apply CrcOk_cmp_feed
          | apply CrcOk_and_true
          | exact CrcOk_pure _ _ _
          | exact expr2tc_crc_ok _ _
      | _ => exact absurd h (Nat.ne_of_beq_eq_false rfl)
    | logical_2ops2t d1 a1 b1 =>
      cases b with
      | logical_2ops2t d2 a2 b2 =>
        simp only [expr_body.cmp, expr_body.do_crc]
        repeat' first
          | apply CrcOk_cmp_feed
          | apply CrcOk_and_true
          | exact CrcOk_pure _ _ _
          | exact expr2tc_crc_ok _ _
      | _ => exact absurd h (Nat.ne_of_beq_eq_false rfl)
    | binops2t d1 a1 b1 =>
      cases b with
      | binops2t d2 a2 b2 =>
        simp only [expr_body.cmp, expr_body.do_crc]
        repeat' first
          | apply CrcOk_cmp_feed
          | apply CrcOk_and_true
          | exact CrcOk_pure _ _ _
          | exact expr2tc_crc_ok _ _
      | _ => exact absurd h (Nat.ne_of_beq_eq_false rfl)
    | neg2t x1 =>
      cases b with
      | neg2t x2 =>
        simp only [expr_body.cmp, expr_body.do_crc]
        repeat' first
          | apply CrcOk_cmp_feed
          | apply CrcOk_and_true
          | exact CrcOk_pure _ _ _
          | exact expr2tc_crc_ok _ _
      | _ => exact absurd h (Nat.ne_of_beq_eq_false rfl)
    | abs2t x1 =>
      cases b with
      | abs2t x2 =>
        simp only [expr_body.cmp, expr_body.do_crc]
        repeat' first
          | apply CrcOk_cmp_feed
          | apply CrcOk_and_true
          | exact CrcOk_pure _ _ _
          | exact expr2tc_crc_ok _ _
      | _ => exact absurd h (Nat.ne_of_beq_eq_false rfl)
    | arith_2op2t d1 a1 b1 =>
      cases b with
      | arith_2op2t d2 a2 b2 =>
        simp only [expr_body.cmp, expr_body.do_crc]
        repeat' first
          | apply CrcOk_cmp_feed
          | apply CrcOk_and_true
          | exact CrcOk_pure _ _ _
          | exact expr2tc_crc_ok _ _
      | _ => exact absurd h (Nat.ne_of_beq_eq_false rfl)
    | pointer_offset2t x1 =>
      cases b with
      | pointer_offset2t x2 =>
        simp only [expr_body.cmp, expr_body.do_crc]
        repeat' first
          | apply CrcOk_cmp_feed
          | apply CrcOk_and_true
          | exact CrcOk_pure _ _ _
          | exact expr2tc_crc_ok _ _
      | _ => exact absurd h (Nat.ne_of_beq_eq_false rfl)
    | pointer_object2t x1 =>
      cases b with
      | pointer_object2t x2 =>
        simp only [expr_body.cmp, expr_body.do_crc]
        repeat' first
          | apply CrcOk_cmp_feed
          | apply CrcOk_and_true
          | exact CrcOk_pure _ _ _
          | exact expr2tc_crc_ok _ _
      | _ => exact absurd h (Nat.ne_of_beq_eq_false rfl)
    | address_of2t x1 =>
      cases b with
      | address_of2t x2 =>
        simp only [expr_body.cmp, expr_body.do_crc]
        repeat' first
          | apply CrcOk_cmp_feed
          | apply CrcOk_and_true
          | exact CrcOk_pure _ _ _
          | exact expr2tc_crc_ok _ _
      | _ => exact absurd h (Nat.ne_of_beq_eq_false rfl)
    | byte_extract2t e1 v1 o1 =>
      cases b with
      | byte_extract2t e2 v2 o2 =>
        simp only [expr_body.cmp, expr_body.do_crc]
        apply CrcOk_cmp_feed (CrcOk_pure (fun e : Bool => [if e then 1 else 0]) e1 e2)
        repeat' first
          | apply CrcOk_cmp_feed
          | apply CrcOk_and_true
          | exact CrcOk_pure _ _ _
          | exact expr2tc_crc_ok _ _
      | _ => exact absurd h (Nat.ne_of_beq_eq_false rfl)
    | byte_update2t e1 v1 o1 u1 =>
      cases b with
      | byte_update2t e2 v2 o2 u2 =>
        simp only [expr_body.cmp, expr_body.do_crc]
        apply CrcOk_cmp_feed (CrcOk_pure (fun e : Bool => [if e then 1 else 0]) e1 e2)
        repeat' first
          | apply CrcOk_cmp_feed
          | apply CrcOk_and_true
          | exact CrcOk_pure _ _ _
          | exact expr2tc_crc_ok _ _
      | _ => exact absurd h (Nat.ne_of_beq_eq_false rfl)
    | with2t s1 f1 d1 =>
      cases b with
      | with2t s2 f2 d2 =>
        simp only [expr_body.cmp, expr_body.do_crc]
        repeat' first
          | apply CrcOk_cmp_feed
          | apply CrcOk_and_true
          | exact CrcOk_pure _ _ _
          | exact expr2tc_crc_ok _ _
      | _ => exact absurd h (Nat.ne_of_beq_eq_false rfl)
    | member2t s1 mt1 mv1 =>
      cases b with
      | member2t s2 mt2 mv2 =>
        simp only [expr_body.cmp, expr_body.do_crc]
        apply CrcOk_cmp_feed (expr2tc_crc_ok s1 s2)
        apply CrcOk_and_true
        apply CrcOk_cmp_feed (CrcOk_and_true (CrcOk_pre (type2t_crc_ok mt1 mt2)))
        exact CrcOk_pure _ _ _
      | _ => exact absurd h (Nat.ne_of_beq_eq_false rfl)
    | index2t s1 i1 =>
      cases b with
      | index2t s2 i2 =>
        simp only [expr_body.cmp, expr_body.do_crc]
        repeat' first
          | apply CrcOk_cmp_feed
          | apply CrcOk_and_true
          | exact CrcOk_pure _ _ _
          | exact expr2tc_crc_ok _ _
      | _ => exact absurd h (Nat.ne_of_beq_eq_false rfl)
    | zero_string2t x1 =>
      cases b with
      | zero_string2t x2 =>
        simp only [expr_body.cmp, expr_body.do_crc]
        repeat' first
          | apply CrcOk_cmp_feed
          | apply CrcOk_and_true
          | exact CrcOk_pure _ _ _
          | exact expr2tc_crc_ok _ _
      | _ => exact absurd h (Nat.ne_of_beq_eq_false rfl)
    | zero_length_string2t x1 =>
      cases b with
      | zero_length_string2t x2 =>
        simp only [expr_body.cmp, expr_body.do_crc]
        repeat' first
          | apply CrcOk_cmp_feed
          | apply CrcOk_and_true
          | exact CrcOk_pure _ _ _
          | exact expr2tc_crc_ok _ _
      | _ => exact absurd h (Nat.ne_of_beq_eq_false rfl)
    | isnan2t x1 =>
      cases b with
      | isnan2t x2 =>
        simp only [expr_body.cmp, expr_body.do_crc]
        repeat' first
          | apply CrcOk_cmp_feed
          | apply CrcOk_and_true
          | exact CrcOk_pure _ _ _
          | exact expr2tc_crc_ok _ _
      | _ => exact absurd h (Nat.ne_of_beq_eq_false rfl)
    | overflow2t x1 =>
      cases b with
      | overflow2t x2 =>
        simp only [expr_body.cmp, expr_body.do_crc]
        repeat' first
          | apply CrcOk_cmp_feed
          | apply CrcOk_and_true
          | exact CrcOk_pure _ _ _
          | exact expr2tc_crc_ok _ _
      | _ => exact absurd h (Nat.ne_of_beq_eq_false rfl)
    | overflow_cast2t x1 n1 =>
      cases b with
      | overflow_cast2t x2 n2 =>
        simp only [expr_body.cmp, expr_body.do_crc]
        exact CrcOk_swap_feed (CrcOk_pure _ _ _) (expr2tc_crc_ok x1 x2)
      | _ => exact absurd h (Nat.ne_of_beq_eq_false rfl)
    | overflow_neg2t x1 =>
      cases b with
      | overflow_neg2t x2 =>
        simp only [expr_body.cmp, expr_body.do_crc]
        repeat' first
          | apply CrcOk_cmp_feed
          | apply CrcOk_and_true
          | exact CrcOk_pure _ _ _
          | exact expr2tc_crc_ok _ _
      | _ => exact absurd h (Nat.ne_of_beq_eq_false rfl)
  · rw [expr_body_cmp_none a b h]
    exact CrcOk_none _ _
termination_by sizeOf a + sizeOf b
theorem expr2tc_crc_ok : ∀ (a b : Option expr2t),
    CrcOk (expr2tc_eq a b) (expr2tc_do_crc a) (expr2tc_do_crc b)
  | some a, some b => by
    simp only [expr2tc_eq, expr2tc_do_crc]
    exact expr2t_crc_ok a b
  | none, none => by simp only [expr2tc_eq]; exact CrcOk_none _ _
  | none, some _ => by simp only [expr2tc_eq]; exact CrcOk_none _ _
  | some _, none => by simp only [expr2tc_eq]; exact CrcOk_none _ _
termination_by a b => sizeOf a + sizeOf b
theorem expr_vec_crc_ok : ∀ (as bs : List (Option expr2t)), as.length = bs.length →
    CrcOk (expr_vec_equal as bs) (expr_vec_do_crc as) (expr_vec_do_crc bs)
  | [], [], _ => by
    simp only [expr_vec_do_crc]
    exact CrcOk_refl _ _
  | [], _ :: _, hl => by simp at hl
  | _ :: _, [], hl => by simp at hl
  | a :: as, b :: bs, hl => by
    simp only [expr_vec_equal, expr_vec_do_crc]
    exact CrcOk_cmp_feed (expr2tc_crc_ok a b)
      (expr_vec_crc_ok as bs (by simpa using hl))
termination_by a b => sizeOf a + sizeOf b
end

/-! ## Consequences for `operator<`, `operator==` and `crc` -/

theorem trichotomy_of_three_way {x y : Option Int} {l g e : Option Bool}
    (hl : l = is_neg x) (hg : g = is_neg y) (hy : y = neg_res x) (he : EqOk x e)
    (hd : x ≠ none) : exactly_one (l = some true) (g = some true) (e = some true) := by
  cases x with
  | none => exact absurd rfl hd
  | some r =>
    have h3 := he r rfl
    subst hl hg hy h3
    simp only [is_neg, neg_res, Option.map_some', Option.some.injEq, decide_eq_true_eq,
      exactly_one]
    omega

theorem irreflexive_of_three_way {x : Option Int} {l : Option Bool}
    (hl : l = is_neg x) (hx : x = neg_res x) : l ≠ some true := by
  cases x with
  | none => subst hl; simp [is_neg]
  | some r =>
    simp only [neg_res, Option.map_some', Option.some.injEq] at hx
    subst hl
    simp only [is_neg, Option.map_some', ne_eq, Option.some.injEq, decide_eq_true_eq]
    omega

theorem transitive_of_three_way {x y z : Option Int} {l1 l2 l3 : Option Bool}
    (h1 : l1 = is_neg x) (h2 : l2 = is_neg y) (h3 : l3 = is_neg z) (ht : TransOk x y z)
    (a1 : l1 = some true) (a2 : l2 = some true) : l3 = some true := by
  subst h1 h2 h3
  cases x with
  | none => simp [is_neg] at a1
  | some r1 =>
    cases y with
    | none => simp [is_neg] at a2
    | some r2 =>
      simp only [is_neg, Option.map_some', Option.some.injEq, decide_eq_true_eq] at a1 a2
      obtain ⟨r3, hz, hn, h0⟩ := ht r1 r2 rfl rfl (by omega) (by omega)
      subst hz
      simp only [is_neg, Option.map_some', Option.some.injEq, decide_eq_true_eq]
      have : r3 ≠ 0 := fun e => by have := (h0.mp e).1; omega
      omega

/-- The copy of an object of any class other than `not2t`, `neg2t` and `abs2t`
has the fields of the original. -/
theorem expr_body.copy_eq (b : expr_body) (h : b.class_index ≠ 10 ∧ b.class_index ≠ 13 ∧
    b.class_index ≠ 14) : b.copy = b := by
  cases b <;> first | rfl | (simp [expr_body.class_index] at h)


theorem cmp_then_true_iff (e f : Option Bool) :
    cmp_then e f = some true ↔ e = some true ∧ f = some true := by
  constructor
  · exact cmp_then_true
  · rintro ⟨h1, h2⟩
    subst h1 h2
    rfl

theorem vector_eq_true_iff (n m : Nat) (q : Option Bool) :
    vector_eq n m q = some true ↔ n = m ∧ q = some true := by
  by_cases h : n = m <;> simp [vector_eq, h]

theorem EqAgrees_none (P : Prop) : EqAgrees none P := by
  intro b h
  cases h

theorem EqAgrees_false {P : Prop} (h : ¬ P) : EqAgrees (some false) P := by
  intro b hb
  simp only [Option.some.injEq] at hb
  subst hb
  simp [h]

theorem EqAgrees_decide (p : Prop) [Decidable p] : EqAgrees (some (decide p)) p := by
  intro b hb
  simp only [Option.some.injEq] at hb
  subst hb
  simp

theorem EqAgrees_congr {r : Option Bool} {P Q : Prop} (h : EqAgrees r P) (hpq : P ↔ Q) :
    EqAgrees r Q :=
  fun b hb => (h b hb).trans hpq

theorem EqAgrees_and_true {c : Option Bool} {P : Prop} (h : EqAgrees c P) :
    EqAgrees (cmp_then c (some true)) P := by
  intro b hb
  cases c with
  | none => simp [cmp_then] at hb
  | some v =>
    cases v with
    | false =>
      simp only [cmp_then, Option.some.injEq] at hb
      exact h b (by rw [hb])
    | true =>
      simp only [cmp_then, Option.some.injEq] at hb
      exact h b (by rw [hb])

theorem EqAgrees_cmp_then {c k : Option Bool} {P Q : Prop} (h1 : EqAgrees c P)
    (h2 : EqAgrees k Q) : EqAgrees (cmp_then c k) (P ∧ Q) := by
  intro b hb
  cases c with
  | none => simp [cmp_then] at hb
  | some v =>
    cases v with
    | false =>
      simp only [cmp_then, Option.some.injEq] at hb
      have hp : ¬ P := fun hp => by simpa using (h1 false rfl).2 hp
      subst hb
      simp [hp]
    | true =>
      simp only [cmp_then] at hb
      have hp : P := (h1 true rfl).1 rfl
      simp only [hp, true_and]
      exact h2 b hb

theorem EqAgrees_vector {n m : Nat} {q : Option Bool} {P : Prop}
    (h1 : n = m → EqAgrees q P) (h2 : P → n = m) : EqAgrees (vector_eq n m q) P := by
  by_cases h : n = m
  · simp only [vector_eq, h, ne_eq, not_true_eq_false, if_false]
    exact h1 h
  · simp only [vector_eq, h, ne_eq, not_false_eq_true, if_true]
    exact EqAgrees_false (fun hp => h (h2 hp))

theorem type_vec_match_length : ∀ (as bs : List type2t), type_vec_match as bs →
    as.length = bs.length
  | [], [], _ => rfl
  | [], _ :: _, h => by simp [type_vec_match] at h
  | _ :: _, [], h => by simp [type_vec_match] at h
  | _ :: as, _ :: bs, h => by
    simp only [type_vec_match] at h
    simp [type_vec_match_length as bs h.2]

theorem expr_vec_match_length : ∀ (as bs : List (Option expr2t)), expr_vec_match as bs →
    as.length = bs.length
  | [], [], _ => rfl
  | [], _ :: _, h => by simp [expr_vec_match] at h
  | _ :: _, [], h => by simp [expr_vec_match] at h
  | _ :: as, _ :: bs, h => by
    simp only [expr_vec_match] at h
    simp [expr_vec_match_length as bs h.2]

theorem EqAgrees_expr (id1 id2 : expr_ids) {te be : Option Bool} {T B : Prop}
    (h1 : EqAgrees te T) (h2 : EqAgrees be B) :
    EqAgrees (cmp_then (if id1 ≠ id2 then some false else cmp_then te (some true)) be)
      (id1 = id2 ∧ T ∧ B) := by
  by_cases e : id1 = id2
  · simp only [e, ne_eq, not_true_eq_false, if_false, true_and]
    exact EqAgrees_cmp_then (EqAgrees_and_true h1) h2
  · simp only [e, ne_eq, not_false_eq_true, if_true, cmp_then, false_and]
    exact EqAgrees_false (fun h => h)

set_option maxHeartbeats 40000000 in
mutual
theorem type2t_eq_agrees : ∀ (a b : type2t),
    EqAgrees (type2t.operator_eq a b) (type2t.fields_match a b)
  | .mk b1, .mk b2 => by
    simp only [type2t.operator_eq, type2t.fields_match]
    by_cases h : b1.type_id = b2.type_id
    · simp only [h, ne_eq, not_true_eq_false, if_false, true_and]
      exact type_body_eq_agrees b1 b2
    · simp only [h, ne_eq, not_false_eq_true, if_true, false_and]
      exact EqAgrees_false (fun h => h)
termination_by a b => sizeOf a + sizeOf b
theorem type_body_eq_agrees (a b : type_body) :
    EqAgrees (type_body.cmp a b) (type_body.fields_match a b) := by
  by_cases h : a.type_id = b.type_id
  · cases a with
    | bool_type2t =>
      cases b with
      | bool_type2t =>
        simp only [type_body.cmp, type_body.fields_match]
        exact EqAgrees_decide True
      | _ => exact type_ids.noConfusion h
    | empty_type2t =>
      cases b with
      | empty_type2t =>
        simp only [type_body.cmp, type_body.fields_match]
        exact EqAgrees_decide True
      | _ => exact type_ids.noConfusion h
    | code_type2t =>
      cases b with
      | code_type2t =>
        simp only [type_body.cmp, type_body.fields_match]
        exact EqAgrees_decide True
      | _ => exact type_ids.noConfusion h
    | symbol_type2t n1 =>
      cases b with
      | symbol_type2t n2 =>
        simp only [type_body.cmp, type_body.fields_match]
        exact EqAgrees_decide _
      | _ => exact type_ids.noConfusion h
    | struct_type2t ms1 ns1 n1 =>
      cases b with
      | struct_type2t ms2 ns2 n2 =>
        simp only [type_body.cmp, type_body.fields_match]
        refine EqAgrees_cmp_then (EqAgrees_decide _) (EqAgrees_congr
          (EqAgrees_cmp_then (EqAgrees_decide (ms1.length = ms2.length))
            (EqAgrees_cmp_then
              (EqAgrees_vector (fun hl => type_vec_eq_agrees ms1 ms2 hl)
                (type_vec_match_length ms1 ms2))
              (EqAgrees_and_true (EqAgrees_decide (ns1 = ns2))))) ?_)
        exact ⟨fun hh => hh.2, fun hh => ⟨type_vec_match_length ms1 ms2 hh.1, hh⟩⟩
      | _ => exact type_ids.noConfusion h
    | union_type2t ms1 ns1 n1 =>
      cases b with
      | union_type2t ms2 ns2 n2 =>
        simp only [type_body.cmp, type_body.fields_match]
        refine EqAgrees_cmp_then (EqAgrees_decide _) (EqAgrees_congr
          (EqAgrees_cmp_then (EqAgrees_decide (ms1.length = ms2.length))
            (EqAgrees_cmp_then
              (EqAgrees_vector (fun hl => type_vec_eq_agrees ms1 ms2 hl)
                (type_vec_match_length ms1 ms2))
              (EqAgrees_and_true (EqAgrees_decide (ns1 = ns2))))) ?_)
        exact ⟨fun hh => hh.2, fun hh => ⟨type_vec_match_length ms1 ms2 hh.1, hh⟩⟩
      | _ => exact type_ids.noConfusion h
    | array_type2t s1 z1 i1 =>
      cases b with
      | array_type2t s2 z2 i2 =>
        simp only [type_body.cmp, type_body.fields_match]
        apply EqAgrees_cmp_then (type2t_eq_agrees s1 s2)
        cases i1 <;> cases i2
        · simp only [Bool.and_self, Bool.or_self, Bool.false_eq_true, if_false, false_and,
            false_or, true_and]
          exact expr2tc_eq_agrees z1 z2
        · exact EqAgrees_false (by simp)
        · exact EqAgrees_false (by simp)
        · exact EqAgrees_congr (EqAgrees_decide True) (by simp)
      | _ => exact type_ids.noConfusion h
    | pointer_type2t s1 =>
      cases b with
      | pointer_type2t s2 =>
        simp only [type_body.cmp, type_body.fields_match]
        exact type2t_eq_agrees s1 s2
      | _ => exact type_ids.noConfusion h
    | unsignedbv_type2t w1 =>
      cases b with
      | unsignedbv_type2t w2 =>
        simp only [type_body.cmp, type_body.fields_match]
        exact EqAgrees_decide _
      | _ => exact type_ids.noConfusion h
    | signedbv_type2t w1 =>
      cases b with
      | signedbv_type2t w2 =>
        simp only [type_body.cmp, type_body.fields_match]
        exact EqAgrees_decide _
      | _ => exact type_ids.noConfusion h
    | fixedbv_type2t w1 ib1 =>
      cases b with
      | fixedbv_type2t w2 ib2 =>
        simp only [type_body.cmp, type_body.fields_match]
        exact EqAgrees_cmp_then (EqAgrees_decide _) (EqAgrees_and_true (EqAgrees_decide _))
      | _ => exact type_ids.noConfusion h
    | string_type2t e1 =>
      cases b with
      | string_type2t e2 =>
        simp only [type_body.cmp, type_body.fields_match]
        exact EqAgrees_decide _
      | _ => exact type_ids.noConfusion h
  · rw [type_body_cmp_none a b h]
    exact EqAgrees_none _
termination_by sizeOf a + sizeOf b
theorem type_vec_eq_agrees : ∀ (as bs : List type2t), as.length = bs.length →
    EqAgrees (type_vec_equal as bs) (type_vec_match as bs)
  | [], [], _ => by
    simp only [type_vec_equal, type_vec_match]
    exact EqAgrees_decide True
  | [], _ :: _, hl => by simp at hl
  | _ :: _, [], hl => by simp at hl
  | a :: as, b :: bs, hl => by
    simp only [type_vec_equal, type_vec_match]
    exact EqAgrees_cmp_then (type2t_eq_agrees a b)
      (type_vec_eq_agrees as bs (by simpa using hl))
termination_by a b => sizeOf a + sizeOf b
theorem expr2t_eq_agrees : ∀ (a b : expr2t),
    EqAgrees (expr2t.operator_eq a b) (expr2t.fields_match a b)
  | .mk t1 b1, .mk t2 b2 => by
    simp only [expr2t.operator_eq, expr2t.fields_match]
    exact EqAgrees_expr _ _ (type2t_eq_agrees t1 t2) (expr_body_eq_agrees b1 b2)
termination_by a b => sizeOf a + sizeOf b
theorem expr_body_eq_agrees (a b : expr_body) :
    EqAgrees (expr_body.cmp a b) (expr_body.fields_match a b) := by
  by_cases h : a.class_index = b.class_index
  · cases a <;> cases b <;>
      first
        | exact absurd h (Nat.ne_of_beq_eq_false rfl)
        | (simp only [expr_body.cmp, expr_body.fields_match]
           repeat' first
             | exact EqAgrees_decide _
             | exact expr2tc_eq_agrees _ _
             | exact type2t_eq_agrees _ _
             | exact EqAgrees_vector (fun hl => expr_vec_eq_agrees _ _ hl)
                 (expr_vec_match_length _ _)
             | apply EqAgrees_and_true
             | apply EqAgrees_cmp_then)
  · rw [expr_body_cmp_none a b h]
    exact EqAgrees_none _
termination_by sizeOf a + sizeOf b
theorem expr2tc_eq_agrees : ∀ (a b : Option expr2t),
    EqAgrees (expr2tc_eq a b) (expr2tc_match a b)
  | some a, some b => by
    simp only [expr2tc_eq, expr2tc_match]
    exact expr2t_eq_agrees a b
  | none, none => by simp only [expr2tc_eq]; exact EqAgrees_none _
  | none, some _ => by simp only [expr2tc_eq]; exact EqAgrees_none _
  | some _, none => by simp only [expr2tc_eq]; exact EqAgrees_none _
termination_by a b => sizeOf a + sizeOf b
theorem expr_vec_eq_agrees : ∀ (as bs : List (Option expr2t)), as.length = bs.length →
    EqAgrees (expr_vec_equal as bs) (expr_vec_match as bs)
  | [], [], _ => by
    simp only [expr_vec_equal, expr_vec_match]
    exact EqAgrees_decide True
  | [], _ :: _, hl => by simp at hl
  | _ :: _, [], hl => by simp at hl
  | a :: as, b :: bs, hl => by
    simp only [expr_vec_equal, expr_vec_match]
    exact EqAgrees_cmp_then (expr2tc_eq_agrees a b)
      (expr_vec_eq_agrees as bs (by simpa using hl))
termination_by a b => sizeOf a + sizeOf b
end

/-- A type whose tag differs from that of another is not equal to it. -/
theorem type2t.operator_eq_of_tag_ne (t1 t2 : type2t) (h : t1.type_id ≠ t2.type_id) :
    type2t.operator_eq t1 t2 = some false := by
  cases t1; cases t2
  simp only [type2t.type_id] at h
  simp [type2t.operator_eq, h]

/-! ## Claims on the IR -/

/-- C1 (hash consistency): two types that `operator==` finds equal feed the same
byte sequence to the CRC computer and so have the same `crc()`, and likewise two
expressions that `operator==` finds equal. -/
theorem crc_consistent (t1 t2 : type2t) (e1 e2 : expr2t) :
    (type2t.operator_eq t1 t2 = some true →
      type2t.do_crc t1 = type2t.do_crc t2 ∧ type2t.crc t1 = type2t.crc t2 ∧
        (type2t.crc t1).isSome = true) ∧
    (expr2t.operator_eq e1 e2 = some true →
      expr2t.do_crc e1 = expr2t.do_crc e2 ∧ expr2t.crc e1 = expr2t.crc e2 ∧
        (expr2t.crc e1).isSome = true) := by
  constructor
  · intro h
    obtain ⟨h1, l, hl⟩ := type2t_crc_ok t1 t2 h
    refine ⟨h1, by simp only [type2t.crc, h1], ?_⟩
    simp [type2t.crc, hl]
  · intro h
    obtain ⟨h1, l, hl⟩ := expr2t_crc_ok e1 e2 h
    refine ⟨h1, by simp only [expr2t.crc, h1], ?_⟩
    simp [expr2t.crc, hl]

/-- Witness of C1: two separately built `array(uint8, 4)` types and two
separately built `not(x)` expressions are equal, and their CRC feeds agree. -/
theorem crc_consistent_witness :
    (type2t.operator_eq
        (type2t.array_type2t type_pool.get_uint8
          (some (expr2t.constant_int2t type_pool.get_int32 4)) false)
        (type2t.array_type2t type_pool.get_uint8
          (some (expr2t.constant_int2t type_pool.get_int32 4)) false) = some true ∧
      type2t.crc
        (type2t.array_type2t type_pool.get_uint8
          (some (expr2t.constant_int2t type_pool.get_int32 4)) false) =
      type2t.crc
        (type2t.array_type2t type_pool.get_uint8
          (some (expr2t.constant_int2t type_pool.get_int32 4)) false)) ∧
    (expr2t.operator_eq (expr2t.not2t (some (expr2t.symbol2t type_pool.get_bool "x")))
        (expr2t.not2t (some (expr2t.symbol2t type_pool.get_bool "x"))) = some true ∧
      expr2t.crc (expr2t.not2t (some (expr2t.symbol2t type_pool.get_bool "x"))) =
      expr2t.crc (expr2t.not2t (some (expr2t.symbol2t type_pool.get_bool "x")))) :=
  ⟨⟨by decide,
    ((crc_consistent
      (type2t.array_type2t type_pool.get_uint8
        (some (expr2t.constant_int2t type_pool.get_int32 4)) false)
      (type2t.array_type2t type_pool.get_uint8
        (some (expr2t.constant_int2t type_pool.get_int32 4)) false)
      (expr2t.not2t (some (expr2t.symbol2t type_pool.get_bool "x")))
      (expr2t.not2t (some (expr2t.symbol2t type_pool.get_bool "x")))).1 (by decide)).2.1⟩,
   ⟨by decide,
    ((crc_consistent
      (type2t.array_type2t type_pool.get_uint8
        (some (expr2t.constant_int2t type_pool.get_int32 4)) false)
      (type2t.array_type2t type_pool.get_uint8
        (some (expr2t.constant_int2t type_pool.get_int32 4)) false)
      (expr2t.not2t (some (expr2t.symbol2t type_pool.get_bool "x")))
      (expr2t.not2t (some (expr2t.symbol2t type_pool.get_bool "x")))).2 (by decide)).2.1⟩⟩

/-- C2, as the claim states it, fails: the type `array(uint8, abs(n))` whose
size expression has been cloned (the clone of `abs` has a nil operand) has the
same tag and the same fields as itself, but `==` on it dereferences the nil
handle and returns nothing. -/
theorem type_eq_undefined_on_cloned_size :
    ¬ (type2t.operator_eq
          (type2t.array_type2t type_pool.get_uint8
            (some (expr2t.abs2t type_pool.get_int32
              (some (expr2t.symbol2t type_pool.get_int32 "n"))).clone) false)
          (type2t.array_type2t type_pool.get_uint8
            (some (expr2t.abs2t type_pool.get_int32
              (some (expr2t.symbol2t type_pool.get_int32 "n"))).clone) false) = some true ↔
        type2t.fields_match
          (type2t.array_type2t type_pool.get_uint8
            (some (expr2t.abs2t type_pool.get_int32
              (some (expr2t.symbol2t type_pool.get_int32 "n"))).clone) false)
          (type2t.array_type2t type_pool.get_uint8
            (some (expr2t.abs2t type_pool.get_int32
              (some (expr2t.symbol2t type_pool.get_int32 "n"))).clone) false)) := by
  have h1 : type2t.operator_eq
      (type2t.array_type2t type_pool.get_uint8
        (some (expr2t.abs2t type_pool.get_int32
          (some (expr2t.symbol2t type_pool.get_int32 "n"))).clone) false)
      (type2t.array_type2t type_pool.get_uint8
        (some (expr2t.abs2t type_pool.get_int32
          (some (expr2t.symbol2t type_pool.get_int32 "n"))).clone) false) = none := by
    simp [type2t.operator_eq, type_body.cmp, expr2tc_eq, expr2t.operator_eq, expr_body.cmp,
      cmp_then, expr2t.abs2t, expr2t.clone, expr_body.copy, type2t.array_type2t,
      type_pool.get_uint8, type_pool.get_int32, expr_body.expr_id, type_body.type_id]
  have h2 : type2t.fields_match
      (type2t.array_type2t type_pool.get_uint8
        (some (expr2t.abs2t type_pool.get_int32
          (some (expr2t.symbol2t type_pool.get_int32 "n"))).clone) false)
      (type2t.array_type2t type_pool.get_uint8
        (some (expr2t.abs2t type_pool.get_int32
          (some (expr2t.symbol2t type_pool.get_int32 "n"))).clone) false) := by
    simp [type2t.fields_match, type_body.fields_match, expr2tc_match, expr2t.fields_match,
      expr_body.fields_match, expr2t.abs2t, expr2t.clone, expr_body.copy, type2t.array_type2t,
      type_pool.get_uint8, type_pool.get_int32]
  rw [h1]
  exact fun h => by simpa using h.2 h2

/-- C2 (type equality), amended: whenever `t1 == t2` returns, it is true
exactly when the tags agree and every field matches structurally
(`type2t.fields_match`, where a nil operand handle in an array size matches a
nil handle); types with different tags are never equal, in particular
`unsignedbv(w)` and `signedbv(w)`. -/
theorem type_eq_iff_fields_match (t1 t2 : type2t) (b : Bool) (w : Nat)
    (h : type2t.operator_eq t1 t2 = some b) :
    (b = true ↔ type2t.fields_match t1 t2) ∧
    (t1.type_id ≠ t2.type_id → type2t.operator_eq t1 t2 = some false) ∧
    type2t.operator_eq (.mk (.unsignedbv_type2t w)) (.mk (.signedbv_type2t w)) = some false :=
  ⟨type2t_eq_agrees t1 t2 b h, type2t.operator_eq_of_tag_ne t1 t2,
    type2t.operator_eq_of_tag_ne _ _ (by simp [type2t.type_id, type_body.type_id])⟩

/-- Witness of C2: two array types of four `uint8` are equal and match; a
struct and a union with the same name and members have different tags, so they
are not equal. -/
theorem type_eq_iff_fields_match_witness :
    type2t.operator_eq
        (type2t.array_type2t type_pool.get_uint8
          (some (expr2t.constant_int2t type_pool.get_int32 4)) false)
        (type2t.array_type2t type_pool.get_uint8
          (some (expr2t.constant_int2t type_pool.get_int32 4)) false) = some true ∧
    type2t.fields_match
        (type2t.array_type2t type_pool.get_uint8
          (some (expr2t.constant_int2t type_pool.get_int32 4)) false)
        (type2t.array_type2t type_pool.get_uint8
          (some (expr2t.constant_int2t type_pool.get_int32 4)) false) ∧
    type2t.operator_eq (.mk (.struct_type2t [type_pool.get_uint8] ["a"] "s"))
      (.mk (.union_type2t [type_pool.get_uint8] ["a"] "s")) = some false ∧
    ¬ type2t.fields_match (.mk (.struct_type2t [type_pool.get_uint8] ["a"] "s"))
      (.mk (.union_type2t [type_pool.get_uint8] ["a"] "s")) :=
  have h1 : type2t.operator_eq
      (type2t.array_type2t type_pool.get_uint8
        (some (expr2t.constant_int2t type_pool.get_int32 4)) false)
      (type2t.array_type2t type_pool.get_uint8
        (some (expr2t.constant_int2t type_pool.get_int32 4)) false) = some true := by decide
  have h2 : type2t.operator_eq (.mk (.struct_type2t [type_pool.get_uint8] ["a"] "s"))
      (.mk (.union_type2t [type_pool.get_uint8] ["a"] "s")) = some false := by decide
  ⟨h1, (type_eq_iff_fields_match _ _ true 8 h1).1.1 rfl, h2,
    fun hm => by simpa using (type_eq_iff_fields_match _ _ false 8 h2).1.2 hm⟩

/-- C3, as the claim states it, fails: `not(true)` and its clone, whose operand
handle is nil, are in none of the three relations, because each comparison
dereferences the nil handle. -/
theorem expr_order_undefined_on_cloned_not :
    ¬ exactly_one
      (expr2t.operator_lt (expr2t.not2t (some (expr2t.constant_bool2t true))).clone
        (expr2t.not2t (some (expr2t.constant_bool2t true))) = some true)
      (expr2t.operator_lt (expr2t.not2t (some (expr2t.constant_bool2t true)))
        (expr2t.not2t (some (expr2t.constant_bool2t true))).clone = some true)
      (expr2t.operator_eq (expr2t.not2t (some (expr2t.constant_bool2t true))).clone
        (expr2t.not2t (some (expr2t.constant_bool2t true))) = some true) := by
  have h1 : expr2t.operator_lt (expr2t.not2t (some (expr2t.constant_bool2t true))).clone
      (expr2t.not2t (some (expr2t.constant_bool2t true))) = none := by
    simp [expr2t.operator_lt, expr2t.not2t, expr2t.clone, expr_body.copy, expr_body.lt,
      expr2tc_ltchecked, less_of_lt, lt_then, three_way, nat_lt, type2t.ltchecked,
      type_body.lt, type_pool.get_bool, expr_body.expr_id, expr_ids.toNat,
      type_body.type_id, type_ids.toNat]
  have h2 : expr2t.operator_lt (expr2t.not2t (some (expr2t.constant_bool2t true)))
      (expr2t.not2t (some (expr2t.constant_bool2t true))).clone = none := by
    simp [expr2t.operator_lt, expr2t.not2t, expr2t.clone, expr_body.copy, expr_body.lt,
      expr2tc_ltchecked, less_of_lt, lt_then, three_way, nat_lt, type2t.ltchecked,
      type_body.lt, type_pool.get_bool, expr_body.expr_id, expr_ids.toNat,
      type_body.type_id, type_ids.toNat]
  have h3 : expr2t.operator_eq (expr2t.not2t (some (expr2t.constant_bool2t true))).clone
      (expr2t.not2t (some (expr2t.constant_bool2t true))) = none := by decide
  simp [exactly_one, h1, h2, h3]

/-- C3, amended: for any two expressions whose three-way comparison is defined
(no nil handle is dereferenced and no object is cast to a class it does not
have), exactly one of `e1 < e2`, `e2 < e1`, `e1 == e2` holds. -/
theorem expr_order_trichotomy (e1 e2 : expr2t) (h : expr2t.ltchecked e1 e2 ≠ none) :
    exactly_one (expr2t.operator_lt e1 e2 = some true)
      (expr2t.operator_lt e2 e1 = some true) (expr2t.operator_eq e1 e2 = some true) :=
  trichotomy_of_three_way (expr2t_operator_lt_eq e1 e2) (expr2t_operator_lt_eq e2 e1)
    (expr2t_ltchecked_swap e1 e2) (expr2t_ltchecked_eq e1 e2) h

/-- Witness of C3 amended: `not(true)` against `not(false)`. -/
theorem expr_order_trichotomy_witness :
    expr2t.ltchecked (expr2t.not2t (some (expr2t.constant_bool2t true)))
      (expr2t.not2t (some (expr2t.constant_bool2t false))) ≠ none ∧
    exactly_one
      (expr2t.operator_lt (expr2t.not2t (some (expr2t.constant_bool2t true)))
        (expr2t.not2t (some (expr2t.constant_bool2t false))) = some true)
      (expr2t.operator_lt (expr2t.not2t (some (expr2t.constant_bool2t false)))
        (expr2t.not2t (some (expr2t.constant_bool2t true))) = some true)
      (expr2t.operator_eq (expr2t.not2t (some (expr2t.constant_bool2t true)))
        (expr2t.not2t (some (expr2t.constant_bool2t false))) = some true) :=
  have hd : expr2t.ltchecked (expr2t.not2t (some (expr2t.constant_bool2t true)))
      (expr2t.not2t (some (expr2t.constant_bool2t false))) ≠ none := by
    simp [expr2t.ltchecked, expr2t.not2t, expr2t.constant_bool2t, expr_body.lt,
      expr2tc_ltchecked, lt_then, three_way, nat_lt, bool_lt, type2t.ltchecked, type_body.lt,
      type_pool.get_bool, expr_body.expr_id, expr_ids.toNat, type_body.type_id,
      type_ids.toNat]
  ⟨hd, expr_order_trichotomy _ _ hd⟩

/-- C4, as the claim states it, fails: the type `array(uint8, abs(n))` and the
same type whose size expression has been cloned (the clone of `abs` has a nil
operand) are in none of the three relations. -/
theorem type_order_undefined_on_cloned_size :
    ¬ exactly_one
      (type2t.operator_lt
        (type2t.array_type2t type_pool.get_uint8
          (some (expr2t.abs2t type_pool.get_int32
            (some (expr2t.symbol2t type_pool.get_int32 "n")))) false)
        (type2t.array_type2t type_pool.get_uint8
          (some (expr2t.abs2t type_pool.get_int32
            (some (expr2t.symbol2t type_pool.get_int32 "n"))).clone) false) = some true)
      (type2t.operator_lt
        (type2t.array_type2t type_pool.get_uint8
          (some (expr2t.abs2t type_pool.get_int32
            (some (expr2t.symbol2t type_pool.get_int32 "n"))).clone) false)
        (type2t.array_type2t type_pool.get_uint8
          (some (expr2t.abs2t type_pool.get_int32
            (some (expr2t.symbol2t type_pool.get_int32 "n")))) false) = some true)
      (type2t.operator_eq
        (type2t.array_type2t type_pool.get_uint8
          (some (expr2t.abs2t type_pool.get_int32
            (some (expr2t.symbol2t type_pool.get_int32 "n")))) false)
        (type2t.array_type2t type_pool.get_uint8
          (some (expr2t.abs2t type_pool.get_int32
            (some (expr2t.symbol2t type_pool.get_int32 "n"))).clone) false) = some true) := by
  have h1 : type2t.operator_lt
        (type2t.array_type2t type_pool.get_uint8
          (some (expr2t.abs2t type_pool.get_int32
            (some (expr2t.symbol2t type_pool.get_int32 "n")))) false)
        (type2t.array_type2t type_pool.get_uint8
          (some (expr2t.abs2t type_pool.get_int32
            (some (expr2t.symbol2t type_pool.get_int32 "n"))).clone) false) = none := by
    simp [type2t.operator_lt, expr2t.ltchecked, expr2t.abs2t, expr2t.symbol2t, expr_body.lt,
      expr2t.clone, expr_body.copy, expr2tc_ltchecked, less_of_lt, lt_then, three_way, nat_lt,
      bool_lt, type2t.ltchecked, type_body.lt, type_pool.get_uint8, type_pool.get_int32,
      type2t.array_type2t, expr_body.expr_id, expr_ids.toNat, type_body.type_id,
      type_ids.toNat]
  have h2 : type2t.operator_lt
        (type2t.array_type2t type_pool.get_uint8
          (some (expr2t.abs2t type_pool.get_int32
            (some (expr2t.symbol2t type_pool.get_int32 "n"))).clone) false)
        (type2t.array_type2t type_pool.get_uint8
          (some (expr2t.abs2t type_pool.get_int32
            (some (expr2t.symbol2t type_pool.get_int32 "n")))) false) = none := by
    simp [type2t.operator_lt, expr2t.ltchecked, expr2t.abs2t, expr2t.symbol2t, expr_body.lt,
      expr2t.clone, expr_body.copy, expr2tc_ltchecked, less_of_lt, lt_then, three_way, nat_lt,
      bool_lt, type2t.ltchecked, type_body.lt, type_pool.get_uint8, type_pool.get_int32,
      type2t.array_type2t, expr_body.expr_id, expr_ids.toNat, type_body.type_id,
      type_ids.toNat]
  have h3 : type2t.operator_eq
        (type2t.array_type2t type_pool.get_uint8
          (some (expr2t.abs2t type_pool.get_int32
            (some (expr2t.symbol2t type_pool.get_int32 "n")))) false)
        (type2t.array_type2t type_pool.get_uint8
          (some (expr2t.abs2t type_pool.get_int32
            (some (expr2t.symbol2t type_pool.get_int32 "n"))).clone) false) = none := by
    decide
  simp [exactly_one, h1, h2, h3]

/-- C4, amended: `operator<` on types is irreflexive and transitive, and for
any two types whose three-way comparison is defined (the array sizes it reaches
hold no nil handle and need no cast to a class the object does not have) exactly
one of `t1 < t2`, `t2 < t1`, `t1 == t2` holds. -/
theorem type_order_strict (t1 t2 t3 : type2t) :
    type2t.operator_lt t1 t1 ≠ some true ∧
    (type2t.operator_lt t1 t2 = some true → type2t.operator_lt t2 t3 = some true →
      type2t.operator_lt t1 t3 = some true) ∧
    (type2t.ltchecked t1 t2 ≠ none →
      exactly_one (type2t.operator_lt t1 t2 = some true)
        (type2t.operator_lt t2 t1 = some true) (type2t.operator_eq t1 t2 = some true)) :=
  ⟨irreflexive_of_three_way (type2t_operator_lt_eq t1 t1) (type2t_ltchecked_swap t1 t1),
   transitive_of_three_way (type2t_operator_lt_eq t1 t2) (type2t_operator_lt_eq t2 t3)
    (type2t_operator_lt_eq t1 t3) (type2t_ltchecked_trans t1 t2 t3),
   trichotomy_of_three_way (type2t_operator_lt_eq t1 t2) (type2t_operator_lt_eq t2 t1)
    (type2t_ltchecked_swap t1 t2) (type2t_ltchecked_eq t1 t2)⟩

/-- Witness of C4 amended: `array(uint8, 4) < array(uint8, 8) < array(int32, 8)`. -/
theorem type_order_strict_witness :
    (type2t.operator_lt
        (type2t.array_type2t type_pool.get_uint8
          (some (expr2t.constant_int2t type_pool.get_int32 4)) false)
        (type2t.array_type2t type_pool.get_uint8
          (some (expr2t.constant_int2t type_pool.get_int32 8)) false) = some true ∧
      type2t.operator_lt
        (type2t.array_type2t type_pool.get_uint8
          (some (expr2t.constant_int2t type_pool.get_int32 8)) false)
        (type2t.array_type2t type_pool.get_int32
          (some (expr2t.constant_int2t type_pool.get_int32 8)) false) = some true ∧
      type2t.operator_lt
        (type2t.array_type2t type_pool.get_uint8
          (some (expr2t.constant_int2t type_pool.get_int32 4)) false)
        (type2t.array_type2t type_pool.get_int32
          (some (expr2t.constant_int2t type_pool.get_int32 8)) false) = some true) ∧
    (type2t.ltchecked
        (type2t.array_type2t type_pool.get_uint8
          (some (expr2t.constant_int2t type_pool.get_int32 4)) false)
        (type2t.array_type2t type_pool.get_uint8
          (some (expr2t.constant_int2t type_pool.get_int32 8)) false) ≠ none ∧
      exactly_one
        (type2t.operator_lt
          (type2t.array_type2t type_pool.get_uint8
            (some (expr2t.constant_int2t type_pool.get_int32 4)) false)
          (type2t.array_type2t type_pool.get_uint8
            (some (expr2t.constant_int2t type_pool.get_int32 8)) false) = some true)
        (type2t.operator_lt
          (type2t.array_type2t type_pool.get_uint8
            (some (expr2t.constant_int2t type_pool.get_int32 8)) false)
          (type2t.array_type2t type_pool.get_uint8
            (some (expr2t.constant_int2t type_pool.get_int32 4)) false) = some true)
        (type2t.operator_eq
          (type2t.array_type2t type_pool.get_uint8
            (some (expr2t.constant_int2t type_pool.get_int32 4)) false)
          (type2t.array_type2t type_pool.get_uint8
            (some (expr2t.constant_int2t type_pool.get_int32 8)) false) = some true)) :=
  have h12 : type2t.operator_lt
        (type2t.array_type2t type_pool.get_uint8
          (some (expr2t.constant_int2t type_pool.get_int32 4)) false)
        (type2t.array_type2t type_pool.get_uint8
          (some (expr2t.constant_int2t type_pool.get_int32 8)) false) = some true := by
    simp [type2t.operator_lt, expr2t.ltchecked, expr2t.constant_int2t, expr_body.lt,
      BigInt_compare, expr2tc_ltchecked, less_of_lt, lt_then, three_way, nat_lt, bool_lt,
      type2t.ltchecked, type_body.lt, type_pool.get_uint8, type_pool.get_int32,
      type2t.array_type2t, expr_body.expr_id, expr_ids.toNat, type_body.type_id,
      type_ids.toNat]
  have h23 : type2t.operator_lt
        (type2t.array_type2t type_pool.get_uint8
          (some (expr2t.constant_int2t type_pool.get_int32 8)) false)
        (type2t.array_type2t type_pool.get_int32
          (some (expr2t.constant_int2t type_pool.get_int32 8)) false) = some true := by
    simp [type2t.operator_lt, expr2t.ltchecked, expr2t.constant_int2t, expr_body.lt,
      BigInt_compare, expr2tc_ltchecked, less_of_lt, lt_then, three_way, nat_lt, bool_lt,
      type2t.ltchecked, type_body.lt, type_pool.get_uint8, type_pool.get_int32,
      type2t.array_type2t, expr_body.expr_id, expr_ids.toNat, type_body.type_id,
      type_ids.toNat]
  have hd : type2t.ltchecked
        (type2t.array_type2t type_pool.get_uint8
          (some (expr2t.constant_int2t type_pool.get_int32 4)) false)
        (type2t.array_type2t type_pool.get_uint8
          (some (expr2t.constant_int2t type_pool.get_int32 8)) false) ≠ none := by
    simp [expr2t.ltchecked, expr2t.constant_int2t, expr_body.lt,
      BigInt_compare, expr2tc_ltchecked, lt_then, three_way, nat_lt, bool_lt,
      type2t.ltchecked, type_body.lt, type_pool.get_uint8, type_pool.get_int32,
      type2t.array_type2t, expr_body.expr_id, expr_ids.toNat, type_body.type_id,
      type_ids.toNat]
  ⟨⟨h12, h23,
    (type_order_strict
      (type2t.array_type2t type_pool.get_uint8
        (some (expr2t.constant_int2t type_pool.get_int32 4)) false)
      (type2t.array_type2t type_pool.get_uint8
        (some (expr2t.constant_int2t type_pool.get_int32 8)) false)
      (type2t.array_type2t type_pool.get_int32
        (some (expr2t.constant_int2t type_pool.get_int32 8)) false)).2.1 h12 h23⟩,
   ⟨hd,
    (type_order_strict
      (type2t.array_type2t type_pool.get_uint8
        (some (expr2t.constant_int2t type_pool.get_int32 4)) false)
      (type2t.array_type2t type_pool.get_uint8
        (some (expr2t.constant_int2t type_pool.get_int32 8)) false)
      (type2t.array_type2t type_pool.get_int32
        (some (expr2t.constant_int2t type_pool.get_int32 8)) false)).2.2 hd⟩⟩

/-- C5 fails on the code: the copy constructors of `not2t`, `neg2t` and `abs2t`
do not copy the operand, so the clone of `not(true)`, of `neg(n)` and of
`abs(n)` has a nil operand where the original has one, and comparing the clone
with the original dereferences that nil handle; an object of any class other
than these three (class indices 10, 13 and 14) is cloned with all its fields. -/
theorem clone_drops_operand_of_not_neg_abs :
    (expr2t.not2t (some (expr2t.constant_bool2t true))).clone = expr2t.not2t none ∧
    (expr2t.neg2t type_pool.get_int32
      (some (expr2t.symbol2t type_pool.get_int32 "n"))).clone =
        expr2t.neg2t type_pool.get_int32 none ∧
    (expr2t.abs2t type_pool.get_int32
      (some (expr2t.symbol2t type_pool.get_int32 "n"))).clone =
        expr2t.abs2t type_pool.get_int32 none ∧
    expr2t.operator_eq (expr2t.not2t (some (expr2t.constant_bool2t true))).clone
      (expr2t.not2t (some (expr2t.constant_bool2t true))) = none ∧
    (∀ (t : type2t) (b : expr_body),
      b.class_index = 10 ∨ b.class_index = 13 ∨ b.class_index = 14 ∨
        (expr2t.mk t b).clone = expr2t.mk t b) := by
  refine ⟨rfl, rfl, rfl, by decide, ?_⟩
  intro t b
  by_cases h1 : b.class_index = 10
  · exact Or.inl h1
  by_cases h2 : b.class_index = 13
  · exact Or.inr (Or.inl h2)
  by_cases h3 : b.class_index = 14
  · exact Or.inr (Or.inr (Or.inl h3))
  refine Or.inr (Or.inr (Or.inr ?_))
  simp only [expr2t.clone, expr_body.copy_eq b ⟨h1, h2, h3⟩]

/-! ## Claims on level-2 renaming -/

namespace goto_symex

theorem level2t.entry_set_entry {α : Type} (st : level2t α) (key : name_record)
    (v : valuet α) : (st.set_entry key v).entry key = v := by
  simp [level2t.entry, level2t.set_entry]

theorem level2t.make_assignment_eq {α : Type} (st : level2t α) (type : type2t)
    (thename : String) (rlevel : renaming_level) (l1 l2 tn nn : Nat)
    (c av : Option (expr2t α)) (hl : rlevel = .level1 ∨ rlevel = .level1_global) :
    st.make_assignment (.symbol2t type thename rlevel l1 l2 tn nn) c av =
      some
        (⟨fun k => if k = ⟨thename, rlevel, l1, tn⟩ then
            some ⟨((st.entry ⟨thename, rlevel, l1, tn⟩).count + 1) % 4294967296, c,
              (st.entry ⟨thename, rlevel, l1, tn⟩).node_id⟩
          else st.current_names k⟩,
         .symbol2t type thename
          (if rlevel = .level0 ∨ rlevel = .level1_global then .level2_global else .level2) l1
          (((st.entry ⟨thename, rlevel, l1, tn⟩).count + 1) % 4294967296) tn
          (st.entry ⟨thename, rlevel, l1, tn⟩).node_id) := by
  simp only [level2t.make_assignment, hl, if_true, level2t.rename_count,
    level2t.entry_set_entry]
  congr 2
  simp only [level2t.set_entry]
  congr 1
  funext k
  by_cases hk : k = ⟨thename, rlevel, l1, tn⟩ <;> simp [hk]

/-- C6 (constant propagation): after `make_assignment(v, c, _)` with a non-nil
constant `c` on a symbol `v` at level1 or level1_global whose name is not
reserved, `rename` on `v` returns exactly `c`. -/
theorem rename_after_make_assignment_constant {α : Type} (st : level2t α) (type : type2t)
    (thename : String) (rlevel : renaming_level) (l1 l2 tn nn : Nat)
    (c : expr2t α) (av : Option (expr2t α))
    (hl : rlevel = .level1 ∨ rlevel = .level1_global)
    (h1 : thename ≠ "NULL") (h2 : thename ≠ "INVALID")
    (h3 : has_prefix thename "nondet$" = false) :
    ∃ st1 lhs1,
      st.make_assignment (.symbol2t type thename rlevel l1 l2 tn nn) (some c) av =
        some (st1, lhs1) ∧
      st1.rename (.symbol2t type thename rlevel l1 l2 tn nn) = c := by
  refine ⟨_, _, level2t.make_assignment_eq st type thename rlevel l1 l2 tn nn (some c) av hl, ?_⟩
  have hn : ¬ (rlevel = .level2 ∨ rlevel = .level2_global) := by
    rcases hl with h | h <;> subst h <;> decide
  simp [level2t.rename, hn, h1, h2, h3]

/-- Witness of C6 (scenario S1): in the empty state, assigning the constant
`0 : uint32` to `x : uint32` makes `rename(x)` return that constant. -/
theorem rename_after_make_assignment_constant_witness :
    ((renaming_level.level1 = .level1 ∨ renaming_level.level1 = .level1_global) ∧
      "x" ≠ "NULL" ∧ "x" ≠ "INVALID" ∧ has_prefix "x" "nondet$" = false) ∧
    ∃ st1 lhs1,
      (level2t.mk (fun _ => none) : level2t Int).make_assignment
          (.symbol2t (.mk (.unsignedbv_type2t 32)) "x" .level1 1 0 0 0)
          (some (.other .constant_int_id (.mk (.unsignedbv_type2t 32)) 0 []))
          (some (.other .constant_int_id (.mk (.unsignedbv_type2t 32)) 0 [])) =
        some (st1, lhs1) ∧
      st1.rename (.symbol2t (.mk (.unsignedbv_type2t 32)) "x" .level1 1 0 0 0) =
        .other .constant_int_id (.mk (.unsignedbv_type2t 32)) 0 [] :=
  ⟨⟨by decide, by decide, by decide, by decide⟩,
    rename_after_make_assignment_constant (level2t.mk (fun _ => none))
      (.mk (.unsignedbv_type2t 32)) "x" .level1 1 0 0 0
      (.other .constant_int_id (.mk (.unsignedbv_type2t 32)) 0 [])
      (some (.other .constant_int_id (.mk (.unsignedbv_type2t 32)) 0 []))
      (by decide) (by decide) (by decide) (by decide)⟩

theorem level2t.current_number_rec_eq {α : Type} (st : level2t α) (key : name_record) :
    st.current_number_rec key = (st.entry key).count := by
  simp only [level2t.current_number_rec, level2t.entry]
  cases st.current_names key <;> rfl

theorem level2t.make_assignment_count {α : Type} (st st1 : level2t α)
    (lhs lhs1 : expr2t α) (c av : Option (expr2t α)) (key : name_record)
    (h : st.make_assignment lhs c av = some (st1, lhs1)) :
    st1.current_number_rec key =
      if expr2t.name_record lhs = some key then (st.current_number_rec key + 1) % 4294967296
      else st.current_number_rec key := by
  cases lhs with
  | symbol2t type thename rlevel l1 l2 tn nn =>
    by_cases hl : rlevel = .level1 ∨ rlevel = .level1_global
    · rw [level2t.make_assignment_eq st type thename rlevel l1 l2 tn nn c av hl] at h
      simp only [Option.some.injEq, Prod.mk.injEq] at h
      obtain ⟨h1, _⟩ := h
      subst h1
      simp only [expr2t.name_record, Option.some.injEq]
      rw [level2t.current_number_rec_eq, level2t.current_number_rec_eq]
      by_cases hk : key = ⟨thename, rlevel, l1, tn⟩
      · subst hk
        simp [level2t.entry]
      · have hk2 : ¬ (name_record.mk thename rlevel l1 tn = key) := fun e => hk e.symm
        simp [level2t.entry, hk, hk2]
    · simp [level2t.make_assignment, hl] at h
  | address_of2t t p => simp [level2t.make_assignment] at h
  | other i t d o => simp [level2t.make_assignment] at h

theorem level2t.make_assignments_count {α : Type} (key : name_record) :
    ∀ (steps : List (expr2t α × Option (expr2t α))) (st st2 : level2t α),
      st.make_assignments steps = some st2 →
      st.current_number_rec key + assignments_to key steps < 4294967296 →
      st2.current_number_rec key = st.current_number_rec key + assignments_to key steps
  | [], st, st2, h, _ => by
    simp only [level2t.make_assignments, Option.some.injEq] at h
    subst h
    simp [assignments_to]
  | (lhs, c) :: rest, st, st2, h, hb => by
    simp only [level2t.make_assignments] at h
    cases hm : st.make_assignment lhs c none with
    | none => simp [hm] at h
    | some p =>
      obtain ⟨st1, lhs1⟩ := p
      simp only [hm] at h
      have hc := level2t.make_assignment_count st st1 lhs lhs1 c none key hm
      simp only [assignments_to] at hb ⊢
      by_cases hk : expr2t.name_record lhs = some key
      · simp only [hk, if_true] at hc hb ⊢
        have hlt : st.current_number_rec key + 1 < 4294967296 := by omega
        rw [Nat.mod_eq_of_lt hlt] at hc
        have := level2t.make_assignments_count key rest st1 st2 h (by omega)
        omega
      · simp only [hk, if_false] at hc hb ⊢
        have := level2t.make_assignments_count key rest st1 st2 h (by omega)
        omega

/-- C7, as the claim states it, fails: the count is an `unsigned`, and in a
state where the count of `x` is 4294967295 an assignment to `x` does not leave
`current_number(x)` one higher (it wraps to 0). -/
theorem make_assignment_count_wraps :
    ¬ ∃ st1 lhs1,
      (level2t.mk (fun k => if k = ⟨"x", .level1, 1, 0⟩ then
          some ⟨4294967295, none, 0⟩ else none) : level2t Int).make_assignment
          (.symbol2t (.mk (.unsignedbv_type2t 32)) "x" .level1 1 0 0 0) none none =
        some (st1, lhs1) ∧
      st1.current_number (.symbol2t (.mk (.unsignedbv_type2t 32)) "x" .level1 1 0 0 0) =
        ((level2t.mk (fun k => if k = ⟨"x", .level1, 1, 0⟩ then
          some ⟨4294967295, none, 0⟩ else none) : level2t Int).current_number
          (.symbol2t (.mk (.unsignedbv_type2t 32)) "x" .level1 1 0 0 0)).map (· + 1) := by
  rintro ⟨st1, lhs1, h, hc⟩
  have hm := level2t.make_assignment_count _ st1 _ lhs1 none none ⟨"x", .level1, 1, 0⟩ h
  simp [level2t.current_number, expr2t.name_record, level2t.current_number_rec] at hc hm
  omega

/-- C7, amended: for a symbol at level1 or level1_global whose count is below
4294967295, `make_assignment` raises `current_number` by exactly one; and over
any sequence of `make_assignment` calls during which the count of a name record
does not reach 2^32, its count ends as the initial count plus the number of
assignments to it (so it never decreases and rises with each assignment). -/
theorem make_assignment_increments_count {α : Type} (st st2 : level2t α) (type : type2t)
    (thename : String) (rlevel : renaming_level) (l1 l2 tn nn : Nat)
    (c av : Option (expr2t α)) (steps : List (expr2t α × Option (expr2t α)))
    (key : name_record) (hl : rlevel = .level1 ∨ rlevel = .level1_global) :
    (st.current_number_rec ⟨thename, rlevel, l1, tn⟩ < 4294967295 →
      ∃ st1 lhs1,
        st.make_assignment (.symbol2t type thename rlevel l1 l2 tn nn) c av =
          some (st1, lhs1) ∧
        st1.current_number (.symbol2t type thename rlevel l1 l2 tn nn) =
          (st.current_number (.symbol2t type thename rlevel l1 l2 tn nn)).map (· + 1)) ∧
    (st.make_assignments steps = some st2 →
      st.current_number_rec key + assignments_to key steps < 4294967296 →
      st2.current_number_rec key = st.current_number_rec key + assignments_to key steps) := by
  constructor
  · intro hb
    obtain ⟨st1, lhs1, he⟩ : ∃ st1 lhs1,
        st.make_assignment (.symbol2t type thename rlevel l1 l2 tn nn) c av =
          some (st1, lhs1) :=
      ⟨_, _, level2t.make_assignment_eq st type thename rlevel l1 l2 tn nn c av hl⟩
    refine ⟨st1, lhs1, he, ?_⟩
    have hm := level2t.make_assignment_count st st1 _ lhs1 c av ⟨thename, rlevel, l1, tn⟩ he
    simp only [expr2t.name_record, if_true] at hm
    rw [Nat.mod_eq_of_lt (by omega)] at hm
    simp only [level2t.current_number, expr2t.name_record, Option.map_some', hm]
  · exact level2t.make_assignments_count key steps st st2

/-- Witness of C7 amended: from the empty state, `x := 0` then `x := nondet`
leaves `current_number(x)` at 2, each assignment raising it by one. -/
theorem make_assignment_increments_count_witness :
    (level2t.mk (fun _ => none) : level2t Int).current_number_rec ⟨"x", .level1, 1, 0⟩ <
      4294967295 ∧
    (∃ st1 lhs1,
      (level2t.mk (fun _ => none) : level2t Int).make_assignment
          (.symbol2t (.mk (.unsignedbv_type2t 32)) "x" .level1 1 0 0 0)
          (some (.other .constant_int_id (.mk (.unsignedbv_type2t 32)) 0 [])) none =
        some (st1, lhs1) ∧
      st1.current_number (.symbol2t (.mk (.unsignedbv_type2t 32)) "x" .level1 1 0 0 0) =
        some 1) ∧
    ∃ st2,
      (level2t.mk (fun _ => none) : level2t Int).make_assignments
          [(.symbol2t (.mk (.unsignedbv_type2t 32)) "x" .level1 1 0 0 0,
              some (.other .constant_int_id (.mk (.unsignedbv_type2t 32)) 0 [])),
           (.symbol2t (.mk (.unsignedbv_type2t 32)) "x" .level1 1 0 0 0, none)] =
        some st2 ∧
      st2.current_number_rec ⟨"x", .level1, 1, 0⟩ = 2 := by
  refine ⟨by decide, ?_, ?_⟩
  · exact (make_assignment_increments_count (level2t.mk (fun _ => none))
      (level2t.mk (fun _ => none)) (.mk (.unsignedbv_type2t 32)) "x" .level1 1 0 0 0
      (some (.other .constant_int_id (.mk (.unsignedbv_type2t 32)) 0 [])) none []
      ⟨"x", .level1, 1, 0⟩ (by decide)).1 (by decide)
  · refine ⟨_, rfl, ?_⟩
    exact (make_assignment_increments_count (level2t.mk (fun _ => none)) _
      (.mk (.unsignedbv_type2t 32)) "x" .level1 1 0 0 0 none none
      [(.symbol2t (.mk (.unsignedbv_type2t 32)) "x" .level1 1 0 0 0,
          some (.other .constant_int_id (.mk (.unsignedbv_type2t 32)) 0 [])),
       (.symbol2t (.mk (.unsignedbv_type2t 32)) "x" .level1 1 0 0 0, none)]
      ⟨"x", .level1, 1, 0⟩ (by decide)).2 rfl (by decide)

/-- C8: `rename` on a symbol that is not at level2 or level2_global, whose name
is not reserved and whose entry (if any) holds no constant, returns the symbol
with the same type and name, at level2_global if it was at level0 or
level1_global and at level2 otherwise, with `level1_num` and `thread_num`
copied, and with `level2_num` and `node_num` the count and node of the entry
(both 0 when there is no entry). -/
theorem rename_symbol_without_constant {α : Type} (st : level2t α) (type : type2t)
    (thename : String) (rlevel : renaming_level) (l1 l2 tn nn : Nat)
    (hl : rlevel ≠ .level2 ∧ rlevel ≠ .level2_global)
    (h1 : thename ≠ "NULL") (h2 : thename ≠ "INVALID")
    (h3 : has_prefix thename "nondet$" = false)
    (hc : ∀ it, st.current_names ⟨thename, rlevel, l1, tn⟩ = some it → it.constant = none) :
    st.rename (.symbol2t type thename rlevel l1 l2 tn nn) =
      .symbol2t type thename
        (if rlevel = .level0 ∨ rlevel = .level1_global then .level2_global else .level2) l1
        (match st.current_names ⟨thename, rlevel, l1, tn⟩ with
          | some it => it.count
          | none => 0)
        tn
        (match st.current_names ⟨thename, rlevel, l1, tn⟩ with
          | some it => it.node_id
          | none => 0) := by
  have hn : ¬ (rlevel = .level2 ∨ rlevel = .level2_global) := by
    rintro (h | h)
    · exact hl.1 h
    · exact hl.2 h
  simp only [level2t.rename, hn, h1, h2, h3, if_false, Bool.false_eq_true]
  cases he : st.current_names ⟨thename, rlevel, l1, tn⟩ with
  | none => rfl
  | some it => simp only [hc it he]

/-- Witness of C8: with an entry of count 3 and node 7 and no constant, the
level1 symbol `x` is renamed to level2 with `level2_num` 3 and `node_num` 7. -/
theorem rename_symbol_without_constant_witness :
    (level2t.mk (fun k => if k = ⟨"x", .level1, 1, 2⟩ then some ⟨3, none, 7⟩ else none) :
        level2t Int).rename (.symbol2t (.mk (.unsignedbv_type2t 32)) "x" .level1 1 0 2 0) =
      .symbol2t (.mk (.unsignedbv_type2t 32)) "x" .level2 1 3 2 7 :=
  rename_symbol_without_constant
    (level2t.mk (fun k => if k = ⟨"x", .level1, 1, 2⟩ then some ⟨3, none, 7⟩ else none))
    (.mk (.unsignedbv_type2t 32)) "x" .level1 1 0 2 0 (by decide) (by decide) (by decide)
    (by decide) (by intro it h; simp at h; rw [← h])

/-- C9: `rename` returns unchanged every symbol already at level2 or
level2_global and every symbol named `NULL`, `INVALID` or beginning with
`nondet$`, whatever the state holds. -/
theorem rename_keeps_l2_and_reserved {α : Type} (st : level2t α) (type : type2t)
    (thename : String) (rlevel : renaming_level) (l1 l2 tn nn : Nat)
    (h : rlevel = .level2 ∨ rlevel = .level2_global ∨ thename = "NULL" ∨
      thename = "INVALID" ∨ has_prefix thename "nondet$" = true) :
    st.rename (.symbol2t type thename rlevel l1 l2 tn nn) =
      .symbol2t type thename rlevel l1 l2 tn nn := by
  simp only [level2t.rename]
  split_ifs <;> first | rfl | (exfalso; simp_all)

/-- Witness of C9: a level1 symbol named `nondet$1` stays as it is even though
the state stores a constant for its name record. -/
theorem rename_keeps_l2_and_reserved_witness :
    has_prefix "nondet$1" "nondet$" = true ∧
    (level2t.mk (fun _ => some ⟨5, some (.other .constant_int_id
        (.mk (.unsignedbv_type2t 32)) 0 []), 0⟩) : level2t Int).rename
      (.symbol2t (.mk (.unsignedbv_type2t 32)) "nondet$1" .level1 1 0 0 0) =
      .symbol2t (.mk (.unsignedbv_type2t 32)) "nondet$1" .level1 1 0 0 0 :=
  ⟨by decide,
    rename_keeps_l2_and_reserved _ (.mk (.unsignedbv_type2t 32)) "nondet$1" .level1 1 0 0 0
      (Or.inr (Or.inr (Or.inr (Or.inr (by decide)))))⟩

/-- C10: `rename` leaves `address_of(p)` as it is, for every operand `p` and
every state, also where the `address_of` is an operand of another expression:
nothing underneath it is renumbered or replaced by a constant. -/
theorem rename_address_of_unchanged {α : Type} (st : level2t α) (type : type2t)
    (p : Option (expr2t α)) (expr_id : expr_ids) (t : type2t) (d : α) :
    st.rename (.address_of2t type p) = .address_of2t type p ∧
    st.rename (.other expr_id t d [some (.address_of2t type p)]) =
      .other expr_id t d [some (.address_of2t type p)] :=
  ⟨rfl, rfl⟩

end goto_symex

/-! ## Claims on width queries -/

theorem struct_width_loop_eq (pw : Nat) :
    ∀ (ms : List type2t) (ws : List Nat) (width : Nat),
      List.Forall₂ (fun m w => type2t.get_width pw m = .ok w) ms ws →
      width < 4294967296 →
      struct_width_loop pw ms width = .ok ((width + ws.sum) % 4294967296)
  | [], ws, width, h, hw => by
    cases h
    simp [struct_width_loop, Nat.mod_eq_of_lt hw]
  | m :: rest, ws, width, h, hw => by
    cases h with
    | cons hm hrest =>
      rename_i w ws1
      simp only [struct_width_loop, hm]
      rw [struct_width_loop_eq pw rest ws1 _ hrest (Nat.mod_lt _ (by decide))]
      simp only [List.sum_cons]
      congr 1
      omega

theorem union_width_loop_eq (pw : Nat) :
    ∀ (ms : List type2t) (ws : List Nat) (width : Nat),
      List.Forall₂ (fun m w => type2t.get_width pw m = .ok w) ms ws →
      union_width_loop pw ms width = .ok (max width (ws.foldr max 0))
  | [], ws, width, h => by
    cases h
    simp [union_width_loop]
  | m :: rest, ws, width, h => by
    cases h with
    | cons hm hrest =>
      rename_i w ws1
      simp only [union_width_loop, hm]
      rw [union_width_loop_eq pw rest ws1 _ hrest]
      simp only [List.foldr_cons]
      congr 1
      omega

/-- C20, as the claim states it, fails: the width is an `unsigned int`, so
`string(536870912)` has width 0 and not 8 * 536870912, and a struct of two
members of width 2147483648 has width 0 and not their sum. -/
theorem get_width_wraps :
    type2t.get_width 32 (.mk (.string_type2t 536870912)) = .ok 0 ∧
    type2t.get_width 32 (.mk (.string_type2t 536870912)) ≠ .ok (8 * 536870912) ∧
    type2t.get_width 32
      (.mk (.struct_type2t
        [.mk (.unsignedbv_type2t 2147483648), .mk (.unsignedbv_type2t 2147483648)]
        ["a", "b"] "s")) = .ok 0 ∧
    type2t.get_width 32
      (.mk (.struct_type2t
        [.mk (.unsignedbv_type2t 2147483648), .mk (.unsignedbv_type2t 2147483648)]
        ["a", "b"] "s")) ≠ .ok (2147483648 + 2147483648) :=
  ⟨rfl, fun h => absurd (Except.ok.inj h) (by decide), rfl,
    fun h => absurd (Except.ok.inj h) (by decide)⟩

/-- C20, amended: `get_width` returns 1 for bool, `8 * n` reduced modulo 2^32
for `string(n)`, the declared width for unsignedbv, signedbv and fixedbv, for a
struct whose members have the widths `ws` their sum reduced modulo 2^32, and for
a union the maximum of `ws` (0 without members); so wherever `8 * n` and the
sum are below 2^32 the width is `8 * n` and the sum. -/
theorem get_width_closed_forms (pw n w ib : Nat) (ms : List type2t) (ns : List String)
    (name : String) (ws : List Nat)
    (h : List.Forall₂ (fun m w => type2t.get_width pw m = .ok w) ms ws) :
    type2t.get_width pw (.mk .bool_type2t) = .ok 1 ∧
    type2t.get_width pw (.mk (.string_type2t n)) = .ok (8 * n % 4294967296) ∧
    (8 * n < 4294967296 → type2t.get_width pw (.mk (.string_type2t n)) = .ok (8 * n)) ∧
    type2t.get_width pw (.mk (.unsignedbv_type2t w)) = .ok w ∧
    type2t.get_width pw (.mk (.signedbv_type2t w)) = .ok w ∧
    type2t.get_width pw (.mk (.fixedbv_type2t w ib)) = .ok w ∧
    type2t.get_width pw (.mk (.struct_type2t ms ns name)) = .ok (ws.sum % 4294967296) ∧
    (ws.sum < 4294967296 →
      type2t.get_width pw (.mk (.struct_type2t ms ns name)) = .ok ws.sum) ∧
    type2t.get_width pw (.mk (.union_type2t ms ns name)) = .ok (ws.foldr max 0) ∧
    type2t.get_width pw (.mk (.struct_type2t [] ns name)) = .ok 0 ∧
    type2t.get_width pw (.mk (.union_type2t [] ns name)) = .ok 0 := by
  have hs : type2t.get_width pw (.mk (.struct_type2t ms ns name)) =
      .ok (ws.sum % 4294967296) := by
    simp only [type2t.get_width, type_body.get_width]
    rw [struct_width_loop_eq pw ms ws 0 h (by decide), Nat.zero_add]
  have hstr : type2t.get_width pw (.mk (.string_type2t n)) = .ok (8 * n % 4294967296) := by
    simp only [type2t.get_width, type_body.get_width, Nat.mul_comm]
  refine ⟨rfl, hstr, ?_, rfl, rfl, rfl, hs, ?_, ?_, rfl, rfl⟩
  · intro hb
    rw [hstr, Nat.mod_eq_of_lt hb]
  · intro hb
    rw [hs, Nat.mod_eq_of_lt hb]
  · simp only [type2t.get_width, type_body.get_width]
    rw [union_width_loop_eq pw ms ws 0 h, Nat.zero_max]

/-- Witness of C20 amended: a struct and a union over `uint8`, `int32` and
`string(3)` have widths 64 and 32. -/
theorem get_width_closed_forms_witness :
    List.Forall₂ (fun m w => type2t.get_width 32 m = .ok w)
      [type_pool.get_uint8, type_pool.get_int32, .mk (.string_type2t 3)] [8, 32, 24] ∧
    type2t.get_width 32
      (.mk (.struct_type2t [type_pool.get_uint8, type_pool.get_int32, .mk (.string_type2t 3)]
        ["a", "b", "c"] "s")) = .ok 64 ∧
    type2t.get_width 32
      (.mk (.union_type2t [type_pool.get_uint8, type_pool.get_int32, .mk (.string_type2t 3)]
        ["a", "b", "c"] "s")) = .ok 32 ∧
    type2t.get_width 32 (.mk (.string_type2t 3)) = .ok 24 :=
  have h : List.Forall₂ (fun m w => type2t.get_width 32 m = .ok w)
      [type_pool.get_uint8, type_pool.get_int32, .mk (.string_type2t 3)] [8, 32, 24] :=
    .cons rfl (.cons rfl (.cons rfl .nil))
  ⟨h,
    (get_width_closed_forms 32 3 8 0
      [type_pool.get_uint8, type_pool.get_int32, .mk (.string_type2t 3)] ["a", "b", "c"] "s"
      [8, 32, 24] h).2.2.2.2.2.2.2.1 (by decide),
    (get_width_closed_forms 32 3 8 0
      [type_pool.get_uint8, type_pool.get_int32, .mk (.string_type2t 3)] ["a", "b", "c"] "s"
      [8, 32, 24] h).2.2.2.2.2.2.2.2.1,
    (get_width_closed_forms 32 3 8 0
      [type_pool.get_uint8, type_pool.get_int32, .mk (.string_type2t 3)] ["a", "b", "c"] "s"
      [8, 32, 24] h).2.2.1 (by decide)⟩

/-! ## Claims on level-1 renaming and on stripping renaming -/

namespace goto_symex

/-- C11: after `make_assignment(lhs, c, _)` on a symbol at level1 (respectively
level1_global), `lhs` is the symbol at level2 (respectively level2_global) with
the same type, name, `level1_num` and `thread_num`, whose `level2_num` is the
new count of the entry and whose `node_num` is the entry's `node_id`, and the
constant stored in the entry is `c`, nil included. -/
theorem make_assignment_symbol_and_entry {α : Type} (st : level2t α) (type : type2t)
    (thename : String) (rlevel : renaming_level) (l1 l2 tn nn : Nat)
    (c av : Option (expr2t α)) (hl : rlevel = .level1 ∨ rlevel = .level1_global) :
    ∃ st1 lhs1 entry,
      st.make_assignment (.symbol2t type thename rlevel l1 l2 tn nn) c av = some (st1, lhs1) ∧
      st1.current_names ⟨thename, rlevel, l1, tn⟩ = some entry ∧
      lhs1 = .symbol2t type thename (if rlevel = .level1 then .level2 else .level2_global) l1
        entry.count tn entry.node_id ∧
      entry.count = st1.current_number_rec ⟨thename, rlevel, l1, tn⟩ ∧
      entry.constant = c := by
  refine ⟨_, _,
    ⟨((st.entry ⟨thename, rlevel, l1, tn⟩).count + 1) % 4294967296, c,
      (st.entry ⟨thename, rlevel, l1, tn⟩).node_id⟩,
    level2t.make_assignment_eq st type thename rlevel l1 l2 tn nn c av hl,
    by simp, ?_, by simp [level2t.current_number_rec], rfl⟩
  rcases hl with h | h <;> subst h <;> simp

/-- Witness of C11: assigning to `x` at level1_global with a nil constant, in a
state where `x` has count 4 and node 9. -/
theorem make_assignment_symbol_and_entry_witness :
    ∃ st1 lhs1 entry,
      (level2t.mk (fun k => if k = ⟨"x", .level1_global, 0, 0⟩ then
          some ⟨4, some (.other .constant_int_id (.mk (.unsignedbv_type2t 32)) 0 []), 9⟩
        else none) : level2t Int).make_assignment
          (.symbol2t (.mk (.unsignedbv_type2t 32)) "x" .level1_global 0 0 0 0) none none =
        some (st1, lhs1) ∧
      st1.current_names ⟨"x", .level1_global, 0, 0⟩ = some entry ∧
      lhs1 = .symbol2t (.mk (.unsignedbv_type2t 32)) "x" .level2_global 0 5 0 9 ∧
      entry.constant = none := by
  obtain ⟨st1, lhs1, entry, h1, h2, h3, h4, h5⟩ :=
    make_assignment_symbol_and_entry
      (level2t.mk (fun k => if k = ⟨"x", .level1_global, 0, 0⟩ then
          some ⟨4, some (.other .constant_int_id (.mk (.unsignedbv_type2t 32)) 0 []), 9⟩
        else none) : level2t Int)
      (.mk (.unsignedbv_type2t 32)) "x" .level1_global 0 0 0 0 none none (by decide)
  refine ⟨st1, lhs1, entry, h1, h2, ?_, h5⟩
  have hm := level2t.make_assignment_eq
      (level2t.mk (fun k => if k = ⟨"x", .level1_global, 0, 0⟩ then
          some ⟨4, some (.other .constant_int_id (.mk (.unsignedbv_type2t 32)) 0 []), 9⟩
        else none) : level2t Int)
      (.mk (.unsignedbv_type2t 32)) "x" .level1_global 0 0 0 0 none none (by decide)
  rw [hm] at h1
  simp only [Option.some.injEq, Prod.mk.injEq] at h1
  rw [← h1.2]
  simp [level2t.entry]

mutual
theorem level1t.rename_has_level0 {α : Type} (st : level1t) :
    ∀ e : expr2t α, (st.rename e).has_level0 = false
  | .symbol2t type thename rlevel l1 l2 tn nn => by
    simp only [level1t.rename]
    by_cases h : rlevel = .level0
    · subst h
      cases st.current_names ⟨thename, .level0, l1, tn⟩ <;> simp [expr2t.has_level0]
    · simp [h, expr2t.has_level0]
  | .address_of2t type none => by simp [level1t.rename, level1t.rename_handle, expr2t.has_level0]
  | .address_of2t type (some p) => by
    simp only [level1t.rename, level1t.rename_handle, expr2t.has_level0]
    exact level1t.rename_has_level0 st p
  | .other expr_id type data operands => by
    simp only [level1t.rename, expr2t.has_level0]
    exact level1t.rename_operands_have_level0 st operands
theorem level1t.rename_operands_have_level0 {α : Type} (st : level1t) :
    ∀ ops : List (Option (expr2t α)), operands_have_level0 (st.rename_operands ops) = false
  | [] => by simp [level1t.rename_operands, operands_have_level0]
  | none :: rest => by
    simp only [level1t.rename_operands, operands_have_level0]
    exact level1t.rename_operands_have_level0 st rest
  | some e :: rest => by
    simp only [level1t.rename_operands, operands_have_level0, Bool.or_eq_false_iff]
    exact ⟨level1t.rename_has_level0 st e, level1t.rename_operands_have_level0 st rest⟩
end

mutual
theorem expr2t.has_level0_outside_le {α : Type} :
    ∀ e : expr2t α, e.has_level0 = false → e.has_level0_outside_address_of = false
  | .symbol2t type thename rlevel l1 l2 tn nn => by
    simp [expr2t.has_level0, expr2t.has_level0_outside_address_of]
  | .address_of2t type p => by simp [expr2t.has_level0_outside_address_of]
  | .other expr_id type data operands => by
    simp only [expr2t.has_level0, expr2t.has_level0_outside_address_of]
    exact operands_have_level0_outside_le operands
theorem operands_have_level0_outside_le {α : Type} :
    ∀ ops : List (Option (expr2t α)), operands_have_level0 ops = false →
      operands_have_level0_outside_address_of ops = false
  | [] => by simp [operands_have_level0_outside_address_of]
  | none :: rest => by
    simp only [operands_have_level0, operands_have_level0_outside_address_of]
    exact operands_have_level0_outside_le rest
  | some e :: rest => by
    simp only [operands_have_level0, operands_have_level0_outside_address_of,
      Bool.or_eq_false_iff]
    exact fun h => ⟨expr2t.has_level0_outside_le e h.1, operands_have_level0_outside_le rest h.2⟩
end

/-- C12: after `L1.rename(e)` no symbol of the result that is outside every
`address_of` is at level0; the code also renames under `address_of`, so no
symbol at any depth is at level0. -/
theorem level1_rename_leaves_no_level0 {α : Type} (st : level1t) (e : expr2t α) :
    (st.rename e).has_level0_outside_address_of = false ∧ (st.rename e).has_level0 = false :=
  ⟨expr2t.has_level0_outside_le _ (level1t.rename_has_level0 st e),
    level1t.rename_has_level0 st e⟩

/-- C13: `L1.rename` on a symbol at level0 gives, when the state has an entry
for its name record, the level1 symbol of the same name and type with
`level1_num` the stored count, `thread_num` the state's `thread_id` and the
other two numbers 0, and otherwise the same symbol at level1_global; a symbol
that is not at level0 is returned unchanged.  (`rename` is a `const` member:
it returns the expression only, the state is not touched.) -/
theorem level1_rename_symbol (α : Type) (st : level1t) (type : type2t) (thename : String)
    (rlevel : renaming_level) (l1 l2 tn nn count : Nat) :
    (st.current_names ⟨thename, .level0, l1, tn⟩ = some count →
      st.rename (.symbol2t type thename .level0 l1 l2 tn nn : expr2t α) =
        .symbol2t type thename .level1 count 0 st.thread_id 0) ∧
    (st.current_names ⟨thename, .level0, l1, tn⟩ = none →
      st.rename (.symbol2t type thename .level0 l1 l2 tn nn : expr2t α) =
        .symbol2t type thename .level1_global l1 l2 tn nn) ∧
    (rlevel ≠ .level0 →
      st.rename (.symbol2t type thename rlevel l1 l2 tn nn : expr2t α) =
        .symbol2t type thename rlevel l1 l2 tn nn) := by
  refine ⟨fun h => ?_, fun h => ?_, fun h => ?_⟩
  · simp [level1t.rename, h]
  · simp [level1t.rename, h]
  · simp [level1t.rename, h]

/-- Witness of C13: in thread 3, with count 2 stored for `x`, the level0 symbol
`x` becomes `x` at level1 with numbers (2, 0, 3, 0), the level0 symbol `g`
without entry becomes level1_global, and a level2 symbol stays. -/
theorem level1_rename_symbol_witness :
    (level1t.mk (fun k => if k = ⟨"x", .level0, 0, 0⟩ then some 2 else none) 3).rename
        (.symbol2t (.mk (.unsignedbv_type2t 32)) "x" .level0 0 0 0 0 : expr2t Int) =
      .symbol2t (.mk (.unsignedbv_type2t 32)) "x" .level1 2 0 3 0 ∧
    (level1t.mk (fun k => if k = ⟨"x", .level0, 0, 0⟩ then some 2 else none) 3).rename
        (.symbol2t (.mk (.unsignedbv_type2t 32)) "g" .level0 0 0 0 0 : expr2t Int) =
      .symbol2t (.mk (.unsignedbv_type2t 32)) "g" .level1_global 0 0 0 0 ∧
    (level1t.mk (fun k => if k = ⟨"x", .level0, 0, 0⟩ then some 2 else none) 3).rename
        (.symbol2t (.mk (.unsignedbv_type2t 32)) "x" .level2 1 4 0 7 : expr2t Int) =
      .symbol2t (.mk (.unsignedbv_type2t 32)) "x" .level2 1 4 0 7 :=
  ⟨(level1_rename_symbol Int
      (level1t.mk (fun k => if k = ⟨"x", .level0, 0, 0⟩ then some 2 else none) 3)
      (.mk (.unsignedbv_type2t 32)) "x" .level2 0 0 0 0 2).1 (by decide),
   (level1_rename_symbol Int
      (level1t.mk (fun k => if k = ⟨"x", .level0, 0, 0⟩ then some 2 else none) 3)
      (.mk (.unsignedbv_type2t 32)) "g" .level2 0 0 0 0 2).2.1 (by decide),
   (level1_rename_symbol Int
      (level1t.mk (fun k => if k = ⟨"x", .level0, 0, 0⟩ then some 2 else none) 3)
      (.mk (.unsignedbv_type2t 32)) "x" .level2 1 4 0 7 2).2.2 (by decide)⟩

theorem get_original_name_symbol_level0 {α : Type} (type : type2t) (thename : String)
    (rlevel : renaming_level) (l1 l2 tn nn : Nat) :
    (get_original_name_symbol type thename rlevel l1 l2 tn nn .level0 : Option (expr2t α)) =
      some (if rlevel = .level0 then .symbol2t type thename rlevel l1 l2 tn nn
        else .symbol2t type thename .level0 0 0 0 0) := by
  by_cases h : rlevel = .level0 <;>
    simp [get_original_name_symbol, get_original_name_switch, h]

mutual
theorem get_original_name_all_level0 {α : Type} :
    ∀ e : expr2t α, e.all_level0 = true → get_original_name .level0 e .level0 = some e
  | .symbol2t type thename rlevel l1 l2 tn nn => by
    intro h
    simp only [expr2t.all_level0, Bool.and_eq_true, decide_eq_true_eq] at h
    simp [get_original_name, get_original_name_symbol_level0, h.1.1.1.1]
  | .address_of2t type none => by
    simp [get_original_name, get_original_name_handle]
  | .address_of2t type (some p) => by
    intro h
    simp only [expr2t.all_level0] at h
    simp [get_original_name, get_original_name_handle, get_original_name_all_level0 p h]
  | .other expr_id type data operands => by
    intro h
    simp only [expr2t.all_level0] at h
    simp [get_original_name, get_original_name_operands_all_level0 operands h]
theorem get_original_name_operands_all_level0 {α : Type} :
    ∀ ops : List (Option (expr2t α)), operands_all_level0 ops = true →
      get_original_name_operands .level0 ops = some ops
  | [] => by simp [get_original_name_operands]
  | none :: rest => by
    intro h
    simp only [operands_all_level0] at h
    simp [get_original_name_operands, get_original_name_operands_all_level0 rest h]
  | some e :: rest => by
    intro h
    simp only [operands_all_level0, Bool.and_eq_true] at h
    simp [get_original_name_operands, get_original_name_all_level0 e h.1,
      get_original_name_operands_all_level0 rest h.2]
end

mutual
theorem level1t_rename_round_trip {α : Type} (st : level1t) :
    ∀ e : expr2t α, expr2t.all_level0 e = true →
      get_original_name .level0 (st.rename e) .level0 = some e
  | .symbol2t type thename rlevel l1 l2 tn nn => by
    intro h
    simp only [expr2t.all_level0, Bool.and_eq_true, decide_eq_true_eq] at h
    obtain ⟨⟨⟨⟨h0, h1⟩, h2⟩, h3⟩, h4⟩ := h
    subst h0 h1 h2 h3 h4
    simp only [level1t.rename, ne_eq, not_true_eq_false, if_false]
    cases st.current_names ⟨thename, .level0, 0, 0⟩ <;>
      simp [get_original_name, get_original_name_symbol_level0]
  | .address_of2t type none => by
    simp [level1t.rename, level1t.rename_handle, get_original_name, get_original_name_handle]
  | .address_of2t type (some p) => by
    intro h
    simp only [expr2t.all_level0] at h
    simp [level1t.rename, level1t.rename_handle, get_original_name, get_original_name_handle,
      level1t_rename_round_trip st p h]
  | .other expr_id type data operands => by
    intro h
    simp only [expr2t.all_level0] at h
    simp [level1t.rename, get_original_name, level1t_rename_operands_round_trip st operands h]
theorem level1t_rename_operands_round_trip {α : Type} (st : level1t) :
    ∀ ops : List (Option (expr2t α)), operands_all_level0 ops = true →
      get_original_name_operands .level0 (st.rename_operands ops) = some ops
  | [] => by simp [level1t.rename_operands, get_original_name_operands]
  | none :: rest => by
    intro h
    simp only [operands_all_level0] at h
    simp [level1t.rename_operands, get_original_name_operands,
      level1t_rename_operands_round_trip st rest h]
  | some e :: rest => by
    intro h
    simp only [operands_all_level0, Bool.and_eq_true] at h
    simp [level1t.rename_operands, get_original_name_operands,
      level1t_rename_round_trip st e h.1, level1t_rename_operands_round_trip st rest h.2]
end

/-- C14, as the claim states it, fails: a symbol at level0 that carries a
renaming number (`level1_num` 5) does not come back from the round trip:
`L1.rename` makes it level1_global and `get_original_name` to level0 wipes the
number.  This is so whatever the one-argument `get_original_name` does. -/
theorem level1_round_trip_fails_on_numbered_symbol :
    ¬ ∃ dflt : renaming_level,
      get_original_name dflt
        ((level1t.mk (fun _ => none) 0).rename
          (.symbol2t (.mk (.unsignedbv_type2t 32)) "x" .level0 5 0 0 0 : expr2t Int))
        .level0 =
      some (.symbol2t (.mk (.unsignedbv_type2t 32)) "x" .level0 5 0 0 0) := by
  rintro ⟨dflt, h⟩
  simp [level1t.rename, get_original_name, get_original_name_symbol,
    get_original_name_switch] at h

/-- C14 (L1 round trip), amended: for every L1 state and every expression `e`
whose symbols are all un-renamed level0 symbols (at level0 with the four
renaming numbers 0), `get_original_name` to level0 of `L1.rename(e)` is `e`
again; for a symbol `e` this holds whatever level the one-argument
`get_original_name` asks for. -/
theorem level1_round_trip {α : Type} (st : level1t) (e : expr2t α)
    (h : expr2t.all_level0 e = true) :
    renaming_levelt.get_original_name (st.rename e) .level0 = some e ∧
    (e.name_record ≠ none →
      ∀ dflt, get_original_name dflt (st.rename e) .level0 = some e) := by
  refine ⟨level1t_rename_round_trip st e h, fun hs dflt => ?_⟩
  cases e with
  | symbol2t type thename rlevel l1 l2 tn nn =>
    have := level1t_rename_round_trip st (.symbol2t type thename rlevel l1 l2 tn nn) h
    cases hr : st.rename (.symbol2t type thename rlevel l1 l2 tn nn : expr2t α) with
    | symbol2t t1 n1 r1 a1 b1 c1 d1 =>
      rw [hr] at this
      simpa [get_original_name] using this
    | address_of2t t p =>
      simp only [level1t.rename] at hr
      split at hr
      · cases hr
      · split at hr <;> cases hr
    | other i t d o =>
      simp only [level1t.rename] at hr
      split at hr
      · cases hr
      · split at hr <;> cases hr
  | address_of2t t p => simp [expr2t.name_record] at hs
  | other i t d o => simp [expr2t.name_record] at hs

/-- Witness of C14: `f(x, &g, nil)` with `x` known to the state and `g` not. -/
theorem level1_round_trip_witness :
    renaming_levelt.get_original_name
      ((level1t.mk (fun k => if k = ⟨"x", .level0, 0, 0⟩ then some 2 else none) 3).rename
        (.other .add_id (.mk (.unsignedbv_type2t 32)) (0 : Int)
          [some (.symbol2t (.mk (.unsignedbv_type2t 32)) "x" .level0 0 0 0 0),
           some (.address_of2t (.mk (.pointer_type2t (.mk (.unsignedbv_type2t 32))))
             (some (.symbol2t (.mk (.unsignedbv_type2t 32)) "g" .level0 0 0 0 0))),
           none])) .level0 =
      some (.other .add_id (.mk (.unsignedbv_type2t 32)) (0 : Int)
          [some (.symbol2t (.mk (.unsignedbv_type2t 32)) "x" .level0 0 0 0 0),
           some (.address_of2t (.mk (.pointer_type2t (.mk (.unsignedbv_type2t 32))))
             (some (.symbol2t (.mk (.unsignedbv_type2t 32)) "g" .level0 0 0 0 0))),
           none]) :=
  (level1_round_trip _ _ (by decide)).1

theorem level2t.keys_are_l1_empty {α : Type} :
    (level2t.mk (fun _ => none) : level2t α).keys_are_l1 := by
  intro key v h
  simp at h

theorem level2t.keys_are_l1_set_entry {α : Type} (st : level2t α) (key : name_record)
    (v : valuet α) (hst : st.keys_are_l1)
    (hk : key.lev = .level1 ∨ key.lev = .level1_global) : (st.set_entry key v).keys_are_l1 := by
  intro k w h
  simp only [level2t.set_entry] at h
  by_cases hkk : k = key
  · subst hkk
    exact hk
  · simp only [hkk, if_false] at h
    exact hst k w h

theorem level2t.keys_are_l1_make_assignment {α : Type} (st st1 : level2t α)
    (lhs lhs1 : expr2t α) (c av : Option (expr2t α)) (hst : st.keys_are_l1)
    (h : st.make_assignment lhs c av = some (st1, lhs1)) : st1.keys_are_l1 := by
  cases lhs with
  | symbol2t type thename rlevel l1 l2 tn nn =>
    by_cases hl : rlevel = .level1 ∨ rlevel = .level1_global
    · simp only [level2t.make_assignment, hl, if_true, Option.some.injEq, Prod.mk.injEq] at h
      rw [← h.1]
      exact level2t.keys_are_l1_set_entry _ _ _
        (level2t.keys_are_l1_set_entry _ _ _ hst hl) hl
    · simp [level2t.make_assignment, hl] at h
  | address_of2t t p => simp [level2t.make_assignment] at h
  | other i t d o => simp [level2t.make_assignment] at h

theorem level2t.keys_are_l1_coveredinbees {α : Type} (st st1 : level2t α)
    (lhs : expr2t α) (count node_id : Nat) (hst : st.keys_are_l1)
    (h : st.coveredinbees lhs count node_id = some st1) : st1.keys_are_l1 := by
  cases lhs with
  | symbol2t type thename rlevel l1 l2 tn nn =>
    by_cases hl : rlevel = .level1 ∨ rlevel = .level1_global
    · by_cases hc : (st.entry ⟨thename, rlevel, l1, tn⟩).count ≤ count
      · simp only [level2t.coveredinbees, hl, hc, if_true, Option.some.injEq] at h
        rw [← h]
        exact level2t.keys_are_l1_set_entry _ _ _ hst hl
      · simp [level2t.coveredinbees, hl, hc] at h
    · simp [level2t.coveredinbees, hl] at h
  | address_of2t t p => simp [level2t.coveredinbees] at h
  | other i t d o => simp [level2t.coveredinbees] at h

theorem level2t.no_level0_constant_of_keys_are_l1 {α : Type} (st : level2t α)
    (hst : st.keys_are_l1) : level2t.no_level0_constant st := by
  intro key v h h0
  have := hst key v h
  rw [h0] at this
  simp at this

mutual
theorem level2t_rename_round_trip {α : Type} (st : level2t α)
    (hst : level2t.no_level0_constant st) :
    ∀ e : expr2t α, expr2t.all_level0 e = true →
      get_original_name .level0 (st.rename e) .level0 = some e
  | .symbol2t type thename rlevel l1 l2 tn nn => by
    intro h
    simp only [expr2t.all_level0, Bool.and_eq_true, decide_eq_true_eq] at h
    obtain ⟨⟨⟨⟨h0, h1⟩, h2⟩, h3⟩, h4⟩ := h
    subst h0 h1 h2 h3 h4
    cases hc : st.current_names ⟨thename, .level0, 0, 0⟩ with
    | none =>
      simp only [level2t.rename, hc]
      split_ifs <;> simp [get_original_name, get_original_name_symbol_level0]
    | some v =>
      have hv : v.constant = none := hst _ v hc rfl
      simp only [level2t.rename, hc, hv]
      split_ifs <;> simp [get_original_name, get_original_name_symbol_level0]
  | .address_of2t type none => by
    simp [level2t.rename, get_original_name, get_original_name_handle]
  | .address_of2t type (some p) => by
    intro h
    simp only [expr2t.all_level0] at h
    simp [level2t.rename, get_original_name, get_original_name_handle,
      get_original_name_all_level0 p h]
  | .other expr_id type data operands => by
    intro h
    simp only [expr2t.all_level0] at h
    simp [level2t.rename, get_original_name,
      level2t_rename_operands_round_trip st hst operands h]
theorem level2t_rename_operands_round_trip {α : Type} (st : level2t α)
    (hst : level2t.no_level0_constant st) :
    ∀ ops : List (Option (expr2t α)), operands_all_level0 ops = true →
      get_original_name_operands .level0 (st.rename_operands ops) = some ops
  | [] => by simp [level2t.rename_operands, get_original_name_operands]
  | none :: rest => by
    intro h
    simp only [operands_all_level0] at h
    simp [level2t.rename_operands, get_original_name_operands,
      level2t_rename_operands_round_trip st hst rest h]
  | some e :: rest => by
    intro h
    simp only [operands_all_level0, Bool.and_eq_true] at h
    simp [level2t.rename_operands, get_original_name_operands,
      level2t_rename_round_trip st hst e h.1,
      level2t_rename_operands_round_trip st hst rest h.2]
end

/-- C15, as the claim states it, fails, whatever the one-argument
`get_original_name` does: in a state that holds the constant 0 under the level0
record of `x`, `L2.rename` turns `x` into that constant, which
`get_original_name` leaves; and a symbol at level0 that carries a renaming
number (`level1_num` 5) comes back with the number wiped. -/
theorem level2_round_trip_fails :
    (∀ dflt : renaming_level,
      get_original_name dflt
        ((level2t.mk (fun k => if k = ⟨"x", .level0, 0, 0⟩ then
            some ⟨1, some (.other .constant_int_id (.mk (.unsignedbv_type2t 32)) 0 []), 0⟩
          else none) : level2t Int).rename
          (.symbol2t (.mk (.unsignedbv_type2t 32)) "x" .level0 0 0 0 0))
        .level0 ≠
      some (.symbol2t (.mk (.unsignedbv_type2t 32)) "x" .level0 0 0 0 0)) ∧
    (∀ dflt : renaming_level,
      get_original_name dflt
        ((level2t.mk (fun _ => none) : level2t Int).rename
          (.symbol2t (.mk (.unsignedbv_type2t 32)) "x" .level0 5 0 0 0))
        .level0 ≠
      some (.symbol2t (.mk (.unsignedbv_type2t 32)) "x" .level0 5 0 0 0)) := by
  constructor
  · intro dflt
    simp [level2t.rename, has_prefix, get_original_name, get_original_name_operands]
  · intro dflt
    simp [level2t.rename, has_prefix, get_original_name, get_original_name_symbol,
      get_original_name_switch]

/-- C15 (L2 round trip), amended: for every L2 state that holds no constant
under a level0 record (so for every state whose entries are keyed by level1 or
level1_global records, as `make_assignment` and `coveredinbees` assert) and
every expression `e` whose symbols are all un-renamed level0 symbols (at level0
with the four renaming numbers 0), `get_original_name` to level0 of
`L2.rename(e)` is `e` again; for a symbol `e` this holds whatever level the
one-argument `get_original_name` asks for. -/
theorem level2_round_trip {α : Type} (st : level2t α) (e : expr2t α)
    (hst : level2t.no_level0_constant st) (h : expr2t.all_level0 e = true) :
    renaming_levelt.get_original_name (st.rename e) .level0 = some e ∧
    (e.name_record ≠ none →
      ∀ dflt, get_original_name dflt (st.rename e) .level0 = some e) := by
  refine ⟨level2t_rename_round_trip st hst e h, fun hs dflt => ?_⟩
  cases e with
  | symbol2t type thename rlevel l1 l2 tn nn =>
    have h' := h
    simp only [expr2t.all_level0, Bool.and_eq_true, decide_eq_true_eq] at h'
    obtain ⟨⟨⟨⟨h0, h1⟩, h2⟩, h3⟩, h4⟩ := h'
    subst h0 h1 h2 h3 h4
    cases hc : st.current_names ⟨thename, .level0, 0, 0⟩ with
    | none =>
      simp only [level2t.rename, hc]
      split_ifs <;> simp [get_original_name, get_original_name_symbol_level0]
    | some v =>
      have hv : v.constant = none := hst _ v hc rfl
      simp only [level2t.rename, hc, hv]
      split_ifs <;> simp [get_original_name, get_original_name_symbol_level0]
  | address_of2t t p => simp [expr2t.name_record] at hs
  | other i t d o => simp [expr2t.name_record] at hs

/-- Witness of C15: `f(x, &g, NULL)` in a state that holds a count and a node
for `x` at level0 and a constant for `x` at level1. -/
theorem level2_round_trip_witness :
    renaming_levelt.get_original_name
      ((level2t.mk (fun k => if k = ⟨"x", .level1, 1, 0⟩ then
          some ⟨3, some (.other .constant_int_id (.mk (.unsignedbv_type2t 32)) 0 []), 7⟩
        else if k = ⟨"x", .level0, 0, 0⟩ then some ⟨2, none, 5⟩
        else none) : level2t Int).rename
        (.other .add_id (.mk (.unsignedbv_type2t 32)) (0 : Int)
          [some (.symbol2t (.mk (.unsignedbv_type2t 32)) "x" .level0 0 0 0 0),
           some (.address_of2t (.mk (.pointer_type2t (.mk (.unsignedbv_type2t 32))))
             (some (.symbol2t (.mk (.unsignedbv_type2t 32)) "g" .level0 0 0 0 0))),
           some (.symbol2t (.mk (.unsignedbv_type2t 32)) "NULL" .level0 0 0 0 0)])) .level0 =
      some (.other .add_id (.mk (.unsignedbv_type2t 32)) (0 : Int)
          [some (.symbol2t (.mk (.unsignedbv_type2t 32)) "x" .level0 0 0 0 0),
           some (.address_of2t (.mk (.pointer_type2t (.mk (.unsignedbv_type2t 32))))
             (some (.symbol2t (.mk (.unsignedbv_type2t 32)) "g" .level0 0 0 0 0))),
           some (.symbol2t (.mk (.unsignedbv_type2t 32)) "NULL" .level0 0 0 0 0)]) :=
  (level2_round_trip _ _
    (by
      intro key v h h0
      by_cases hk : key = ⟨"x", .level1, 1, 0⟩
      · subst hk
        simp at h0
      · by_cases hk0 : key = ⟨"x", .level0, 0, 0⟩
        · subst hk0
          simp at h
          rw [← h]
        · simp [hk, hk0] at h)
    (by decide)).1

/-- C16: stripping level-2 renaming back to level1 undoes `L2.rename` on a
symbol at level1 or level1_global with `level2_num = node_num = 0`, a name that
is not reserved and no stored constant; a level2 symbol goes back to level1
and a level2_global symbol to level1_global, with `level1_num` and
`thread_num` kept and `level2_num` and `node_num` cleared. -/
theorem get_original_name_level1_undoes_rename {α : Type} (dflt : renaming_level)
    (st : level2t α) (type : type2t) (thename : String) (rlevel : renaming_level)
    (l1 l2 tn nn : Nat)
    (hl : rlevel = .level1 ∨ rlevel = .level1_global)
    (h1 : thename ≠ "NULL") (h2 : thename ≠ "INVALID")
    (h3 : has_prefix thename "nondet$" = false)
    (hc : ∀ it, st.current_names ⟨thename, rlevel, l1, tn⟩ = some it → it.constant = none) :
    get_original_name dflt (st.rename (.symbol2t type thename rlevel l1 0 tn 0)) .level1 =
      some (.symbol2t type thename rlevel l1 0 tn 0) ∧
    get_original_name dflt (.symbol2t type thename .level2 l1 l2 tn nn : expr2t α) .level1 =
      some (.symbol2t type thename .level1 l1 0 tn 0) ∧
    get_original_name dflt (.symbol2t type thename .level2_global l1 l2 tn nn : expr2t α)
        .level1 =
      some (.symbol2t type thename .level1_global l1 0 tn 0) := by
  refine ⟨?_, by simp [get_original_name, get_original_name_symbol, get_original_name_switch],
    by simp [get_original_name, get_original_name_symbol, get_original_name_switch]⟩
  have hn : ¬ (rlevel = .level2 ∨ rlevel = .level2_global) := by
    rcases hl with h | h <;> subst h <;> decide
  simp only [level2t.rename, hn, h1, h2, h3, if_false, Bool.false_eq_true]
  cases he : st.current_names ⟨thename, rlevel, l1, tn⟩ with
  | none =>
    rcases hl with h | h <;> subst h <;>
      simp [get_original_name, get_original_name_symbol, get_original_name_switch]
  | some it =>
    simp only [hc it he]
    rcases hl with h | h <;> subst h <;>
      simp [get_original_name, get_original_name_symbol, get_original_name_switch]

/-- Witness of C16: `x` at level1 with an entry of count 3 and node 7. -/
theorem get_original_name_level1_undoes_rename_witness :
    get_original_name .level0
      ((level2t.mk (fun k => if k = ⟨"x", .level1, 1, 2⟩ then some ⟨3, none, 7⟩ else none) :
        level2t Int).rename (.symbol2t (.mk (.unsignedbv_type2t 32)) "x" .level1 1 0 2 0))
      .level1 =
      some (.symbol2t (.mk (.unsignedbv_type2t 32)) "x" .level1 1 0 2 0) :=
  (get_original_name_level1_undoes_rename .level0
    (level2t.mk (fun k => if k = ⟨"x", .level1, 1, 2⟩ then some ⟨3, none, 7⟩ else none))
    (.mk (.unsignedbv_type2t 32)) "x" .level1 1 0 2 0 (by decide) (by decide) (by decide)
    (by decide) (by intro it h; simp at h; rw [← h])).1

theorem get_original_name_symbol_reset_renamed {α : Type} (dflt : renaming_level)
    (type : type2t) (thename : String) (rlevel : renaming_level) (l1 l2 tn nn : Nat) :
    get_original_name dflt (.symbol2t type thename rlevel l1 l2 tn nn : expr2t α) .level0 =
      some (expr2t.reset_renamed (.symbol2t type thename rlevel l1 l2 tn nn)) := by
  by_cases h : rlevel = .level0 <;>
    simp [get_original_name, get_original_name_symbol_level0, expr2t.reset_renamed, h]

mutual
theorem get_original_name_reset_renamed {α : Type} :
    ∀ e : expr2t α,
      get_original_name .level0 e .level0 = some (expr2t.reset_renamed e) ∧
      expr2t.reset_renamed (expr2t.reset_renamed e) = expr2t.reset_renamed e ∧
      (e.level0_unnumbered = true → expr2t.reset_renamed e = e.reset_symbols)
  | .symbol2t type thename rlevel l1 l2 tn nn => by
    refine ⟨get_original_name_symbol_reset_renamed _ _ _ _ _ _ _ _, ?_, ?_⟩
    · by_cases h : rlevel = .level0 <;> simp [expr2t.reset_renamed, h]
    · intro hu
      by_cases h : rlevel = .level0
      · subst h
        simp only [expr2t.level0_unnumbered, true_implies, decide_eq_true_eq] at hu
        obtain ⟨a, b, c, d⟩ := hu
        subst a b c d
        rfl
      · simp [expr2t.reset_renamed, expr2t.reset_symbols, h]
  | .address_of2t type none =>
    ⟨by simp [get_original_name, get_original_name_handle, expr2t.reset_renamed],
      by simp [expr2t.reset_renamed], fun _ => rfl⟩
  | .address_of2t type (some p) => by
    obtain ⟨h1, h2, h3⟩ := get_original_name_reset_renamed p
    refine ⟨?_, ?_, ?_⟩
    · simp [get_original_name, get_original_name_handle, h1, expr2t.reset_renamed]
    · simp [expr2t.reset_renamed, h2]
    · intro hu
      simp only [expr2t.level0_unnumbered] at hu
      simp only [expr2t.reset_renamed, expr2t.reset_symbols, h3 hu]
  | .other expr_id type data operands => by
    obtain ⟨h1, h2, h3⟩ := get_original_name_operands_reset_renamed operands
    refine ⟨?_, ?_, ?_⟩
    · simp [get_original_name, h1, expr2t.reset_renamed]
    · simp [expr2t.reset_renamed, h2]
    · intro hu
      simp only [expr2t.level0_unnumbered] at hu
      simp only [expr2t.reset_renamed, expr2t.reset_symbols, h3 hu]
theorem get_original_name_operands_reset_renamed {α : Type} :
    ∀ ops : List (Option (expr2t α)),
      get_original_name_operands .level0 ops = some (operands_reset_renamed ops) ∧
      operands_reset_renamed (operands_reset_renamed ops) = operands_reset_renamed ops ∧
      (operands_level0_unnumbered ops = true →
        operands_reset_renamed ops = operands_reset_symbols ops)
  | [] => ⟨by simp [get_original_name_operands, operands_reset_renamed],
      by simp [operands_reset_renamed], fun _ => rfl⟩
  | none :: rest => by
    obtain ⟨h1, h2, h3⟩ := get_original_name_operands_reset_renamed rest
    refine ⟨?_, ?_, ?_⟩
    · simp [get_original_name_operands, h1, operands_reset_renamed]
    · simp [operands_reset_renamed, h2]
    · intro hu
      simp only [operands_level0_unnumbered] at hu
      simp only [operands_reset_renamed, operands_reset_symbols, h3 hu]
  | some e :: rest => by
    obtain ⟨h1, h2, h3⟩ := get_original_name_operands_reset_renamed rest
    obtain ⟨g1, g2, g3⟩ := get_original_name_reset_renamed e
    refine ⟨?_, ?_, ?_⟩
    · simp [get_original_name_operands, h1, g1, operands_reset_renamed]
    · simp [operands_reset_renamed, h2, g2]
    · intro hu
      simp only [operands_level0_unnumbered, Bool.and_eq_true] at hu
      simp only [operands_reset_renamed, operands_reset_symbols, h3 hu.2, g3 hu.1]
end

/-- C17, as the claim states it, fails, whatever the one-argument
`get_original_name` does: a symbol that is at level0 already is returned as it
is ("Can't rename any lower"), so the numbers 5, 6, 7, 8 it carries are not
reset to 0. -/
theorem get_original_name_keeps_numbered_level0 :
    (∀ dflt : renaming_level,
      get_original_name dflt
        (.symbol2t (.mk (.unsignedbv_type2t 32)) "x" .level0 5 6 7 8 : expr2t Int) .level0 =
        some (.symbol2t (.mk (.unsignedbv_type2t 32)) "x" .level0 5 6 7 8)) ∧
    (.symbol2t (.mk (.unsignedbv_type2t 32)) "x" .level0 5 6 7 8 : expr2t Int) ≠
      expr2t.reset_symbols (.symbol2t (.mk (.unsignedbv_type2t 32)) "x" .level0 5 6 7 8) := by
  constructor
  · intro dflt
    simp [get_original_name, get_original_name_symbol, get_original_name_switch]
  · simp [expr2t.reset_symbols]

/-- C17, amended: `get_original_name(e, level0)` returns `e` with every symbol
that is not at level0, at every depth, reset to level0 with `level1_num`,
`level2_num`, `thread_num` and `node_num` 0, and with the symbols at level0
and everything else unchanged; on its result it changes nothing
(idempotence); where the level0 symbols of `e` carry no renaming numbers, every
symbol of the result is reset.  For a symbol `e` the result is the same
whatever level the one-argument `get_original_name` asks for. -/
theorem get_original_name_level0_resets {α : Type} (e : expr2t α) :
    renaming_levelt.get_original_name e .level0 = some (expr2t.reset_renamed e) ∧
    renaming_levelt.get_original_name (expr2t.reset_renamed e) .level0 =
      some (expr2t.reset_renamed e) ∧
    (e.level0_unnumbered = true → expr2t.reset_renamed e = e.reset_symbols) ∧
    (e.name_record ≠ none →
      ∀ dflt, get_original_name dflt e .level0 = some (expr2t.reset_renamed e)) := by
  obtain ⟨h1, h2, h3⟩ := get_original_name_reset_renamed e
  refine ⟨h1, ?_, h3, fun hs dflt => ?_⟩
  · have := (get_original_name_reset_renamed (expr2t.reset_renamed e)).1
    rw [h2] at this
    exact this
  · cases e with
    | symbol2t type thename rlevel l1 l2 tn nn =>
      exact get_original_name_symbol_reset_renamed _ _ _ _ _ _ _ _
    | address_of2t t p => simp [expr2t.name_record] at hs
    | other i t d o => simp [expr2t.name_record] at hs

/-- Witness of C17: in `f(x@level2, &(y@level1), g@level0)` all three symbols
are at level0 with the numbers 0 afterwards, the one under `address_of`
included. -/
theorem get_original_name_level0_resets_witness :
    renaming_levelt.get_original_name
      (expr2t.other .add_id (.mk (.unsignedbv_type2t 32)) (0 : Int)
        [some (.symbol2t (.mk (.unsignedbv_type2t 32)) "x" .level2 1 4 2 7),
         some (.address_of2t (.mk (.pointer_type2t (.mk (.unsignedbv_type2t 32))))
           (some (.symbol2t (.mk (.unsignedbv_type2t 32)) "y" .level1 1 0 2 0))),
         some (.symbol2t (.mk (.unsignedbv_type2t 32)) "g" .level0 0 0 0 0)]) .level0 =
      some (.other .add_id (.mk (.unsignedbv_type2t 32)) (0 : Int)
        [some (.symbol2t (.mk (.unsignedbv_type2t 32)) "x" .level0 0 0 0 0),
         some (.address_of2t (.mk (.pointer_type2t (.mk (.unsignedbv_type2t 32))))
           (some (.symbol2t (.mk (.unsignedbv_type2t 32)) "y" .level0 0 0 0 0))),
         some (.symbol2t (.mk (.unsignedbv_type2t 32)) "g" .level0 0 0 0 0)]) :=
  (get_original_name_level0_resets
    (expr2t.other .add_id (.mk (.unsignedbv_type2t 32)) (0 : Int)
        [some (.symbol2t (.mk (.unsignedbv_type2t 32)) "x" .level2 1 4 2 7),
         some (.address_of2t (.mk (.pointer_type2t (.mk (.unsignedbv_type2t 32))))
           (some (.symbol2t (.mk (.unsignedbv_type2t 32)) "y" .level1 1 0 2 0))),
         some (.symbol2t (.mk (.unsignedbv_type2t 32)) "g" .level0 0 0 0 0)])).1.trans
    rfl

/-- A request for level0, level1 or level1_global on a symbol does not abort. -/
theorem get_original_name_symbol_isSome {α : Type} (type : type2t) (thename : String)
    (rlevel : renaming_level) (l1 l2 tn nn : Nat) (lev : renaming_level)
    (hlev : lev = .level0 ∨ lev = .level1 ∨ lev = .level1_global) :
    (get_original_name_symbol type thename rlevel l1 l2 tn nn lev :
      Option (expr2t α)).isSome = true := by
  rcases hlev with h | h | h <;> subst h <;> cases rlevel <;>
    simp [get_original_name_symbol, get_original_name_switch]

mutual
theorem get_original_name_isSome {α : Type} (dflt : renaming_level)
    (hd : dflt = .level0 ∨ dflt = .level1 ∨ dflt = .level1_global) :
    ∀ (e : expr2t α) (lev : renaming_level),
      lev = .level0 ∨ lev = .level1 ∨ lev = .level1_global →
      (get_original_name dflt e lev).isSome = true
  | .symbol2t type thename rlevel l1 l2 tn nn, lev => by
    intro hlev
    simp only [get_original_name]
    exact get_original_name_symbol_isSome type thename rlevel l1 l2 tn nn lev hlev
  | .address_of2t type none, lev => by
    simp [get_original_name, get_original_name_handle]
  | .address_of2t type (some p), lev => by
    intro _
    have := get_original_name_isSome dflt hd p dflt hd
    simp only [get_original_name, get_original_name_handle, Option.isSome_map']
    exact this
  | .other expr_id type data operands, lev => by
    intro _
    simp only [get_original_name, Option.isSome_map']
    exact get_original_name_operands_isSome dflt hd operands
theorem get_original_name_operands_isSome {α : Type} (dflt : renaming_level)
    (hd : dflt = .level0 ∨ dflt = .level1 ∨ dflt = .level1_global) :
    ∀ ops : List (Option (expr2t α)), (get_original_name_operands dflt ops).isSome = true
  | [] => by simp [get_original_name_operands]
  | none :: rest => by
    simp only [get_original_name_operands, Option.isSome_map']
    exact get_original_name_operands_isSome dflt hd rest
  | some e :: rest => by
    have h1 := get_original_name_isSome dflt hd e dflt hd
    have h2 := get_original_name_operands_isSome dflt hd rest
    obtain ⟨r1, hr1⟩ := Option.isSome_iff_exists.mp h1
    obtain ⟨r2, hr2⟩ := Option.isSome_iff_exists.mp h2
    simp [get_original_name_operands, hr1, hr2]
end

/-- C18: `get_original_name` on a symbol already at level0 changes nothing,
whatever level is requested (level2 included); a request for level2 or
level2_global on a symbol that is not at level0 aborts; and a request for
level0, level1 or level1_global never aborts, on any expression (the
one-argument form that visits the operands asking for one of these three
levels too). -/
theorem get_original_name_abort_cases {α : Type} (dflt lev rlevel : renaming_level)
    (type : type2t) (thename : String) (l1 l2 tn nn : Nat) (e : expr2t α) :
    get_original_name dflt (.symbol2t type thename .level0 l1 l2 tn nn : expr2t α) lev =
      some (.symbol2t type thename .level0 l1 l2 tn nn) ∧
    (rlevel ≠ .level0 → lev = .level2 ∨ lev = .level2_global →
      get_original_name dflt (.symbol2t type thename rlevel l1 l2 tn nn : expr2t α) lev =
        none) ∧
    (lev = .level0 ∨ lev = .level1 ∨ lev = .level1_global →
      (get_original_name dflt (.symbol2t type thename rlevel l1 l2 tn nn : expr2t α)
        lev).isSome = true) ∧
    (dflt = .level0 ∨ dflt = .level1 ∨ dflt = .level1_global →
      lev = .level0 ∨ lev = .level1 ∨ lev = .level1_global →
      (get_original_name dflt e lev).isSome = true) := by
  refine ⟨?_, ?_, ?_, ?_⟩
  · cases lev <;> simp [get_original_name, get_original_name_symbol, get_original_name_switch]
  · intro h0 hl
    rcases hl with h | h <;> subst h <;>
      simp [get_original_name, get_original_name_symbol, get_original_name_switch, h0]
  · intro hl
    simp only [get_original_name]
    exact get_original_name_symbol_isSome type thename rlevel l1 l2 tn nn lev hl
  · intro hd hl
    exact get_original_name_isSome dflt hd e lev hl

/-- Witness of C18: level2 requested on `x` at level1 aborts, level1 requested
on `x` at level2_global gives level1_global. -/
theorem get_original_name_abort_cases_witness :
    get_original_name .level0
      (.symbol2t (.mk (.unsignedbv_type2t 32)) "x" .level1 1 0 2 0 : expr2t Int) .level2 =
      none ∧
    (get_original_name .level0
      (.symbol2t (.mk (.unsignedbv_type2t 32)) "x" .level1 1 0 2 0 : expr2t Int)
      .level1_global).isSome = true ∧
    (get_original_name .level1
      (.other .add_id (.mk (.unsignedbv_type2t 32)) (0 : Int)
        [some (.symbol2t (.mk (.unsignedbv_type2t 32)) "x" .level2_global 0 4 0 7)])
      .level0).isSome = true :=
  ⟨(get_original_name_abort_cases .level0 .level2 .level1 (.mk (.unsignedbv_type2t 32)) "x"
      1 0 2 0 (.symbol2t (.mk (.unsignedbv_type2t 32)) "x" .level1 1 0 2 0 : expr2t Int)).2.1
      (by decide) (by decide),
   (get_original_name_abort_cases .level0 .level1_global .level1
      (.mk (.unsignedbv_type2t 32)) "x"
      1 0 2 0 (.symbol2t (.mk (.unsignedbv_type2t 32)) "x" .level1 1 0 2 0 : expr2t Int)).2.2.1
      (by decide),
   (get_original_name_abort_cases .level1 .level0 .level1 (.mk (.unsignedbv_type2t 32)) "x"
      1 0 2 0
      (.other .add_id (.mk (.unsignedbv_type2t 32)) (0 : Int)
        [some (.symbol2t (.mk (.unsignedbv_type2t 32)) "x" .level2_global 0 4 0 7)])).2.2.2
      (by decide) (by decide)⟩

/-- C19: for a symbol `lhs` at level1 or level1_global, `coveredinbees(lhs,
count, node_id)` with a count not below the entry's previous count leaves the
entry of `lhs` with that count and `node_id` (its constant as before), so that
`current_number(lhs)` is `count`, and leaves every other entry as it was; with
a count below the previous count the assertion fails. -/
theorem coveredinbees_sets_entry {α : Type} (st : level2t α) (type : type2t)
    (thename : String) (rlevel : renaming_level) (l1 l2 tn nn count node_id : Nat)
    (hl : rlevel = .level1 ∨ rlevel = .level1_global) :
    (st.current_number_rec ⟨thename, rlevel, l1, tn⟩ ≤ count →
      ∃ st1, st.coveredinbees (.symbol2t type thename rlevel l1 l2 tn nn) count node_id =
          some st1 ∧
        st1.current_names ⟨thename, rlevel, l1, tn⟩ =
          some ⟨count, (st.entry ⟨thename, rlevel, l1, tn⟩).constant, node_id⟩ ∧
        st1.current_number (.symbol2t type thename rlevel l1 l2 tn nn) = some count ∧
        ∀ k, k ≠ ⟨thename, rlevel, l1, tn⟩ → st1.current_names k = st.current_names k) ∧
    (count < st.current_number_rec ⟨thename, rlevel, l1, tn⟩ →
      st.coveredinbees (.symbol2t type thename rlevel l1 l2 tn nn) count node_id = none) := by
  rw [level2t.current_number_rec_eq]
  constructor
  · intro hc
    refine ⟨_, by simp only [level2t.coveredinbees, hl, hc, if_true]; rfl, ?_, ?_, ?_⟩
    · simp [level2t.set_entry]
    · simp [level2t.current_number, expr2t.name_record, level2t.current_number_rec,
        level2t.set_entry]
    · intro k hk
      simp [level2t.set_entry, hk]
  · intro hc
    have : ¬ (st.entry ⟨thename, rlevel, l1, tn⟩).count ≤ count := by omega
    simp [level2t.coveredinbees, hl, this]

/-- Witness of C19: forcing `x` from count 3 to count 5 at node 8 succeeds and
keeps the stored constant; forcing it to count 2 fails. -/
theorem coveredinbees_sets_entry_witness :
    (∃ st1,
      (level2t.mk (fun k => if k = ⟨"x", .level1, 1, 0⟩ then
          some ⟨3, some (.other .constant_int_id (.mk (.unsignedbv_type2t 32)) 0 []), 7⟩
        else none) : level2t Int).coveredinbees
          (.symbol2t (.mk (.unsignedbv_type2t 32)) "x" .level1 1 0 0 0) 5 8 = some st1 ∧
      st1.current_number (.symbol2t (.mk (.unsignedbv_type2t 32)) "x" .level1 1 0 0 0) =
        some 5) ∧
    (level2t.mk (fun k => if k = ⟨"x", .level1, 1, 0⟩ then
        some ⟨3, some (.other .constant_int_id (.mk (.unsignedbv_type2t 32)) 0 []), 7⟩
      else none) : level2t Int).coveredinbees
        (.symbol2t (.mk (.unsignedbv_type2t 32)) "x" .level1 1 0 0 0) 2 8 = none := by
  constructor
  · obtain ⟨st1, h1, _, h3, _⟩ :=
      (coveredinbees_sets_entry
        (level2t.mk (fun k => if k = ⟨"x", .level1, 1, 0⟩ then
          some ⟨3, some (.other .constant_int_id (.mk (.unsignedbv_type2t 32)) 0 []), 7⟩
        else none) : level2t Int)
        (.mk (.unsignedbv_type2t 32)) "x" .level1 1 0 0 0 5 8 (by decide)).1 (by decide)
    exact ⟨st1, h1, h3⟩
  · exact (coveredinbees_sets_entry
        (level2t.mk (fun k => if k = ⟨"x", .level1, 1, 0⟩ then
          some ⟨3, some (.other .constant_int_id (.mk (.unsignedbv_type2t 32)) 0 []), 7⟩
        else none) : level2t Int)
        (.mk (.unsignedbv_type2t 32)) "x" .level1 1 0 0 0 2 8 (by decide)).2 (by decide)

end goto_symex

/-! ## Claims on array widths and width failures -/

theorem array_width_mod (a w : Nat) :
    (a % 18446744073709551616 * w) % 18446744073709551616 % 4294967296 =
      w * a % 4294967296 := by
  have hd : (4294967296 : Nat) ∣ 18446744073709551616 := ⟨4294967296, by norm_num⟩
  rw [Nat.mod_mod_of_dvd _ hd, Nat.mul_mod, Nat.mod_mod_of_dvd _ hd, ← Nat.mul_mod,
    Nat.mul_comm]

/-- C21, as the claim states it, fails: the width is an `unsigned int`, so the
array of 536870912 elements of width 8 has width 0 and not 8 * 536870912. -/
theorem array_get_width_wraps :
    type2t.get_width 32
        (type2t.array_type2t type_pool.get_uint8
          (some (expr2t.constant_int2t type_pool.get_int32 536870912)) false) = .ok 0 ∧
    type2t.get_width 32 type_pool.get_uint8 = .ok 8 ∧
    type2t.get_width 32
        (type2t.array_type2t type_pool.get_uint8
          (some (expr2t.constant_int2t type_pool.get_int32 536870912)) false) ≠
      .ok (8 * 536870912) :=
  ⟨rfl, rfl, fun h => absurd (Except.ok.inj h) (by decide)⟩

/-- C21, amended: for a non-infinite array whose element type has the width
`w` and whose size is the integer constant `k`, `k` not negative, `get_width`
returns `w * k` reduced modulo 2^32, which is `w * k` wherever that is below
2^32. -/
theorem array_get_width (pw w : Nat) (subtype sizetype : type2t) (k : Int)
    (hw : type2t.get_width pw subtype = .ok w) (hk : 0 ≤ k) :
    type2t.get_width pw
        (type2t.array_type2t subtype (some (expr2t.constant_int2t sizetype k)) false) =
      .ok (w * k.toNat % 4294967296) ∧
    (w * k.toNat < 4294967296 →
      type2t.get_width pw
          (type2t.array_type2t subtype (some (expr2t.constant_int2t sizetype k)) false) =
        .ok (w * k.toNat)) := by
  have h : type2t.get_width pw
        (type2t.array_type2t subtype (some (expr2t.constant_int2t sizetype k)) false) =
      .ok (w * k.toNat % 4294967296) := by
    have hk2 : ¬ k < 0 := by omega
    simp only [type2t.array_type2t, expr2t.constant_int2t, type2t.get_width,
      type_body.get_width, expr2t.expr_id, expr_body.expr_id, ne_eq, not_true_eq_false,
      if_false, Bool.false_eq_true, hw, hk2, BigInt_to_ulong, array_width_mod]
  refine ⟨h, fun hb => ?_⟩
  rw [h, Nat.mod_eq_of_lt hb]

/-- Witness of C21 amended: `array(int32, 10)` has width 320. -/
theorem array_get_width_witness :
    type2t.get_width 64 type_pool.get_int32 = .ok 32 ∧
    type2t.get_width 64
        (type2t.array_type2t type_pool.get_int32
          (some (expr2t.constant_int2t type_pool.get_int32 10)) false) = .ok 320 :=
  ⟨rfl,
    (array_get_width 64 32 type_pool.get_int32 type_pool.get_int32 10 rfl (by decide)).2
      (by decide)⟩

/-- C22, as the claim states it, fails: the width query on a symbol type does
not raise the symbolic-type failure, it fails the assertion
`assert(0 && "Fetching width of symbol type - invalid operation")`. -/
theorem symbol_type_width_asserts :
    type2t.get_width 32 (.mk (.symbol_type2t "s")) ≠ .error .symbolic_type_excp := by
  intro h
  have h2 : type2t.get_width 32 (.mk (.symbol_type2t "s")) = .error .assertion_failed := rfl
  rw [h2] at h
  cases h

/-- C22, amended: a width query on the empty type and on the code type raises
the symbolic-type failure, a width query on a symbol type fails an assertion,
and none of the three returns a number. -/
theorem symbolic_types_have_no_width (pw w : Nat) (symbol_name : String) :
    type2t.get_width pw (.mk .empty_type2t) = .error .symbolic_type_excp ∧
    type2t.get_width pw (.mk .code_type2t) = .error .symbolic_type_excp ∧
    type2t.get_width pw (.mk (.symbol_type2t symbol_name)) = .error .assertion_failed ∧
    type2t.get_width pw (.mk .empty_type2t) ≠ .ok w ∧
    type2t.get_width pw (.mk .code_type2t) ≠ .ok w ∧
    type2t.get_width pw (.mk (.symbol_type2t symbol_name)) ≠ .ok w :=
  ⟨rfl, rfl, rfl, by simp [type2t.get_width, type_body.get_width],
    by simp [type2t.get_width, type_body.get_width],
    by simp [type2t.get_width, type_body.get_width]⟩

/-- C23: a width query on a non-infinite array whose size expression is not
an integer constant raises the dynamic-sized-array failure carrying that size
expression, whatever the element type is. -/
theorem dyn_sized_array_width (pw : Nat) (subtype : type2t) (size : expr2t)
    (h : size.expr_id ≠ .constant_int_id) :
    type2t.get_width pw (type2t.array_type2t subtype (some size) false) =
      .error (.dyn_sized_array_excp (some size)) := by
  simp only [type2t.array_type2t, type2t.get_width, type_body.get_width, h, ne_eq,
    not_false_eq_true, if_true, Bool.false_eq_true, if_false]

/-- Witness of C23: an array of a symbol type (which has no width) of size
`n`, a symbol. -/
theorem dyn_sized_array_width_witness :
    type2t.get_width 32
        (type2t.array_type2t (.mk (.symbol_type2t "s"))
          (some (expr2t.symbol2t type_pool.get_int32 "n")) false) =
      .error (.dyn_sized_array_excp (some (expr2t.symbol2t type_pool.get_int32 "n"))) :=
  dyn_sized_array_width 32 (.mk (.symbol_type2t "s")) (expr2t.symbol2t type_pool.get_int32 "n")
    (by decide)

/-! ## Claims on expression kinds -/

/-- C24 fails on the code: `to_array()` of the string constant `"ab"` is the
constant array of declared size 2 with the two elements 97 and 98, without a
trailing 0; and for every value the array has as many elements as its declared
size says, never more than the value has characters. -/
theorem to_array_has_no_trailing_nul :
    constant_string2t.to_array 32 true "ab" =
      expr2t.constant_array2t
        (type2t.array_type2t type_pool.get_uint8
          (some (expr2t.constant_int2t (.mk (.unsignedbv_type2t 32)) 2)) false)
        [some (expr2t.constant_int2t type_pool.get_uint8 97),
         some (expr2t.constant_int2t type_pool.get_uint8 98)] ∧
    ∀ (int_width : Nat) (char_is_signed : Bool) (value : String),
      ∃ (n : Nat) (members : List expr2tc),
        constant_string2t.to_array int_width char_is_signed value =
          expr2t.constant_array2t
            (type2t.array_type2t type_pool.get_uint8
              (some (expr2t.constant_int2t (.mk (.unsignedbv_type2t int_width)) (n : Int)))
              false)
            members ∧
        members.length = n ∧ n ≤ value.data.length := by
  refine ⟨rfl, fun iw cs v => ⟨v.data.length % 4294967296, _, rfl, ?_, ?_⟩⟩
  · simp only [List.length_map, List.length_take]
    exact Nat.min_eq_left (Nat.mod_le _ _)
  · exact Nat.mod_le _ _

theorem less_of_lt_three_way_ne (a b : Nat) (h : a ≠ b) (k : Option Int) (t : Option Int) :
    less_of_lt (lt_then (some (three_way nat_lt a b)) t) k = some (decide (a < b)) := by
  simp only [three_way, nat_lt]
  by_cases h1 : a < b
  · simp [h1, lt_then, less_of_lt]
  · have h2 : b < a := by omega
    simp [h1, h2, lt_then, less_of_lt]

theorem less_of_lt_three_way_ne_type (a b : Nat) (h : a ≠ b) (k : Option Int) :
    less_of_lt (some (three_way nat_lt a b)) k = some (decide (a < b)) := by
  simp only [three_way, nat_lt]
  by_cases h1 : a < b
  · simp [h1, less_of_lt]
  · have h2 : b < a := by omega
    simp [h1, h2, less_of_lt]

theorem type2t_operator_lt_of_tag_ne (t1 t2 : type2t) (h : t1.type_id ≠ t2.type_id) :
    type2t.operator_lt t1 t2 = some (decide (t1.type_id.toNat < t2.type_id.toNat)) := by
  cases t1 with
  | mk b1 =>
    cases t2 with
    | mk b2 =>
      simp only [type2t.type_id] at h ⊢
      simp only [type2t.operator_lt]
      exact less_of_lt_three_way_ne_type _ _ (fun e => h (type_ids_toNat_inj _ _ e)) _

theorem expr2t_operator_lt_of_tag_ne (e1 e2 : expr2t) (h : e1.expr_id ≠ e2.expr_id) :
    expr2t.operator_lt e1 e2 = some (decide (e1.expr_id.toNat < e2.expr_id.toNat)) := by
  cases e1 with
  | mk t1 b1 =>
    cases e2 with
    | mk t2 b2 =>
      simp only [expr2t.expr_id] at h ⊢
      simp only [expr2t.operator_lt]
      exact less_of_lt_three_way_ne _ _ (fun e => h (expr_ids_toNat_inj _ _ e)) _ _

theorem bool_type_ltchecked :
    type2t.ltchecked type_pool.get_bool type_pool.get_bool = some 0 := by
  simp [type_pool.get_bool, type2t.ltchecked, type_body.lt, lt_then, three_way, nat_lt]

theorem uint8_type_ltchecked :
    type2t.ltchecked type_pool.get_uint8 type_pool.get_uint8 = some 0 := by
  simp [type_pool.get_uint8, type2t.ltchecked, type_body.lt, lt_then, three_way, nat_lt]

theorem overflow_cast_operator_lt (x y : expr2tc) (n m : Nat) :
    expr2t.operator_lt (expr2t.overflow_cast2t x n) (expr2t.overflow_cast2t y m) =
      if n < m then some true else if m < n then some false
      else is_neg (expr2tc_ltchecked x y) := by
  have hb := bool_type_ltchecked
  simp only [type_pool.get_bool] at hb
  simp only [expr2t.overflow_cast2t, expr2t.operator_lt, type_pool.get_bool, hb,
    expr_body.expr_id, expr_body.lt, three_way, nat_lt, lt_irrefl, decide_False,
    Bool.false_eq_true, if_false, lt_then, ne_eq, not_true_eq_false, decide_eq_true_eq]
  by_cases h1 : n < m
  · simp [h1, less_of_lt, lt_then]
  · by_cases h2 : m < n
    · simp [h1, h2, less_of_lt, lt_then]
    · simp [h1, h2, less_of_lt, lt_then, is_neg]

theorem byte_extract_operator_lt (e1 e2 : Bool) (v1 v2 o1 o2 : expr2tc) :
    expr2t.operator_lt (expr2t.byte_extract2t type_pool.get_uint8 e1 v1 o1)
        (expr2t.byte_extract2t type_pool.get_uint8 e2 v2 o2) =
      if e1 = false ∧ e2 = true then some true else if e2 = false ∧ e1 = true then some false
      else is_neg (lt_then (expr2tc_ltchecked v1 v2) (expr2tc_ltchecked o1 o2)) := by
  have hb := uint8_type_ltchecked
  simp only [type_pool.get_uint8] at hb
  simp only [expr2t.byte_extract2t, expr2t.operator_lt, type_pool.get_uint8, hb,
    expr_body.expr_id, expr_body.lt, three_way, nat_lt, lt_irrefl, decide_False,
    Bool.false_eq_true, if_false, lt_then, ne_eq, not_true_eq_false]
  cases e1 <;> cases e2 <;> simp [bool_lt, less_of_lt, lt_then, is_neg]

/-- The expressions `implies(true, false)` and `or(true, false)`: `==` finds
them equal, neither is less than the other, and the first is printed under the
name `or`. -/
theorem implies_equals_or :
    expr2t.operator_eq
        (expr2t.implies2t (some (expr2t.constant_bool2t true))
          (some (expr2t.constant_bool2t false)))
        (expr2t.or2t (some (expr2t.constant_bool2t true))
          (some (expr2t.constant_bool2t false))) = some true ∧
    expr2t.operator_lt
        (expr2t.implies2t (some (expr2t.constant_bool2t true))
          (some (expr2t.constant_bool2t false)))
        (expr2t.or2t (some (expr2t.constant_bool2t true))
          (some (expr2t.constant_bool2t false))) = some false ∧
    expr2t.operator_lt
        (expr2t.or2t (some (expr2t.constant_bool2t true))
          (some (expr2t.constant_bool2t false)))
        (expr2t.implies2t (some (expr2t.constant_bool2t true))
          (some (expr2t.constant_bool2t false))) = some false ∧
    (expr2t.implies2t (some (expr2t.constant_bool2t true))
      (some (expr2t.constant_bool2t false))).pretty_name = "or" := by
  refine ⟨by decide, ?_, ?_, by decide⟩ <;>
    simp [expr2t.operator_lt, expr2t.implies2t, expr2t.or2t, expr2t.constant_bool2t,
      expr2t.ltchecked, expr_body.lt, expr2tc_ltchecked, less_of_lt, lt_then, three_way,
      nat_lt, bool_lt, type2t.ltchecked, type_body.lt, type_pool.get_bool,
      expr_body.expr_id, logical_class.expr_id, expr_ids.toNat, type_body.type_id,
      type_ids.toNat]

/-- C25 fails on the code: the constructor of `implies2t` passes `or_id` to its
base, where the constructors of `and2t`, `or2t` and `xor2t` pass the tag of
their own class.  So `implies(a, b)` has the tag `or_id` and is printed under
the name `or`; it compares with `or(a, b)` as `or(a, b)` compares with itself:
neither is less than the other, and the two are equal wherever the comparison
is defined. -/
theorem implies_carries_or_tag (a b : expr2tc) :
    (expr2t.implies2t a b).expr_id = .or_id ∧
    (expr2t.implies2t a b).pretty_name = "or" ∧
    expr2t.operator_eq (expr2t.implies2t a b) (expr2t.or2t a b) =
      expr2t.operator_eq (expr2t.or2t a b) (expr2t.or2t a b) ∧
    expr2t.operator_lt (expr2t.implies2t a b) (expr2t.or2t a b) ≠ some true ∧
    expr2t.operator_lt (expr2t.or2t a b) (expr2t.implies2t a b) ≠ some true ∧
    (expr2t.ltchecked (expr2t.or2t a b) (expr2t.or2t a b) ≠ none →
      expr2t.operator_eq (expr2t.implies2t a b) (expr2t.or2t a b) = some true) := by
  have h1 : expr2t.operator_lt (expr2t.implies2t a b) (expr2t.or2t a b) =
      expr2t.operator_lt (expr2t.or2t a b) (expr2t.or2t a b) := by
    simp only [expr2t.implies2t, expr2t.or2t, expr2t.operator_lt, expr_body.lt,
      expr_body.expr_id, logical_class.expr_id]
  have h2 : expr2t.operator_lt (expr2t.or2t a b) (expr2t.implies2t a b) =
      expr2t.operator_lt (expr2t.or2t a b) (expr2t.or2t a b) := by
    simp only [expr2t.implies2t, expr2t.or2t, expr2t.operator_lt, expr_body.lt,
      expr_body.expr_id, logical_class.expr_id]
  have hi : expr2t.operator_lt (expr2t.or2t a b) (expr2t.or2t a b) ≠ some true :=
    irreflexive_of_three_way (expr2t_operator_lt_eq _ _) (expr2t_ltchecked_swap _ _)
  refine ⟨rfl, rfl, rfl, by rw [h1]; exact hi, by rw [h2]; exact hi, fun hd => ?_⟩
  have he : expr2t.operator_eq (expr2t.implies2t a b) (expr2t.or2t a b) =
      expr2t.operator_eq (expr2t.or2t a b) (expr2t.or2t a b) := rfl
  rw [he]
  cases hx : expr2t.ltchecked (expr2t.or2t a b) (expr2t.or2t a b) with
  | none => exact absurd hx hd
  | some r =>
    have hs := expr2t_ltchecked_swap (expr2t.or2t a b) (expr2t.or2t a b)
    rw [hx] at hs
    simp only [neg_res, Option.map_some', Option.some.injEq] at hs
    have hr : r = 0 := by omega
    have := expr2t_ltchecked_eq (expr2t.or2t a b) (expr2t.or2t a b) r hx
    rw [this, hr]
    rfl

/-- Witness of C25: `implies(x, y)` is equal to `or(x, y)` for two symbols. -/
theorem implies_carries_or_tag_witness :
    expr2t.ltchecked
        (expr2t.or2t (some (expr2t.symbol2t type_pool.get_bool "x"))
          (some (expr2t.symbol2t type_pool.get_bool "y")))
        (expr2t.or2t (some (expr2t.symbol2t type_pool.get_bool "x"))
          (some (expr2t.symbol2t type_pool.get_bool "y"))) ≠ none ∧
    expr2t.operator_eq
        (expr2t.implies2t (some (expr2t.symbol2t type_pool.get_bool "x"))
          (some (expr2t.symbol2t type_pool.get_bool "y")))
        (expr2t.or2t (some (expr2t.symbol2t type_pool.get_bool "x"))
          (some (expr2t.symbol2t type_pool.get_bool "y"))) = some true :=
  have hd : expr2t.ltchecked
        (expr2t.or2t (some (expr2t.symbol2t type_pool.get_bool "x"))
          (some (expr2t.symbol2t type_pool.get_bool "y")))
        (expr2t.or2t (some (expr2t.symbol2t type_pool.get_bool "x"))
          (some (expr2t.symbol2t type_pool.get_bool "y"))) ≠ none := by
    simp [expr2t.or2t, expr2t.symbol2t, expr2t.ltchecked, expr_body.lt, expr2tc_ltchecked,
      lt_then, lt_of_less, three_way, nat_lt, bool_lt, string_lt, lexicographical_compare,
      type2t.ltchecked, type_body.lt, type_pool.get_bool, expr_body.expr_id,
      logical_class.expr_id, expr_ids.toNat, type_body.type_id, type_ids.toNat]
  ⟨hd,
    (implies_carries_or_tag (some (expr2t.symbol2t type_pool.get_bool "x"))
      (some (expr2t.symbol2t type_pool.get_bool "y"))).2.2.2.2.2 hd⟩

/-- C26 fails on the code: the constructor of `constant_array_of2t` passes
`constant_array_id`, so `constant_array_of(t, i)` carries the tag of
`constant_array` and is printed under that name; compared with a
`constant_array` of the same type it passes the tag test and its `cmp` casts
the other object to a class it does not have. -/
theorem constant_array_of_has_constant_array_tag :
    (∀ (t : type2t) (i : expr2tc),
      (expr2t.constant_array_of2t t i).expr_id = .constant_array_id ∧
      (expr2t.constant_array_of2t t i).expr_id ≠ .constant_array_of_id ∧
      (expr2t.constant_array_of2t t i).pretty_name = "constant_array") ∧
    expr2t.operator_eq
      (expr2t.constant_array_of2t
        (type2t.array_type2t type_pool.get_uint8
          (some (expr2t.constant_int2t type_pool.get_int32 2)) false)
        (some (expr2t.constant_int2t type_pool.get_uint8 0)))
      (expr2t.constant_array2t
        (type2t.array_type2t type_pool.get_uint8
          (some (expr2t.constant_int2t type_pool.get_int32 2)) false)
        [some (expr2t.constant_int2t type_pool.get_uint8 0),
         some (expr2t.constant_int2t type_pool.get_uint8 0)]) = none :=
  ⟨fun _ _ => ⟨rfl,
    by simp [expr2t.constant_array_of2t, expr2t.expr_id, expr_body.expr_id], rfl⟩, by decide⟩

/-- C27: constructing `overflow(x)` succeeds exactly when the tag of `x` is
add, sub or mul, and then gives the overflow expression over `x`; for an
operand of any other kind the assertion of the constructor fails. -/
theorem overflow2t_constructor (x : expr2t) :
    (expr2t.overflow2t (some x) = some (.mk type_pool.get_bool (.overflow2t (some x))) ↔
      (x.expr_id = .add_id ∨ x.expr_id = .sub_id ∨ x.expr_id = .mul_id)) ∧
    (expr2t.overflow2t (some x) = none ↔
      ¬ (x.expr_id = .add_id ∨ x.expr_id = .sub_id ∨ x.expr_id = .mul_id)) := by
  by_cases h : x.expr_id = .add_id ∨ x.expr_id = .sub_id ∨ x.expr_id = .mul_id
  · simp [expr2t.overflow2t, h]
  · simp [expr2t.overflow2t, h]

/-- C28, as the claim states it, fails: for `overflow_cast` the operand does
not come before `bits`: with `a < b`, `overflow_cast(a, 8)` is not less than
`overflow_cast(b, 4)` but greater. -/
theorem overflow_cast_orders_bits_first :
    expr2t.operator_lt (expr2t.symbol2t type_pool.get_bool "a")
      (expr2t.symbol2t type_pool.get_bool "b") = some true ∧
    expr2t.operator_lt
      (expr2t.overflow_cast2t (some (expr2t.symbol2t type_pool.get_bool "a")) 8)
      (expr2t.overflow_cast2t (some (expr2t.symbol2t type_pool.get_bool "b")) 4) =
        some false ∧
    expr2t.operator_lt
      (expr2t.overflow_cast2t (some (expr2t.symbol2t type_pool.get_bool "b")) 4)
      (expr2t.overflow_cast2t (some (expr2t.symbol2t type_pool.get_bool "a")) 8) =
        some true := by
  refine ⟨?_, ?_, ?_⟩
  · simp [expr2t.symbol2t, expr2t.operator_lt, expr_body.lt, less_of_lt, lt_then, lt_of_less,
      three_way, nat_lt, string_lt, lexicographical_compare, type2t.ltchecked, type_body.lt,
      type_pool.get_bool, expr_body.expr_id, expr_ids.toNat, type_body.type_id,
      type_ids.toNat]
  · rw [overflow_cast_operator_lt]
    decide
  · rw [overflow_cast_operator_lt]
    decide

/-- C28, amended: `operator<` compares the tag first (ascending enum ordinal):
types, and expressions, with different tags are ordered by the tag alone; with
the same tag the fields decide in the order in which the class's `lt` visits
them, which for `overflow_cast` is `bits` before the operand and for
`byte_extract` is `big_endian`, then `source_value`, then `source_offset`. -/
theorem operator_lt_is_lexicographic (t1 t2 : type2t) (e1 e2 : expr2t) (x y : expr2tc)
    (n m : Nat) (be1 be2 : Bool) (v1 v2 o1 o2 : expr2tc) :
    (t1.type_id ≠ t2.type_id →
      type2t.operator_lt t1 t2 = some (decide (t1.type_id.toNat < t2.type_id.toNat))) ∧
    (e1.expr_id ≠ e2.expr_id →
      expr2t.operator_lt e1 e2 = some (decide (e1.expr_id.toNat < e2.expr_id.toNat))) ∧
    expr2t.operator_lt (expr2t.overflow_cast2t x n) (expr2t.overflow_cast2t y m) =
      (if n < m then some true else if m < n then some false
       else is_neg (expr2tc_ltchecked x y)) ∧
    expr2t.operator_lt (expr2t.byte_extract2t type_pool.get_uint8 be1 v1 o1)
        (expr2t.byte_extract2t type_pool.get_uint8 be2 v2 o2) =
      (if be1 = false ∧ be2 = true then some true
       else if be2 = false ∧ be1 = true then some false
       else is_neg (lt_then (expr2tc_ltchecked v1 v2) (expr2tc_ltchecked o1 o2))) :=
  ⟨type2t_operator_lt_of_tag_ne t1 t2, expr2t_operator_lt_of_tag_ne e1 e2,
    overflow_cast_operator_lt x y n m, byte_extract_operator_lt be1 be2 v1 v2 o1 o2⟩

/-- Witness of C28 amended: `bool < unsignedbv(8)` by the tag, and the
constant `true` is less than the symbol `a` by the tag. -/
theorem operator_lt_is_lexicographic_witness :
    type2t.operator_lt type_pool.get_bool type_pool.get_uint8 = some true ∧
    expr2t.operator_lt (expr2t.constant_bool2t true)
      (expr2t.symbol2t type_pool.get_bool "a") = some true :=
  ⟨(operator_lt_is_lexicographic type_pool.get_bool type_pool.get_uint8
      (expr2t.constant_bool2t true) (expr2t.symbol2t type_pool.get_bool "a")
      none none 0 0 false false none none none none).1 (by decide),
   (operator_lt_is_lexicographic type_pool.get_bool type_pool.get_uint8
      (expr2t.constant_bool2t true) (expr2t.symbol2t type_pool.get_bool "a")
      none none 0 0 false false none none none none).2.1 (by decide)⟩

/-! ## Claims on the type pool -/

/-- C30: `add` and `move` return true exactly when a symbol with the same id is
in the table already; then the table and, for `move`, the caller's symbol are
as before and `new_symbol` points to the existing entry.  Otherwise they
return false and `find_symbol(id)` afterwards returns the inserted symbol. -/
theorem add_move_duplicate_detection {α : Type} (tmp : symbolt α) (ctx : contextt α)
    (symbol : symbolt α) :
    ((ctx.add symbol).1 = true ↔ (ctx.find_symbol symbol.id).isSome = true) ∧
    ((ctx.move tmp symbol).result = true ↔ (ctx.find_symbol symbol.id).isSome = true) ∧
    ((ctx.find_symbol symbol.id).isSome = true →
      ctx.add symbol = (true, ctx) ∧
      (ctx.move tmp symbol).context = ctx ∧ (ctx.move tmp symbol).symbol = symbol ∧
      (ctx.move tmp symbol).new_symbol = symbol.id ∧
      (ctx.move tmp symbol).context.find_symbol (ctx.move tmp symbol).new_symbol =
        ctx.find_symbol symbol.id) ∧
    ((ctx.find_symbol symbol.id).isSome = false →
      (ctx.add symbol).1 = false ∧
      (ctx.add symbol).2.find_symbol symbol.id = some symbol ∧
      (ctx.move tmp symbol).result = false ∧
      (ctx.move tmp symbol).context.find_symbol symbol.id = some symbol ∧
      (ctx.move tmp symbol).context.find_symbol (ctx.move tmp symbol).new_symbol =
        some symbol) := by
  simp only [contextt.find_symbol, contextt.add, contextt.move]
  cases h : ctx.symbols symbol.id with
  | some old => simp [h]
  | none => simp

/-- Witness of C30: adding `f` twice, and moving `g` into the table. -/
theorem add_move_duplicate_detection_witness :
    ((contextt.mk (fun k => if k = "c::f" then some ⟨"c::f", "f", 1⟩ else none)
        [("f", "c::f")] ["c::f"] : contextt Nat).add ⟨"c::f", "f", 2⟩ =
      (true, contextt.mk (fun k => if k = "c::f" then some ⟨"c::f", "f", 1⟩ else none)
        [("f", "c::f")] ["c::f"])) ∧
    ((contextt.mk (fun k => if k = "c::f" then some ⟨"c::f", "f", 1⟩ else none)
        [("f", "c::f")] ["c::f"] : contextt Nat).move ⟨"", "", 0⟩
          ⟨"c::g", "g", 2⟩).context.find_symbol "c::g" = some ⟨"c::g", "g", 2⟩ :=
  ⟨((add_move_duplicate_detection ⟨"", "", 0⟩
      (contextt.mk (fun k => if k = "c::f" then some ⟨"c::f", "f", 1⟩ else none)
        [("f", "c::f")] ["c::f"] : contextt Nat) ⟨"c::f", "f", 2⟩).2.2.1 (by decide)).1,
   ((add_move_duplicate_detection ⟨"", "", 0⟩
      (contextt.mk (fun k => if k = "c::f" then some ⟨"c::f", "f", 1⟩ else none)
        [("f", "c::f")] ["c::f"] : contextt Nat) ⟨"c::g", "g", 2⟩).2.2.2 (by decide)).2.2.2.1⟩

theorem contextt.consistent_empty {α : Type} : (contextt.empty : contextt α).consistent := by
  refine ⟨fun k s h => ?_, List.nodup_nil, fun k => ?_⟩
  · simp [contextt.empty] at h
  · simp [contextt.empty]

theorem contextt.insert_consistent {α : Type} (ctx : contextt α) (symbol : symbolt α)
    (bm : List (String × String)) (hc : ctx.consistent) (hn : ctx.symbols symbol.id = none) :
    (contextt.mk (fun k => if k = symbol.id then some symbol else ctx.symbols k) bm
      (ctx.ordered_symbols ++ [symbol.id])).consistent := by
  obtain ⟨h1, h2, h3⟩ := hc
  have hnot : symbol.id ∉ ctx.ordered_symbols := by
    intro hm
    have := (h3 symbol.id).mp hm
    simp [hn] at this
  refine ⟨fun k s h => ?_, ?_, fun k => ?_⟩
  · by_cases hk : k = symbol.id
    · simp only [hk, if_true, Option.some.injEq] at h
      rw [← h, hk]
    · simp only [hk, if_false] at h
      exact h1 k s h
  · rw [List.nodup_append]
    refine ⟨h2, List.nodup_singleton _, ?_⟩
    intro a ha hb
    simp only [List.mem_singleton] at hb
    subst hb
    exact hnot ha
  · by_cases hk : k = symbol.id
    · simp [hk]
    · simp only [List.mem_append, List.mem_singleton, hk, or_false, if_false]
      exact h3 k

theorem contextt.add_spec {α : Type} (ctx : contextt α) (symbol : symbolt α)
    (hc : ctx.consistent) :
    (ctx.add symbol).2.consistent ∧
    (ctx.add symbol).2.ordered_symbols =
      if symbol.id ∈ ctx.ordered_symbols then ctx.ordered_symbols
      else ctx.ordered_symbols ++ [symbol.id] := by
  have h3 := hc.2.2 symbol.id
  cases hs : ctx.symbols symbol.id with
  | some old =>
    have hm : symbol.id ∈ ctx.ordered_symbols := h3.mpr (by simp [hs])
    simp only [contextt.add, hs, hm, if_true]
    exact ⟨hc, trivial⟩
  | none =>
    have hm : symbol.id ∉ ctx.ordered_symbols := fun hm => by
      have := h3.mp hm
      simp [hs] at this
    simp only [contextt.add, hs, hm, if_false]
    exact ⟨contextt.insert_consistent ctx symbol _ hc hs, trivial⟩

theorem contextt.move_spec {α : Type} (tmp : symbolt α) (ctx : contextt α)
    (symbol : symbolt α) (hc : ctx.consistent) :
    (ctx.move tmp symbol).context.consistent ∧
    (ctx.move tmp symbol).context.ordered_symbols =
      if symbol.id ∈ ctx.ordered_symbols then ctx.ordered_symbols
      else ctx.ordered_symbols ++ [symbol.id] := by
  have h3 := hc.2.2 symbol.id
  cases hs : ctx.symbols symbol.id with
  | some old =>
    have hm : symbol.id ∈ ctx.ordered_symbols := h3.mpr (by simp [hs])
    simp only [contextt.move, hs, hm, if_true]
    exact ⟨hc, trivial⟩
  | none =>
    have hm : symbol.id ∉ ctx.ordered_symbols := fun hm => by
      have := h3.mp hm
      simp [hs] at this
    simp only [contextt.move, hs, hm, if_false]
    exact ⟨contextt.insert_consistent ctx symbol _ hc hs, trivial⟩

theorem contextt.erase_symbol_spec {α : Type} (ctx ctx1 : contextt α) (name : String)
    (hc : ctx.consistent) (h : ctx.erase_symbol name = some ctx1) :
    ctx1.consistent ∧
    ctx1.ordered_symbols = ctx.ordered_symbols.filter (fun k => decide (k ≠ name)) ∧
    ctx1.find_symbol name = none ∧
    (∀ k, k ≠ name → ctx1.find_symbol k = ctx.find_symbol k) ∧
    ctx1.symbol_base_map = ctx.symbol_base_map := by
  obtain ⟨h1, h2, h3⟩ := hc
  cases hs : ctx.symbols name with
  | none => simp [contextt.erase_symbol, hs] at h
  | some old =>
    simp only [contextt.erase_symbol, hs, Option.some.injEq] at h
    have hf : ctx.ordered_symbols.filter
        (fun key =>
          match ctx.symbols key with
          | some s => decide (s.id ≠ name)
          | none => true) =
        ctx.ordered_symbols.filter (fun k => decide (k ≠ name)) := by
      apply List.filter_congr
      intro k hk
      have hk2 := (h3 k).mp hk
      cases hks : ctx.symbols k with
      | none => simp [hks] at hk2
      | some s => simp [h1 k s hks]
    subst h
    refine ⟨⟨fun k s hk => ?_, ?_, fun k => ?_⟩, hf, by simp [contextt.find_symbol],
      fun k hk => by simp [contextt.find_symbol, hk], rfl⟩
    · by_cases hkn : k = name
      · simp [hkn] at hk
      · simp only [hkn, if_false] at hk
        exact h1 k s hk
    · simp only [hf]
      exact h2.filter _
    · simp only [hf, List.mem_filter, decide_eq_true_eq]
      by_cases hkn : k = name
      · simp [hkn]
      · simp only [hkn, ne_eq, not_false_eq_true, and_true, if_false]
        exact h3 k

theorem contextt.run_spec {α : Type} (tmp : symbolt α) :
    ∀ (ops : List (context_op α)) (ctx0 ctx : contextt α), ctx0.consistent →
      contextt.run tmp ctx0 ops = some ctx →
      ctx.consistent ∧ ctx.ordered_symbols = insertion_order ctx0.ordered_symbols ops
  | [], ctx0, ctx, hc, h => by
    simp only [contextt.run, Option.some.injEq] at h
    subst h
    exact ⟨hc, rfl⟩
  | .add symbol :: rest, ctx0, ctx, hc, h => by
    simp only [contextt.run, contextt.apply] at h
    obtain ⟨ha, hb⟩ := contextt.add_spec ctx0 symbol hc
    have := contextt.run_spec tmp rest _ ctx ha h
    rw [hb] at this
    exact this
  | .move symbol :: rest, ctx0, ctx, hc, h => by
    simp only [contextt.run, contextt.apply] at h
    obtain ⟨ha, hb⟩ := contextt.move_spec tmp ctx0 symbol hc
    have := contextt.run_spec tmp rest _ ctx ha h
    rw [hb] at this
    exact this
  | .erase_symbol name :: rest, ctx0, ctx, hc, h => by
    simp only [contextt.run, contextt.apply] at h
    cases he : ctx0.erase_symbol name with
    | none => simp [he] at h
    | some ctx1 =>
      simp only [he] at h
      obtain ⟨ha, hb, _⟩ := contextt.erase_symbol_spec ctx0 ctx1 name hc he
      have := contextt.run_spec tmp rest ctx1 ctx ha h
      rw [hb] at this
      exact this

/-- C31: after any sequence of `add`, `move` and `erase_symbol` on a new table,
`ordered_symbols` lists exactly the symbols that are in the table, each once,
in the order of their successful insertion; and `erase_symbol(id)` on that
table takes out only `id`, keeps the others in their order, and makes
`find_symbol(id)` return null. -/
theorem ordered_symbols_track_table {α : Type} (tmp : symbolt α)
    (ops : List (context_op α)) (ctx : contextt α)
    (h : contextt.run tmp contextt.empty ops = some ctx) :
    ctx.ordered_symbols.Nodup ∧
    (∀ k, k ∈ ctx.ordered_symbols ↔ (ctx.find_symbol k).isSome = true) ∧
    ctx.ordered_symbols = insertion_order [] ops ∧
    ∀ name ctx1, ctx.erase_symbol name = some ctx1 →
      ctx1.ordered_symbols = ctx.ordered_symbols.filter (fun k => decide (k ≠ name)) ∧
      ctx1.find_symbol name = none ∧
      ∀ k, k ≠ name → ctx1.find_symbol k = ctx.find_symbol k := by
  obtain ⟨hc, ho⟩ := contextt.run_spec tmp ops contextt.empty ctx contextt.consistent_empty h
  refine ⟨hc.2.1, hc.2.2, ho, fun name ctx1 he => ?_⟩
  obtain ⟨_, h1, h2, h3, _⟩ := contextt.erase_symbol_spec ctx ctx1 name hc he
  exact ⟨h1, h2, h3⟩

/-- Witness of C31: `add f`, `move g`, `add f` again, `add h`, `erase g`
leaves the order `f`, `h`. -/
theorem ordered_symbols_track_table_witness :
    ∃ ctx : contextt Nat,
      contextt.run ⟨"", "", 0⟩ contextt.empty
        [.add ⟨"c::f", "f", 1⟩, .move ⟨"c::g", "g", 2⟩, .add ⟨"c::f", "f", 3⟩,
         .add ⟨"c::h", "h", 4⟩, .erase_symbol "c::g"] = some ctx ∧
      ctx.ordered_symbols = ["c::f", "c::h"] ∧ ctx.ordered_symbols.Nodup := by
  refine ⟨_, rfl, ?_, ?_⟩
  · exact (ordered_symbols_track_table ⟨"", "", 0⟩
      [.add ⟨"c::f", "f", 1⟩, .move ⟨"c::g", "g", 2⟩, .add ⟨"c::f", "f", 3⟩,
       .add ⟨"c::h", "h", 4⟩, .erase_symbol "c::g"] _ rfl).2.2.1.trans (by decide)
  · exact (ordered_symbols_track_table ⟨"", "", 0⟩
      [.add ⟨"c::f", "f", 1⟩, .move ⟨"c::g", "g", 2⟩, .add ⟨"c::f", "f", 3⟩,
       .add ⟨"c::h", "h", 4⟩, .erase_symbol "c::g"] _ rfl).1

/-- C38 fails on the code: `erase_symbol` takes the symbol out of `symbols` and
`ordered_symbols` but leaves `symbol_base_map` as it is; after `add f` and
`erase_symbol f` the base-name index still records the identifier of `f`,
which is the id of no symbol in the table. -/
theorem erase_symbol_leaves_base_name_index :
    (∀ (α : Type) (ctx ctx1 : contextt α) (name : String),
      ctx.erase_symbol name = some ctx1 → ctx1.symbol_base_map = ctx.symbol_base_map) ∧
    ∃ ctx : contextt Nat,
      contextt.run ⟨"", "", 0⟩ contextt.empty
        [.add ⟨"c::f", "f", 1⟩, .erase_symbol "c::f"] = some ctx ∧
      ("f", "c::f") ∈ ctx.symbol_base_map ∧ ctx.find_symbol "c::f" = none := by
  refine ⟨fun α ctx ctx1 name h => ?_, _, rfl, by decide, rfl⟩
  cases hs : ctx.symbols name with
  | none => simp [contextt.erase_symbol, hs] at h
  | some old =>
    simp only [contextt.erase_symbol, hs, Option.some.injEq] at h
    rw [← h]

/-! ## Claims on the interleaving loop -/

theorem bmct.run_loop_stop (value : resultt → Nat) (options : bmc_options)
    (interleaving_failed : Nat) (res : resultt) (rest : List resultt)
    (h : (value res ≠ 0 ∧ options.all_runs = false) ∨ options.interactive_ileaves = true) :
    bmct.run_loop value options interleaving_failed res rest = ⟨res, [res]⟩ := by
  cases rest <;> rw [bmct.run_loop] <;>
    by_cases h1 : value res ≠ 0 ∧ options.all_runs = false <;>
    by_cases h2 : options.interactive_ileaves = true <;> simp_all

theorem bmct.run_loop_nil (value : resultt → Nat) (options : bmc_options)
    (interleaving_failed : Nat) (res : resultt)
    (h1 : ¬ (value res ≠ 0 ∧ options.all_runs = false))
    (h2 : options.interactive_ileaves = false) :
    bmct.run_loop value options interleaving_failed res [] =
      ⟨if 0 < (if value res ≠ 0 ∧ res = .P_SATISFIABLE then interleaving_failed + 1
          else interleaving_failed) then .P_SATISFIABLE else res, [res]⟩ := by
  rw [bmct.run_loop]
  simp only [h1, h2, if_false, Bool.false_eq_true, gt_iff_lt]

theorem bmct.run_loop_cons (value : resultt → Nat) (options : bmc_options)
    (interleaving_failed : Nat) (res next : resultt) (rest1 : List resultt)
    (h1 : ¬ (value res ≠ 0 ∧ options.all_runs = false))
    (h2 : options.interactive_ileaves = false) :
    bmct.run_loop value options interleaving_failed res (next :: rest1) =
      ⟨(bmct.run_loop value options
          (if value res ≠ 0 ∧ res = .P_SATISFIABLE then interleaving_failed + 1
            else interleaving_failed) next rest1).result,
        res :: (bmct.run_loop value options
          (if value res ≠ 0 ∧ res = .P_SATISFIABLE then interleaving_failed + 1
            else interleaving_failed) next rest1).explored⟩ := by
  rw [bmct.run_loop]
  simp only [h1, h2, if_false, Bool.false_eq_true]

theorem bmct.run_loop_counter (value : resultt → Nat) (options : bmc_options)
    (ha : options.all_runs = true) (hi : options.interactive_ileaves = false) :
    ∀ (rest : List resultt) (interleaving_failed : Nat) (res : resultt),
      0 < interleaving_failed →
      (bmct.run_loop value options interleaving_failed res rest).result = .P_SATISFIABLE
  | [], n, res, hn => by
    rw [bmct.run_loop_nil value options n res (by simp [ha]) hi]
    have : 0 < (if value res ≠ 0 ∧ res = .P_SATISFIABLE then n + 1 else n) := by
      split_ifs <;> omega
    simp only [this, if_true]
  | next :: rest1, n, res, hn => by
    rw [bmct.run_loop_cons value options n res next rest1 (by simp [ha]) hi]
    exact bmct.run_loop_counter value options ha hi rest1 _ next (by split_ifs <;> omega)

theorem bmct.run_loop_explored_all (value : resultt → Nat) (options : bmc_options)
    (ha : options.all_runs = true) (hi : options.interactive_ileaves = false) :
    ∀ (rest : List resultt) (interleaving_failed : Nat) (res : resultt),
      (bmct.run_loop value options interleaving_failed res rest).explored = res :: rest
  | [], n, res => by
    rw [bmct.run_loop_nil value options n res (by simp [ha]) hi]
  | next :: rest1, n, res => by
    rw [bmct.run_loop_cons value options n res next rest1 (by simp [ha]) hi]
    simp only [bmct.run_loop_explored_all value options ha hi rest1]

theorem bmct.run_loop_returns_counterexample (value : resultt → Nat)
    (options : bmc_options) (hv : value .P_SATISFIABLE ≠ 0) :
    ∀ (rest : List resultt) (interleaving_failed : Nat) (res : resultt),
      resultt.P_SATISFIABLE ∈
        (bmct.run_loop value options interleaving_failed res rest).explored →
      (bmct.run_loop value options interleaving_failed res rest).result = .P_SATISFIABLE := by
  intro rest
  induction rest with
  | nil =>
    intro n res
    by_cases h : (value res ≠ 0 ∧ options.all_runs = false) ∨
        options.interactive_ileaves = true
    · rw [bmct.run_loop_stop value options _ res [] h]
      intro hm
      exact (List.mem_singleton.mp hm).symm
    · have h1 : ¬ (value res ≠ 0 ∧ options.all_runs = false) := fun hc => h (Or.inl hc)
      have h2 : options.interactive_ileaves = false := by
        cases hb : options.interactive_ileaves with
        | false => rfl
        | true => exact absurd (Or.inr hb) h
      rw [bmct.run_loop_nil value options _ res h1 h2]
      intro hm
      have hr : res = .P_SATISFIABLE := by exact (List.mem_singleton.mp hm).symm
      subst hr
      simp [hv]
  | cons next rest1 ih =>
    intro n res
    by_cases h : (value res ≠ 0 ∧ options.all_runs = false) ∨
        options.interactive_ileaves = true
    · rw [bmct.run_loop_stop value options _ res _ h]
      intro hm
      exact (List.mem_singleton.mp hm).symm
    · have h1 : ¬ (value res ≠ 0 ∧ options.all_runs = false) := fun hc => h (Or.inl hc)
      have h2 : options.interactive_ileaves = false := by
        cases hb : options.interactive_ileaves with
        | false => rfl
        | true => exact absurd (Or.inr hb) h
      rw [bmct.run_loop_cons value options _ res next rest1 h1 h2]
      intro hm
      simp only [List.mem_cons] at hm
      rcases hm with hm | hm
      · have ha : options.all_runs = true := by
          cases hb : options.all_runs with
          | true => rfl
          | false => exact absurd ⟨by rw [← hm]; exact hv, hb⟩ h1
        exact bmct.run_loop_counter value options ha h2 rest1 _ next
          (by rw [← hm]; simp [hv])
      · exact ih _ next hm

theorem bmct.run_loop_stops_at_counterexample (value : resultt → Nat)
    (options : bmc_options) (hv : value .P_SATISFIABLE ≠ 0)
    (ha : options.all_runs = false) :
    ∀ (rest : List resultt) (interleaving_failed : Nat) (res : resultt),
      resultt.P_SATISFIABLE ∈
        (bmct.run_loop value options interleaving_failed res rest).explored →
      (bmct.run_loop value options interleaving_failed res rest).explored.getLast? =
        some .P_SATISFIABLE := by
  intro rest
  induction rest with
  | nil =>
    intro n res
    by_cases h : (value res ≠ 0 ∧ options.all_runs = false) ∨
        options.interactive_ileaves = true
    · rw [bmct.run_loop_stop value options _ res [] h]
      intro hm
      have hr : res = .P_SATISFIABLE := by exact (List.mem_singleton.mp hm).symm
      rw [hr]
      rfl
    · have h1 : ¬ (value res ≠ 0 ∧ options.all_runs = false) := fun hc => h (Or.inl hc)
      have h2 : options.interactive_ileaves = false := by
        cases hb : options.interactive_ileaves with
        | false => rfl
        | true => exact absurd (Or.inr hb) h
      rw [bmct.run_loop_nil value options _ res h1 h2]
      intro hm
      have hr : res = .P_SATISFIABLE := by exact (List.mem_singleton.mp hm).symm
      rw [hr]
      rfl
  | cons next rest1 ih =>
    intro n res
    by_cases h : (value res ≠ 0 ∧ options.all_runs = false) ∨
        options.interactive_ileaves = true
    · rw [bmct.run_loop_stop value options _ res _ h]
      intro hm
      have hr : res = .P_SATISFIABLE := by exact (List.mem_singleton.mp hm).symm
      rw [hr]
      rfl
    · have h1 : ¬ (value res ≠ 0 ∧ options.all_runs = false) := fun hc => h (Or.inl hc)
      have h2 : options.interactive_ileaves = false := by
        cases hb : options.interactive_ileaves with
        | false => rfl
        | true => exact absurd (Or.inr hb) h
      rw [bmct.run_loop_cons value options _ res next rest1 h1 h2]
      intro hm
      simp only [List.mem_cons] at hm
      have hres : res ≠ .P_SATISFIABLE := by
        intro hs
        exact h1 ⟨by rw [hs]; exact hv, ha⟩
      rcases hm with hm | hm
      · exact absurd hm.symm hres
      · show (res :: _).getLast? = _
        rw [List.getLast?_cons, ih _ next hm]
        rfl

/-- C35: given that the value of `P_SATISFIABLE` is not 0, which the test
`if(res)` around `res == smt_convt::P_SATISFIABLE` presumes, a counterexample
is never masked: if `run_thread` returned `P_SATISFIABLE` for one of the
interleavings that `run` explored, `run` returns `P_SATISFIABLE`.  Without
`all-runs` that interleaving is the last one explored; with `all-runs` (and
neither `schedule` nor `interactive-ileaves`) every interleaving is explored. -/
theorem run_returns_counterexample (value : resultt → Nat) (options : bmc_options)
    (interleaving_failed : Nat) (res : resultt) (rest : List resultt)
    (hv : value .P_SATISFIABLE ≠ 0)
    (h : resultt.P_SATISFIABLE ∈
      (bmct.run value options interleaving_failed res rest).explored) :
    (bmct.run value options interleaving_failed res rest).result = .P_SATISFIABLE ∧
    (options.all_runs = false →
      (bmct.run value options interleaving_failed res rest).explored.getLast? =
        some .P_SATISFIABLE) ∧
    (options.schedule = false → options.all_runs = true →
      options.interactive_ileaves = false →
      (bmct.run value options interleaving_failed res rest).explored = res :: rest) := by
  by_cases hs : options.schedule = true
  · simp only [bmct.run, hs, if_true, List.mem_singleton] at h ⊢
    refine ⟨h.symm, fun _ => by rw [← h]; rfl, fun hc => by simp at hc⟩
  · simp only [bmct.run, hs, if_false, Bool.false_eq_true] at h ⊢
    exact ⟨bmct.run_loop_returns_counterexample value options hv rest _ res h,
      fun ha => bmct.run_loop_stops_at_counterexample value options hv ha rest _ res h,
      fun _ ha hi => bmct.run_loop_explored_all value options ha hi rest _ res⟩

/-- Witness of C35, with the values 0 for `P_UNSATISFIABLE` and 1, 2, 3 for the
other enumerators and the results unsatisfiable, satisfiable, unsatisfiable of
three interleavings: with `all-runs` all three are explored and `run` returns
`P_SATISFIABLE`; without it `run` stops at the second and returns
`P_SATISFIABLE`. -/
theorem run_returns_counterexample_witness :
    (bmct.run (fun r => match r with
        | .P_UNSATISFIABLE => 0 | .P_SATISFIABLE => 1 | .P_ERROR => 2 | .P_SMTLIB => 3)
      ⟨false, true, false⟩ 0 .P_UNSATISFIABLE [.P_SATISFIABLE, .P_UNSATISFIABLE]).result =
      .P_SATISFIABLE ∧
    (bmct.run (fun r => match r with
        | .P_UNSATISFIABLE => 0 | .P_SATISFIABLE => 1 | .P_ERROR => 2 | .P_SMTLIB => 3)
      ⟨false, true, false⟩ 0 .P_UNSATISFIABLE [.P_SATISFIABLE, .P_UNSATISFIABLE]).explored =
      [.P_UNSATISFIABLE, .P_SATISFIABLE, .P_UNSATISFIABLE] ∧
    (bmct.run (fun r => match r with
        | .P_UNSATISFIABLE => 0 | .P_SATISFIABLE => 1 | .P_ERROR => 2 | .P_SMTLIB => 3)
      ⟨false, false, false⟩ 0 .P_UNSATISFIABLE [.P_SATISFIABLE, .P_UNSATISFIABLE]).result =
      .P_SATISFIABLE ∧
    (bmct.run (fun r => match r with
        | .P_UNSATISFIABLE => 0 | .P_SATISFIABLE => 1 | .P_ERROR => 2 | .P_SMTLIB => 3)
      ⟨false, false, false⟩ 0 .P_UNSATISFIABLE [.P_SATISFIABLE, .P_UNSATISFIABLE]).explored =
      [.P_UNSATISFIABLE, .P_SATISFIABLE] :=
  ⟨(run_returns_counterexample _ ⟨false, true, false⟩ 0 .P_UNSATISFIABLE
      [.P_SATISFIABLE, .P_UNSATISFIABLE] (by decide) (by decide)).1,
    by decide,
    (run_returns_counterexample _ ⟨false, false, false⟩ 0 .P_UNSATISFIABLE
      [.P_SATISFIABLE, .P_UNSATISFIABLE] (by decide) (by decide)).1,
    by decide⟩

/-! ## Claims on `simple_shell_unescape` -/

theorem scan_arg_done : ∀ (n : Nat) (s : List Char), s.length ≤ n →
    ∀ (mode : shell_mode) (arg : List Char), mode ≠ .ESC →
      ∃ m a r, scan_arg mode arg s = .done m a r ∧ r.length ≤ s.length
  | _, [], _, mode, arg, _ => ⟨mode, arg, [], by simp [scan_arg], Nat.le_refl _⟩
  | 0, c :: s, h, _, _, _ => by simp at h
  | n + 1, [c], _, mode, arg, hm => by
    have ih := scan_arg_done n [] (Nat.zero_le _)
    cases mode with
    | ESC => exact absurd rfl hm
    | NONE =>
      simp only [scan_arg]
      split_ifs
      · exact ⟨_, _, _, rfl, Nat.le_refl _⟩
      · obtain ⟨m, a, r, h1, h2⟩ := ih .SQUOT arg (by decide)
        exact ⟨m, a, r, h1, Nat.le_succ_of_le h2⟩
      · obtain ⟨m, a, r, h1, h2⟩ := ih .DQUOT arg (by decide)
        exact ⟨m, a, r, h1, Nat.le_succ_of_le h2⟩
      · exact ⟨_, _, _, rfl, Nat.zero_le _⟩
      · obtain ⟨m, a, r, h1, h2⟩ := ih .NONE (arg ++ [c]) (by decide)
        exact ⟨m, a, r, h1, Nat.le_succ_of_le h2⟩
    | SQUOT =>
      simp only [scan_arg]
      split_ifs
      · obtain ⟨m, a, r, h1, h2⟩ := ih .NONE arg (by decide)
        exact ⟨m, a, r, h1, Nat.le_succ_of_le h2⟩
      · obtain ⟨m, a, r, h1, h2⟩ := ih .SQUOT (arg ++ [c]) (by decide)
        exact ⟨m, a, r, h1, Nat.le_succ_of_le h2⟩
    | DQUOT =>
      simp only [scan_arg]
      split_ifs
      · obtain ⟨m, a, r, h1, h2⟩ := ih .NONE arg (by decide)
        exact ⟨m, a, r, h1, Nat.le_succ_of_le h2⟩
      · exact ⟨_, _, _, rfl, Nat.le_refl _⟩
      · obtain ⟨m, a, r, h1, h2⟩ := ih .DQUOT (arg ++ [c]) (by decide)
        exact ⟨m, a, r, h1, Nat.le_succ_of_le h2⟩
  | n + 1, c :: d :: s, h, mode, arg, hm => by
    have hl1 : (d :: s).length ≤ n := by
      simp only [List.length_cons] at h ⊢
      omega
    have hl2 : s.length ≤ n := by
      simp only [List.length_cons] at h
      omega
    have ih1 := scan_arg_done n (d :: s) hl1
    have ih2 := scan_arg_done n s hl2
    have up1 : ∀ {r : List Char}, r.length ≤ (d :: s).length →
        r.length ≤ (c :: d :: s).length := fun hr => by
      simp only [List.length_cons] at hr ⊢
      omega
    have up2 : ∀ {r : List Char}, r.length ≤ s.length →
        r.length ≤ (c :: d :: s).length := fun hr => by
      simp only [List.length_cons]
      omega
    cases mode with
    | ESC => exact absurd rfl hm
    | NONE =>
      rw [scan_arg]
      split_ifs
      · exact ⟨_, _, _, rfl, Nat.le_refl _⟩
      · obtain ⟨m, a, r, h1, h2⟩ := ih1 .SQUOT arg (by decide)
        exact ⟨m, a, r, h1, up1 h2⟩
      · obtain ⟨m, a, r, h1, h2⟩ := ih1 .DQUOT arg (by decide)
        exact ⟨m, a, r, h1, up1 h2⟩
      · obtain ⟨m, a, r, h1, h2⟩ := ih2 .NONE (arg ++ [d]) (by decide)
        exact ⟨m, a, r, h1, up2 h2⟩
      · obtain ⟨m, a, r, h1, h2⟩ := ih1 .NONE (arg ++ [c]) (by decide)
        exact ⟨m, a, r, h1, up1 h2⟩
    | SQUOT =>
      rw [scan_arg]
      split_ifs
      · obtain ⟨m, a, r, h1, h2⟩ := ih1 .NONE arg (by decide)
        exact ⟨m, a, r, h1, up1 h2⟩
      · obtain ⟨m, a, r, h1, h2⟩ := ih1 .SQUOT (arg ++ [c]) (by decide)
        exact ⟨m, a, r, h1, up1 h2⟩
    | DQUOT =>
      rw [scan_arg]
      split_ifs
      · obtain ⟨m, a, r, h1, h2⟩ := ih1 .NONE arg (by decide)
        exact ⟨m, a, r, h1, up1 h2⟩
      · obtain ⟨m, a, r, h1, h2⟩ := ih2 .DQUOT (arg ++ [d]) (by decide)
        exact ⟨m, a, r, h1, up2 h2⟩
      · obtain ⟨m, a, r, h1, h2⟩ := ih1 .DQUOT (arg ++ [c]) (by decide)
        exact ⟨m, a, r, h1, up1 h2⟩
      · obtain ⟨m, a, r, h1, h2⟩ := ih1 .DQUOT (arg ++ [c]) (by decide)
        exact ⟨m, a, r, h1, up1 h2⟩

theorem scan_arg_progress (c : Char) (t arg : List Char) (hc : is_white c = false) :
    ∃ m a r, scan_arg .NONE arg (c :: t) = .done m a r ∧ r.length ≤ t.length := by
  cases t with
  | nil =>
    simp only [scan_arg, hc, Bool.false_eq_true, if_false]
    split_ifs <;> exact ⟨_, _, _, rfl, Nat.le_refl _⟩
  | cons d s =>
    have ih1 := scan_arg_done (d :: s).length (d :: s) (Nat.le_refl _)
    have ih2 := scan_arg_done s.length s (Nat.le_refl _)
    have up2 : ∀ {r : List Char}, r.length ≤ s.length → r.length ≤ (d :: s).length :=
      fun hr => by
        simp only [List.length_cons]
        omega
    rw [scan_arg]
    simp only [hc, Bool.false_eq_true, if_false]
    split_ifs
    · exact ih1 .SQUOT arg (by decide)
    · exact ih1 .DQUOT arg (by decide)
    · obtain ⟨m, a, r, h1, h2⟩ := ih2 .NONE (arg ++ [d]) (by decide)
      exact ⟨m, a, r, h1, up2 h2⟩
    · exact ih1 .NONE (arg ++ [c]) (by decide)

theorem skip_white_length (s : List Char) : (skip_white s).length ≤ s.length := by
  induction s with
  | nil => simp [skip_white]
  | cons c s ih =>
    simp only [skip_white]
    split_ifs
    · exact Nat.le_succ_of_le ih
    · exact Nat.le_refl _

theorem skip_white_head (s : List Char) (c : Char) (t : List Char)
    (h : skip_white s = c :: t) : is_white c = false := by
  induction s with
  | nil => simp [skip_white] at h
  | cons x s ih =>
    simp only [skip_white] at h
    split_ifs at h with hx
    · exact ih h
    · simp only [List.cons.injEq] at h
      rw [← h.1]
      simpa using hx

theorem unescape_loop_returns : ∀ (rounds : Nat) (s : List Char) (split : List String),
    s.length < rounds → ∃ r, unescape_loop rounds s split = .returned r
  | 0, _, _, h => by simp at h
  | rounds + 1, s, split, h => by
    simp only [unescape_loop]
    cases hs : skip_white s with
    | nil => exact ⟨_, rfl⟩
    | cons c t =>
      have hw := skip_white_head s c t hs
      have hl := skip_white_length s
      rw [hs] at hl
      simp only [List.length_cons] at hl
      obtain ⟨m, a, r, h1, h2⟩ := scan_arg_progress c t [] hw
      simp only [h1]
      split_ifs
      · exact ⟨_, rfl⟩
      · exact unescape_loop_returns rounds r _ (by omega)

/-- C40: for every input, null included, `simple_shell_unescape` returns a
vector: the inner loop never enters its switch in the mode `ESC`, so the
`Internal error parsing` branch with its `abort()` is not reached (and the
rounds given to the outer loop are enough). -/
theorem simple_shell_unescape_never_aborts (s : Option String) :
    simple_shell_unescape s ≠ .aborted ∧
    (∃ split, simple_shell_unescape s = .returned split) ∧
    ∀ (mode : shell_mode) (arg cs : List Char), mode ≠ .ESC →
      scan_arg mode arg cs ≠ .abort := by
  have h : ∃ split, simple_shell_unescape s = .returned split := by
    cases s with
    | none => exact ⟨[], rfl⟩
    | some str => exact unescape_loop_returns _ _ _ (Nat.lt_succ_self _)
  refine ⟨?_, h, fun mode arg cs hm => ?_⟩
  · obtain ⟨r, hr⟩ := h
    rw [hr]
    exact fun e => by cases e
  · obtain ⟨m, a, r, h1, _⟩ := scan_arg_done cs.length cs (Nat.le_refl _) mode arg hm
    rw [h1]
    exact fun e => by cases e

/-- Witness of C40: a backslash at the end of the string, also inside double
quotes, ends the call with the empty vector and not with the abort. -/
theorem simple_shell_unescape_never_aborts_witness :
    simple_shell_unescape (some "a b\\") = .returned [] ∧
    simple_shell_unescape (some "a \"b\\") = .returned [] ∧
    scan_arg .DQUOT [] "b\\".data ≠ .abort :=
  ⟨by decide, by decide,
    (simple_shell_unescape_never_aborts none).2.2 .DQUOT [] "b\\".data (by decide)⟩

theorem scan_arg_plain : ∀ (s arg : List Char),
    (∀ c ∈ s, c.toNat ≠ 39 ∧ c.toNat ≠ 34 ∧ c.toNat ≠ 92) →
    scan_arg .NONE arg s =
      .done .NONE (arg ++ s.takeWhile (fun c => !is_white c))
        (s.dropWhile (fun c => !is_white c))
  | [], arg, _ => by simp [scan_arg]
  | [c], arg, h => by
    obtain ⟨h1, h2, h3⟩ := h c (List.mem_singleton.mpr rfl)
    by_cases hw : is_white c = true
    · simp [scan_arg, hw, List.takeWhile, List.dropWhile]
    · simp [scan_arg, hw, h1, h2, h3, List.takeWhile, List.dropWhile]
  | c :: d :: s, arg, h => by
    obtain ⟨h1, h2, h3⟩ := h c (List.mem_cons_self _ _)
    rw [scan_arg]
    by_cases hw : is_white c = true
    · simp [hw, List.takeWhile, List.dropWhile]
    · have ih := scan_arg_plain (d :: s) (arg ++ [c])
        (fun x hx => h x (List.mem_cons_of_mem _ hx))
      simp only [hw, h1, h2, h3, if_false, ih]
      simp [List.takeWhile, List.dropWhile, hw]

theorem maximal_runs_from_cur : ∀ (s cur : List Char), cur ≠ [] →
    maximal_runs_from cur s =
      String.mk (cur ++ s.takeWhile (fun c => !is_white c)) ::
        maximal_runs_from [] (s.dropWhile (fun c => !is_white c))
  | [], cur, h => by simp [maximal_runs_from, h]
  | c :: s, cur, h => by
    by_cases hw : is_white c = true
    · simp [maximal_runs_from, hw, h, List.takeWhile, List.dropWhile]
    · have ih := maximal_runs_from_cur s (cur ++ [c]) (by simp)
      simp [maximal_runs_from, hw, ih, List.takeWhile, List.dropWhile]

theorem maximal_runs_from_skip_white (s : List Char) :
    maximal_runs_from [] (skip_white s) = maximal_runs_from [] s := by
  induction s with
  | nil => rfl
  | cons c s ih =>
    by_cases hw : is_white c = true
    · simp [skip_white, maximal_runs_from, hw, ih]
    · simp [skip_white, hw]

theorem skip_white_mem (s : List Char) (c : Char) (h : c ∈ skip_white s) : c ∈ s := by
  induction s with
  | nil => simp [skip_white] at h
  | cons x s ih =>
    simp only [skip_white] at h
    split_ifs at h
    · exact List.mem_cons_of_mem _ (ih h)
    · exact h

theorem unescape_loop_plain : ∀ (rounds : Nat) (s : List Char) (split : List String),
    s.length < rounds → (∀ c ∈ s, c.toNat ≠ 39 ∧ c.toNat ≠ 34 ∧ c.toNat ≠ 92) →
    unescape_loop rounds s split = .returned (split ++ maximal_runs_from [] s)
  | 0, _, _, h, _ => by simp at h
  | rounds + 1, s, split, h, hp => by
    simp only [unescape_loop]
    rw [← maximal_runs_from_skip_white s]
    cases hs : skip_white s with
    | nil => simp [maximal_runs_from]
    | cons c t =>
      have hw := skip_white_head s c t hs
      have hl := skip_white_length s
      rw [hs] at hl
      simp only [List.length_cons] at hl
      have hp1 : ∀ x ∈ c :: t, x.toNat ≠ 39 ∧ x.toNat ≠ 34 ∧ x.toNat ≠ 92 := fun x hx =>
        hp x (skip_white_mem s x (by rw [hs]; exact hx))
      have hd : ((c :: t).dropWhile (fun c => !is_white c)).length ≤ (c :: t).length :=
        (List.dropWhile_sublist _).length_le
      have hp2 : ∀ x ∈ (c :: t).dropWhile (fun c => !is_white c),
          x.toNat ≠ 39 ∧ x.toNat ≠ 34 ∧ x.toNat ≠ 92 := fun x hx =>
        hp1 x ((List.dropWhile_sublist _).subset hx)
      have hd2 : ((c :: t).dropWhile (fun c => !is_white c)).length ≤ t.length := by
        simp only [List.dropWhile, hw, Bool.not_false]
        exact (List.dropWhile_sublist _).length_le
      simp only [scan_arg_plain (c :: t) [] hp1, ne_eq, not_true_eq_false, if_false,
        List.nil_append]
      rw [unescape_loop_plain rounds _ _ (by omega) hp2]
      have hm : maximal_runs_from [] (c :: t) =
          String.mk ((c :: t).takeWhile (fun c => !is_white c)) ::
            maximal_runs_from [] ((c :: t).dropWhile (fun c => !is_white c)) := by
        have := maximal_runs_from_cur t [c] (by simp)
        simp only [maximal_runs_from, hw, Bool.false_eq_true, if_false, List.nil_append, this,
          List.takeWhile, List.dropWhile, Bool.not_false, List.singleton_append]
      rw [hm]
      simp

/-- C39: for an input holding none of the characters single quote, double
quote and backslash, `simple_shell_unescape` returns the maximal runs of
characters that are not white-space (space, tab, CR, LF, form feed, vertical
tab), in order and none of them empty; the null input and an input of
white-space only give the empty vector. -/
theorem simple_shell_unescape_splits_at_white_space (s : String)
    (h : ∀ c ∈ s.data, c.toNat ≠ 39 ∧ c.toNat ≠ 34 ∧ c.toNat ≠ 92) :
    simple_shell_unescape (some s) = .returned (maximal_runs s) ∧
    (∀ w ∈ maximal_runs s, w ≠ "") ∧
    simple_shell_unescape none = .returned [] ∧
    ((∀ c ∈ s.data, is_white c = true) → simple_shell_unescape (some s) = .returned []) := by
  have h1 : simple_shell_unescape (some s) = .returned (maximal_runs s) := by
    simp only [simple_shell_unescape, maximal_runs]
    rw [unescape_loop_plain _ _ _ (Nat.lt_succ_self _) h]
    simp
  have hne : ∀ (cs cur : List Char), ∀ w ∈ maximal_runs_from cur cs,
      w ≠ "" ∧ True := by
    intro cs
    induction cs with
    | nil =>
      intro cur w hw
      simp only [maximal_runs_from] at hw
      split_ifs at hw with hc
      · simp at hw
      · simp only [List.mem_singleton] at hw
        refine ⟨fun e => hc ?_, trivial⟩
        rw [hw] at e
        exact congrArg String.data e
    | cons c cs ih =>
      intro cur w hw
      simp only [maximal_runs_from] at hw
      split_ifs at hw with h1 h2
      · exact ih [] w hw
      · rcases List.mem_cons.mp hw with e | e
        · refine ⟨fun e2 => h2 ?_, trivial⟩
          rw [e] at e2
          exact congrArg String.data e2
        · exact ih [] w e
      · exact ih _ w hw
  have hall : ∀ cs : List Char, (∀ c ∈ cs, is_white c = true) →
      maximal_runs_from [] cs = [] := by
    intro cs
    induction cs with
    | nil => intro _; rfl
    | cons c cs ih =>
      intro hc
      simp only [maximal_runs_from, hc c (List.mem_cons_self _ _), if_true]
      exact ih (fun x hx => hc x (List.mem_cons_of_mem _ hx))
  refine ⟨h1, fun w hw => (hne s.data [] w hw).1, rfl, fun hw => ?_⟩
  rw [h1, maximal_runs, hall s.data hw]

/-- Witness of C39: blanks, a tab and a line feed between three words. -/
theorem simple_shell_unescape_splits_at_white_space_witness :
    simple_shell_unescape (some "  --unwind 5\t--no-bounds-check\n") =
      .returned ["--unwind", "5", "--no-bounds-check"] :=
  ((simple_shell_unescape_splits_at_white_space "  --unwind 5\t--no-bounds-check\n"
    (by decide)).1).trans (by decide)

/-! ## Pointer offsets -/

theorem componentst.pointer_offset_size_sum : ∀ (c : componentst) (result : Int),
    componentst.pointer_offset_size c result =
      result + ((componentst.toList c).map (fun x => typet.pointer_offset_size x.2.2)).sum
  | .nil, result => by simp [componentst.pointer_offset_size, componentst.toList]
  | .cons name bf type rest, result => by
    rw [componentst.pointer_offset_size, componentst.pointer_offset_size_sum rest]
    simp [componentst.toList]; ring

theorem type_vec_pointer_offset_size_sum (members : List type2t) (sizes : List Int)
    (result : Int)
    (h : List.Forall₂ (fun m n => type2t.pointer_offset_size m = some n) members sizes) :
    type_vec_pointer_offset_size members result = some (result + sizes.sum) := by
  induction h generalizing result with
  | nil => simp [type_vec_pointer_offset_size]
  | cons hm _ ih =>
    rw [type_vec_pointer_offset_size, hm]
    simp only [ih, List.sum_cons]
    congr 1; ring

mutual
theorem typet_pointer_offset_size_agrees : ∀ (t : typet) (t2 : type2t),
    typet.corresponds t t2 → ∀ n, type2t.pointer_offset_size t2 = some n →
      n = typet.pointer_offset_size t
  | .unsignedbv_typet w, t2, h, n, hn => by
    simp only [typet.corresponds] at h
    subst h
    simp [type2t.pointer_offset_size, type_body.pointer_offset_size] at hn
    simp [typet.pointer_offset_size, hn]
  | .signedbv_typet w, t2, h, n, hn => by
    simp only [typet.corresponds] at h
    subst h
    simp [type2t.pointer_offset_size, type_body.pointer_offset_size] at hn
    simp [typet.pointer_offset_size, hn]
  | .other_typet id, .mk b, h, n, hn => by
    cases b <;>
      simp [typet.corresponds, type2t.type_id, type_body.type_id] at h <;>
      simp [type2t.pointer_offset_size, type_body.pointer_offset_size] at hn <;>
      simp [typet.pointer_offset_size, hn]
  | .struct_typet c, .mk b, h, n, hn => by
    cases b <;> simp only [typet.corresponds] at h
    case struct_type2t ms ns nm =>
      simp only [type2t.pointer_offset_size, type_body.pointer_offset_size] at hn
      rw [typet.pointer_offset_size]
      exact componentst_pointer_offset_size_agrees c ms ns h 1 n hn
  | .union_typet c, .mk b, h, n, hn => by
    cases b <;> simp only [typet.corresponds] at h
    case union_type2t ms ns nm =>
      simp only [type2t.pointer_offset_size, type_body.pointer_offset_size] at hn
      rw [typet.pointer_offset_size]
      exact componentst_pointer_offset_size_agrees c ms ns h 1 n hn
  | .array_typet sub size, .mk b, h, n, hn => by
    cases b <;> simp only [typet.corresponds] at h
    case array_type2t sub2 sz inf =>
      obtain ⟨hsub, hsz⟩ := h
      simp only [type2t.pointer_offset_size, type_body.pointer_offset_size] at hn
      cases hs : type2t.pointer_offset_size sub2 with
      | none => simp [hs] at hn
      | some k =>
        have hk := typet_pointer_offset_size_agrees sub sub2 hsub k hs
        simp only [hs] at hn
        cases size with
        | none =>
          cases sz with
          | none => simp at hn
          | some s =>
            simp only at hsz
            simp [hsz.2] at hn
            simp [typet.pointer_offset_size, hn]
        | some i =>
          cases sz with
          | none => simp at hsz
          | some s =>
            simp only at hsz
            obtain ⟨_, ty, rfl⟩ := hsz
            simp [expr2t.constant_int2t, expr2t.expr_id, expr_body.expr_id] at hn
            simp [typet.pointer_offset_size, ← hn, hk]
theorem componentst_pointer_offset_size_agrees : ∀ (c : componentst) (ms : List type2t)
    (ns : List String), componentst.correspond c ms ns → ∀ (r n : Int),
      type_vec_pointer_offset_size ms r = some n → n = componentst.pointer_offset_size c r
  | .nil, ms, ns, h, r, n, hn => by
    simp only [componentst.correspond] at h
    rw [h.1] at hn
    simp [type_vec_pointer_offset_size] at hn
    simp [componentst.pointer_offset_size, hn]
  | .cons name bf type rest, ms, ns, h, r, n, hn => by
    cases ms with
    | nil => simp [componentst.correspond] at h
    | cons m ms1 =>
      cases ns with
      | nil => simp [componentst.correspond] at h
      | cons n1 ns1 =>
        simp only [componentst.correspond] at h
        obtain ⟨_, _, ht, hr⟩ := h
        rw [type_vec_pointer_offset_size] at hn
        cases hs : type2t.pointer_offset_size m with
        | none => simp [hs] at hn
        | some k =>
          have hk := typet_pointer_offset_size_agrees type m ht k hs
          simp only [hs] at hn
          rw [componentst.pointer_offset_size, ← hk]
          exact componentst_pointer_offset_size_agrees rest ms1 ns1 hr _ n hn
end
theorem componentst.member_offset_spec (member : String) : ∀ (c : componentst)
    (pre : List (String × Bool × typet)) (x : String × Bool × typet)
    (post : List (String × Bool × typet)) (result : Int),
    componentst.toList c = pre ++ x :: post → x.1 = member →
    (∀ y ∈ pre, y.1 ≠ member ∧ y.2.1 = false ∧ typet.pointer_offset_size y.2.2 ≠ -1) →
    componentst.member_offset member c result 0 =
      result + (pre.map (fun y => typet.pointer_offset_size y.2.2)).sum
  | .nil, pre, x, post, result, h, _, _ => by
    simp [componentst.toList] at h
  | .cons name bf type rest, [], x, post, result, h, hx, _ => by
    simp only [componentst.toList, List.nil_append, List.cons.injEq] at h
    have hn : name = member := by rw [← hx, ← h.1]
    simp [componentst.member_offset, hn]
  | .cons name bf type rest, y :: pre, x, post, result, h, hx, hpre => by
    simp only [componentst.toList, List.cons_append, List.cons.injEq] at h
    obtain ⟨hy, hrest⟩ := h
    have hy1 := hpre y (List.mem_cons_self _ _)
    rw [← hy] at hy1
    simp only at hy1
    have ih := componentst.member_offset_spec member rest pre x post
      (result + typet.pointer_offset_size type) hrest hx
      (fun z hz => hpre z (List.mem_cons_of_mem _ hz))
    rw [componentst.member_offset]
    simp only [hy1.1, hy1.2.1, hy1.2.2, if_false, ne_eq, not_true_eq_false, Bool.false_eq_true]
    rw [ih, ← hy]
    simp only [List.map_cons, List.sum_cons]
    ring

theorem struct_type2t.member_offset_loop_first (names : List String) (member : String)
    (members : List type2t) (result : Int) :
    struct_type2t.member_offset_loop (member :: names) member members result = some result := by
  cases members <;> simp [struct_type2t.member_offset_loop]

theorem struct_type2t.member_offset_loop_other (n0 : String) (names : List String)
    (member : String) (hne : n0 ≠ member) (members : List type2t) (sizes : List Int)
    (h : List.Forall₂ (fun m n => type2t.pointer_offset_size m = some n) members sizes)
    (hs : ∀ s ∈ sizes, s ≠ -1) (result : Int) :
    struct_type2t.member_offset_loop (n0 :: names) member members result =
      some (result + sizes.sum) := by
  induction h generalizing result with
  | nil => simp [struct_type2t.member_offset_loop]
  | cons hm _ ih =>
    rename_i m n ms ss _
    rw [struct_type2t.member_offset_loop]
    have hn := hs n (List.mem_cons_self _ _)
    simp only [hne, if_false, hm, hn]
    rw [ih (fun s h1 => hs s (List.mem_cons_of_mem _ h1))]
    simp only [List.sum_cons]
    congr 1; ring
/-! ## Claims on pointer offsets -/

/-- C32, for the code as it is.  `pointer_offset_size(const typet &)` is
`sub * k` on an array of integer size `k`, 1 on an array whose size is no
integer, 1 plus the sum over the components on a struct or union, and 1 on
every other type; `pointer_offset_size(const type2t &)` is the same on an
array with a constant or another non-nil size, on structs and unions and on
other types, and wherever it returns for a corresponding type it returns the
number of the `typet` overload.  On an infinite array, whose `array_size` is
nil, it reads `expr_id` through the nil handle: no result, where the `typet`
overload returns the fallback 1 for the corresponding type. -/
theorem pointer_offset_size_infinite_array_undefined :
    (∀ (sub : typet) (k : Int), typet.pointer_offset_size (.array_typet sub (some k)) =
      typet.pointer_offset_size sub * k) ∧
    (∀ sub : typet, typet.pointer_offset_size (.array_typet sub none) = 1) ∧
    (∀ c : componentst,
      typet.pointer_offset_size (.struct_typet c) =
        1 + ((componentst.toList c).map (fun x => typet.pointer_offset_size x.2.2)).sum ∧
      typet.pointer_offset_size (.union_typet c) =
        1 + ((componentst.toList c).map (fun x => typet.pointer_offset_size x.2.2)).sum) ∧
    (∀ w id, typet.pointer_offset_size (.unsignedbv_typet w) = 1 ∧
      typet.pointer_offset_size (.signedbv_typet w) = 1 ∧
      typet.pointer_offset_size (.other_typet id) = 1) ∧
    (∀ (sub : type2t) (n : Int) (ty : type2t) (k : Int) (inf : Bool),
      type2t.pointer_offset_size sub = some n →
      type2t.pointer_offset_size
        (type2t.array_type2t sub (some (expr2t.constant_int2t ty k)) inf) = some (n * k)) ∧
    (∀ (sub : type2t) (n : Int) (s : expr2t) (inf : Bool),
      type2t.pointer_offset_size sub = some n → s.expr_id ≠ .constant_int_id →
      type2t.pointer_offset_size (type2t.array_type2t sub (some s) inf) = some 1) ∧
    (∀ (members : List type2t) (sizes : List Int) (names : List String) (name : String),
      List.Forall₂ (fun m n => type2t.pointer_offset_size m = some n) members sizes →
      type2t.pointer_offset_size (.mk (.struct_type2t members names name)) =
        some (1 + sizes.sum) ∧
      type2t.pointer_offset_size (.mk (.union_type2t members names name)) =
        some (1 + sizes.sum)) ∧
    (∀ t : type2t, t.type_id ≠ .array_id → t.type_id ≠ .struct_id →
      t.type_id ≠ .union_id → type2t.pointer_offset_size t = some 1) ∧
    (∀ (t : typet) (t2 : type2t) (n : Int), typet.corresponds t t2 →
      type2t.pointer_offset_size t2 = some n → n = typet.pointer_offset_size t) ∧
    (∀ (sub : type2t) (inf : Bool),
      type2t.pointer_offset_size (type2t.array_type2t sub none inf) = none) ∧
    typet.corresponds (.array_typet (.unsignedbv_typet 8) none)
      (type2t.array_type2t type_pool.get_uint8 none true) ∧
    typet.pointer_offset_size (.array_typet (.unsignedbv_typet 8) none) = 1 ∧
    type2t.pointer_offset_size (type2t.array_type2t type_pool.get_uint8 none true) = none := by
  refine ⟨?_, ?_, ?_, ?_, ?_, ?_, ?_, ?_, ?_, ?_, ?_, ?_, ?_⟩
  · intro sub k
    simp [typet.pointer_offset_size]
  · intro sub
    simp [typet.pointer_offset_size]
  · intro c
    simp [typet.pointer_offset_size, componentst.pointer_offset_size_sum]
  · intro w id
    simp [typet.pointer_offset_size]
  · intro sub n ty k inf h
    simp [type2t.array_type2t, type2t.pointer_offset_size, type_body.pointer_offset_size, h,
      expr2t.constant_int2t, expr2t.expr_id, expr_body.expr_id]
  · intro sub n s inf h hs
    simp [type2t.array_type2t, type2t.pointer_offset_size, type_body.pointer_offset_size, h, hs]
  · intro members sizes names name h
    simp [type2t.pointer_offset_size, type_body.pointer_offset_size,
      type_vec_pointer_offset_size_sum members sizes 1 h]
  · intro t h1 h2 h3
    obtain ⟨b⟩ := t
    cases b <;> simp [type2t.type_id, type_body.type_id] at h1 h2 h3 <;>
      simp [type2t.pointer_offset_size, type_body.pointer_offset_size]
  · intro t t2 n h hn
    exact typet_pointer_offset_size_agrees t t2 h n hn
  · intro sub inf
    cases h : type2t.pointer_offset_size sub <;>
      simp [type2t.array_type2t, type2t.pointer_offset_size, type_body.pointer_offset_size, h]
  · simp [typet.corresponds, type2t.array_type2t, type_pool.get_uint8]
  · simp [typet.pointer_offset_size]
  · rfl

/-- C33, for the code as it is.  On a struct whose components before the
named one are no bit-fields, `member_offset(const struct_typet &, member)` is
the sum of `pointer_offset_size` over the components before the first one of
that name (as long as none of these sizes is -1).  The `struct_type2t`
overload tests `member_names[idx]` with an `idx` that stays 0: it is 0 when
the name is the first member's, and for every other name the sum over all
members.  For the second of two `uint8` members it returns 2, where the
`struct_typet` overload returns 1 on the corresponding type. -/
theorem member_offset_index_never_advances :
    (∀ (c : componentst) (pre : List (String × Bool × typet)) (member : String)
      (bf : Bool) (type : typet) (post : List (String × Bool × typet)),
      componentst.toList c = pre ++ (member, bf, type) :: post →
      (∀ y ∈ pre, y.1 ≠ member ∧ y.2.1 = false ∧ typet.pointer_offset_size y.2.2 ≠ -1) →
      struct_typet.member_offset c member =
        (pre.map (fun y => typet.pointer_offset_size y.2.2)).sum) ∧
    (∀ (members : List type2t) (names : List String) (member : String),
      struct_type2t.member_offset members (member :: names) member = some 0) ∧
    (∀ (members : List type2t) (sizes : List Int) (n0 : String) (names : List String)
      (member : String), n0 ≠ member →
      List.Forall₂ (fun m n => type2t.pointer_offset_size m = some n) members sizes →
      (∀ s ∈ sizes, s ≠ -1) →
      struct_type2t.member_offset members (n0 :: names) member = some sizes.sum) ∧
    typet.corresponds
      (.struct_typet (.cons "a" false (.unsignedbv_typet 8)
        (.cons "b" false (.unsignedbv_typet 8) .nil)))
      (.mk (.struct_type2t [type_pool.get_uint8, type_pool.get_uint8] ["a", "b"] "S")) ∧
    struct_typet.member_offset
      (.cons "a" false (.unsignedbv_typet 8) (.cons "b" false (.unsignedbv_typet 8) .nil))
      "b" = 1 ∧
    struct_type2t.member_offset [type_pool.get_uint8, type_pool.get_uint8] ["a", "b"] "b" =
      some 2 := by
  refine ⟨?_, ?_, ?_, ?_, ?_, ?_⟩
  · intro c pre member bf type post h hpre
    have := componentst.member_offset_spec member c pre (member, bf, type) post 0 h rfl hpre
    simpa [struct_typet.member_offset] using this
  · intro members names member
    exact struct_type2t.member_offset_loop_first names member members 0
  · intro members sizes n0 names member hne h hs
    have := struct_type2t.member_offset_loop_other n0 names member hne members sizes h hs 0
    simpa [struct_type2t.member_offset] using this
  · simp [typet.corresponds, componentst.correspond, type_pool.get_uint8]
  · decide
  · decide

/-- C34, for the code as it is.  `compute_pointer_offset` returns the constant
0 of type `uint_type2()` for a symbol.  For a member expression it tests the
type of the expression, which is the type of the selected field, not the type
of the source: when that type is no struct it returns the constant 0 whatever
the source is, and when it is a struct type `T` it returns
`member_offset(T, f)`.  So the field `b` of type `uint8` selected from a
source of struct type `S` with the members `a` and `b` has offset 0, not
`member_offset(S, b)`, and a field of struct type selected from a source of
union type has an offset that is not 0. -/
theorem compute_pointer_offset_reads_field_type :
    (∀ (u type : type2t) (name : String),
      compute_pointer_offset u (expr2t.symbol2t type name) =
        some (expr2t.constant_int2t u 0)) ∧
    (∀ (u type : type2t) (source : expr2tc) (mt : type2t) (f : String),
      type.type_id ≠ .struct_id →
      compute_pointer_offset u (.mk type (.member2t source mt f)) =
        some (expr2t.constant_int2t u 0)) ∧
    (∀ (u : type2t) (members : List type2t) (names : List String) (name : String)
      (source : expr2tc) (mt : type2t) (f : String),
      compute_pointer_offset u
        (.mk (.mk (.struct_type2t members names name)) (.member2t source mt f)) =
        (struct_type2t.member_offset members names f).map (expr2t.constant_int2t u)) ∧
    compute_pointer_offset (.mk (.unsignedbv_type2t 32))
      (.mk type_pool.get_uint8
        (.member2t
          (some (expr2t.symbol2t
            (.mk (.struct_type2t [type_pool.get_uint8, type_pool.get_uint8] ["a", "b"] "S"))
            "s"))
          (.mk (.string_type2t 1)) "b")) =
      some (expr2t.constant_int2t (.mk (.unsignedbv_type2t 32)) 0) ∧
    struct_type2t.member_offset [type_pool.get_uint8, type_pool.get_uint8] ["a", "b"] "b" =
      some 2 ∧
    compute_pointer_offset (.mk (.unsignedbv_type2t 32))
      (.mk (.mk (.struct_type2t [type_pool.get_uint8, type_pool.get_uint8] ["x", "y"] "T"))
        (.member2t
          (some (expr2t.symbol2t
            (.mk (.union_type2t
              [.mk (.struct_type2t [type_pool.get_uint8, type_pool.get_uint8] ["x", "y"] "T")]
              ["f"] "U"))
            "u"))
          (.mk (.string_type2t 1)) "f")) =
      some (expr2t.constant_int2t (.mk (.unsignedbv_type2t 32)) 2) := by
  refine ⟨?_, ?_, ?_, ?_, ?_, ?_⟩
  · intro u type name
    rfl
  · intro u type source mt f h
    obtain ⟨b⟩ := type
    cases b <;> simp [type2t.type_id, type_body.type_id] at h <;> rfl
  · intro u members names name source mt f
    rfl
  · rfl
  · decide
  · rfl

namespace goto_symex

mutual
theorem level2t.rename_congr {α : Type} (st st1 : level2t α) (key : name_record)
    (hf : ∀ k, k ≠ key → st1.current_names k = st.current_names k) :
    ∀ e : expr2t α, e.mentions key = false → st1.rename e = st.rename e
  | .symbol2t type thename rlevel l1 l2 tn nn => by
    intro h
    simp only [expr2t.mentions, decide_eq_false_iff_not] at h
    simp only [level2t.rename, hf _ h]
  | .address_of2t type p => by
    intro _
    simp only [level2t.rename]
  | .other expr_id type data operands => by
    intro h
    simp only [expr2t.mentions] at h
    simp only [level2t.rename, level2t.rename_operands_congr st st1 key hf operands h]
theorem level2t.rename_operands_congr {α : Type} (st st1 : level2t α) (key : name_record)
    (hf : ∀ k, k ≠ key → st1.current_names k = st.current_names k) :
    ∀ ops : List (Option (expr2t α)), operands_mention key ops = false →
      st1.rename_operands ops = st.rename_operands ops
  | [] => by
    intro _
    simp only [level2t.rename_operands]
  | none :: rest => by
    intro h
    simp only [operands_mention] at h
    simp only [level2t.rename_operands, level2t.rename_operands_congr st st1 key hf rest h]
  | some e :: rest => by
    intro h
    simp only [operands_mention, Bool.or_eq_false_iff] at h
    simp only [level2t.rename_operands, level2t.rename_congr st st1 key hf e h.1,
      level2t.rename_operands_congr st st1 key hf rest h.2]
end

/-- C36: `make_assignment` on `lhs` changes only the entry keyed by the name
record of `lhs`: every other name record has the entry (count, node, constant)
it had, so `rename` of an expression that does not mention the name record of
`lhs` gives the same result before and after the assignment. -/
theorem make_assignment_frame {α : Type} (st st1 : level2t α) (lhs lhs1 : expr2t α)
    (c av : Option (expr2t α)) (key : name_record)
    (h : st.make_assignment lhs c av = some (st1, lhs1))
    (hk : expr2t.name_record lhs = some key) :
    (∀ k, k ≠ key → st1.current_names k = st.current_names k) ∧
    ∀ e : expr2t α, e.mentions key = false → st1.rename e = st.rename e := by
  have hf : ∀ k, k ≠ key → st1.current_names k = st.current_names k := by
    cases lhs with
    | symbol2t type thename rlevel l1 l2 tn nn =>
      by_cases hl : rlevel = .level1 ∨ rlevel = .level1_global
      · rw [level2t.make_assignment_eq st type thename rlevel l1 l2 tn nn c av hl] at h
        simp only [Option.some.injEq, Prod.mk.injEq] at h
        simp only [expr2t.name_record, Option.some.injEq] at hk
        intro k hne
        have hne2 : k ≠ ⟨thename, rlevel, l1, tn⟩ := by rw [hk]; exact hne
        rw [← h.1]
        simp [hne2]
      · simp [level2t.make_assignment, hl] at h
    | address_of2t t p => simp [level2t.make_assignment] at h
    | other i t d o => simp [level2t.make_assignment] at h
  exact ⟨hf, level2t.rename_congr st st1 key hf⟩

/-- Witness of C36: assigning the constant 0 to `x` leaves the renaming of
`y + 1` as it was. -/
theorem make_assignment_frame_witness :
    ∃ st1 lhs1,
      (level2t.mk (fun k => if k = ⟨"y", .level1, 1, 0⟩ then some ⟨3, none, 7⟩ else none) :
          level2t Int).make_assignment
          (.symbol2t (.mk (.unsignedbv_type2t 32)) "x" .level1 1 0 0 0)
          (some (.other .constant_int_id (.mk (.unsignedbv_type2t 32)) 0 [])) none =
        some (st1, lhs1) ∧
      st1.rename
          (.other .add_id (.mk (.unsignedbv_type2t 32)) 0
            [some (.symbol2t (.mk (.unsignedbv_type2t 32)) "y" .level1 1 0 0 0),
             some (.other .constant_int_id (.mk (.unsignedbv_type2t 32)) 1 [])]) =
        .other .add_id (.mk (.unsignedbv_type2t 32)) 0
          [some (.symbol2t (.mk (.unsignedbv_type2t 32)) "y" .level2 1 3 0 7),
           some (.other .constant_int_id (.mk (.unsignedbv_type2t 32)) 1 [])] := by
  obtain ⟨st1, lhs1, h⟩ : ∃ st1 lhs1,
      (level2t.mk (fun k => if k = ⟨"y", .level1, 1, 0⟩ then some ⟨3, none, 7⟩ else none) :
          level2t Int).make_assignment
          (.symbol2t (.mk (.unsignedbv_type2t 32)) "x" .level1 1 0 0 0)
          (some (.other .constant_int_id (.mk (.unsignedbv_type2t 32)) 0 [])) none =
        some (st1, lhs1) := ⟨_, _, level2t.make_assignment_eq _ _ _ _ _ _ _ _ _ _ (by decide)⟩
  refine ⟨st1, lhs1, h, ?_⟩
  rw [(make_assignment_frame _ st1 _ lhs1 _ _ ⟨"x", .level1, 1, 0⟩ h rfl).2 _ (by decide)]
  rfl

mutual
theorem level2t.rename_rename {α : Type} (st : level2t α)
    (hst : ∀ key v c, st.current_names key = some v → v.constant = some c →
      st.rename c = c) :
    ∀ e : expr2t α, st.rename (st.rename e) = st.rename e
  | .symbol2t type thename rlevel l1 l2 tn nn => by
    by_cases h0 : rlevel = .level2 ∨ rlevel = .level2_global
    · have hs : st.rename (.symbol2t type thename rlevel l1 l2 tn nn) =
          .symbol2t type thename rlevel l1 l2 tn nn := by
        simp only [level2t.rename, h0, if_true]
      rw [hs, hs]
    by_cases h1 : thename = "NULL"
    · have hs : st.rename (.symbol2t type thename rlevel l1 l2 tn nn) =
          .symbol2t type thename rlevel l1 l2 tn nn := by
        simp [level2t.rename, h0, h1]
      rw [hs, hs]
    by_cases h2 : thename = "INVALID"
    · have hs : st.rename (.symbol2t type thename rlevel l1 l2 tn nn) =
          .symbol2t type thename rlevel l1 l2 tn nn := by
        simp [level2t.rename, h0, h1, h2]
      rw [hs, hs]
    by_cases h3 : has_prefix thename "nondet$" = true
    · have hs : st.rename (.symbol2t type thename rlevel l1 l2 tn nn) =
          .symbol2t type thename rlevel l1 l2 tn nn := by
        simp [level2t.rename, h0, h1, h2, h3]
      rw [hs, hs]
    have hlev2 : ∀ (r : renaming_level) {a b : Nat}, r = .level2 ∨ r = .level2_global →
        st.rename (.symbol2t type thename r l1 a tn b) =
          .symbol2t type thename r l1 a tn b := fun r a b hr => by
      simp only [level2t.rename, hr, if_true]
    have hl : (if rlevel = .level0 ∨ rlevel = .level1_global then renaming_level.level2_global
        else renaming_level.level2) = .level2 ∨
        (if rlevel = .level0 ∨ rlevel = .level1_global then renaming_level.level2_global
        else renaming_level.level2) = .level2_global := by
      split_ifs
      · exact Or.inr rfl
      · exact Or.inl rfl
    cases he : st.current_names ⟨thename, rlevel, l1, tn⟩ with
    | none =>
      have hs : st.rename (.symbol2t type thename rlevel l1 l2 tn nn) =
          .symbol2t type thename
            (if rlevel = .level0 ∨ rlevel = .level1_global then .level2_global else .level2)
            l1 0 tn 0 := by
        simp [level2t.rename, h0, h1, h2, h3, he]
      rw [hs]
      exact hlev2 _ hl
    | some v =>
      cases hc : v.constant with
      | some c =>
        have hs : st.rename (.symbol2t type thename rlevel l1 l2 tn nn) = c := by
          simp [level2t.rename, h0, h1, h2, h3, he, hc]
        rw [hs]
        exact hst _ v c he hc
      | none =>
        have hs : st.rename (.symbol2t type thename rlevel l1 l2 tn nn) =
            .symbol2t type thename
              (if rlevel = .level0 ∨ rlevel = .level1_global then .level2_global else .level2)
              l1 v.count tn v.node_id := by
          simp [level2t.rename, h0, h1, h2, h3, he, hc]
        rw [hs]
        exact hlev2 _ hl
  | .address_of2t type p => by
    simp only [level2t.rename]
  | .other expr_id type data operands => by
    simp only [level2t.rename, level2t.rename_operands_rename st hst operands]
theorem level2t.rename_operands_rename {α : Type} (st : level2t α)
    (hst : ∀ key v c, st.current_names key = some v → v.constant = some c →
      st.rename c = c) :
    ∀ ops : List (Option (expr2t α)),
      st.rename_operands (st.rename_operands ops) = st.rename_operands ops
  | [] => by simp only [level2t.rename_operands]
  | none :: rest => by
    simp only [level2t.rename_operands, level2t.rename_operands_rename st hst rest]
  | some e :: rest => by
    simp only [level2t.rename_operands, level2t.rename_rename st hst e,
      level2t.rename_operands_rename st hst rest]
end

/-- C37: if every constant stored in the state is left unchanged by `rename`,
then `rename` is idempotent: `rename(rename(e))` is `rename(e)` for every
expression `e`. -/
theorem rename_idempotent {α : Type} (st : level2t α) (e : expr2t α)
    (hst : ∀ key v c, st.current_names key = some v → v.constant = some c →
      st.rename c = c) :
    st.rename (st.rename e) = st.rename e :=
  level2t.rename_rename st hst e

/-- Witness of C37: a state that stores the constant 0 for `x`; `x + y` is
renamed to `0 + y@level2`, which a second renaming leaves. -/
theorem rename_idempotent_witness :
    (level2t.mk (fun k => if k = ⟨"x", .level1, 1, 0⟩ then
        some ⟨3, some (.other .constant_int_id (.mk (.unsignedbv_type2t 32)) 0 []), 7⟩
      else none) : level2t Int).rename
      ((level2t.mk (fun k => if k = ⟨"x", .level1, 1, 0⟩ then
          some ⟨3, some (.other .constant_int_id (.mk (.unsignedbv_type2t 32)) 0 []), 7⟩
        else none) : level2t Int).rename
        (.other .add_id (.mk (.unsignedbv_type2t 32)) 0
          [some (.symbol2t (.mk (.unsignedbv_type2t 32)) "x" .level1 1 0 0 0),
           some (.symbol2t (.mk (.unsignedbv_type2t 32)) "y" .level1 1 0 0 0)])) =
    .other .add_id (.mk (.unsignedbv_type2t 32)) 0
      [some (.other .constant_int_id (.mk (.unsignedbv_type2t 32)) 0 []),
       some (.symbol2t (.mk (.unsignedbv_type2t 32)) "y" .level2 1 0 0 0)] :=
  (rename_idempotent _ _ (by
    intro key v c h hc
    by_cases hk : key = ⟨"x", .level1, 1, 0⟩
    · simp only [hk, if_true, Option.some.injEq] at h
      rw [← h] at hc
      simp only [Option.some.injEq] at hc
      rw [← hc]
      rfl
    · simp [hk] at h)).trans rfl

end goto_symex
